import Mathlib

/-!
# SD card SPI block-transfer stack of replica1-sdram

A shallow embedding of the SD card driver of the repository:

* `software/include/sdcard.h`: the constants and the select / deselect sequences,
* `software/projects/libraries/sdcard/sdcard.c` (namespace `Projects`): `sd_crc7_byte`,
  `sd_cmd`, `sd_error_string`, `sd_init` and its helpers, `sd_read`, `sd_write`,
* `software/lib/sdcard/*.c` (namespace `Lib`): `sd_crc7`, `sd_get_crc`, `sd_common_crc`,
  `sd_r1_response`, `sd_r1_data`, `sd_cmd`, `sd_cmd_response`, `sd_cmd0`, `sd_cmd8`,
  `sd_cmd13`, `sd_read`, `sd_write`,
* `software/lib/fatfs/diskio.c` (namespace `Diskio`): `disk_status`, `disk_initialize`,
  `disk_read`, `disk_write`, `disk_ioctl`.

Machine integers are natural numbers with an explicit reduction modulo `2^w` wherever the C
code can overflow (`uint8_t` is reduced modulo 256, `unsigned long` modulo `2^32`).
The hardware is reached through the primitives of `spi.h` and `timer.h`; the code is written
once, over any implementation of them, and the theorems are stated on the recording bus `wire`
or on a simulated card.
-/

/-! ## The byte-transfer primitive (`spi.h`) -/

/-- The hardware primitives the SD stack calls, over a hardware state `σ`:
`uint8_t spi_transfer(uint8_t)`, `void spi_cs_low(void)`, `void spi_cs_high(void)`,
`void spi_set_divisor(uint8_t)`, `void spi_set_mode(uint8_t, uint8_t)` of `spi.h` and
`void timer_delay_ms(unsigned int)` of `timer.h`. -/
structure Spi (σ : Type) where
  spi_transfer : Nat → σ → Nat × σ
  spi_cs_low : σ → σ
  spi_cs_high : σ → σ
  spi_set_divisor : Nat → σ → σ
  spi_set_mode : Nat → Nat → σ → σ
  timer_delay_ms : Nat → σ → σ

/-- A recording bus: `rx i` is what the device drives during transfer number `i` (counted from 0),
`tx` lists the bytes sent so far, oldest first, and `cs` lists the chip-select actions so far,
oldest first, `true` for `spi_cs_low` (asserted) and `false` for `spi_cs_high`. -/
structure Wire where
  rx : Nat → Nat
  tx : List Nat
  cs : List Bool

/-- Number of byte transfers performed so far. -/
def Wire.pos (w : Wire) : Nat := w.tx.length

/-- The byte received during transfer number `i`. -/
def Wire.miso (w : Wire) (i : Nat) : Nat := w.rx i % 256

/-- The bus `w` after the bytes `sent` have been transferred and the chip-select actions `acts`
performed on top of what `w` records. -/
def Wire.after (w : Wire) (sent : List Nat) (acts : List Bool) : Wire :=
  { w with tx := w.tx ++ sent, cs := w.cs ++ acts }

/-- A fresh bus on which the device drives the bytes of `script`, one per transfer, and then
leaves the line idle (0xFF). -/
def Wire.replay (script : List Nat) : Wire :=
  { rx := fun i => script.getD i 0xFF, tx := [], cs := [] }

/-- The bytes a card drives during an accepted `sd_write` of the projects driver, from the
first transfer on: idle during `sd_select` and the CMD13 frame, R1 = 0x00 and a second status
byte 0x00, idle during the CMD24 frame, R1 = 0x00, idle during the 515 bytes of the data
block, the data-response byte `resp`, then the bytes of `busy`. -/
def write_script (resp : Nat) (busy : List Nat) : List Nat :=
  List.replicate 8 0xFF ++ [0x00, 0x00] ++ List.replicate 6 0xFF ++ [0x00]
    ++ List.replicate 515 0xFF ++ [resp] ++ busy

/-- The recording implementation of `spi.h`: a transfer sends one byte and returns the byte
the device drives in the same slot; both are `uint8_t`. The clock divisor, the clock mode and
the delays leave no record. -/
def wire : Spi Wire where
  spi_transfer := fun data w => (w.rx w.tx.length % 256, { w with tx := w.tx ++ [data % 256] })
  spi_cs_low := fun w => { w with cs := w.cs ++ [true] }
  spi_cs_high := fun w => { w with cs := w.cs ++ [false] }
  spi_set_divisor := fun _ w => w
  spi_set_mode := fun _ _ w => w
  timer_delay_ms := fun _ w => w

/-- `void spi_init(uint8_t divisor, uint8_t cpol, uint8_t cpha)` of `spi.c` and `spi-init.c`:
`spi_set_divisor(divisor); spi_set_mode(cpol, cpha); spi_cs_high();`. -/
def spi_init {σ : Type} (B : Spi σ) (divisor cpol cpha : Nat) (s : σ) : σ :=
  let s := B.spi_set_divisor divisor s
  let s := B.spi_set_mode cpol cpha s
  B.spi_cs_high s

/-- `uint8_t spi_calculate_divisor(uint16_t target_khz)` of `spi.c`:
`divisor = spi_clock_khz / (8 * target_khz)` with `spi_clock_khz = 30000`, clamped to 255. -/
def spi_calculate_divisor (target_khz : Nat) : Nat :=
  let divisor := 30000 / (8 * target_khz)
  if divisor > 255 then 255 else divisor

/-- `void spi_set_frequency_khz(uint16_t target_khz)` of `spi.c`. -/
def spi_set_frequency_khz {σ : Type} (B : Spi σ) (target_khz : Nat) (s : σ) : σ :=
  B.spi_set_divisor (spi_calculate_divisor target_khz) s

/-! ## CRC-7 as the SD specification defines it

The 7-bit CRC with generator polynomial `x^7 + x^3 + 1` and initial value 0: the message is
read as a polynomial over GF(2), most significant bit of the first byte first, multiplied by
`x^7` and reduced modulo the generator. Polynomials are natural numbers, bit `i` being the
coefficient of `x^i`; the generator is `0x89`. -/

namespace Crc7

/-- The remainder `r` (degree below 7) after one more message bit `b`: `r * x + b * x^7`, from
which the generator is subtracted when the coefficient of `x^7` is set. -/
def step (r : Nat) (b : Bool) : Nat :=
  let t := (2 * r) ^^^ (if b then 0x80 else 0)
  if t.testBit 7 then t ^^^ 0x89 else t

/-- The remainder after the `n` low bits of the byte `x`, most significant first. -/
def bits : Nat → Nat → Nat → Nat
  | 0, r, _ => r
  | n + 1, r, x => bits n (step r (x.testBit n)) x

/-- The CRC-7 of a message of bytes, initial value 0. -/
def crc7 (msg : List Nat) : Nat :=
  msg.foldl (fun r x => bits 8 r x) 0

end Crc7

/-! ## `software/include/sdcard.h` -/

def SD_BLOCK_SIZE : Nat := 512
def DATA_START_TOKEN : Nat := 0xFE
def DATA_ACCEPT_TOKEN : Nat := 0x05

def SD_SUCCESS : Nat := 0x00
def ER_SUCCESS : Nat := 0x00
def ER_ERROR : Nat := 0x01
def ER_GO_IDLE_STATE : Nat := 0x02
def ER_SEND_IF_COND : Nat := 0x03
def ER_APP_CMD : Nat := 0x04
def ER_READ_OCR : Nat := 0x05
def ER_SEND_OP_COND : Nat := 0x06
def ER_READ_SINGLE_BLOCK : Nat := 0x07
def ER_WRITE_SINGLE_BLOCK : Nat := 0x08
def ER_CMD1 : Nat := 0x09
def ER_V1_CARD : Nat := 0x0A
def ER_ACMD41_TIMEOUT : Nat := 0x12
def ER_UNKNOWN_CMD8 : Nat := 0x20
def ER_READ_TOKEN : Nat := 0x21
def ER_READ_TIMEOUT : Nat := 0x22
def ER_WRITE_REJECT : Nat := 0x31
def ER_WRITE_TIMEOUT : Nat := 0x32
def ER_CMD13 : Nat := 0x40
def ER_PROTECTED : Nat := 0x41
def ER_LOCKED : Nat := 0x42
def ER_SET_BLOCKLEN : Nat := 0x43

def R1_READY : Nat := 0x00
def R1_IDLE_STATE : Nat := 0x01

def SDCARD_V1 : Nat := 0
def SDCARD_V2 : Nat := 1
def SDCARD_SDSC : Nat := 2
def SDCARD_SDHC : Nat := 3

def GO_IDLE_STATE : Nat := 0
def SEND_IF_COND : Nat := 8
def SEND_STATUS : Nat := 13
def SET_BLOCKLEN : Nat := 16
def READ_SINGLE_BLOCK : Nat := 17
def WRITE_SINGLE_BLOCK : Nat := 24
def SD_SEND_OP_COND : Nat := 41
def APP_CMD : Nat := 55
def READ_OCR : Nat := 58

/-- The sequence `sd_select()`: `spi_transfer(0xff); spi_cs_low(); spi_transfer(0xff)`. -/
def sd_select {σ : Type} (B : Spi σ) (s : σ) : σ :=
  let s := (B.spi_transfer 0xff s).2
  let s := B.spi_cs_low s
  (B.spi_transfer 0xff s).2

/-- The sequence `sd_deselect()`: `spi_transfer(0xff); spi_cs_high(); spi_transfer(0xff)`. -/
def sd_deselect {σ : Type} (B : Spi σ) (s : σ) : σ :=
  let s := (B.spi_transfer 0xff s).2
  let s := B.spi_cs_high s
  (B.spi_transfer 0xff s).2

/-! ## `software/projects/libraries/sdcard/sdcard.c` -/

namespace Projects

/-- The loop of `sd_crc7_byte`, `n` iterations left:
`crc <<= 1; if ((crc ^ data) & 0x80) crc ^= 0x09; data <<= 1;` on `uint8_t` values. -/
def sd_crc7_byte_loop : Nat → Nat → Nat → Nat
  | 0, crc, _ => crc
  | n + 1, crc, data =>
    let crc := (crc <<< 1) % 256
    let crc := if (crc ^^^ data) &&& 0x80 ≠ 0 then crc ^^^ 0x09 else crc
    let data := (data <<< 1) % 256
    sd_crc7_byte_loop n crc data

/-- `uint8_t sd_crc7_byte(uint8_t crc, uint8_t data)`: `for (i = 0; i < 8; i++) ...`. -/
def sd_crc7_byte (crc data : Nat) : Nat :=
  sd_crc7_byte_loop 8 crc data

/-- The value of `crc` that `sd_cmd` transmits as its sixth byte: the five `sd_crc7_byte`
updates interleaved with the transfers, then `crc = (crc << 1) | 0x01` on a `uint8_t`. -/
def sd_cmd_crc (cmd arg0 arg1 arg2 arg3 : Nat) : Nat :=
  let crc := sd_crc7_byte 0 (cmd ||| 0x40)
  let crc := sd_crc7_byte crc arg0
  let crc := sd_crc7_byte crc arg1
  let crc := sd_crc7_byte crc arg2
  let crc := sd_crc7_byte crc arg3
  ((crc <<< 1) ||| 0x01) % 256

/-- The six bytes of the command frame of `sd_cmd`, as the `uint8_t` values put on the bus:
`cmd | 0x40`, the four arguments, and the computed `crc`. -/
def sd_cmd_frame (cmd arg0 arg1 arg2 arg3 : Nat) : List Nat :=
  [(cmd ||| 0x40) % 256, arg0 % 256, arg1 % 256, arg2 % 256, arg3 % 256,
    sd_cmd_crc cmd arg0 arg1 arg2 arg3]

/-- The response loop of `sd_cmd`, entered with the `uint8_t` counter at `a`:
`for (a = 8; a > 0; a++) if (((r = spi_transfer(0xFF)) & 0x80) == 0) return r; return 0xff;`.
The increment is taken modulo 256. -/
def sd_cmd_poll {σ : Type} (B : Spi σ) (a : Nat) (s : σ) : Nat × σ :=
  if 0 < a then
    let p := B.spi_transfer 0xFF s
    if p.1 &&& 0x80 = 0 then p
    else sd_cmd_poll B ((a + 1) % 256) p.2
  else (0xff, s)
termination_by if a = 0 then 0 else if a < 256 then 256 - a else 257
decreasing_by
  simp_wf
  split_ifs <;> omega

/-- `uint8_t sd_cmd(uint8_t cmd, uint8_t arg0, uint8_t arg1, uint8_t arg2, uint8_t arg3)`. -/
def sd_cmd {σ : Type} (B : Spi σ) (cmd arg0 arg1 arg2 arg3 : Nat) (s : σ) : Nat × σ :=
  let crc := sd_crc7_byte 0 (cmd ||| 0x40)
  let s := (B.spi_transfer (cmd ||| 0x40) s).2
  let crc := sd_crc7_byte crc arg0
  let s := (B.spi_transfer arg0 s).2
  let crc := sd_crc7_byte crc arg1
  let s := (B.spi_transfer arg1 s).2
  let crc := sd_crc7_byte crc arg2
  let s := (B.spi_transfer arg2 s).2
  let crc := sd_crc7_byte crc arg3
  let s := (B.spi_transfer arg3 s).2
  let crc := ((crc <<< 1) ||| 0x01) % 256
  let s := (B.spi_transfer crc s).2
  sd_cmd_poll B 8 s

/-- The payload loop of `sd_read`, `n` iterations left at index `i`:
`for (i = 0; i < SD_BLOCK_SIZE; i++) buffer[i] = spi_transfer(0xFF);`. -/
def sd_read_data {σ : Type} (B : Spi σ) : Nat → Nat → (Nat → Nat) → σ → (Nat → Nat) × σ
  | 0, _, buffer, s => (buffer, s)
  | n + 1, i, buffer, s =>
    let p := B.spi_transfer 0xFF s
    sd_read_data B n (i + 1) (Function.update buffer i p.1) p.2

/-- The token loop of `sd_read`, entered with the counter at `a`:
`for (a = 5000; a > 0; a--) { ... }` followed by the timeout exit. -/
def sd_read_token {σ : Type} (B : Spi σ) : Nat → (Nat → Nat) → σ → Nat × (Nat → Nat) × σ
  | 0, buffer, s => (ER_READ_TIMEOUT, buffer, sd_deselect B s)
  | a + 1, buffer, s =>
    let p := B.spi_transfer 0xFF s
    if p.1 = DATA_START_TOKEN then
      let q := sd_read_data B SD_BLOCK_SIZE 0 buffer p.2
      let s := (B.spi_transfer 0xFF q.2).2
      let s := (B.spi_transfer 0xFF s).2
      (ER_SUCCESS, q.1, sd_deselect B s)
    else if p.1 ≠ 0xFF then
      (ER_READ_TOKEN, buffer, sd_deselect B p.2)
    else sd_read_token B a buffer p.2

/-- The address argument of `sd_read` and `sd_write`:
`if (sdcard_type != SDCARD_SDHC) block_num *= 512;` on an `unsigned long` (32 bits). -/
def sd_block_addr (sdcard_type block_num : Nat) : Nat :=
  if sdcard_type ≠ SDCARD_SDHC then (block_num * 512) % 2 ^ 32 else block_num

/-- The opening of `sd_read`: `sd_select();`, the address adjustment, and the call
`sd_cmd(READ_SINGLE_BLOCK, (uint8_t)(block_num >> 24), (uint8_t)(block_num >> 16),
(uint8_t)(block_num >> 8), (uint8_t)(block_num))`, with the value it returns. -/
def sd_read_command {σ : Type} (B : Spi σ) (sdcard_type block_num : Nat) (s : σ) : Nat × σ :=
  let s := sd_select B s
  let block_num := sd_block_addr sdcard_type block_num
  sd_cmd B READ_SINGLE_BLOCK ((block_num >>> 24) % 256) ((block_num >>> 16) % 256)
    ((block_num >>> 8) % 256) (block_num % 256) s

/-- `uint8_t sd_read(unsigned long block_num, uint8_t *buffer)`; the global `sdcard_type` is
passed in, the buffer is returned with the status and the bus state. -/
def sd_read {σ : Type} (B : Spi σ) (sdcard_type block_num : Nat) (buffer : Nat → Nat) (s : σ) :
    Nat × (Nat → Nat) × σ :=
  let p := sd_read_command B sdcard_type block_num s
  if p.1 ≠ 0x00 then
    (ER_READ_SINGLE_BLOCK, buffer, sd_deselect B p.2)
  else sd_read_token B 5000 buffer p.2

/-- The opening of `sd_write`, `sd_select();` and the status query
`if (sd_cmd(SEND_STATUS, 0, 0, 0, 0) == 0x00) switch (spi_transfer(0xFF)) { case 0x00: break;
default: sd_deselect(); return ER_CMD13; }`. The flag is `true` when `sd_write` returns
`ER_CMD13` here (the state is then the one after `sd_deselect`), `false` when it goes on. -/
def sd_write_status {σ : Type} (B : Spi σ) (s : σ) : Bool × σ :=
  let s := sd_select B s
  let p := sd_cmd B SEND_STATUS 0x00 0x00 0x00 0x00 s
  if p.1 = 0x00 then
    let q := B.spi_transfer 0xFF p.2
    if q.1 = 0x00 then (false, q.2)
    else (true, sd_deselect B q.2)
  else (false, p.2)

/-- The write command of `sd_write`: the address adjustment and the call
`sd_cmd(WRITE_SINGLE_BLOCK, (uint8_t)(block_num >> 24), (uint8_t)(block_num >> 16),
(uint8_t)(block_num >> 8), (uint8_t)(block_num))`, with the value it returns. -/
def sd_write_command {σ : Type} (B : Spi σ) (sdcard_type block_num : Nat) (s : σ) : Nat × σ :=
  let block_num := sd_block_addr sdcard_type block_num
  sd_cmd B WRITE_SINGLE_BLOCK ((block_num >>> 24) % 256) ((block_num >>> 16) % 256)
    ((block_num >>> 8) % 256) (block_num % 256) s

/-- The payload loop of `sd_write`, `n` iterations left at index `i`:
`for (i = 0; i < SD_BLOCK_SIZE; i++) spi_transfer(buffer[i]);`. -/
def sd_write_data {σ : Type} (B : Spi σ) : Nat → Nat → (Nat → Nat) → σ → σ
  | 0, _, _, s => s
  | n + 1, i, buffer, s => sd_write_data B n (i + 1) buffer (B.spi_transfer (buffer i) s).2

/-- The data block that `sd_write` puts on the bus after an accepted command, as `uint8_t`
values: the start token, `buffer[0]` to `buffer[511]` in index order, and two filler bytes. -/
def sd_write_block (buffer : Nat → Nat) : List Nat :=
  [DATA_START_TOKEN] ++ (List.range SD_BLOCK_SIZE).map (fun i => buffer i % 256) ++ [0xFF, 0xFF]

/-- The busy loop of `sd_write`, entered with the counter at `timeout`:
`while (timeout < 65000U) { status = spi_transfer(0xFF); if (status != 0x00) break; timeout++; }`.
Returns the final value of `timeout`. -/
def sd_write_busy {σ : Type} (B : Spi σ) (timeout : Nat) (s : σ) : Nat × σ :=
  if timeout < 65000 then
    let p := B.spi_transfer 0xFF s
    if p.1 ≠ 0x00 then (timeout, p.2)
    else sd_write_busy B (timeout + 1) p.2
  else (timeout, s)
termination_by 65000 - timeout

/-- `uint8_t sd_write(unsigned long block_num, uint8_t *buffer)`; the global `sdcard_type` is
passed in. -/
def sd_write {σ : Type} (B : Spi σ) (sdcard_type block_num : Nat) (buffer : Nat → Nat) (s : σ) :
    Nat × σ :=
  let c := sd_write_status B s
  if c.1 then (ER_CMD13, c.2)
  else
    let p := sd_write_command B sdcard_type block_num c.2
    if p.1 ≠ 0x00 then
      (ER_WRITE_SINGLE_BLOCK, sd_deselect B p.2)
    else
      let s := (B.spi_transfer DATA_START_TOKEN p.2).2
      let s := sd_write_data B SD_BLOCK_SIZE 0 buffer s
      let s := (B.spi_transfer 0xFF s).2
      let s := (B.spi_transfer 0xFF s).2
      let r := B.spi_transfer 0xFF s
      if r.1 &&& 0x1F ≠ DATA_ACCEPT_TOKEN then
        (ER_WRITE_REJECT, sd_deselect B r.2)
      else
        let t := sd_write_busy B 0 r.2
        if t.1 ≥ 65000 then (ER_WRITE_TIMEOUT, sd_deselect B t.2)
        else (ER_SUCCESS, sd_deselect B t.2)

/-! ### Card initialization (`sd_init`) -/

def CPOL : Nat := 0
def CPHA : Nat := 0
def SD_INIT_SPEED : Nat := 100
def SD_FAST_SPEED : Nat := 1000
def DUMMY_CLOCKS : Nat := 80
def POWER_UP_DELAY : Nat := 50
def GO_IDLE_STATE_RETRY : Nat := 10
def SEND_IF_COND_RETRY : Nat := 10
def SEND_OP_COND_RETRY : Int := 1000

/-- The enumeration `sd_init_state_t`. -/
inductive sd_init_state_t
  | ST_POWER_UP
  | ST_GO_IDLE_STATE
  | ST_SEND_IF_COND
  | ST_READ_OCR
  | ST_APP_CMD
  | ST_SEND_OP_COND
  | ST_SET_BLOCKLEN
  | ST_READY
  deriving DecidableEq, Repr

open sd_init_state_t

/-- A loop `for (i = 0; i < n; i++) spi_transfer(0xFF);`. -/
def sd_clock {σ : Type} (B : Spi σ) : Nat → σ → σ
  | 0, s => s
  | n + 1, s => sd_clock B n (B.spi_transfer 0xFF s).2

/-- A loop `for (i = 0; i < 4; i++) data[i] = spi_transfer(0xFF);`, `n` iterations left at
index `i`, as in `sd_send_if_cond` and `sd_read_ocr`. -/
def sd_read_bytes {σ : Type} (B : Spi σ) : Nat → Nat → (Nat → Nat) → σ → (Nat → Nat) × σ
  | 0, _, data, s => (data, s)
  | n + 1, i, data, s =>
    let p := B.spi_transfer 0xFF s
    sd_read_bytes B n (i + 1) (Function.update data i p.1) p.2

/-- `void sd_power_up()`. -/
def sd_power_up {σ : Type} (B : Spi σ) (s : σ) : σ :=
  let s := spi_init B 100 CPOL CPHA s
  let s := spi_set_frequency_khz B SD_INIT_SPEED s
  let s := sd_deselect B s
  let s := B.timer_delay_ms 1 s
  let s := sd_clock B (DUMMY_CLOCKS / 8) s
  sd_deselect B s

/-- `uint8_t sd_go_idle_state()`. -/
def sd_go_idle_state {σ : Type} (B : Spi σ) (s : σ) : Nat × σ :=
  let s := sd_select B s
  let p := sd_cmd B GO_IDLE_STATE 0x00 0x00 0x00 0x00 s
  (p.1, sd_deselect B p.2)

/-- `uint8_t sd_send_if_cond(uint8_t *r7_data)`. -/
def sd_send_if_cond {σ : Type} (B : Spi σ) (r7_data : Nat → Nat) (s : σ) :
    Nat × (Nat → Nat) × σ :=
  let s := sd_select B s
  let p := sd_cmd B SEND_IF_COND 0x00 0x00 0x01 0xAA s
  if p.1 = R1_IDLE_STATE then
    let q := sd_read_bytes B 4 0 r7_data p.2
    (p.1, q.1, sd_deselect B q.2)
  else (p.1, r7_data, sd_deselect B p.2)

/-- `uint8_t sd_read_ocr(uint8_t *ocr_data)`. -/
def sd_read_ocr {σ : Type} (B : Spi σ) (ocr_data : Nat → Nat) (s : σ) :
    Nat × (Nat → Nat) × σ :=
  let s := sd_select B s
  let p := sd_cmd B READ_OCR 0x00 0x00 0x00 0x00 s
  if p.1 = R1_READY then
    let q := sd_read_bytes B 4 0 ocr_data p.2
    (p.1, q.1, sd_deselect B q.2)
  else (p.1, ocr_data, sd_deselect B p.2)

/-- `uint8_t sd_send_app()`. -/
def sd_send_app {σ : Type} (B : Spi σ) (s : σ) : Nat × σ :=
  let s := sd_select B s
  let p := sd_cmd B APP_CMD 0x00 0x00 0x00 0x00 s
  (p.1, sd_deselect B p.2)

/-- `uint8_t sd_send_op_cond()`; reads the global `sdcard_type`. -/
def sd_send_op_cond {σ : Type} (B : Spi σ) (sdcard_type : Nat) (s : σ) : Nat × σ :=
  let s := sd_select B s
  let p := sd_cmd B SD_SEND_OP_COND (if sdcard_type ≠ SDCARD_V1 then 0x40 else 0x00)
    0x00 0x00 0x00 s
  (p.1, sd_deselect B p.2)

/-- `uint8_t sd_set_blocklen()`. -/
def sd_set_blocklen {σ : Type} (B : Spi σ) (s : σ) : Nat × σ :=
  let s := sd_select B s
  let p := sd_cmd B SET_BLOCKLEN 0x00 0x00 0x02 0x00 s
  (p.1, sd_deselect B p.2)

/-- The variables of `sd_init` that live across iterations of its `for (;;)` loop: the local
`state`, the local `acmd41_retry` (an `int16_t` that the code never initialises), the global
`sdcard_type`, and the hardware. -/
structure sd_init_vars (σ : Type) where
  state : sd_init_state_t
  acmd41_retry : Int
  sdcard_type : Nat
  bus : σ

/-- What one pass through the `switch` of `sd_init` does: `ret code` for a `return`,
`next` for a `break` that goes round the `for (;;)` loop again. -/
inductive sd_init_step (σ : Type)
  | ret (code : Nat) (v : sd_init_vars σ)
  | next (v : sd_init_vars σ)

/-- The retry loop of `case ST_GO_IDLE_STATE`, `n` iterations left:
`for (retry = 0; retry < GO_IDLE_STATE_RETRY; retry++) if (sd_go_idle_state() ==
R1_IDLE_STATE) { state = ST_SEND_IF_COND; break; }`. The flag is `true` when the loop was left
by `break`, so that `retry >= GO_IDLE_STATE_RETRY` is false afterwards. -/
def sd_init_go_idle {σ : Type} (B : Spi σ) : Nat → σ → Bool × σ
  | 0, s => (false, s)
  | n + 1, s =>
    let p := sd_go_idle_state B s
    if p.1 = R1_IDLE_STATE then (true, p.2)
    else sd_init_go_idle B n p.2

/-- The retry loop of `case ST_SEND_IF_COND`, `n` iterations left, with the test
`retry >= SEND_IF_COND_RETRY` that follows it. The result is `none` when `sd_init` returns
`ER_SEND_IF_COND` (from inside the loop when the echoed bytes fail validation, or after the
loop when all retries failed) and `some t` when the loop was left by `break` with
`sdcard_type = t`. -/
def sd_init_if_cond {σ : Type} (B : Spi σ) : Nat → (Nat → Nat) → σ → Option Nat × σ
  | 0, _, s => (none, s)
  | n + 1, r7_data, s =>
    let p := sd_send_if_cond B r7_data s
    if p.1 = R1_IDLE_STATE then
      if p.2.1 3 ≠ 0xAA ∨ p.2.1 2 &&& 0x01 = 0 then (none, p.2.2)
      else (some SDCARD_V2, p.2.2)
    else if p.1 = 0x05 then (some SDCARD_V1, p.2.2)
    else sd_init_if_cond B n p.2.1 p.2.2

/-- One pass through `switch (state)` in `sd_init`. The local arrays `r7_data` and `ocr_data`
are only read after they have been filled; they start as all zero here. The increment
`acmd41_retry++` is not reduced modulo `2^16`: it can only overflow on a path that returns. -/
def sd_init_case {σ : Type} (B : Spi σ) (v : sd_init_vars σ) : sd_init_step σ :=
  match v.state with
  | ST_POWER_UP =>
    let s := sd_power_up B v.bus
    let s := B.timer_delay_ms POWER_UP_DELAY s
    .next { v with state := ST_GO_IDLE_STATE, bus := s }
  | ST_GO_IDLE_STATE =>
    let p := sd_init_go_idle B GO_IDLE_STATE_RETRY v.bus
    if p.1 then .next { v with state := ST_SEND_IF_COND, bus := p.2 }
    else .ret ER_GO_IDLE_STATE { v with bus := p.2 }
  | ST_SEND_IF_COND =>
    let p := sd_init_if_cond B SEND_IF_COND_RETRY (fun _ => 0) v.bus
    match p.1 with
    | some t => .next { v with state := ST_APP_CMD, sdcard_type := t, bus := p.2 }
    | none => .ret ER_SEND_IF_COND { v with bus := p.2 }
  | ST_READ_OCR =>
    let p := sd_read_ocr B (fun _ => 0) v.bus
    if p.1 = R1_READY then
      let t := if v.sdcard_type ≠ SDCARD_V1 then
          (if p.2.1 0 &&& 0x40 ≠ 0 then SDCARD_SDHC else SDCARD_SDSC)
        else v.sdcard_type
      .next { v with state := ST_SET_BLOCKLEN, sdcard_type := t, bus := p.2.2 }
    else .ret ER_READ_OCR { v with bus := p.2.2 }
  | ST_APP_CMD =>
    let p := sd_send_app B v.bus
    if p.1 ≤ R1_IDLE_STATE then .next { v with state := ST_SEND_OP_COND, bus := p.2 }
    else if v.acmd41_retry < SEND_OP_COND_RETRY then
      .next { v with state := ST_APP_CMD, acmd41_retry := v.acmd41_retry + 1, bus := p.2 }
    else .ret ER_APP_CMD { v with acmd41_retry := v.acmd41_retry + 1, bus := p.2 }
  | ST_SEND_OP_COND =>
    let p := sd_send_op_cond B v.sdcard_type v.bus
    if p.1 = R1_READY then .next { v with state := ST_READ_OCR, bus := p.2 }
    else if v.acmd41_retry < SEND_OP_COND_RETRY then
      .next { v with state := ST_APP_CMD, acmd41_retry := v.acmd41_retry + 1, bus := p.2 }
    else .ret ER_SEND_OP_COND { v with acmd41_retry := v.acmd41_retry + 1, bus := p.2 }
  | ST_SET_BLOCKLEN =>
    let p := sd_set_blocklen B v.bus
    if p.1 = R1_READY then .next { v with state := ST_READY, bus := p.2 }
    else .ret ER_SET_BLOCKLEN { v with bus := p.2 }
  | ST_READY =>
    let s := spi_set_frequency_khz B SD_FAST_SPEED v.bus
    .ret ER_SUCCESS { v with bus := sd_deselect B s }

/-- A bound on the passes `sd_init` can still make through its `switch`: the states are left
in a fixed order, except for the pair `ST_APP_CMD` / `ST_SEND_OP_COND`, where every way back
to `ST_APP_CMD` increments `acmd41_retry` and needs it below `SEND_OP_COND_RETRY`. -/
def sd_init_bound {σ : Type} (v : sd_init_vars σ) : Nat :=
  match v.state with
  | ST_POWER_UP => 2 * (1001 - v.acmd41_retry).toNat + 7
  | ST_GO_IDLE_STATE => 2 * (1001 - v.acmd41_retry).toNat + 6
  | ST_SEND_IF_COND => 2 * (1001 - v.acmd41_retry).toNat + 5
  | ST_APP_CMD => 2 * (1001 - v.acmd41_retry).toNat + 4
  | ST_SEND_OP_COND => 2 * (1001 - v.acmd41_retry).toNat + 3
  | ST_READ_OCR => 2
  | ST_SET_BLOCKLEN => 1
  | ST_READY => 0

/-- The loop `for (;;) { switch (state) { ... } }` of `sd_init`. -/
def sd_init_loop {σ : Type} (B : Spi σ) (v : sd_init_vars σ) : Nat × sd_init_vars σ :=
  match h : sd_init_case B v with
  | .ret code v1 => (code, v1)
  | .next v1 => sd_init_loop B v1
termination_by sd_init_bound v
decreasing_by
  simp_wf
  unfold sd_init_case at h
  unfold sd_init_bound
  rcases v with ⟨st, c, t, s⟩
  cases st <;> simp only [] at h <;> (try split at h) <;> (try split at h) <;>
    (try split at h) <;> simp only [sd_init_step.next.injEq, reduceCtorEq] at h <;>
    subst h <;> simp only [SEND_OP_COND_RETRY] at * <;> omega

/-- `uint8_t sd_init(void)`: `state = ST_POWER_UP; for (;;) ...`. The value that the
uninitialised `acmd41_retry` happens to hold and the global `sdcard_type` are passed in; the
status, the final `sdcard_type` and the hardware state are returned. -/
def sd_init {σ : Type} (B : Spi σ) (acmd41_retry : Int) (sdcard_type : Nat) (s : σ) :
    Nat × Nat × σ :=
  let r := sd_init_loop B
    { state := ST_POWER_UP, acmd41_retry := acmd41_retry, sdcard_type := sdcard_type, bus := s }
  (r.1, r.2.sdcard_type, r.2.bus)

end Projects

/-! ## `software/lib/sdcard` -/

namespace Lib

/-- The inner loop of `sd_crc7`, `j` iterations left, on `uint8_t` values:
`if ((crc & 0x40) != 0) crc = (crc << 1) ^ 0x09; else crc = crc << 1;`
`if ((byte & 0x80) != 0) crc = crc ^ 0x09; byte = byte << 1;`. -/
def sd_crc7_bits : Nat → Nat → Nat → Nat
  | 0, crc, _ => crc
  | j + 1, crc, byte =>
    let crc := if crc &&& 0x40 ≠ 0 then ((crc <<< 1) ^^^ 0x09) % 256 else (crc <<< 1) % 256
    let crc := if byte &&& 0x80 ≠ 0 then crc ^^^ 0x09 else crc
    let byte := (byte <<< 1) % 256
    sd_crc7_bits j crc byte

/-- The outer loop of `sd_crc7`, `n` iterations left at index `i`:
`for (i = 0; i < 5; i++) { byte = cmd_buffer[i]; ... }`. -/
def sd_crc7_bytes : Nat → Nat → (Nat → Nat) → Nat → Nat
  | 0, _, _, crc => crc
  | n + 1, i, cmd_buffer, crc =>
    sd_crc7_bytes n (i + 1) cmd_buffer (sd_crc7_bits 8 crc (cmd_buffer i))

/-- `uint8_t sd_crc7(uint8_t *cmd_buffer)`: ends with `return (crc & 0x7F) | 0x01;`. -/
def sd_crc7 (cmd_buffer : Nat → Nat) : Nat :=
  let crc := sd_crc7_bytes 5 0 cmd_buffer 0
  (crc &&& 0x7F) ||| 0x01

/-- `uint8_t sd_get_crc(cmd, arg0, arg1, arg2, arg3)`: fills `cmd_buffer[0..4]` and calls
`sd_crc7`. -/
def sd_get_crc (cmd arg0 arg1 arg2 arg3 : Nat) : Nat :=
  sd_crc7 (fun i =>
    if i = 0 then cmd else if i = 1 then arg0 else if i = 2 then arg1
    else if i = 3 then arg2 else arg3)

/-- `uint8_t sd_common_crc(cmd, arg0, arg1, arg2, arg3)`: four hard-coded frames, then
`sd_get_crc`. -/
def sd_common_crc (cmd arg0 arg1 arg2 arg3 : Nat) : Nat :=
  if cmd = 0x40 ∧ arg0 = 0x00 ∧ arg1 = 0x00 ∧ arg2 = 0x00 ∧ arg3 = 0x00 then 0x95
  else if cmd = 0x48 ∧ arg0 = 0x00 ∧ arg1 = 0x00 ∧ arg2 = 0x01 ∧ arg3 = 0xAA then 0x87
  else if cmd = 0x77 ∧ arg0 = 0x00 ∧ arg1 = 0x00 ∧ arg2 = 0x00 ∧ arg3 = 0x00 then 0x65
  else if cmd = 0x69 ∧ arg0 = 0x40 ∧ arg1 = 0x00 ∧ arg2 = 0x00 ∧ arg3 = 0x00 then 0x77
  else sd_get_crc cmd arg0 arg1 arg2 arg3

/-- The loop of `sd_r1_response`, entered with the counter at `attempts`:
`while (attempts < 8) { response = spi_transfer(0xFF); if ((response & 0x80) == 0) return
response; attempts++; } return 0xFF;`. -/
def sd_r1_response_loop {σ : Type} (B : Spi σ) (attempts : Nat) (s : σ) : Nat × σ :=
  if attempts < 8 then
    let p := B.spi_transfer 0xFF s
    if p.1 &&& 0x80 = 0 then p
    else sd_r1_response_loop B (attempts + 1) p.2
  else (0xFF, s)
termination_by 8 - attempts

/-- `uint8_t sd_r1_response(void)`. -/
def sd_r1_response {σ : Type} (B : Spi σ) (s : σ) : Nat × σ :=
  sd_r1_response_loop B 0 s

/-! ### `sd_cmd.c` and `sd_write.c`, with the codes of `software/lib/sdcard/sdcard.h` -/

def SD_ERROR_CMD24 : Nat := 0x30
def SD_ERROR_WRITE_REJECT : Nat := 0x31
def SD_ERROR_WRITE_TIMEOUT : Nat := 0x32

/-- `void sd_cmd(uint8_t cmd, uint8_t arg0, uint8_t arg1, uint8_t arg2, uint8_t arg3)`. -/
def sd_cmd {σ : Type} (B : Spi σ) (cmd arg0 arg1 arg2 arg3 : Nat) (s : σ) : σ :=
  let s := (B.spi_transfer cmd s).2
  let s := (B.spi_transfer arg0 s).2
  let s := (B.spi_transfer arg1 s).2
  let s := (B.spi_transfer arg2 s).2
  let s := (B.spi_transfer arg3 s).2
  (B.spi_transfer (sd_common_crc cmd arg0 arg1 arg2 arg3) s).2

/-- The payload loop of `sd_write`, `n` iterations left at index `i`:
`for (i = 0; i < SD_BLOCK_SIZE; i++) spi_transfer(buffer[i]);`. -/
def sd_write_data {σ : Type} (B : Spi σ) : Nat → Nat → (Nat → Nat) → σ → σ
  | 0, _, _, s => s
  | n + 1, i, buffer, s => sd_write_data B n (i + 1) buffer (B.spi_transfer (buffer i) s).2

/-- The busy loop of `sd_write`, entered with the counter at `timeout`:
`while (timeout < 65000U) { status = spi_transfer(0xFF); if (status != 0x00) { break;
timeout++; } }`. The increment stands after the `break`, inside the same block, so no path
executes it. `fuel` bounds the number of iterations that are followed; the result is `none`
when the loop is still running after `fuel` iterations, and otherwise the final value of
`timeout` with the bus state. -/
def sd_write_busy {σ : Type} (B : Spi σ) : Nat → Nat → σ → Option (Nat × σ)
  | 0, _, _ => none
  | fuel + 1, timeout, s =>
    if timeout < 65000 then
      let p := B.spi_transfer 0xFF s
      if p.1 ≠ 0x00 then some (timeout, p.2)
      else sd_write_busy B fuel timeout p.2
    else some (timeout, s)

/-- `uint8_t sd_write(unsigned long block_num, uint8_t *buffer)` of `sd_write.c`. The result
is `none` when the busy loop is still running after `fuel` iterations. -/
def sd_write {σ : Type} (B : Spi σ) (fuel : Nat) (block_num : Nat) (buffer : Nat → Nat)
    (s : σ) : Option (Nat × σ) :=
  let s := sd_cmd B 0x58 ((block_num >>> 24) % 256) ((block_num >>> 16) % 256)
    ((block_num >>> 8) % 256) (block_num % 256) s
  let p := sd_r1_response B s
  if p.1 ≠ 0x00 then some (SD_ERROR_CMD24, p.2)
  else
    let s := (B.spi_transfer DATA_START_TOKEN p.2).2
    let s := sd_write_data B SD_BLOCK_SIZE 0 buffer s
    let s := (B.spi_transfer 0xFF s).2
    let s := (B.spi_transfer 0xFF s).2
    let r := B.spi_transfer 0xFF s
    if r.1 &&& 0x1F ≠ DATA_ACCEPT_TOKEN then some (SD_ERROR_WRITE_REJECT, r.2)
    else
      match sd_write_busy B fuel 0 r.2 with
      | none => none
      | some t =>
        if t.1 ≥ 65000 then some (SD_ERROR_WRITE_TIMEOUT, t.2)
        else some (SD_SUCCESS, t.2)

end Lib

/-! ## `software/lib/fatfs/diskio.c` -/

namespace Diskio

/-- Modelled from the spec: `diskio.h` of FatFs is not among the sources. The status byte
`DSTATUS` is 0 for "ok" and otherwise one of the flags not-initialized, no-disk and
write-protected, with the values the FatFs header gives them. -/
def STA_NOINIT : Nat := 0x01
/-- Modelled from the spec: the no-disk flag of the `DSTATUS` of `diskio.h`. -/
def STA_NODISK : Nat := 0x02
/-- Modelled from the spec: the write-protected flag of the `DSTATUS` of `diskio.h`. -/
def STA_PROTECT : Nat := 0x04

/-- Modelled from the spec: the result vocabulary `DRESULT` of `diskio.h`, which is not among
the sources: ok, generic error, write-protected, not-ready, parameter-error. -/
inductive DRESULT
  | RES_OK
  | RES_ERROR
  | RES_WRPRT
  | RES_NOTRDY
  | RES_PARERR
  deriving DecidableEq, Repr

open DRESULT

def DEV_SDCARD : Nat := 0

/-- The three functions of the SD library that `diskio.c` calls, over a driver state `δ`:
`sd_init()`, `sd_read(block_num, buffer)` and `sd_write(block_num, buffer)`. -/
structure SdDriver (δ : Type) where
  sd_init : δ → Nat × δ
  sd_read : Nat → (Nat → Nat) → δ → Nat × (Nat → Nat) × δ
  sd_write : Nat → (Nat → Nat) → δ → Nat × δ

/-- The file-scope variables of `diskio.c`; `protected_` stands for the variable `protected`,
a reserved word here. -/
structure Session where
  initialized : Bool
  protected_ : Bool
  nodisk : Bool
  deriving DecidableEq, Repr

/-- The initial values: `initialized = false`, `protected = false`, `nodisk = true`. -/
def Session.initial : Session :=
  { initialized := false, protected_ := false, nodisk := true }

/-- `DSTATUS disk_status(BYTE pdrv)`. -/
def disk_status (pdrv : Nat) (st : Session) : Nat :=
  if pdrv ≠ DEV_SDCARD then STA_NOINIT
  else if st.nodisk then STA_NODISK
  else if st.protected_ then STA_PROTECT
  else 0

/-- The loop of `disk_initialize`, `n` iterations left:
`for (count = 0; count < 100; count++) { spi_init(100, 0, 0); spi_cs_low();
if (sd_init() == SD_SUCCESS) { ...; spi_set_divisor(0x0); return 0; } spi_cs_high(); }`.
The flag is `true` when the function returned 0 from inside the loop. -/
def disk_initialize_loop {δ : Type} (B : Spi δ) (D : SdDriver δ) : Nat → δ → Bool × δ
  | 0, s => (false, s)
  | n + 1, s =>
    let s := spi_init B 100 0 0 s
    let s := B.spi_cs_low s
    let p := D.sd_init s
    if p.1 = SD_SUCCESS then (true, B.spi_set_divisor 0x0 p.2)
    else disk_initialize_loop B D n (B.spi_cs_high p.2)

/-- `DSTATUS disk_initialize(BYTE pdrv)`. -/
def disk_initialize {δ : Type} (B : Spi δ) (D : SdDriver δ) (pdrv : Nat) (st : Session)
    (s : δ) : Nat × Session × δ :=
  let s := B.spi_cs_high s
  if pdrv ≠ DEV_SDCARD then (STA_NOINIT, st, s)
  else
    let p := disk_initialize_loop B D 100 s
    if p.1 then (0, { st with nodisk := false, protected_ := false, initialized := true }, p.2)
    else (STA_NOINIT, st, p.2)

/-- The region of memory that the pointer `buff + off` addresses. -/
def at_offset (buff : Nat → Nat) (off : Nat) : Nat → Nat :=
  fun k => buff (off + k)

/-- The memory `buff` after the region addressed by `buff + off` has become `region`. -/
def store_at (buff : Nat → Nat) (off : Nat) (region : Nat → Nat) : Nat → Nat :=
  fun k => if off ≤ k then region (k - off) else buff k

/-- The loop of `disk_read`, `n` iterations left at index `i`:
`for (i = 0; i < count; i++) if (sd_read(sector + i, buff + (i * 512)) != SD_SUCCESS)
return RES_ERROR;` and then `return RES_OK;`. The block number is an `unsigned long`. -/
def disk_read_loop {δ : Type} (D : SdDriver δ) :
    Nat → Nat → Nat → (Nat → Nat) → δ → DRESULT × (Nat → Nat) × δ
  | 0, _, _, buff, s => (RES_OK, buff, s)
  | n + 1, i, sector, buff, s =>
    let p := D.sd_read ((sector + i) % 2 ^ 32) (at_offset buff (i * 512)) s
    let buff := store_at buff (i * 512) p.2.1
    if p.1 ≠ SD_SUCCESS then (RES_ERROR, buff, p.2.2)
    else disk_read_loop D n (i + 1) sector buff p.2.2

/-- `DRESULT disk_read(BYTE pdrv, BYTE *buff, LBA_t sector, UINT count)`. -/
def disk_read {δ : Type} (D : SdDriver δ) (pdrv : Nat) (buff : Nat → Nat) (sector count : Nat)
    (st : Session) (s : δ) : DRESULT × (Nat → Nat) × δ :=
  if pdrv ≠ DEV_SDCARD then (RES_PARERR, buff, s)
  else if ¬ st.initialized then (RES_NOTRDY, buff, s)
  else if count = 0 then (RES_PARERR, buff, s)
  else disk_read_loop D count 0 sector buff s

/-- The loop of `disk_write`, `n` iterations left at index `i`:
`for (i = 0; i < count; i++) if (sd_write(sector + i, (BYTE*)(buff + (i * 512))) !=
SD_SUCCESS) return RES_ERROR;` and then `return RES_OK;`. -/
def disk_write_loop {δ : Type} (D : SdDriver δ) :
    Nat → Nat → Nat → (Nat → Nat) → δ → DRESULT × δ
  | 0, _, _, _, s => (RES_OK, s)
  | n + 1, i, sector, buff, s =>
    let p := D.sd_write ((sector + i) % 2 ^ 32) (at_offset buff (i * 512)) s
    if p.1 ≠ SD_SUCCESS then (RES_ERROR, p.2)
    else disk_write_loop D n (i + 1) sector buff p.2

/-- `DRESULT disk_write(BYTE pdrv, const BYTE *buff, LBA_t sector, UINT count)`. -/
def disk_write {δ : Type} (D : SdDriver δ) (pdrv : Nat) (buff : Nat → Nat)
    (sector count : Nat) (st : Session) (s : δ) : DRESULT × δ :=
  if pdrv ≠ DEV_SDCARD then (RES_PARERR, s)
  else if ¬ st.initialized then (RES_NOTRDY, s)
  else if count = 0 then (RES_PARERR, s)
  else disk_write_loop D count 0 sector buff s

end Diskio
/-! ## The projects driver under the adapter -/

/-- The state of the projects driver: the global `sdcard_type` and the hardware. -/
structure Projects.Driver (σ : Type) where
  sdcard_type : Nat
  bus : σ

namespace Diskio

/-- The functions `sd_init`, `sd_read` and `sd_write` of the projects driver as the SD library
that `diskio.c` calls; `acmd41_retry` is the value the uninitialised local of `sd_init` holds
when it is called. -/
def projects_driver {σ : Type} (B : Spi σ) (acmd41_retry : Int) :
    SdDriver (Projects.Driver σ) where
  sd_init := fun d =>
    let r := Projects.sd_init B acmd41_retry d.sdcard_type d.bus
    (r.1, { sdcard_type := r.2.1, bus := r.2.2 })
  sd_read := fun block_num buffer d =>
    let r := Projects.sd_read B d.sdcard_type block_num buffer d.bus
    (r.1, r.2.1, { d with bus := r.2.2 })
  sd_write := fun block_num buffer d =>
    let r := Projects.sd_write B d.sdcard_type block_num buffer d.bus
    (r.1, { d with bus := r.2 })

/-- What a test double of the hardware and of the SD library records, in the order of the
calls. -/
inductive Event
  | cs_low
  | cs_high
  | set_divisor (divisor : Nat)
  | set_mode (cpol cpha : Nat)
  | sd_init
  | sd_read (block_num : Nat)
  | sd_write (block_num : Nat) (data : List Nat)
  deriving DecidableEq, Repr

/-- A test double under the adapter: `result k` is what the call number `k` (from 0) to the SD
library returns, `block n` is the content of block `n` that a successful `sd_read` delivers,
`calls` counts the library calls made and `log` lists the events, oldest first. -/
structure Rig where
  result : Nat → Nat
  block : Nat → Nat → Nat
  calls : Nat
  log : List Event

/-- The hardware primitives on the test double: chip-select and clock settings are logged,
transfers and delays are not used by the adapter. -/
def rig_spi : Spi Rig where
  spi_transfer := fun _ r => (0xFF, r)
  spi_cs_low := fun r => { r with log := r.log ++ [Event.cs_low] }
  spi_cs_high := fun r => { r with log := r.log ++ [Event.cs_high] }
  spi_set_divisor := fun d r => { r with log := r.log ++ [Event.set_divisor d] }
  spi_set_mode := fun a b r => { r with log := r.log ++ [Event.set_mode a b] }
  timer_delay_ms := fun _ r => r

/-- The SD library on the test double: every call is logged and returns the next result;
a successful `sd_read` fills the 512 bytes of the buffer it is given with the block, and
`sd_write` logs the 512 bytes of the buffer it is given. -/
def rig_sd : SdDriver Rig where
  sd_init := fun r =>
    (r.result r.calls, { r with calls := r.calls + 1, log := r.log ++ [Event.sd_init] })
  sd_read := fun block_num buffer r =>
    (r.result r.calls,
     if r.result r.calls = SD_SUCCESS then
       (fun k => if k < 512 then r.block block_num k else buffer k)
     else buffer,
     { r with calls := r.calls + 1, log := r.log ++ [Event.sd_read block_num] })
  sd_write := fun block_num buffer r =>
    (r.result r.calls,
     { r with calls := r.calls + 1,
              log := r.log ++ [Event.sd_write block_num ((List.range 512).map buffer)] })

/-- The 512 bytes of the buffer `buff` at offset `i * 512`. -/
def sector_data (buff : Nat → Nat) (i : Nat) : List Nat :=
  (List.range 512).map (fun m => buff (i * 512 + m))

/-- The buffer `buff` once the `n` blocks `sector + i`, ..., `sector + i + n - 1` of the test
double have been read to the offsets `i * 512`, ..., `(i + n - 1) * 512`. -/
def filled (block : Nat → Nat → Nat) (sector : Nat) (buff : Nat → Nat) (i n : Nat) : Nat → Nat :=
  fun k =>
    if i * 512 ≤ k ∧ k < (i + n) * 512 then block ((sector + k / 512) % 2 ^ 32) (k % 512)
    else buff k

/-- The events of one attempt of `disk_initialize` up to the call of `sd_init`:
`spi_init(100, 0, 0)`, which sets the divisor and the mode and raises chip-select, then
`spi_cs_low()` and `sd_init()`. -/
def attempt : List Event :=
  [Event.set_divisor 100, Event.set_mode 0 0, Event.cs_high, Event.cs_low, Event.sd_init]

/-- The events of `n` failed attempts of `disk_initialize`, each ending with `spi_cs_high()`. -/
def failed_attempts : Nat → List Event
  | 0 => []
  | n + 1 => attempt ++ [Event.cs_high] ++ failed_attempts n

end Diskio

namespace Projects

/-- The bytes sent by one helper of `sd_init` whose command is answered in the first response
slot: the two bytes of `sd_select`, the frame, one filler for the response, `extra` fillers for
the data bytes read after it, and the two bytes of `sd_deselect`. -/
def sd_exchange (cmd arg0 arg1 arg2 arg3 extra : Nat) : List Nat :=
  [0xFF, 0xFF] ++ sd_cmd_frame cmd arg0 arg1 arg2 arg3 ++ List.replicate (1 + extra) 0xFF
    ++ [0xFF, 0xFF]

end Projects

/-! ## Further code of the repository -/

namespace Projects

/-- `const char* sd_error_string(uint8_t error_code)` of the projects driver: the `switch`
with its twenty cases in source order; `none` is the `NULL` of the `default` case. -/
def sd_error_string (error_code : Nat) : Option String :=
  if error_code = ER_SUCCESS then some "Success"
  else if error_code = ER_ERROR then some "Error"
  else if error_code = ER_GO_IDLE_STATE then some "CMD0   / GO_IDLE_STATE Failed"
  else if error_code = ER_SEND_IF_COND then some "CMD8   / SEND_IF_COND Failed"
  else if error_code = ER_APP_CMD then some "CMD55  / APP_CMD Failed"
  else if error_code = ER_READ_OCR then some "CMD58  / READ_OCR Failed"
  else if error_code = ER_SEND_OP_COND then some "ACMD41 / SEND_OP_COND Failed"
  else if error_code = ER_READ_SINGLE_BLOCK then some "CMD17  / READ_SINGLE_BLOCK Failed"
  else if error_code = ER_WRITE_SINGLE_BLOCK then some "CMD24  / WRITE_SIGNLE_BLOCK Failed"
  else if error_code = ER_CMD1 then some "CMD1 Failed"
  else if error_code = ER_V1_CARD then some "v1.0 sdcard not supported"
  else if error_code = ER_ACMD41_TIMEOUT then some "ACMD41 timeout"
  else if error_code = ER_UNKNOWN_CMD8 then some "CMD8 returned unexpected response"
  else if error_code = ER_READ_TOKEN then some "Read data token timeout/error"
  else if error_code = ER_READ_TIMEOUT then some "Read operation timeout"
  else if error_code = ER_WRITE_REJECT then some "Write data rejected"
  else if error_code = ER_WRITE_TIMEOUT then some "Write operation timeout"
  else if error_code = ER_CMD13 then some "CMD13 (READ_STATUS) failed"
  else if error_code = ER_PROTECTED then some "sdcard is write protected"
  else if error_code = ER_LOCKED then some "sdcard is locked"
  else none

/-- The loop `for (;;) { switch (state) { ... } }` of `sd_init` followed for at most `fuel`
passes through the `switch`: `none` when it has not returned by then. -/
def sd_init_run {σ : Type} (B : Spi σ) : Nat → sd_init_vars σ → Option (Nat × sd_init_vars σ)
  | 0, _ => none
  | fuel + 1, v =>
    match sd_init_case B v with
    | .ret code v1 => some (code, v1)
    | .next v1 => sd_init_run B fuel v1

/-- The loop of `sd_init`, entered with the variables `v`, comes to the top of its `switch`
with the variables `u` after some number of passes (possibly none). -/
inductive sd_init_reaches {σ : Type} (B : Spi σ) : sd_init_vars σ → sd_init_vars σ → Prop
  | here (v : sd_init_vars σ) : sd_init_reaches B v v
  | pass (v v1 u : sd_init_vars σ) :
      sd_init_case B v = .next v1 → sd_init_reaches B v1 u → sd_init_reaches B v u

end Projects

namespace Lib

def SD_ERROR_CMD17 : Nat := 0x20
def SD_ERROR_READ_TOKEN : Nat := 0x21
def SD_ERROR_READ_TIMEOUT : Nat := 0x22
def SD_ERROR_CMD13 : Nat := 0x40

/-- `uint8_t sd_cmd_response(cmd, arg0, arg1, arg2, arg3)` of `sd_cmd_response.c`. -/
def sd_cmd_response {σ : Type} (B : Spi σ) (cmd arg0 arg1 arg2 arg3 : Nat) (s : σ) : Nat × σ :=
  sd_r1_response B (sd_cmd B cmd arg0 arg1 arg2 arg3 s)

/-- The loop `for (i = 0; i < n; i++) buf[i] = spi_transfer(0xFF);` of `sd_r1_data` and
`sd_cmd13`, `n` iterations left at index `i`. -/
def sd_data_bytes {σ : Type} (B : Spi σ) : Nat → Nat → (Nat → Nat) → σ → (Nat → Nat) × σ
  | 0, _, buf, s => (buf, s)
  | n + 1, i, buf, s =>
    let p := B.spi_transfer 0xFF s
    sd_data_bytes B n (i + 1) (Function.update buf i p.1) p.2

/-- `uint8_t sd_r1_data(uint8_t *response_buf, uint8_t data_bytes)` of `sd_r1_data.c`. -/
def sd_r1_data {σ : Type} (B : Spi σ) (response_buf : Nat → Nat) (data_bytes : Nat) (s : σ) :
    Nat × (Nat → Nat) × σ :=
  let p := sd_r1_response B s
  if p.1 = 0xFF then (0xFF, response_buf, p.2)
  else
    let q := sd_data_bytes B data_bytes 0 response_buf p.2
    (p.1, q.1, q.2)

/-- `uint8_t sd_cmd0()` of `sd_cmd0.c`: `return sd_cmd_response(0x40, 0x00, 0x00, 0x00, 0x00);`. -/
def sd_cmd0 {σ : Type} (B : Spi σ) (s : σ) : Nat × σ :=
  sd_cmd_response B 0x40 0x00 0x00 0x00 0x00 s

/-- `uint8_t sd_cmd8(uint8_t *r7_data)` of `sd_cmd8.c`:
`sd_cmd(0x48, 0x00, 0x00, 0x01, 0xAA); return sd_r1_data(r7_data, 4);`. -/
def sd_cmd8 {σ : Type} (B : Spi σ) (r7_data : Nat → Nat) (s : σ) : Nat × (Nat → Nat) × σ :=
  sd_r1_data B r7_data 4 (sd_cmd B 0x48 0x00 0x00 0x01 0xAA s)

/-- The constant `#define CMD13 13` of `sd_cmd13.c`. -/
def CMD13 : Nat := 13

/-- `uint8_t sd_cmd13(uint32_t *status)` of `sd_cmd13.c`; the value `*status` is passed in and
returned with the result: `sd_cmd(CMD13, 0x00, 0x00, 0x00, 0x00); response =
spi_transfer(0xFF); if ((response & 0x80) == 0x80) return SD_ERROR_CMD13;`, then the four
status bytes, most significant first. -/
def sd_cmd13 {σ : Type} (B : Spi σ) (status : Nat) (s : σ) : Nat × Nat × σ :=
  let s := sd_cmd B CMD13 0x00 0x00 0x00 0x00 s
  let r := B.spi_transfer 0xFF s
  if r.1 &&& 0x80 = 0x80 then (SD_ERROR_CMD13, status, r.2)
  else
    let q := sd_data_bytes B 4 0 (fun _ => 0) r.2
    (SD_SUCCESS,
      ((q.1 0 <<< 24) ||| (q.1 1 <<< 16) ||| (q.1 2 <<< 8) ||| q.1 3) % 2 ^ 32, q.2)

/-- The token loop of the lib `sd_read`, entered with the `uint8_t` counter at `attempts`:
`while (attempts < 100) { if ((token = spi_transfer(0xFF)) == DATA_START_TOKEN) break;
if (token != 0xFF) return SD_ERROR_READ_TOKEN; attempts++; }`. The first component is the
status of an early `return`, the second the final value of `attempts`. -/
def sd_read_wait {σ : Type} (B : Spi σ) (attempts : Nat) (s : σ) : Option Nat × Nat × σ :=
  if attempts < 100 then
    let p := B.spi_transfer 0xFF s
    if p.1 = DATA_START_TOKEN then (none, attempts, p.2)
    else if p.1 ≠ 0xFF then (some SD_ERROR_READ_TOKEN, attempts, p.2)
    else sd_read_wait B (attempts + 1) p.2
  else (none, attempts, s)
termination_by 100 - attempts

/-- `uint8_t sd_read(unsigned long block_num, uint8_t *buffer)` of `sd_read.c`. -/
def sd_read {σ : Type} (B : Spi σ) (block_num : Nat) (buffer : Nat → Nat) (s : σ) :
    Nat × (Nat → Nat) × σ :=
  let s := sd_cmd B 0x51 ((block_num >>> 24) % 256) ((block_num >>> 16) % 256)
    ((block_num >>> 8) % 256) (block_num % 256) s
  let p := sd_r1_response B s
  if p.1 ≠ 0x00 then (SD_ERROR_CMD17, buffer, p.2)
  else
    match sd_read_wait B 0 p.2 with
    | (some e, _, s) => (e, buffer, s)
    | (none, attempts, s) =>
      if attempts ≥ 100 then (SD_ERROR_READ_TIMEOUT, buffer, s)
      else
        let q := sd_data_bytes B SD_BLOCK_SIZE 0 buffer s
        let s := (B.spi_transfer 0xFF q.2).2
        let s := (B.spi_transfer 0xFF s).2
        (SD_SUCCESS, q.1, s)

end Lib

namespace Diskio

open DRESULT

/-- Modelled from the spec: the command codes of `disk_ioctl` that `diskio.h` of FatFs
defines (sync, get-sector-count, get-sector-size, get-erase-block-size); the header is not
among the sources. -/
def CTRL_SYNC : Nat := 0
/-- Modelled from the spec: the get-sector-count command of `diskio.h`. -/
def GET_SECTOR_COUNT : Nat := 1
/-- Modelled from the spec: the get-sector-size command of `diskio.h`. -/
def GET_SECTOR_SIZE : Nat := 2
/-- Modelled from the spec: the get-erase-block-size command of `diskio.h`. -/
def GET_BLOCK_SIZE : Nat := 3

/-- `DRESULT disk_ioctl(BYTE pdrv, BYTE cmd, void *buff)`; `buff` is the value that the
pointer addresses, returned with the result. -/
def disk_ioctl (pdrv cmd buff : Nat) (st : Session) : DRESULT × Nat :=
  if pdrv ≠ DEV_SDCARD then (RES_PARERR, buff)
  else if ¬ st.initialized then (RES_NOTRDY, buff)
  else if cmd = CTRL_SYNC then (RES_OK, buff)
  else if cmd = GET_SECTOR_COUNT then (RES_ERROR, buff)
  else if cmd = GET_SECTOR_SIZE then (RES_OK, 512)
  else if cmd = GET_BLOCK_SIZE then (RES_OK, 32)
  else (RES_PARERR, buff)

/-- A call of the adapter by the filesystem library, with its arguments. -/
inductive Call
  | status (pdrv : Nat)
  | init (pdrv : Nat)
  | read (pdrv : Nat) (buff : Nat → Nat) (sector count : Nat)
  | write (pdrv : Nat) (buff : Nat → Nat) (sector count : Nat)
  | ioctl (pdrv cmd buff : Nat)

/-- The file-scope variables and the driver state after one call of the adapter. Only
`disk_initialize` assigns the file-scope variables; the other four functions read them. -/
def exec {δ : Type} (B : Spi δ) (D : SdDriver δ) (c : Call) (x : Session × δ) : Session × δ :=
  match c with
  | .status _ => x
  | .init pdrv => ( disk_initialize B D pdrv x.1 x.2).2
  | .read pdrv buff sector count => (x.1, (disk_read D pdrv buff sector count x.1 x.2).2.2)
  | .write pdrv buff sector count => (x.1, (disk_write D pdrv buff sector count x.1 x.2).2)
  | .ioctl _ _ _ => x

/-- The state after a sequence of calls, first call first. -/
def run {δ : Type} (B : Spi δ) (D : SdDriver δ) (calls : List Call) (x : Session × δ) :
    Session × δ :=
  calls.foldl (fun y c => exec B D c y) x

end Diskio

/-! ## Test buses -/

/-- The bytes a card drives during one helper of `sd_init` when it answers in the first
response slot: idle during `sd_select` and the frame, the R1 byte `r1`, the data bytes, and
idle during `sd_deselect`. -/
def answer (r1 : Nat) (data : List Nat) : List Nat :=
  List.replicate 8 0xFF ++ [r1] ++ data ++ [0xFF, 0xFF]

/-- The bytes a v2 high-capacity card drives during `sd_init` (projects): idle during the 14
transfers of the power-up, CMD0 answered 0x01, CMD8 answered 0x01 with the echo
`00 00 01 AA`, two rounds of CMD55 and ACMD41 answered 0x01 (still initializing), a third
round in which ACMD41 is answered 0x00 (ready), CMD58 answered 0x00 with an OCR whose first
byte 0xC0 has bit 0x40 set, and CMD16 answered 0x00. -/
def init_script : List Nat :=
  List.replicate 14 0xFF ++ answer 0x01 [] ++ answer 0x01 [0x00, 0x00, 0x01, 0xAA]
    ++ answer 0x01 [] ++ answer 0x01 []
    ++ answer 0x01 [] ++ answer 0x01 []
    ++ answer 0x01 [] ++ answer 0x00 []
    ++ answer 0x00 [0xC0, 0xFF, 0x80, 0x00] ++ answer 0x00 []

/-- The bytes a legacy (v1) card drives during `sd_init` (projects): as `init_script`, except
that CMD8 is answered with the illegal-command response 0x05, ACMD41 is answered ready at
once, and the first OCR byte is 0x80. -/
def legacy_script : List Nat :=
  List.replicate 14 0xFF ++ answer 0x01 [] ++ answer 0x05 []
    ++ answer 0x01 [] ++ answer 0x00 []
    ++ answer 0x00 [0x80, 0xFF, 0x80, 0x00] ++ answer 0x00 []

/-- A bus for the lib `sd_write`: the card is idle during the six bytes of the CMD24 frame,
answers R1 = 0x00, accepts the data block (data response 0x05 in transfer 522) and then holds
the line at the busy value 0x00 for ever. -/
def busy_card : Wire :=
  { rx := fun i => if i < 6 then 0xFF else if i = 522 then 0x05 else 0x00, tx := [], cs := [] }

/-- The bytes a v2 high-capacity card drives during `sd_init` (projects) when it refuses
CMD16: CMD0 answered 0x01, CMD8 answered 0x01 with the echo `00 00 01 AA`, CMD55 answered
0x01, ACMD41 answered 0x00 at once, CMD58 answered 0x00 with an OCR whose first byte 0xC0 has
bit 0x40 set, and CMD16 answered 0x04 (illegal command). -/
def blocklen_script : List Nat :=
  List.replicate 14 0xFF ++ answer 0x01 [] ++ answer 0x01 [0x00, 0x00, 0x01, 0xAA]
    ++ answer 0x01 [] ++ answer 0x00 []
    ++ answer 0x00 [0xC0, 0xFF, 0x80, 0x00] ++ answer 0x04 []

/-- The bytes a card drives during `sd_write` (projects) when it gives no response to the
status query CMD13 (the line idles for `sd_select`, the frame and all 248 polled slots) and
then answers CMD24 with 0x00 in the first response slot, idles during the 515 bytes of the
data block, and accepts it with the data response 0x05. -/
def unanswered_status_script : List Nat :=
  List.replicate 262 0xFF ++ [0x00] ++ List.replicate 515 0xFF ++ [0x05]

/-- A bus for `sd_init` (projects) on which the card never gets ready: it answers CMD0 and
CMD8 as in `init_script` (transfers 0 to 39) and from then on answers every command, CMD55
and ACMD41 alike, with R1 = 0x01 in the first response slot of its 11 transfers. -/
def stuck_card : Wire :=
  { rx := fun i => if i < 40 then init_script.getD i 0xFF
      else if (i - 40) % 11 = 8 then 0x01 else 0xFF,
    tx := [], cs := [] }

/-- A bus for `sd_init` (projects) on which the card is silent during the power-up and nine
CMD0 attempts of 258 transfers each, answers the tenth CMD0 with R1 = 0x01 in its first
response slot (transfer 14 + 9 * 258 + 8 = 2344), and is silent again from then on. -/
def tenth_attempt_card : Wire :=
  { rx := fun i => if i = 2344 then 0x01 else 0xFF, tx := [], cs := [] }

/-- The bytes a v2 standard-capacity card drives during `sd_init` (projects): as
`init_script`, except that the first OCR byte is 0x80, with bit 0x40 clear. -/
def sdsc_script : List Nat :=
  List.replicate 14 0xFF ++ answer 0x01 [] ++ answer 0x01 [0x00, 0x00, 0x01, 0xAA]
    ++ answer 0x01 [] ++ answer 0x01 []
    ++ answer 0x01 [] ++ answer 0x01 []
    ++ answer 0x01 [] ++ answer 0x00 []
    ++ answer 0x00 [0x80, 0xFF, 0x80, 0x00] ++ answer 0x00 []

/-! ## A simulated card

A device for the round-trip property: a byte-level SD card in SPI mode that keeps its blocks
in a memory, stores the payload of an accepted CMD24 and replays it on CMD17. -/

/-- Latencies of the simulated card, in byte slots: idle bytes before an R1 response, idle
bytes before the data start token of a read, and busy bytes after the data response of a
write. -/
structure Timing where
  r1 : Nat
  token : Nat
  busy : Nat

/-- What the simulated card is doing: waiting for a command byte; collecting the four
argument bytes and the CRC byte of the frame of `cmd`; `d` idle bytes away from its R1
response; about to send the second status byte of CMD13; `d` idle bytes away from the data
start token of a read of block `addr`; sending byte `k` of that block (the two CRC bytes are
`k = 512` and `k = 513`); waiting for the start token of a write to block `addr`; receiving
byte `k` of that block (the two CRC bytes are `k = 512` and `k = 513`); about to send the
data response; busy for `d` more bytes. -/
inductive Phase
  | idle
  | frame (cmd k arg : Nat)
  | respond (cmd arg d : Nat)
  | status
  | read_token (addr d : Nat)
  | read_data (addr k : Nat)
  | write_wait (addr : Nat)
  | write_data (addr k : Nat)
  | write_resp
  | busy (d : Nat)

/-- The simulated card: its protocol phase, whether its chip select is asserted, and its
memory, `mem addr k` being byte `k` of the block addressed by the 32-bit command argument
`addr`. -/
structure Card where
  phase : Phase
  selected : Bool
  mem : Nat → Nat → Nat

/-- The memory `mem` with byte `k` of block `addr` replaced by `b`. -/
def Card.store (mem : Nat → Nat → Nat) (addr k b : Nat) : Nat → Nat → Nat :=
  fun a j => if a = addr ∧ j = k then b else mem a j

/-- One byte slot of the selected card: the byte it drives, which depends on its phase only,
and its state after receiving `b`. A byte `01xxxxxx` received while idle opens a command
frame; the CRC byte of the frame is not checked; CMD13, CMD17 and CMD24 are answered
R1 = 0x00 and every other command R1 = 0x04 (illegal command); a write is acknowledged with
the data response 0xE5 (accepted). -/
def Card.step (t : Timing) (b : Nat) (c : Card) : Nat × Card :=
  match c.phase with
  | .idle =>
    (0xFF, if b &&& 0xC0 = 0x40 then { c with phase := .frame (b &&& 0x3F) 0 0 } else c)
  | .frame cmd k arg =>
    (0xFF, if k < 4 then { c with phase := .frame cmd (k + 1) (arg * 256 + b) }
      else { c with phase := .respond cmd arg t.r1 })
  | .respond cmd arg (d + 1) => (0xFF, { c with phase := .respond cmd arg d })
  | .respond cmd arg 0 =>
    if cmd = SEND_STATUS then (0x00, { c with phase := .status })
    else if cmd = READ_SINGLE_BLOCK then (0x00, { c with phase := .read_token arg t.token })
    else if cmd = WRITE_SINGLE_BLOCK then (0x00, { c with phase := .write_wait arg })
    else (0x04, { c with phase := .idle })
  | .status => (0x00, { c with phase := .idle })
  | .read_token addr (d + 1) => (0xFF, { c with phase := .read_token addr d })
  | .read_token addr 0 => (DATA_START_TOKEN, { c with phase := .read_data addr 0 })
  | .read_data addr k =>
    (if k < 512 then c.mem addr k % 256 else 0xFF,
      if k < 513 then { c with phase := .read_data addr (k + 1) } else { c with phase := .idle })
  | .write_wait addr =>
    (0xFF, if b = DATA_START_TOKEN then { c with phase := .write_data addr 0 } else c)
  | .write_data addr k =>
    (0xFF,
      if k < 512 then
        { c with phase := .write_data addr (k + 1), mem := Card.store c.mem addr k b }
      else if k < 513 then { c with phase := .write_data addr (k + 1) }
      else { c with phase := .write_resp })
  | .write_resp => (0xE5, { c with phase := if t.busy = 0 then .idle else .busy t.busy })
  | .busy d => (0x00, { c with phase := if d ≤ 1 then .idle else .busy (d - 1) })

/-- The simulated card behind the primitives of `spi.h`: a transfer is a byte slot of the
card when its chip select is asserted, and is ignored (the line idles at 0xFF) when it is
not; asserting the chip select makes the card listen for a command. -/
def card (t : Timing) : Spi Card where
  spi_transfer := fun data c => if c.selected then Card.step t (data % 256) c else (0xFF, c)
  spi_cs_low := fun c => { c with selected := true, phase := .idle }
  spi_cs_high := fun c => { c with selected := false }
  spi_set_divisor := fun _ c => c
  spi_set_mode := fun _ _ c => c
  timer_delay_ms := fun _ c => c

/-! # Theorems -/

/-! ## The recording bus -/

theorem Wire.after_after (w : Wire) (a b : List Nat) (c d : List Bool) :
    (w.after a c).after b d = w.after (a ++ b) (c ++ d) := by
  simp [Wire.after, List.append_assoc]

theorem Wire.after_nil (w : Wire) : w.after [] [] = w := by
  simp [Wire.after]

theorem Wire.pos_after (w : Wire) (a : List Nat) (c : List Bool) :
    (w.after a c).pos = w.pos + a.length := by
  simp [Wire.after, Wire.pos]

theorem Wire.miso_after (w : Wire) (a : List Nat) (c : List Bool) (i : Nat) :
    (w.after a c).miso i = w.miso i := rfl

theorem Wire.rx_after (w : Wire) (a : List Nat) (c : List Bool) :
    (w.after a c).rx = w.rx := rfl

theorem Wire.tx_after (w : Wire) (a : List Nat) (c : List Bool) :
    (w.after a c).tx = w.tx ++ a := rfl

theorem Wire.cs_after (w : Wire) (a : List Nat) (c : List Bool) :
    (w.after a c).cs = w.cs ++ c := rfl

theorem Wire.miso_lt (w : Wire) (i : Nat) : w.miso i < 256 :=
  Nat.mod_lt _ (by decide)

theorem wire_transfer (d : Nat) (w : Wire) :
    wire.spi_transfer d w = (w.miso w.pos, w.after [d % 256] []) := by
  simp [wire, Wire.miso, Wire.pos, Wire.after]

theorem wire_cs_low (w : Wire) : wire.spi_cs_low w = w.after [] [true] := by
  simp [wire, Wire.after]

theorem wire_cs_high (w : Wire) : wire.spi_cs_high w = w.after [] [false] := by
  simp [wire, Wire.after]

theorem wire_set_divisor (d : Nat) (w : Wire) : wire.spi_set_divisor d w = w := rfl

theorem wire_set_mode (a b : Nat) (w : Wire) : wire.spi_set_mode a b w = w := rfl

theorem wire_delay (d : Nat) (w : Wire) : wire.timer_delay_ms d w = w := rfl

theorem sd_select_wire (w : Wire) : sd_select wire w = w.after [0xFF, 0xFF] [true] := by
  simp [sd_select, wire_transfer, wire_cs_low, Wire.after_after]

theorem sd_deselect_wire (w : Wire) : sd_deselect wire w = w.after [0xFF, 0xFF] [false] := by
  simp [sd_deselect, wire_transfer, wire_cs_high, Wire.after_after]

set_option maxRecDepth 20000 in
theorem byte_bit7 : ∀ x < 256, (x &&& 0x80 = 0 ↔ x < 128) := by decide

theorem miso_bit7 (w : Wire) (i : Nat) : w.miso i &&& 0x80 = 0 ↔ w.miso i < 128 :=
  byte_bit7 _ (w.miso_lt i)

/-! ## The response loop of `sd_cmd` (projects) -/

namespace Projects

/-- The loop returns the first byte below 0x80, if the counter has not wrapped before. -/
theorem sd_cmd_poll_hit (j : Nat) : ∀ (a : Nat) (w : Wire), 0 < a → a + j < 256 →
    (∀ i < j, 128 ≤ w.miso (w.pos + i)) → w.miso (w.pos + j) < 128 →
    sd_cmd_poll wire a w = (w.miso (w.pos + j), w.after (List.replicate (j + 1) 0xFF) []) := by
  induction j with
  | zero =>
    intro a w ha _ _ hj
    rw [sd_cmd_poll]
    have h0 : w.miso w.pos &&& 0x80 = 0 := (miso_bit7 w _).2 (by simpa using hj)
    simp [ha, wire_transfer, h0]
  | succ j ih =>
    intro a w ha hlt hpre hj
    rw [sd_cmd_poll]
    have h0 : ¬ (w.miso w.pos &&& 0x80 = 0) := by
      intro h
      have h1 := (miso_bit7 w _).1 h
      have h2 := hpre 0 (Nat.succ_pos _)
      simp at h2
      omega
    have hmod : (a + 1) % 256 = a + 1 := Nat.mod_eq_of_lt (by omega)
    simp only [ha, if_true, wire_transfer, h0, if_false, hmod]
    rw [ih (a + 1) _ (Nat.succ_pos _) (by omega)]
    · simp [Wire.pos_after, Wire.miso_after, Wire.after_after, List.replicate_succ,
        Nat.add_assoc, Nat.add_comm 1 j]
    · intro i hi
      have := hpre (i + 1) (by omega)
      simpa [Wire.pos_after, Wire.miso_after, Nat.add_assoc, Nat.add_comm 1 i] using this
    · simpa [Wire.pos_after, Wire.miso_after, Nat.add_assoc, Nat.add_comm 1 j] using hj

/-- The loop gives up with 0xFF when the counter wraps to 0, after `256 - a` transfers. -/
theorem sd_cmd_poll_miss (n : Nat) : ∀ (a : Nat) (w : Wire), 0 < a → a + n + 1 = 256 →
    (∀ i < n + 1, 128 ≤ w.miso (w.pos + i)) →
    sd_cmd_poll wire a w = (0xFF, w.after (List.replicate (n + 1) 0xFF) []) := by
  induction n with
  | zero =>
    intro a w ha hlt hpre
    have ha255 : a = 255 := by omega
    subst ha255
    have h0 : ¬ (w.miso w.pos &&& 0x80 = 0) := by
      intro h
      have h1 := (miso_bit7 w _).1 h
      have h2 := hpre 0 (Nat.succ_pos _)
      simp at h2
      omega
    rw [sd_cmd_poll]
    simp only [wire_transfer, h0, if_false]
    rw [sd_cmd_poll]
    simp
  | succ n ih =>
    intro a w ha hlt hpre
    rw [sd_cmd_poll]
    have h0 : ¬ (w.miso w.pos &&& 0x80 = 0) := by
      intro h
      have h1 := (miso_bit7 w _).1 h
      have h2 := hpre 0 (Nat.succ_pos _)
      simp at h2
      omega
    have hmod : (a + 1) % 256 = a + 1 := Nat.mod_eq_of_lt (by omega)
    simp only [ha, if_true, wire_transfer, h0, if_false, hmod]
    rw [ih (a + 1) _ (Nat.succ_pos _) (by omega)]
    · simp [Wire.after_after, List.replicate_succ]
    · intro i hi
      have := hpre (i + 1) (by omega)
      simpa [Wire.pos_after, Wire.miso_after, Nat.add_assoc, Nat.add_comm 1 i] using this

end Projects
/-- Either some byte among the next `n` is below 0x80, and there is a first one, or all of
them have bit 7 set. -/
theorem first_response (f : Nat → Nat) (n : Nat) :
    (∃ j, j < n ∧ (∀ i < j, 128 ≤ f i) ∧ f j < 128) ∨ (∀ i < n, 128 ≤ f i) := by
  induction n with
  | zero => right; intro i hi; omega
  | succ n ih =>
    rcases ih with ⟨j, hj, hpre, hv⟩ | hall
    · left; exact ⟨j, by omega, hpre, hv⟩
    · by_cases h : f n < 128
      · left; exact ⟨n, by omega, hall, h⟩
      · right
        intro i hi
        by_cases hin : i = n
        · subst hin; omega
        · exact hall i (by omega)

namespace Projects

theorem sd_cmd_wire (cmd arg0 arg1 arg2 arg3 : Nat) (w : Wire) :
    sd_cmd wire cmd arg0 arg1 arg2 arg3 w
      = sd_cmd_poll wire 8 (w.after (sd_cmd_frame cmd arg0 arg1 arg2 arg3) []) := by
  simp [sd_cmd, sd_cmd_frame, sd_cmd_crc, wire_transfer, Wire.after_after]

theorem sd_cmd_frame_length (cmd arg0 arg1 arg2 arg3 : Nat) :
    (sd_cmd_frame cmd arg0 arg1 arg2 arg3).length = 6 := rfl

/-- `sd_cmd` returns the first response byte below 0x80 when it is among the first 248. -/
theorem sd_cmd_hit (cmd arg0 arg1 arg2 arg3 : Nat) (w : Wire) (j : Nat) (hj : j < 248)
    (hpre : ∀ i < j, 128 ≤ w.miso (w.pos + 6 + i)) (hv : w.miso (w.pos + 6 + j) < 128) :
    sd_cmd wire cmd arg0 arg1 arg2 arg3 w
      = (w.miso (w.pos + 6 + j),
         w.after (sd_cmd_frame cmd arg0 arg1 arg2 arg3 ++ List.replicate (j + 1) 0xFF) []) := by
  rw [sd_cmd_wire, sd_cmd_poll_hit j 8 _ (by decide) (by omega)]
  · simp [Wire.pos_after, Wire.miso_after, Wire.after_after, sd_cmd_frame_length]
  · simpa [Wire.pos_after, Wire.miso_after, sd_cmd_frame_length] using hpre
  · simpa [Wire.pos_after, Wire.miso_after, sd_cmd_frame_length] using hv

/-- `sd_cmd` returns 0xFF after 248 response bytes that all have bit 7 set. -/
theorem sd_cmd_miss (cmd arg0 arg1 arg2 arg3 : Nat) (w : Wire)
    (hall : ∀ i < 248, 128 ≤ w.miso (w.pos + 6 + i)) :
    sd_cmd wire cmd arg0 arg1 arg2 arg3 w
      = (0xFF,
         w.after (sd_cmd_frame cmd arg0 arg1 arg2 arg3 ++ List.replicate 248 0xFF) []) := by
  rw [sd_cmd_wire, sd_cmd_poll_miss 247 8 _ (by decide) (by decide), Wire.after_after]
  · rfl
  · simpa [Wire.pos_after, Wire.miso_after, sd_cmd_frame_length] using hall

/-- What `sd_cmd` does on the recording bus, in both cases. -/
theorem sd_cmd_cases (cmd arg0 arg1 arg2 arg3 : Nat) (w : Wire) :
    (∃ j, j < 248 ∧ (∀ i < j, 128 ≤ w.miso (w.pos + 6 + i)) ∧ w.miso (w.pos + 6 + j) < 128 ∧
      sd_cmd wire cmd arg0 arg1 arg2 arg3 w
        = (w.miso (w.pos + 6 + j),
           w.after (sd_cmd_frame cmd arg0 arg1 arg2 arg3 ++ List.replicate (j + 1) 0xFF) []))
    ∨ ((∀ i < 248, 128 ≤ w.miso (w.pos + 6 + i)) ∧
      sd_cmd wire cmd arg0 arg1 arg2 arg3 w
        = (0xFF,
           w.after (sd_cmd_frame cmd arg0 arg1 arg2 arg3 ++ List.replicate 248 0xFF) [])) := by
  rcases first_response (fun i => w.miso (w.pos + 6 + i)) 248 with ⟨j, hj, hpre, hv⟩ | hall
  · left; exact ⟨j, hj, hpre, hv, sd_cmd_hit cmd arg0 arg1 arg2 arg3 w j hj hpre hv⟩
  · right; exact ⟨hall, sd_cmd_miss cmd arg0 arg1 arg2 arg3 w hall⟩

end Projects
namespace Projects
theorem sd_cmd_poll_range {σ : Type} (B : Spi σ) (a : Nat) (s : σ) :
    (sd_cmd_poll B a s).1 &&& 0x80 = 0 ∨ (sd_cmd_poll B a s).1 = 0xFF := by
  induction a, s using sd_cmd_poll.induct B with
  | case1 a s ha p hp =>
    rw [sd_cmd_poll]; simp only [ha, if_true]
    have hp2 : (B.spi_transfer 0xFF s).1 &&& 0x80 = 0 := hp
    left; simp only [hp2, if_true]
  | case2 a s ha p hp ih =>
    rw [sd_cmd_poll]; simp only [ha, if_true]
    simpa [p, hp] using ih
  | case3 a s ha =>
    rw [sd_cmd_poll]; simp [ha]
end Projects

namespace Lib
theorem sd_r1_response_loop_range {σ : Type} (B : Spi σ) (a : Nat) (s : σ) :
    (sd_r1_response_loop B a s).1 &&& 0x80 = 0 ∨ (sd_r1_response_loop B a s).1 = 0xFF := by
  induction a, s using sd_r1_response_loop.induct B with
  | case1 a s ha p hp =>
    rw [sd_r1_response_loop]; simp only [ha, if_true]
    have hp2 : (B.spi_transfer 0xFF s).1 &&& 0x80 = 0 := hp
    left; simp only [hp2, if_true]
  | case2 a s ha p hp ih =>
    rw [sd_r1_response_loop]; simp only [ha, if_true]
    simpa [p, hp] using ih
  | case3 a s ha =>
    rw [sd_r1_response_loop]; simp [ha]
end Lib
theorem byte_or_0x40 (cmd : Nat) (h : cmd < 256) : (cmd ||| 0x40) % 256 = cmd ||| 0x40 :=
  Nat.mod_eq_of_lt (@Nat.or_lt_two_pow cmd 0x40 8 h (by decide))

namespace Projects

theorem sd_cmd_frame_bytes (cmd arg0 arg1 arg2 arg3 : Nat) (hc : cmd < 256) (h0 : arg0 < 256)
    (h1 : arg1 < 256) (h2 : arg2 < 256) (h3 : arg3 < 256) :
    sd_cmd_frame cmd arg0 arg1 arg2 arg3
      = [cmd ||| 0x40, arg0, arg1, arg2, arg3, sd_cmd_crc cmd arg0 arg1 arg2 arg3] := by
  simp [sd_cmd_frame, byte_or_0x40 cmd hc, Nat.mod_eq_of_lt h0, Nat.mod_eq_of_lt h1,
    Nat.mod_eq_of_lt h2, Nat.mod_eq_of_lt h3]

/-- C3: for every opcode, arguments and received stream, `sd_cmd` (projects) first sends the
six bytes `cmd | 0x40, arg0, arg1, arg2, arg3, crc` in that order, every later byte it sends is
the filler 0xFF (between 1 and 248 of them), and its return value is the same on any two
buses that agree on the bytes received from the seventh transfer onward. -/
theorem sd_cmd_sends_frame_then_filler (cmd arg0 arg1 arg2 arg3 : Nat) (w : Wire)
    (hc : cmd < 256) (h0 : arg0 < 256) (h1 : arg1 < 256) (h2 : arg2 < 256) (h3 : arg3 < 256) :
    (∃ k, 1 ≤ k ∧ k ≤ 248 ∧
      (sd_cmd wire cmd arg0 arg1 arg2 arg3 w).2
        = w.after ([cmd ||| 0x40, arg0, arg1, arg2, arg3, sd_cmd_crc cmd arg0 arg1 arg2 arg3]
            ++ List.replicate k 0xFF) []) ∧
    (∀ w2 : Wire, (∀ i, 6 ≤ i → w2.miso (w2.pos + i) = w.miso (w.pos + i)) →
      (sd_cmd wire cmd arg0 arg1 arg2 arg3 w2).1 = (sd_cmd wire cmd arg0 arg1 arg2 arg3 w).1) := by
  rw [← sd_cmd_frame_bytes cmd arg0 arg1 arg2 arg3 hc h0 h1 h2 h3]
  rcases sd_cmd_cases cmd arg0 arg1 arg2 arg3 w with ⟨j, hj, hpre, hv, he⟩ | ⟨hall, he⟩
  · refine ⟨⟨j + 1, by omega, by omega, by rw [he]⟩, ?_⟩
    intro w2 hw
    have hpre2 : ∀ i < j, 128 ≤ w2.miso (w2.pos + 6 + i) := by
      intro i hi
      rw [Nat.add_assoc, hw (6 + i) (by omega), ← Nat.add_assoc]
      exact hpre i hi
    have hv2 : w2.miso (w2.pos + 6 + j) < 128 := by
      rw [Nat.add_assoc, hw (6 + j) (by omega), ← Nat.add_assoc]
      exact hv
    rw [he, sd_cmd_hit cmd arg0 arg1 arg2 arg3 w2 j hj hpre2 hv2]
    show w2.miso (w2.pos + 6 + j) = w.miso (w.pos + 6 + j)
    rw [Nat.add_assoc, hw (6 + j) (by omega), ← Nat.add_assoc]
  · refine ⟨⟨248, by omega, by omega, by rw [he]⟩, ?_⟩
    intro w2 hw
    have hall2 : ∀ i < 248, 128 ≤ w2.miso (w2.pos + 6 + i) := by
      intro i hi
      rw [Nat.add_assoc, hw (6 + i) (by omega), ← Nat.add_assoc]
      exact hall i hi
    rw [he, sd_cmd_miss cmd arg0 arg1 arg2 arg3 w2 hall2]

/-- Witness of C3 at CMD17 with argument 0x00000A00 on a bus that answers 0x00 in the first
response slot. -/
theorem sd_cmd_sends_frame_then_filler_witness :
    (∃ k, 1 ≤ k ∧ k ≤ 248 ∧
      (sd_cmd wire 17 0 0 0x0A 0 (Wire.replay [0xFF, 0xFF, 0xFF, 0xFF, 0xFF, 0xFF, 0x00])).2
        = (Wire.replay [0xFF, 0xFF, 0xFF, 0xFF, 0xFF, 0xFF, 0x00]).after
            ([17 ||| 0x40, 0, 0, 0x0A, 0, sd_cmd_crc 17 0 0 0x0A 0]
              ++ List.replicate k 0xFF) []) ∧
    (∀ w2 : Wire, (∀ i, 6 ≤ i → w2.miso (w2.pos + i)
        = (Wire.replay [0xFF, 0xFF, 0xFF, 0xFF, 0xFF, 0xFF, 0x00]).miso
            ((Wire.replay [0xFF, 0xFF, 0xFF, 0xFF, 0xFF, 0xFF, 0x00]).pos + i)) →
      (sd_cmd wire 17 0 0 0x0A 0 w2).1
        = (sd_cmd wire 17 0 0 0x0A 0 (Wire.replay [0xFF, 0xFF, 0xFF, 0xFF, 0xFF, 0xFF, 0x00])).1) :=
  sd_cmd_sends_frame_then_filler 17 0 0 0x0A 0 _ (by decide) (by decide) (by decide)
    (by decide) (by decide)

/-- C4, evaluated at the failing input: none of the first 8 polled bytes has bit 7 clear and a
valid byte 0x00 arrives in the 9th slot; `sd_cmd` (projects) polls on and returns that 0x00
after 9 polls, where the claim has it return the sentinel 0xFF after 8. -/
theorem sd_cmd_returns_ninth_slot :
    (∀ i < 8, 128 ≤ (Wire.replay (List.replicate 14 0xFF ++ [0x00])).miso (6 + i)) ∧
    (sd_cmd wire 0 0 0 0 0 (Wire.replay (List.replicate 14 0xFF ++ [0x00]))).1 = 0x00 ∧
    (sd_cmd wire 0 0 0 0 0 (Wire.replay (List.replicate 14 0xFF ++ [0x00]))).2.tx.length
      = 6 + 9 := by
  refine ⟨by decide, ?_⟩
  rw [sd_cmd_hit 0 0 0 0 0 (Wire.replay (List.replicate 14 0xFF ++ [0x00])) 8 (by decide)
    (by decide) (by decide)]
  exact ⟨by decide, by decide⟩

/-- C5: on every received stream `sd_cmd` (projects) returns, after at most 6 + 248 transfers;
when every polled byte has bit 7 set, the 8-bit counter of `for (a = 8; a > 0; a++)` wraps to
0 and `sd_cmd` returns 0xFF after exactly 248 polls (the six frame bytes and 248 fillers are
all it sent). -/
theorem sd_cmd_terminates_after_248_polls (cmd arg0 arg1 arg2 arg3 : Nat) (w : Wire) :
    (sd_cmd wire cmd arg0 arg1 arg2 arg3 w).2.pos ≤ w.pos + 6 + 248 ∧
    ((∀ i < 248, w.miso (w.pos + 6 + i) &&& 0x80 ≠ 0) →
      (sd_cmd wire cmd arg0 arg1 arg2 arg3 w).1 = 0xFF ∧
      (sd_cmd wire cmd arg0 arg1 arg2 arg3 w).2
        = w.after (sd_cmd_frame cmd arg0 arg1 arg2 arg3 ++ List.replicate 248 0xFF) [] ∧
      (sd_cmd wire cmd arg0 arg1 arg2 arg3 w).2.pos = w.pos + 6 + 248) := by
  constructor
  · rcases sd_cmd_cases cmd arg0 arg1 arg2 arg3 w with ⟨j, hj, _, _, he⟩ | ⟨_, he⟩
    · rw [he]
      simp only [Wire.pos_after, List.length_append, sd_cmd_frame_length, List.length_replicate]
      omega
    · rw [he]
      simp only [Wire.pos_after, List.length_append, sd_cmd_frame_length, List.length_replicate]
      omega
  · intro h
    have hall : ∀ i < 248, 128 ≤ w.miso (w.pos + 6 + i) := by
      intro i hi
      have := h i hi
      rw [Ne, miso_bit7] at this
      omega
    rw [sd_cmd_miss cmd arg0 arg1 arg2 arg3 w hall]
    refine ⟨rfl, rfl, ?_⟩
    simp only [Wire.pos_after, List.length_append, sd_cmd_frame_length, List.length_replicate]

/-- Witness of C5 on a bus whose device never answers (the line stays at 0xFF). -/
theorem sd_cmd_terminates_after_248_polls_witness :
    (∀ i < 248, (Wire.replay []).miso ((Wire.replay []).pos + 6 + i) &&& 0x80 ≠ 0) ∧
    (sd_cmd wire 0 0 0 0 0 (Wire.replay [])).1 = 0xFF ∧
    (sd_cmd wire 0 0 0 0 0 (Wire.replay [])).2.pos = 0 + 6 + 248 :=
  have h : ∀ i < 248, (Wire.replay []).miso ((Wire.replay []).pos + 6 + i) &&& 0x80 ≠ 0 := by
    intro i _
    simp [Wire.replay, Wire.miso]
  ⟨h, ((sd_cmd_terminates_after_248_polls 0 0 0 0 0 (Wire.replay [])).2 h).1,
    ((sd_cmd_terminates_after_248_polls 0 0 0 0 0 (Wire.replay [])).2 h).2.2⟩

end Projects

/-- C6: on every bus, the value returned by `sd_cmd` (projects) and by `sd_r1_response` (lib)
either has bit 7 clear or is the sentinel 0xFF. -/
theorem r1_is_valid_or_sentinel {σ : Type} (B : Spi σ) (cmd arg0 arg1 arg2 arg3 : Nat) (s : σ) :
    ((Projects.sd_cmd B cmd arg0 arg1 arg2 arg3 s).1 &&& 0x80 = 0 ∨
      (Projects.sd_cmd B cmd arg0 arg1 arg2 arg3 s).1 = 0xFF) ∧
    ((Lib.sd_r1_response B s).1 &&& 0x80 = 0 ∨ (Lib.sd_r1_response B s).1 = 0xFF) :=
  ⟨Projects.sd_cmd_poll_range B 8 _, Lib.sd_r1_response_loop_range B 0 s⟩
/-! ## CRC-7: the code against the definition -/

theorem and_0x80_ne_zero (x : Nat) : x &&& 0x80 ≠ 0 ↔ x.testBit 7 = true := by
  have h := Nat.and_two_pow x 7
  have h2 : (0x80 : Nat) = 2 ^ 7 := by norm_num
  rw [h2, h]
  cases x.testBit 7 <;> simp

namespace Projects

/-- The body of the loop of `sd_crc7_byte`, as a function of the register and of bit 7 of
`data`. -/
theorem sd_crc7_step_bit (c d : Nat) :
    (if (((c <<< 1) % 256) ^^^ d) &&& 0x80 ≠ 0 then ((c <<< 1) % 256) ^^^ 0x09
      else (c <<< 1) % 256)
    = (if (((c <<< 1) % 256).testBit 7 ^^ d.testBit 7) = true then ((c <<< 1) % 256) ^^^ 0x09
      else (c <<< 1) % 256) := by
  have h : ((((c <<< 1) % 256) ^^^ d) &&& 0x80 ≠ 0)
      ↔ ((((c <<< 1) % 256).testBit 7 ^^ d.testBit 7) = true) := by
    rw [and_0x80_ne_zero, Nat.testBit_xor]
  by_cases hc : (((c <<< 1) % 256).testBit 7 ^^ d.testBit 7) = true
  · rw [if_pos (h.2 hc), if_pos hc]
  · rw [if_neg (fun x => hc (h.1 x)), if_neg hc]

set_option maxRecDepth 100000 in
theorem sd_crc7_step_table : ∀ c < 256, ∀ b : Bool,
    (if (((c <<< 1) % 256).testBit 7 ^^ b) = true then ((c <<< 1) % 256) ^^^ 0x09
      else (c <<< 1) % 256) % 128 = Crc7.step (c % 128) b ∧
    (if (((c <<< 1) % 256).testBit 7 ^^ b) = true then ((c <<< 1) % 256) ^^^ 0x09
      else (c <<< 1) % 256) < 256 := by
  decide

theorem shift_window (x k : Nat) : (((x <<< k) % 256) <<< 1) % 256 = (x <<< (k + 1)) % 256 := by
  simp only [Nat.shiftLeft_eq, Nat.pow_succ, Nat.pow_zero, Nat.one_mul, ← Nat.mul_assoc]
  generalize x * 2 ^ k = y
  omega

theorem shift_window_bit (x n : Nat) (hn : n < 8) :
    ((x <<< (7 - n)) % 256).testBit 7 = x.testBit n := by
  have h : (256 : Nat) = 2 ^ 8 := by norm_num
  rw [h, Nat.testBit_mod_two_pow, Nat.testBit_shiftLeft]
  have h1 : 7 - (7 - n) = n := by omega
  simp [h1]

/-- The loop of `sd_crc7_byte` with `n` iterations left computes, in the low 7 bits of `crc`,
the remainder after the `n` low bits of the data byte. -/
theorem sd_crc7_byte_loop_spec (x : Nat) : ∀ (n : Nat), n ≤ 8 → ∀ c < 256,
    sd_crc7_byte_loop n c ((x <<< (8 - n)) % 256) % 128 = Crc7.bits n (c % 128) x ∧
    sd_crc7_byte_loop n c ((x <<< (8 - n)) % 256) < 256 := by
  intro n
  induction n with
  | zero => intro _ c hc; exact ⟨rfl, hc⟩
  | succ n ih =>
    intro hn c hc
    simp only [sd_crc7_byte_loop, Crc7.bits]
    rw [sd_crc7_step_bit, shift_window]
    have hk : 8 - (n + 1) = 7 - n := by omega
    have hk2 : 7 - n + 1 = 8 - n := by omega
    rw [hk, hk2, shift_window_bit x n (by omega)]
    have ht := sd_crc7_step_table c hc (x.testBit n)
    have := ih (by omega) _ ht.2
    rw [ht.1] at this
    exact this

theorem sd_crc7_byte_spec (c x : Nat) (hc : c < 256) (hx : x < 256) :
    sd_crc7_byte c x % 128 = Crc7.bits 8 (c % 128) x ∧ sd_crc7_byte c x < 256 := by
  have h := sd_crc7_byte_loop_spec x 8 (Nat.le_refl _) c hc
  simp only [Nat.sub_self, Nat.shiftLeft_zero, Nat.mod_eq_of_lt hx] at h
  exact h

set_option maxRecDepth 100000 in
theorem crc_byte_pack : ∀ c < 256,
    ((c <<< 1) ||| 0x01) % 256 = ((c % 128) <<< 1) ||| 1 ∧ (((c % 128) <<< 1) ||| 1) % 2 = 1 := by
  decide

/-- The CRC byte of `sd_cmd` is the CRC-7 of the five frame bytes, shifted left, with the
stop bit. -/
theorem sd_cmd_crc_spec (cmd arg0 arg1 arg2 arg3 : Nat) (hc : cmd < 256) (h0 : arg0 < 256)
    (h1 : arg1 < 256) (h2 : arg2 < 256) (h3 : arg3 < 256) :
    sd_cmd_crc cmd arg0 arg1 arg2 arg3
      = (Crc7.crc7 [cmd ||| 0x40, arg0, arg1, arg2, arg3] <<< 1) ||| 1 := by
  have hc2 : cmd ||| 0x40 < 256 := @Nat.or_lt_two_pow cmd 0x40 8 hc (by decide)
  have a := sd_crc7_byte_spec 0 (cmd ||| 0x40) (by decide) hc2
  have b := sd_crc7_byte_spec _ arg0 a.2 h0
  have c := sd_crc7_byte_spec _ arg1 b.2 h1
  have d := sd_crc7_byte_spec _ arg2 c.2 h2
  have e := sd_crc7_byte_spec _ arg3 d.2 h3
  simp only [sd_cmd_crc, Crc7.crc7, List.foldl]
  rw [(crc_byte_pack _ e.2).1, e.1, d.1, c.1, b.1, a.1]

end Projects
namespace Projects

theorem sd_cmd_sixth_byte (cmd arg0 arg1 arg2 arg3 : Nat) (w : Wire) :
    (sd_cmd wire cmd arg0 arg1 arg2 arg3 w).2.tx[w.pos + 5]?
      = some (sd_cmd_crc cmd arg0 arg1 arg2 arg3) := by
  have key : ∀ l : List Nat, (w.after (sd_cmd_frame cmd arg0 arg1 arg2 arg3 ++ l) []).tx[w.pos + 5]?
      = some (sd_cmd_crc cmd arg0 arg1 arg2 arg3) := by
    intro l
    simp only [Wire.tx_after, Wire.pos]
    rw [List.getElem?_append_right (Nat.le_add_right _ _), Nat.add_sub_cancel_left,
      List.getElem?_append_left (by rw [sd_cmd_frame_length]; decide)]
    rfl
  rcases sd_cmd_cases cmd arg0 arg1 arg2 arg3 w with ⟨j, _, _, _, he⟩ | ⟨_, he⟩ <;>
    rw [he] <;> exact key _

theorem stop_bit (r : Nat) : ((r <<< 1) ||| 1) % 2 = 1 := by
  simp [Nat.or_mod_two_eq_one]

/-- C1: for every opcode and four argument bytes, the sixth byte that `sd_cmd` (projects)
transmits is `(CRC7 << 1) | 1`, where `CRC7` is the 7-bit CRC with polynomial `x^7 + x^3 + 1`
and initial value 0 of the five bytes sent before it (`cmd | 0x40, arg0, arg1, arg2, arg3`);
its low bit is 1. -/
theorem sd_cmd_sixth_byte_is_crc7 (cmd arg0 arg1 arg2 arg3 : Nat) (w : Wire)
    (hc : cmd < 256) (h0 : arg0 < 256) (h1 : arg1 < 256) (h2 : arg2 < 256) (h3 : arg3 < 256) :
    (sd_cmd wire cmd arg0 arg1 arg2 arg3 w).2.tx[w.pos + 5]?
      = some ((Crc7.crc7 [cmd ||| 0x40, arg0, arg1, arg2, arg3] <<< 1) ||| 1) ∧
    (∃ rest, (sd_cmd wire cmd arg0 arg1 arg2 arg3 w).2.tx
      = w.tx ++ [cmd ||| 0x40, arg0, arg1, arg2, arg3,
          (Crc7.crc7 [cmd ||| 0x40, arg0, arg1, arg2, arg3] <<< 1) ||| 1] ++ rest) ∧
    ((Crc7.crc7 [cmd ||| 0x40, arg0, arg1, arg2, arg3] <<< 1) ||| 1) % 2 = 1 := by
  refine ⟨?_, ?_, stop_bit _⟩
  · rw [sd_cmd_sixth_byte, sd_cmd_crc_spec cmd arg0 arg1 arg2 arg3 hc h0 h1 h2 h3]
  · rw [← sd_cmd_crc_spec cmd arg0 arg1 arg2 arg3 hc h0 h1 h2 h3,
      ← sd_cmd_frame_bytes cmd arg0 arg1 arg2 arg3 hc h0 h1 h2 h3]
    rcases sd_cmd_cases cmd arg0 arg1 arg2 arg3 w with ⟨j, _, _, _, he⟩ | ⟨_, he⟩
    · exact ⟨List.replicate (j + 1) 0xFF, by rw [he, Wire.tx_after, List.append_assoc]⟩
    · exact ⟨List.replicate 248 0xFF, by rw [he, Wire.tx_after, List.append_assoc]⟩

set_option maxRecDepth 100000 in
/-- Witness of C1 at CMD0 with argument 0: the CRC-7 of `40 00 00 00 00` is 0x4A and the byte
sent is 0x95. -/
theorem sd_cmd_sixth_byte_is_crc7_witness :
    Crc7.crc7 [0x40, 0, 0, 0, 0] = 0x4A ∧
    (sd_cmd wire 0 0 0 0 0 (Wire.replay [])).2.tx[(Wire.replay []).pos + 5]? = some 0x95 :=
  ⟨by decide,
   (sd_cmd_sixth_byte_is_crc7 0 0 0 0 0 (Wire.replay []) (by decide) (by decide) (by decide)
      (by decide) (by decide)).1.trans (by decide)⟩

end Projects

namespace Lib

set_option maxRecDepth 100000 in
/-- C2, evaluated at the four fixed initialization frames: `sd_common_crc` returns the
hard-coded 0x95, 0x87, 0x65, 0x77 while the general computation `sd_get_crc` over the same
five bytes returns 0x4B, 0x43, 0x33, 0x3B: `sd_crc7` ends with `(crc & 0x7F) | 0x01`, which
does not shift the CRC left before setting the stop bit. -/
theorem sd_common_crc_differs_from_sd_get_crc :
    (sd_common_crc 0x40 0 0 0 0 = 0x95 ∧ sd_get_crc 0x40 0 0 0 0 = 0x4B) ∧
    (sd_common_crc 0x48 0 0 0x01 0xAA = 0x87 ∧ sd_get_crc 0x48 0 0 0x01 0xAA = 0x43) ∧
    (sd_common_crc 0x77 0 0 0 0 = 0x65 ∧ sd_get_crc 0x77 0 0 0 0 = 0x33) ∧
    (sd_common_crc 0x69 0x40 0 0 0 = 0x77 ∧ sd_get_crc 0x69 0x40 0 0 0 = 0x3B) := by
  decide

end Lib
/-! ## `sd_read` (projects) on the recording bus -/

/-- Among the next `n` bytes either there is a first one that differs from 0xFF, or all of
them are 0xFF. -/
theorem first_token (f : Nat → Nat) (n : Nat) :
    (∃ k, k < n ∧ (∀ i < k, f i = 0xFF) ∧ f k ≠ 0xFF) ∨ (∀ i < n, f i = 0xFF) := by
  induction n with
  | zero => right; intro i hi; omega
  | succ n ih =>
    rcases ih with ⟨k, hk, hpre, hv⟩ | hall
    · left; exact ⟨k, by omega, hpre, hv⟩
    · by_cases h : f n = 0xFF
      · right
        intro i hi
        by_cases hin : i = n
        · subst hin; exact h
        · exact hall i (by omega)
      · left; exact ⟨n, by omega, hall, h⟩

namespace Projects

/-- The bytes that a read loop of `n` transfers starting at index `i` leaves in the buffer. -/
theorem sd_read_data_wire (n : Nat) : ∀ (i : Nat) (buffer : Nat → Nat) (w : Wire),
    sd_read_data wire n i buffer w
      = (fun k => if i ≤ k ∧ k < i + n then w.miso (w.pos + (k - i)) else buffer k,
         w.after (List.replicate n 0xFF) []) := by
  induction n with
  | zero =>
    intro i buffer w
    refine Prod.ext (funext fun k => ?_) ?_
    · have h : ¬ (i ≤ k ∧ k < i + 0) := by omega
      simp only [sd_read_data, h, if_false]
    · simp [sd_read_data, Wire.after_nil]
  | succ n ih =>
    intro i buffer w
    simp only [sd_read_data, wire_transfer, ih]
    refine Prod.ext ?_ ?_
    · funext k
      simp only [Wire.pos_after, Wire.miso_after, List.length_singleton]
      by_cases h1 : k = i
      · subst h1
        simp
      · simp only [Function.update_noteq h1]
        by_cases h2 : i + 1 ≤ k ∧ k < i + 1 + n
        · have h3 : i ≤ k ∧ k < i + (n + 1) := by omega
          have h4 : w.pos + 1 + (k - (i + 1)) = w.pos + (k - i) := by omega
          simp only [h2, h3, and_self, if_true, h4]
        · have h3 : ¬ (i ≤ k ∧ k < i + (n + 1)) := by omega
          simp only [h2, h3, if_false]
    · simp [Wire.after_after, List.replicate_succ]

theorem sd_read_token_timeout (buffer : Nat → Nat) (a : Nat) : ∀ (w : Wire),
    (∀ i < a, w.miso (w.pos + i) = 0xFF) →
    sd_read_token wire a buffer w
      = (ER_READ_TIMEOUT, buffer, w.after (List.replicate a 0xFF ++ [0xFF, 0xFF]) [false]) := by
  induction a with
  | zero =>
    intro w _
    simp [sd_read_token, sd_deselect_wire]
  | succ a ih =>
    intro w h
    have h0 : w.miso w.pos = 0xFF := by simpa using h 0 (Nat.succ_pos _)
    simp only [sd_read_token, wire_transfer, h0, DATA_START_TOKEN]
    rw [if_neg (by decide), if_neg (by decide), ih]
    · simp [Wire.after_after, List.replicate_succ]
    · intro i hi
      have := h (i + 1) (by omega)
      simpa [Wire.pos_after, Wire.miso_after, Nat.add_assoc, Nat.add_comm 1 i] using this

theorem sd_read_token_bad (buffer : Nat → Nat) (k : Nat) : ∀ (a : Nat) (w : Wire), k < a →
    (∀ i < k, w.miso (w.pos + i) = 0xFF) → w.miso (w.pos + k) ≠ 0xFF →
    w.miso (w.pos + k) ≠ 0xFE →
    sd_read_token wire a buffer w
      = (ER_READ_TOKEN, buffer,
         w.after (List.replicate (k + 1) 0xFF ++ [0xFF, 0xFF]) [false]) := by
  induction k with
  | zero =>
    intro a w ha _ h1 h2
    obtain ⟨a, rfl⟩ : ∃ b, a = b + 1 := ⟨a - 1, by omega⟩
    have h1' : w.miso w.pos ≠ 0xFF := by simpa using h1
    have h2' : w.miso w.pos ≠ 0xFE := by simpa using h2
    simp only [sd_read_token, wire_transfer, DATA_START_TOKEN]
    rw [if_neg h2', if_pos h1']
    simp [sd_deselect_wire, Wire.after_after]
  | succ k ih =>
    intro a w ha hpre h1 h2
    obtain ⟨a, rfl⟩ : ∃ b, a = b + 1 := ⟨a - 1, by omega⟩
    have h0 : w.miso w.pos = 0xFF := by simpa using hpre 0 (Nat.succ_pos _)
    simp only [sd_read_token, wire_transfer, h0, DATA_START_TOKEN]
    rw [if_neg (by decide), if_neg (by decide), ih a _ (by omega)]
    · simp [Wire.after_after, List.replicate_succ]
    · intro i hi
      have := hpre (i + 1) (by omega)
      simpa [Wire.pos_after, Wire.miso_after, Nat.add_assoc, Nat.add_comm 1 i] using this
    · simpa [Wire.pos_after, Wire.miso_after, Nat.add_assoc, Nat.add_comm 1 k] using h1
    · simpa [Wire.pos_after, Wire.miso_after, Nat.add_assoc, Nat.add_comm 1 k] using h2

set_option maxRecDepth 10000 in
theorem sd_read_token_found (buffer : Nat → Nat) (k : Nat) : ∀ (a : Nat) (w : Wire), k < a →
    (∀ i < k, w.miso (w.pos + i) = 0xFF) → w.miso (w.pos + k) = 0xFE →
    sd_read_token wire a buffer w
      = (ER_SUCCESS,
         fun i => if i < 512 then w.miso (w.pos + k + 1 + i) else buffer i,
         w.after (List.replicate (k + 1) 0xFF ++ List.replicate 512 0xFF ++ [0xFF, 0xFF]
           ++ [0xFF, 0xFF]) [false]) := by
  induction k with
  | zero =>
    intro a w ha _ h1
    obtain ⟨a, rfl⟩ : ∃ b, a = b + 1 := ⟨a - 1, by omega⟩
    have h1' : w.miso w.pos = 0xFE := by simpa using h1
    simp only [sd_read_token, wire_transfer, DATA_START_TOKEN, h1', if_true, sd_read_data_wire,
      sd_deselect_wire, Wire.after_after, SD_BLOCK_SIZE]
    refine Prod.ext rfl (Prod.ext ?_ ?_)
    · funext i
      simp [Wire.pos_after, Wire.miso_after]
    · show w.after _ _ = w.after _ _
      generalize List.replicate 512 255 = L
      simp
  | succ k ih =>
    intro a w ha hpre h1
    obtain ⟨a, rfl⟩ : ∃ b, a = b + 1 := ⟨a - 1, by omega⟩
    have h0 : w.miso w.pos = 0xFF := by simpa using hpre 0 (Nat.succ_pos _)
    simp only [sd_read_token, wire_transfer, h0, DATA_START_TOKEN]
    rw [if_neg (by decide), if_neg (by decide), ih a _ (by omega)]
    · refine Prod.ext rfl (Prod.ext ?_ ?_)
      · funext i
        simp [Wire.pos_after, Wire.miso_after, Nat.add_assoc, Nat.add_comm 1 k]
      · simp only [Wire.after_after]
        generalize List.replicate 512 255 = L
        simp [List.replicate_succ]
    · intro i hi
      have := hpre (i + 1) (by omega)
      simpa [Wire.pos_after, Wire.miso_after, Nat.add_assoc, Nat.add_comm 1 i] using this
    · simpa [Wire.pos_after, Wire.miso_after, Nat.add_assoc, Nat.add_comm 1 k] using h1

end Projects
theorem big_endian_bytes (a : Nat) (h : a < 2 ^ 32) :
    (a >>> 24) % 256 * 2 ^ 24 + (a >>> 16) % 256 * 2 ^ 16 + (a >>> 8) % 256 * 2 ^ 8 + a % 256
      = a := by
  simp only [Nat.shiftRight_eq_div_pow]
  omega

namespace Projects

theorem sd_read_command_wire (ty n : Nat) (w : Wire) :
    sd_read_command wire ty n w
      = sd_cmd wire READ_SINGLE_BLOCK ((sd_block_addr ty n >>> 24) % 256)
          ((sd_block_addr ty n >>> 16) % 256) ((sd_block_addr ty n >>> 8) % 256)
          (sd_block_addr ty n % 256) (w.after [0xFF, 0xFF] [true]) := by
  simp [sd_read_command, sd_select_wire]

theorem sd_read_unfold (ty n : Nat) (buffer : Nat → Nat) (w : Wire) :
    sd_read wire ty n buffer w
      = if (sd_read_command wire ty n w).1 ≠ 0 then
          (ER_READ_SINGLE_BLOCK, buffer,
            (sd_read_command wire ty n w).2.after [0xFF, 0xFF] [false])
        else sd_read_token wire 5000 buffer (sd_read_command wire ty n w).2 := by
  simp [sd_read, sd_deselect_wire]

end Projects

namespace Projects

/-- The command phase of `sd_read` when the card answers in response slot `j`. -/
theorem sd_read_command_hit (ty n : Nat) (w : Wire) (j : Nat) (hj : j < 248)
    (hwait : ∀ i < j, w.miso (w.pos + 8 + i) &&& 0x80 ≠ 0)
    (hr1 : w.miso (w.pos + 8 + j) < 128) :
    sd_read_command wire ty n w
      = (w.miso (w.pos + 8 + j),
         w.after ([0xFF, 0xFF] ++
           sd_cmd_frame READ_SINGLE_BLOCK ((sd_block_addr ty n >>> 24) % 256)
             ((sd_block_addr ty n >>> 16) % 256) ((sd_block_addr ty n >>> 8) % 256)
             (sd_block_addr ty n % 256) ++ List.replicate (j + 1) 0xFF) [true]) := by
  rw [sd_read_command_wire, sd_cmd_hit _ _ _ _ _ _ j hj]
  · simp only [Wire.pos_after, Wire.miso_after, Wire.after_after, List.length_cons,
      List.length_nil, List.append_assoc, List.append_nil]
  · intro i hi
    have := hwait i hi
    rw [Ne, miso_bit7] at this
    have e : (w.after [0xFF, 0xFF] [true]).pos + 6 + i = w.pos + 8 + i := by
      simp only [Wire.pos_after, List.length_cons, List.length_nil]
    rw [Wire.miso_after, e]
    omega
  · have e : (w.after [0xFF, 0xFF] [true]).pos + 6 + j = w.pos + 8 + j := by
      simp only [Wire.pos_after, List.length_cons, List.length_nil]
    rw [Wire.miso_after, e]
    exact hr1

theorem sd_read_command_pos (ty n : Nat) (w : Wire) (j : Nat) (hj : j < 248)
    (hwait : ∀ i < j, w.miso (w.pos + 8 + i) &&& 0x80 ≠ 0)
    (hr1 : w.miso (w.pos + 8 + j) < 128) :
    (sd_read_command wire ty n w).2.pos = w.pos + 9 + j ∧
    (sd_read_command wire ty n w).2.rx = w.rx := by
  rw [sd_read_command_hit ty n w j hj hwait hr1]
  refine ⟨?_, rfl⟩
  simp only [Wire.pos_after, List.length_append, sd_cmd_frame_length, List.length_replicate,
    List.length_cons, List.length_nil]
  omega

/-- A successful `sd_read`: the card answers CMD17 with 0x00 in response slot `j` and sends
the start token after `k` idle bytes. -/
theorem sd_read_found (ty n : Nat) (buffer : Nat → Nat) (w : Wire) (j k : Nat)
    (hj : j < 248) (hk : k < 5000)
    (hwait : ∀ i < j, w.miso (w.pos + 8 + i) &&& 0x80 ≠ 0)
    (hr1 : w.miso (w.pos + 8 + j) = 0x00)
    (hidle : ∀ i < k, w.miso (w.pos + 9 + j + i) = 0xFF)
    (htoken : w.miso (w.pos + 9 + j + k) = 0xFE) :
    sd_read wire ty n buffer w
      = (ER_SUCCESS,
         fun i => if i < 512 then w.miso (w.pos + 9 + j + k + 1 + i) else buffer i,
         (sd_read_command wire ty n w).2.after
           (List.replicate (k + 1) 0xFF ++ List.replicate 512 0xFF ++ [0xFF, 0xFF]
             ++ [0xFF, 0xFF]) [false]) := by
  have hr1lt : w.miso (w.pos + 8 + j) < 128 := by rw [hr1]; decide
  have hpos := sd_read_command_pos ty n w j hj hwait hr1lt
  have hval : (sd_read_command wire ty n w).1 = 0 := by
    rw [sd_read_command_hit ty n w j hj hwait hr1lt]; exact hr1
  have hmiso : ∀ i, (sd_read_command wire ty n w).2.miso i = w.miso i := by
    intro i; simp only [Wire.miso, hpos.2]
  rw [sd_read_unfold, if_neg (not_not.2 hval), sd_read_token_found buffer k 5000 _ hk]
  · simp only [hpos.1, hmiso]
  · intro i hi
    rw [hpos.1, hmiso]; exact hidle i hi
  · rw [hpos.1, hmiso]; exact htoken

/-- C8: when CMD17 is answered with R1 = 0x00 (in response slot `j` of the 248) and the
start token 0xFE arrives within the 5000 polls after `k` bytes 0xFF, `sd_read` (projects)
returns `ER_SUCCESS`; after the token it makes exactly 512 payload transfers and 2 CRC
transfers before the two transfers of `sd_deselect`; `buffer[i]` is the `i`-th byte received
after the token for every `i < 512` and the rest of the buffer is untouched; and the status and
the buffer are the same whatever the two CRC bytes are. -/
theorem sd_read_success (ty n : Nat) (buffer : Nat → Nat) (w : Wire) (j k : Nat)
    (hj : j < 248) (hk : k < 5000)
    (hwait : ∀ i < j, w.miso (w.pos + 8 + i) &&& 0x80 ≠ 0)
    (hr1 : w.miso (w.pos + 8 + j) = 0x00)
    (hidle : ∀ i < k, w.miso (w.pos + 9 + j + i) = 0xFF)
    (htoken : w.miso (w.pos + 9 + j + k) = 0xFE) :
    (sd_read wire ty n buffer w).1 = ER_SUCCESS ∧
    (∀ i < 512, (sd_read wire ty n buffer w).2.1 i = w.miso (w.pos + 9 + j + k + 1 + i)) ∧
    (∀ i, 512 ≤ i → (sd_read wire ty n buffer w).2.1 i = buffer i) ∧
    (sd_read_command wire ty n w).2.pos = w.pos + 9 + j ∧
    (sd_read wire ty n buffer w).2.2
      = (sd_read_command wire ty n w).2.after
          (List.replicate (k + 1) 0xFF ++ List.replicate 512 0xFF ++ [0xFF, 0xFF]
            ++ [0xFF, 0xFF]) [false] ∧
    (sd_read wire ty n buffer w).2.2.pos = w.pos + 9 + j + (k + 1) + 512 + 2 + 2 ∧
    (∀ crc1 crc2 : Nat,
      (sd_read wire ty n buffer
        { w with rx := Function.update (Function.update w.rx (w.pos + 9 + j + k + 513) crc1)
                        (w.pos + 9 + j + k + 514) crc2 }).1 = ER_SUCCESS ∧
      (sd_read wire ty n buffer
        { w with rx := Function.update (Function.update w.rx (w.pos + 9 + j + k + 513) crc1)
                        (w.pos + 9 + j + k + 514) crc2 }).2.1
        = (sd_read wire ty n buffer w).2.1) := by
  have hr1lt : w.miso (w.pos + 8 + j) < 128 := by rw [hr1]; decide
  have hpos := sd_read_command_pos ty n w j hj hwait hr1lt
  have he := sd_read_found ty n buffer w j k hj hk hwait hr1 hidle htoken
  refine ⟨by rw [he], ?_, ?_, hpos.1, by rw [he], ?_, ?_⟩
  · intro i hi
    rw [he]
    simp only [hi, if_true]
  · intro i hi
    rw [he]
    have : ¬ i < 512 := by omega
    simp only [this, if_false]
  · rw [he]
    simp only [Wire.pos_after, hpos.1, List.length_append, List.length_replicate,
      List.length_cons, List.length_nil]
    omega
  · intro crc1 crc2
    have hsame : ∀ i, i < w.pos + 9 + j + k + 513 →
        Wire.miso { w with rx := Function.update (Function.update w.rx
          (w.pos + 9 + j + k + 513) crc1) (w.pos + 9 + j + k + 514) crc2 } i = w.miso i := by
      intro i hi
      simp only [Wire.miso]
      rw [Function.update_noteq (by omega), Function.update_noteq (by omega)]
    have he2 := sd_read_found ty n buffer
      { w with rx := Function.update (Function.update w.rx (w.pos + 9 + j + k + 513) crc1)
                      (w.pos + 9 + j + k + 514) crc2 } j k hj hk
      (by intro i hi; rw [hsame _ (by show w.pos + 8 + i < _; omega)]; exact hwait i hi)
      (by rw [hsame _ (by show w.pos + 8 + j < _; omega)]; exact hr1)
      (by intro i hi; rw [hsame _ (by show w.pos + 9 + j + i < _; omega)]; exact hidle i hi)
      (by rw [hsame _ (by show w.pos + 9 + j + k < _; omega)]; exact htoken)
    rw [he2, he]
    refine ⟨rfl, ?_⟩
    funext i
    by_cases hi : i < 512
    · simp only [hi, if_true]
      exact hsame _ (by show w.pos + 9 + j + k + 1 + i < _; omega)
    · simp only [hi, if_false]

end Projects

namespace Projects

/-- Witness of C8: R1 = 0x00 in the first response slot, one idle byte, the token, then the
payload `11 22 33` followed by an idle line. -/
theorem sd_read_success_witness :
    (sd_read wire SDCARD_SDHC 5 (fun _ => 0)
      (Wire.replay (List.replicate 8 0xFF ++ [0x00, 0xFF, 0xFE, 0x11, 0x22, 0x33]))).1
      = ER_SUCCESS ∧
    (sd_read wire SDCARD_SDHC 5 (fun _ => 0)
      (Wire.replay (List.replicate 8 0xFF ++ [0x00, 0xFF, 0xFE, 0x11, 0x22, 0x33]))).2.1 0
      = 0x11 ∧
    (sd_read wire SDCARD_SDHC 5 (fun _ => 0)
      (Wire.replay (List.replicate 8 0xFF ++ [0x00, 0xFF, 0xFE, 0x11, 0x22, 0x33]))).2.1 2
      = 0x33 ∧
    (sd_read wire SDCARD_SDHC 5 (fun _ => 0)
      (Wire.replay (List.replicate 8 0xFF ++ [0x00, 0xFF, 0xFE, 0x11, 0x22, 0x33]))).2.1 511
      = 0xFF :=
  have h := sd_read_success SDCARD_SDHC 5 (fun _ => 0)
    (Wire.replay (List.replicate 8 0xFF ++ [0x00, 0xFF, 0xFE, 0x11, 0x22, 0x33])) 0 1
    (by decide) (by decide) (by decide) (by decide) (by decide) (by decide)
  ⟨h.1, (h.2.1 0 (by decide)).trans (by decide), (h.2.1 2 (by decide)).trans (by decide),
    (h.2.1 511 (by decide)).trans (by decide)⟩

end Projects
/-! ## `sd_write` (projects) on the recording bus -/

/-- Among the next `n` bytes either there is a first one that differs from 0x00, or all of
them are 0x00. -/
theorem first_nonzero (f : Nat → Nat) (n : Nat) :
    (∃ k, k < n ∧ (∀ i < k, f i = 0) ∧ f k ≠ 0) ∨ (∀ i < n, f i = 0) := by
  induction n with
  | zero => right; intro i hi; omega
  | succ n ih =>
    rcases ih with ⟨k, hk, hpre, hv⟩ | hall
    · left; exact ⟨k, by omega, hpre, hv⟩
    · by_cases h : f n = 0
      · right
        intro i hi
        by_cases hin : i = n
        · subst hin; exact h
        · exact hall i (by omega)
      · left; exact ⟨n, by omega, hall, h⟩

namespace Projects

theorem sd_write_data_wire (buffer : Nat → Nat) (n : Nat) : ∀ (i : Nat) (w : Wire),
    sd_write_data wire n i buffer w
      = w.after ((List.range n).map (fun k => buffer (i + k) % 256)) [] := by
  induction n with
  | zero => intro i w; simp [sd_write_data, Wire.after_nil]
  | succ n ih =>
    intro i w
    simp only [sd_write_data, wire_transfer, ih, Wire.after_after, List.append_nil]
    congr 1
    rw [List.range_succ_eq_map, List.map_cons, List.map_map]
    simp only [Nat.add_zero, List.singleton_append, List.cons.injEq, true_and]
    apply List.map_congr_left
    intro k _
    simp only [Function.comp, Nat.succ_eq_add_one]
    congr 2
    omega

/-- The busy loop leaves at the first non-zero byte, with `timeout` counting the zero bytes
before it. -/
theorem sd_write_busy_done (k : Nat) : ∀ (t : Nat) (w : Wire), t + k < 65000 →
    (∀ i < k, w.miso (w.pos + i) = 0) → w.miso (w.pos + k) ≠ 0 →
    sd_write_busy wire t w = (t + k, w.after (List.replicate (k + 1) 0xFF) []) := by
  induction k with
  | zero =>
    intro t w ht _ hv
    rw [sd_write_busy]
    have hv' : w.miso w.pos ≠ 0 := by simpa using hv
    simp [show t < 65000 by omega, wire_transfer, hv']
  | succ k ih =>
    intro t w ht hpre hv
    rw [sd_write_busy]
    have h0 : w.miso w.pos = 0 := by simpa using hpre 0 (Nat.succ_pos _)
    simp only [show t < 65000 by omega, if_true, wire_transfer, h0, ne_eq, not_true_eq_false,
      if_false]
    rw [ih (t + 1) _ (by omega)]
    · simp [Wire.after_after, List.replicate_succ, Nat.add_assoc, Nat.add_comm 1 k]
    · intro i hi
      have := hpre (i + 1) (by omega)
      simpa [Wire.pos_after, Wire.miso_after, Nat.add_assoc, Nat.add_comm 1 i] using this
    · simpa [Wire.pos_after, Wire.miso_after, Nat.add_assoc, Nat.add_comm 1 k] using hv

/-- The busy loop gives up when `timeout` reaches 65000. -/
theorem sd_write_busy_timeout (n : Nat) : ∀ (t : Nat) (w : Wire), t + n = 65000 →
    (∀ i < n, w.miso (w.pos + i) = 0) →
    sd_write_busy wire t w = (65000, w.after (List.replicate n 0xFF) []) := by
  induction n with
  | zero =>
    intro t w ht _
    rw [sd_write_busy]
    simp [show ¬ t < 65000 by omega, show t = 65000 by omega, Wire.after_nil]
  | succ n ih =>
    intro t w ht hpre
    rw [sd_write_busy]
    have h0 : w.miso w.pos = 0 := by simpa using hpre 0 (Nat.succ_pos _)
    simp only [show t < 65000 by omega, if_true, wire_transfer, h0, ne_eq, not_true_eq_false,
      if_false]
    rw [ih (t + 1) _ (by omega)]
    · simp [Wire.after_after, List.replicate_succ]
    · intro i hi
      have := hpre (i + 1) (by omega)
      simpa [Wire.pos_after, Wire.miso_after, Nat.add_assoc, Nat.add_comm 1 i] using this

end Projects
namespace Projects

theorem sd_write_block_length (buffer : Nat → Nat) : (sd_write_block buffer).length = 515 := by
  simp [sd_write_block, SD_BLOCK_SIZE]

theorem sd_write_command_wire (ty n : Nat) (w : Wire) :
    sd_write_command wire ty n w
      = sd_cmd wire WRITE_SINGLE_BLOCK ((sd_block_addr ty n >>> 24) % 256)
          ((sd_block_addr ty n >>> 16) % 256) ((sd_block_addr ty n >>> 8) % 256)
          (sd_block_addr ty n % 256) w := rfl

/-- `sd_cmd` leaves the received stream alone and only adds to the bytes sent. -/
theorem sd_cmd_wire_frame (cmd arg0 arg1 arg2 arg3 : Nat) (w : Wire) :
    ∃ k, 1 ≤ k ∧ k ≤ 248 ∧ (sd_cmd wire cmd arg0 arg1 arg2 arg3 w).2
      = w.after (sd_cmd_frame cmd arg0 arg1 arg2 arg3 ++ List.replicate k 0xFF) [] := by
  rcases sd_cmd_cases cmd arg0 arg1 arg2 arg3 w with ⟨j, hj, _, _, he⟩ | ⟨_, he⟩
  · exact ⟨j + 1, by omega, by omega, by rw [he]⟩
  · exact ⟨248, by omega, by omega, by rw [he]⟩

set_option maxRecDepth 10000 in
/-- The steps of `sd_write` on the recording bus, once the status query has let it go on and
CMD24 has been answered with 0x00. -/
theorem sd_write_accepted (ty n : Nat) (buffer : Nat → Nat) (w : Wire)
    (hc : (sd_write_status wire w).1 = false)
    (hp : (sd_write_command wire ty n (sd_write_status wire w).2).1 = 0) :
    sd_write wire ty n buffer w
      = if (sd_write_command wire ty n (sd_write_status wire w).2).2.miso
            ((sd_write_command wire ty n (sd_write_status wire w).2).2.pos + 515) &&& 0x1F
            ≠ 0x05 then
          (ER_WRITE_REJECT,
            (sd_write_command wire ty n (sd_write_status wire w).2).2.after
              (sd_write_block buffer ++ [0xFF] ++ [0xFF, 0xFF]) [false])
        else if (sd_write_busy wire 0
            ((sd_write_command wire ty n (sd_write_status wire w).2).2.after
              (sd_write_block buffer ++ [0xFF]) [])).1 ≥ 65000 then
          (ER_WRITE_TIMEOUT,
            (sd_write_busy wire 0
              ((sd_write_command wire ty n (sd_write_status wire w).2).2.after
                (sd_write_block buffer ++ [0xFF]) [])).2.after [0xFF, 0xFF] [false])
        else
          (ER_SUCCESS,
            (sd_write_busy wire 0
              ((sd_write_command wire ty n (sd_write_status wire w).2).2.after
                (sd_write_block buffer ++ [0xFF]) [])).2.after [0xFF, 0xFF] [false]) := by
  simp only [sd_write, hc, hp, Bool.false_eq_true, if_false, ne_eq, not_true_eq_false]
  generalize (sd_write_command wire ty n (sd_write_status wire w).2).2 = P
  simp only [wire_transfer, sd_write_data_wire, sd_deselect_wire, Wire.after_after,
    Wire.pos_after, Wire.miso_after, DATA_START_TOKEN, DATA_ACCEPT_TOKEN, SD_BLOCK_SIZE,
    sd_write_block, List.length_append, List.length_map, List.length_range, List.length_cons,
    List.length_nil, Nat.zero_add, List.append_nil, List.append_assoc, Nat.reduceMod,
    Nat.reduceAdd, List.singleton_append, List.cons_append, List.nil_append]

end Projects
namespace Projects

/-- The three ways `sd_write` ends after the data block: rejected, completed at the first
non-zero busy byte, or timed out after 65000 zero bytes. -/
theorem sd_write_accepted_cases (ty n : Nat) (buffer : Nat → Nat) (w : Wire)
    (hc : (sd_write_status wire w).1 = false)
    (hp : (sd_write_command wire ty n (sd_write_status wire w).2).1 = 0) :
    ((sd_write_command wire ty n (sd_write_status wire w).2).2.miso
        ((sd_write_command wire ty n (sd_write_status wire w).2).2.pos + 515) &&& 0x1F ≠ 0x05 ∧
      sd_write wire ty n buffer w
        = (ER_WRITE_REJECT,
           (sd_write_command wire ty n (sd_write_status wire w).2).2.after
             (sd_write_block buffer ++ [0xFF] ++ [0xFF, 0xFF]) [false])) ∨
    ((sd_write_command wire ty n (sd_write_status wire w).2).2.miso
        ((sd_write_command wire ty n (sd_write_status wire w).2).2.pos + 515) &&& 0x1F = 0x05 ∧
      ∃ k, k < 65000 ∧
        (∀ i < k, (sd_write_command wire ty n (sd_write_status wire w).2).2.miso
          ((sd_write_command wire ty n (sd_write_status wire w).2).2.pos + 516 + i) = 0) ∧
        (sd_write_command wire ty n (sd_write_status wire w).2).2.miso
          ((sd_write_command wire ty n (sd_write_status wire w).2).2.pos + 516 + k) ≠ 0 ∧
        sd_write wire ty n buffer w
          = (ER_SUCCESS,
             (sd_write_command wire ty n (sd_write_status wire w).2).2.after
               (sd_write_block buffer ++ [0xFF] ++ List.replicate (k + 1) 0xFF ++ [0xFF, 0xFF])
               [false])) ∨
    ((sd_write_command wire ty n (sd_write_status wire w).2).2.miso
        ((sd_write_command wire ty n (sd_write_status wire w).2).2.pos + 515) &&& 0x1F = 0x05 ∧
      (∀ i < 65000, (sd_write_command wire ty n (sd_write_status wire w).2).2.miso
        ((sd_write_command wire ty n (sd_write_status wire w).2).2.pos + 516 + i) = 0) ∧
      sd_write wire ty n buffer w
        = (ER_WRITE_TIMEOUT,
           (sd_write_command wire ty n (sd_write_status wire w).2).2.after
             (sd_write_block buffer ++ [0xFF] ++ List.replicate 65000 0xFF ++ [0xFF, 0xFF])
             [false])) := by
  rw [sd_write_accepted ty n buffer w hc hp]
  generalize (sd_write_command wire ty n (sd_write_status wire w).2).2 = P
  have hlen : (P.after (sd_write_block buffer ++ [0xFF]) []).pos = P.pos + 516 := by
    simp only [Wire.pos_after, List.length_append, sd_write_block_length, List.length_cons,
      List.length_nil]
  by_cases hr : P.miso (P.pos + 515) &&& 0x1F = 0x05
  · rw [if_neg (not_not.2 hr)]
    right
    rcases first_nonzero (fun i => P.miso (P.pos + 516 + i)) 65000 with ⟨k, hk, hpre, hv⟩ | hall
    · left
      refine ⟨hr, k, hk, hpre, hv, ?_⟩
      rw [sd_write_busy_done k 0 _ (by omega) (by rw [hlen]; exact hpre) (by rw [hlen]; exact hv)]
      rw [if_neg (by simp only [Nat.zero_add]; omega)]
      simp only [Wire.after_after, List.append_assoc, List.append_nil, List.nil_append]
    · right
      refine ⟨hr, hall, ?_⟩
      rw [sd_write_busy_timeout 65000 0 _ (by omega) (by rw [hlen]; exact hall)]
      rw [if_pos (Nat.le_refl _)]
      simp only [Wire.after_after, List.append_assoc, List.append_nil, List.nil_append]
  · rw [if_pos hr]
    left
    exact ⟨hr, rfl⟩

end Projects
namespace Projects

/-- Every exit of the token loop of `sd_read` ends with `sd_deselect`. -/
theorem sd_read_token_after (a : Nat) (buffer : Nat → Nat) (w : Wire) :
    ∃ l, (sd_read_token wire a buffer w).2.2 = w.after l [false] := by
  rcases first_token (fun i => w.miso (w.pos + i)) a with ⟨k, hk, hpre, hv⟩ | hall
  · by_cases hfe : w.miso (w.pos + k) = 0xFE
    · rw [sd_read_token_found buffer k a w hk hpre hfe]; exact ⟨_, rfl⟩
    · rw [sd_read_token_bad buffer k a w hk hpre hv hfe]; exact ⟨_, rfl⟩
  · rw [sd_read_token_timeout buffer a w hall]; exact ⟨_, rfl⟩

/-- Every exit of `sd_read` ends with `sd_deselect`, after the command phase. -/
theorem sd_read_after (ty n : Nat) (buffer : Nat → Nat) (w : Wire) :
    ∃ l, (sd_read wire ty n buffer w).2.2 = (sd_read_command wire ty n w).2.after l [false] := by
  rw [sd_read_unfold]
  by_cases hp : (sd_read_command wire ty n w).1 = 0
  · rw [if_neg (not_not.2 hp)]
    exact sd_read_token_after 5000 buffer _
  · rw [if_pos hp]
    exact ⟨_, rfl⟩

theorem sd_write_rejected_command (ty n : Nat) (buffer : Nat → Nat) (w : Wire)
    (hc : (sd_write_status wire w).1 = false)
    (hp : (sd_write_command wire ty n (sd_write_status wire w).2).1 ≠ 0) :
    sd_write wire ty n buffer w
      = (ER_WRITE_SINGLE_BLOCK,
         (sd_write_command wire ty n (sd_write_status wire w).2).2.after [0xFF, 0xFF] [false]) := by
  simp only [sd_write, hc, Bool.false_eq_true, if_false, ne_eq, hp, not_false_eq_true, if_true,
    sd_deselect_wire]

/-- Every exit of `sd_write` after the status query ends with `sd_deselect`, after the
write command. -/
theorem sd_write_after (ty n : Nat) (buffer : Nat → Nat) (w : Wire)
    (hc : (sd_write_status wire w).1 = false) :
    ∃ l, (sd_write wire ty n buffer w).2
      = (sd_write_command wire ty n (sd_write_status wire w).2).2.after l [false] := by
  by_cases hp : (sd_write_command wire ty n (sd_write_status wire w).2).1 = 0
  · rcases sd_write_accepted_cases ty n buffer w hc hp with ⟨_, he⟩ | ⟨_, k, _, _, _, he⟩ |
      ⟨_, _, he⟩ <;> rw [he] <;> exact ⟨_, rfl⟩
  · rw [sd_write_rejected_command ty n buffer w hc hp]; exact ⟨_, rfl⟩

theorem sd_write_aborted (ty n : Nat) (buffer : Nat → Nat) (w : Wire)
    (hc : (sd_write_status wire w).1 = true) :
    sd_write wire ty n buffer w = (ER_CMD13, (sd_write_status wire w).2) := by
  simp only [sd_write, hc, if_true]

/-- The status query that opens `sd_write`, in its three outcomes on the recording bus. -/
theorem sd_write_status_wire (w : Wire) :
    sd_write_status wire w
      = if (sd_cmd wire SEND_STATUS 0 0 0 0 (w.after [0xFF, 0xFF] [true])).1 = 0 then
          if (sd_cmd wire SEND_STATUS 0 0 0 0 (w.after [0xFF, 0xFF] [true])).2.miso
              (sd_cmd wire SEND_STATUS 0 0 0 0 (w.after [0xFF, 0xFF] [true])).2.pos = 0 then
            (false, (sd_cmd wire SEND_STATUS 0 0 0 0 (w.after [0xFF, 0xFF] [true])).2.after
              [0xFF] [])
          else
            (true, (sd_cmd wire SEND_STATUS 0 0 0 0 (w.after [0xFF, 0xFF] [true])).2.after
              [0xFF, 0xFF, 0xFF] [false])
        else (false, (sd_cmd wire SEND_STATUS 0 0 0 0 (w.after [0xFF, 0xFF] [true])).2) := by
  simp only [sd_write_status, sd_select_wire, wire_transfer, sd_deselect_wire, Wire.after_after,
    Nat.reduceMod, List.singleton_append, List.nil_append]

/-- The status query when CMD13 is answered 0x00 in response slot `j` and the second status
byte is 0x00: `sd_write` goes on. -/
theorem sd_write_status_ok (w : Wire) (j : Nat) (hj : j < 248)
    (hwait : ∀ i < j, w.miso (w.pos + 8 + i) &&& 0x80 ≠ 0)
    (hr1 : w.miso (w.pos + 8 + j) = 0x00) (hst : w.miso (w.pos + 9 + j) = 0x00) :
    sd_write_status wire w
      = (false, w.after ([0xFF, 0xFF] ++ sd_cmd_frame SEND_STATUS 0 0 0 0
          ++ List.replicate (j + 1) 0xFF ++ [0xFF]) [true]) := by
  have e1 : ∀ i, (w.after [0xFF, 0xFF] [true]).pos + 6 + i = w.pos + 8 + i := by
    intro i; simp only [Wire.pos_after, List.length_cons, List.length_nil]
  have hs := sd_cmd_hit SEND_STATUS 0 0 0 0 (w.after [0xFF, 0xFF] [true]) j hj
    (by intro i hi
        have := hwait i hi
        rw [Ne, miso_bit7] at this
        rw [Wire.miso_after, e1]; omega)
    (by rw [Wire.miso_after, e1, hr1]; decide)
  rw [sd_write_status_wire, hs]
  have e2 : (w.after [0xFF, 0xFF] [true]).miso ((w.after [0xFF, 0xFF] [true]).pos + 6 + j) = 0 := by
    rw [Wire.miso_after, e1, hr1]
  have e3 : ((w.after [0xFF, 0xFF] [true]).after
      (sd_cmd_frame SEND_STATUS 0 0 0 0 ++ List.replicate (j + 1) 0xFF) []).pos
      = w.pos + 9 + j := by
    simp only [Wire.pos_after, List.length_append, sd_cmd_frame_length, List.length_replicate,
      List.length_cons, List.length_nil]
    omega
  dsimp only
  rw [if_pos e2, e3, Wire.miso_after, Wire.miso_after, hst, if_pos rfl]
  simp only [Wire.after_after, List.append_assoc, List.append_nil, List.nil_append]

theorem sd_write_command_hit (ty n : Nat) (w : Wire) (j : Nat) (hj : j < 248)
    (hwait : ∀ i < j, w.miso (w.pos + 6 + i) &&& 0x80 ≠ 0)
    (hr1 : w.miso (w.pos + 6 + j) < 128) :
    sd_write_command wire ty n w
      = (w.miso (w.pos + 6 + j),
         w.after (sd_cmd_frame WRITE_SINGLE_BLOCK ((sd_block_addr ty n >>> 24) % 256)
             ((sd_block_addr ty n >>> 16) % 256) ((sd_block_addr ty n >>> 8) % 256)
             (sd_block_addr ty n % 256) ++ List.replicate (j + 1) 0xFF) []) := by
  rw [sd_write_command_wire, sd_cmd_hit _ _ _ _ _ _ j hj _ hr1]
  intro i hi
  have := hwait i hi
  rw [Ne, miso_bit7] at this
  omega

end Projects
namespace Projects

/-- C10: once the status query has let `sd_write` (projects) go on, when CMD24 is answered
with R1 = 0x00 it transmits exactly the start token 0xFE, the 512 bytes `buffer[0..511]` in
index order and two filler bytes 0xFF, and the byte it then takes as the data-response token
is the one received in the next transfer (every later byte sent is the filler 0xFF); when the
R1 is non-zero it returns `ER_WRITE_SINGLE_BLOCK` having sent only the two bytes of
`sd_deselect`. -/
theorem sd_write_data_phase (ty n : Nat) (buffer : Nat → Nat) (w : Wire)
    (hc : (sd_write_status wire w).1 = false) :
    ((sd_write_command wire ty n (sd_write_status wire w).2).1 = 0 →
      (∃ k, 1 ≤ k ∧ (sd_write wire ty n buffer w).2
        = (sd_write_command wire ty n (sd_write_status wire w).2).2.after
            ([0xFE] ++ (List.range 512).map (fun i => buffer i % 256) ++ [0xFF, 0xFF]
              ++ List.replicate k 0xFF ++ [0xFF, 0xFF]) [false]) ∧
      ((sd_write wire ty n buffer w).1 = ER_WRITE_REJECT ↔
        (sd_write_command wire ty n (sd_write_status wire w).2).2.miso
          ((sd_write_command wire ty n (sd_write_status wire w).2).2.pos + (1 + 512 + 2))
            &&& 0x1F ≠ 0x05)) ∧
    ((sd_write_command wire ty n (sd_write_status wire w).2).1 ≠ 0 →
      sd_write wire ty n buffer w
        = (ER_WRITE_SINGLE_BLOCK,
           (sd_write_command wire ty n (sd_write_status wire w).2).2.after [0xFF, 0xFF]
             [false])) := by
  refine ⟨fun hp => ?_, fun hp => sd_write_rejected_command ty n buffer w hc hp⟩
  have hb : [0xFE] ++ (List.range 512).map (fun i => buffer i % 256) ++ [0xFF, 0xFF]
      = sd_write_block buffer := rfl
  rw [hb]
  have hrep : ∀ (l : List Nat) (m : Nat) (t : List Nat),
      l ++ [0xFF] ++ List.replicate m 0xFF ++ t = l ++ List.replicate (m + 1) 0xFF ++ t := by
    intro l m t
    simp only [List.replicate_succ, List.append_assoc, List.singleton_append, List.cons_append,
      List.nil_append]
  have c3 : ER_SUCCESS ≠ ER_WRITE_REJECT := by decide
  have c5 : ER_WRITE_TIMEOUT ≠ ER_WRITE_REJECT := by decide
  rcases sd_write_accepted_cases ty n buffer w hc hp with ⟨hr, he⟩ | ⟨hr, k, _, _, _, he⟩ |
    ⟨hr, _, he⟩
  · rw [he]
    exact ⟨⟨1, Nat.le_refl _, rfl⟩, fun _ => hr, fun _ => rfl⟩
  · rw [he, hrep]
    exact ⟨⟨k + 1 + 1, by omega, rfl⟩, fun h => absurd h c3, fun h => absurd hr h⟩
  · rw [he, hrep]
    exact ⟨⟨65000 + 1, by omega, rfl⟩, fun h => absurd h c5, fun h => absurd hr h⟩

/-- C11: after the data phase, `sd_write` (projects) returns `ER_WRITE_REJECT` iff the low
5 bits of the data-response byte differ from 0x05; otherwise it polls the busy line and returns
`ER_WRITE_TIMEOUT` iff each of the first 65000 polled bytes is 0x00 (it has then made exactly
65000 polls) and `ER_SUCCESS` iff a non-zero byte appears within those 65000 polls. -/
theorem sd_write_response_and_busy (ty n : Nat) (buffer : Nat → Nat) (w : Wire)
    (hc : (sd_write_status wire w).1 = false)
    (hp : (sd_write_command wire ty n (sd_write_status wire w).2).1 = 0) :
    ((sd_write wire ty n buffer w).1 = ER_WRITE_REJECT ↔
      (sd_write_command wire ty n (sd_write_status wire w).2).2.miso
        ((sd_write_command wire ty n (sd_write_status wire w).2).2.pos + 515) &&& 0x1F ≠ 0x05) ∧
    ((sd_write_command wire ty n (sd_write_status wire w).2).2.miso
        ((sd_write_command wire ty n (sd_write_status wire w).2).2.pos + 515) &&& 0x1F = 0x05 →
      ((sd_write wire ty n buffer w).1 = ER_WRITE_TIMEOUT ↔
        ∀ i < 65000, (sd_write_command wire ty n (sd_write_status wire w).2).2.miso
          ((sd_write_command wire ty n (sd_write_status wire w).2).2.pos + 516 + i) = 0x00) ∧
      ((sd_write wire ty n buffer w).1 = ER_SUCCESS ↔
        ∃ i, i < 65000 ∧ (sd_write_command wire ty n (sd_write_status wire w).2).2.miso
          ((sd_write_command wire ty n (sd_write_status wire w).2).2.pos + 516 + i) ≠ 0x00) ∧
      ((sd_write wire ty n buffer w).1 = ER_WRITE_TIMEOUT →
        (sd_write wire ty n buffer w).2.pos
          = (sd_write_command wire ty n (sd_write_status wire w).2).2.pos + 516 + 65000 + 2)) := by
  have c1 : ER_WRITE_REJECT ≠ ER_WRITE_TIMEOUT := by decide
  have c2 : ER_WRITE_REJECT ≠ ER_SUCCESS := by decide
  have c3 : ER_SUCCESS ≠ ER_WRITE_REJECT := by decide
  have c4 : ER_SUCCESS ≠ ER_WRITE_TIMEOUT := by decide
  have c5 : ER_WRITE_TIMEOUT ≠ ER_WRITE_REJECT := by decide
  have c6 : ER_WRITE_TIMEOUT ≠ ER_SUCCESS := by decide
  rcases sd_write_accepted_cases ty n buffer w hc hp with ⟨hr, he⟩ | ⟨hr, k, hk, hpre, hv, he⟩ |
    ⟨hr, hall, he⟩
  · rw [he]
    exact ⟨⟨fun _ => hr, fun _ => rfl⟩, fun h => absurd h hr⟩
  · rw [he]
    refine ⟨⟨fun h => absurd h c3, fun h => absurd hr h⟩, fun _ =>
      ⟨⟨fun h => absurd h c4, fun h => absurd (h k hk) hv⟩, ⟨fun _ => ⟨k, hk, hv⟩, fun _ => rfl⟩,
        fun h => absurd h c4⟩⟩
  · rw [he]
    refine ⟨⟨fun h => absurd h c5, fun h => absurd hr h⟩, fun _ =>
      ⟨⟨fun _ => hall, fun _ => rfl⟩, ⟨fun h => absurd h c6, fun h => ?_⟩, fun _ => ?_⟩⟩
    · obtain ⟨i, hi, hne⟩ := h
      exact absurd (hall i hi) hne
    · show (Wire.after _ _ _).pos = _
      rw [Wire.pos_after, List.length_append, List.length_append, List.length_append,
        sd_write_block_length, List.length_replicate]
      show _ + (515 + 1 + 65000 + 2) = _
      omega

end Projects
namespace Projects

set_option maxRecDepth 100000 in
/-- On the bus of `write_script`, `sd_write` gets past the status query and CMD24 is answered
with 0x00; 17 transfers have then been made. -/
theorem write_script_reaches_data (ty n : Nat) :
    (sd_write_status wire (Wire.replay (write_script 0x05 [0x00, 0x00]))).1 = false ∧
    (sd_write_command wire ty n
      (sd_write_status wire (Wire.replay (write_script 0x05 [0x00, 0x00]))).2).1 = 0 ∧
    (sd_write_command wire ty n
      (sd_write_status wire (Wire.replay (write_script 0x05 [0x00, 0x00]))).2).2.pos = 17 ∧
    (sd_write_command wire ty n
      (sd_write_status wire (Wire.replay (write_script 0x05 [0x00, 0x00]))).2).2.rx
        = (Wire.replay (write_script 0x05 [0x00, 0x00])).rx := by
  have hs := sd_write_status_ok (Wire.replay (write_script 0x05 [0x00, 0x00])) 0 (by decide)
    (by decide) (by decide) (by decide)
  rw [hs]
  have hcmd := sd_write_command_hit ty n ((Wire.replay (write_script 0x05 [0x00, 0x00])).after
    ([0xFF, 0xFF] ++ sd_cmd_frame SEND_STATUS 0 0 0 0 ++ List.replicate (0 + 1) 0xFF ++ [0xFF])
    [true]) 0 (by decide) (by decide) (by decide)
  rw [hcmd]
  refine ⟨rfl, by show Wire.miso _ _ = 0; decide, ?_, rfl⟩
  simp only [Wire.pos_after, List.length_append, sd_cmd_frame_length, List.length_replicate,
    List.length_cons, List.length_nil]
  rfl

end Projects

namespace Projects

/-- Witness of C10 on the bus of `write_script`: the status query lets `sd_write` go on and
CMD24 is answered with 0x00, so the data block is sent. -/
theorem sd_write_data_phase_witness :
    (sd_write_status wire (Wire.replay (write_script 0x05 [0x00, 0x00]))).1 = false ∧
    (sd_write_command wire SDCARD_SDHC 5
      (sd_write_status wire (Wire.replay (write_script 0x05 [0x00, 0x00]))).2).1 = 0 ∧
    ∃ k, 1 ≤ k ∧ (sd_write wire SDCARD_SDHC 5 (fun i => i)
        (Wire.replay (write_script 0x05 [0x00, 0x00]))).2
      = (sd_write_command wire SDCARD_SDHC 5
          (sd_write_status wire (Wire.replay (write_script 0x05 [0x00, 0x00]))).2).2.after
          ([0xFE] ++ (List.range 512).map (fun i => i % 256) ++ [0xFF, 0xFF]
            ++ List.replicate k 0xFF ++ [0xFF, 0xFF]) [false] :=
  ⟨(write_script_reaches_data SDCARD_SDHC 5).1, (write_script_reaches_data SDCARD_SDHC 5).2.1,
    ((sd_write_data_phase SDCARD_SDHC 5 (fun i => i) (Wire.replay (write_script 0x05 [0x00, 0x00]))
      (write_script_reaches_data SDCARD_SDHC 5).1).1
      (write_script_reaches_data SDCARD_SDHC 5).2.1).1⟩

set_option maxRecDepth 100000 in
/-- Witness of C11 on the bus of `write_script`: the data response is 0x05 and the third busy
byte is non-zero, so `sd_write` returns `ER_SUCCESS`. -/
theorem sd_write_response_and_busy_witness :
    (sd_write_status wire (Wire.replay (write_script 0x05 [0x00, 0x00]))).1 = false ∧
    (sd_write_command wire SDCARD_SDHC 5
      (sd_write_status wire (Wire.replay (write_script 0x05 [0x00, 0x00]))).2).1 = 0 ∧
    (sd_write wire SDCARD_SDHC 5 (fun i => i)
      (Wire.replay (write_script 0x05 [0x00, 0x00]))).1 = ER_SUCCESS := by
  have h := write_script_reaches_data SDCARD_SDHC 5
  have hm : ∀ i, (sd_write_command wire SDCARD_SDHC 5
      (sd_write_status wire (Wire.replay (write_script 0x05 [0x00, 0x00]))).2).2.miso
        ((sd_write_command wire SDCARD_SDHC 5
          (sd_write_status wire (Wire.replay (write_script 0x05 [0x00, 0x00]))).2).2.pos + i)
      = (Wire.replay (write_script 0x05 [0x00, 0x00])).miso (17 + i) := by
    intro i
    simp only [Wire.miso, h.2.2.1, h.2.2.2]
  have hr : (sd_write_command wire SDCARD_SDHC 5
      (sd_write_status wire (Wire.replay (write_script 0x05 [0x00, 0x00]))).2).2.miso
        ((sd_write_command wire SDCARD_SDHC 5
          (sd_write_status wire (Wire.replay (write_script 0x05 [0x00, 0x00]))).2).2.pos + 515)
        &&& 0x1F = 0x05 := by
    rw [hm]; decide
  refine ⟨h.1, h.2.1, ?_⟩
  refine ((sd_write_response_and_busy SDCARD_SDHC 5 (fun i => i)
    (Wire.replay (write_script 0x05 [0x00, 0x00])) h.1 h.2.1).2 hr).2.1.2 ⟨2, by decide, ?_⟩
  rw [Nat.add_assoc, hm]
  decide

end Projects
namespace Projects

theorem sd_block_addr_lt (ty n : Nat) (hn : n < 2 ^ 32) : sd_block_addr ty n < 2 ^ 32 := by
  unfold sd_block_addr
  split
  · exact Nat.mod_lt _ (by decide)
  · exact hn

theorem sd_block_addr_eq (ty n : Nat) :
    sd_block_addr ty n = if ty = SDCARD_SDHC then n else (n * 512) % 2 ^ 32 := by
  unfold sd_block_addr
  by_cases h : ty = SDCARD_SDHC <;> simp [h]

/-- The bytes `sd_read` has sent when it returns start with the two of `sd_select` and the
CMD17 frame. -/
theorem sd_read_tx (ty n : Nat) (buffer : Nat → Nat) (w : Wire) :
    ∃ rest, (sd_read wire ty n buffer w).2.2.tx
      = w.tx ++ [0xFF, 0xFF] ++ sd_cmd_frame READ_SINGLE_BLOCK ((sd_block_addr ty n >>> 24) % 256)
          ((sd_block_addr ty n >>> 16) % 256) ((sd_block_addr ty n >>> 8) % 256)
          (sd_block_addr ty n % 256) ++ rest := by
  obtain ⟨l, hl⟩ := sd_read_after ty n buffer w
  obtain ⟨k, _, _, hk⟩ := sd_cmd_wire_frame READ_SINGLE_BLOCK ((sd_block_addr ty n >>> 24) % 256)
    ((sd_block_addr ty n >>> 16) % 256) ((sd_block_addr ty n >>> 8) % 256)
    (sd_block_addr ty n % 256) (w.after [0xFF, 0xFF] [true])
  rw [hl, sd_read_command_wire, hk]
  exact ⟨List.replicate k 0xFF ++ l, by simp only [Wire.tx_after, List.append_assoc]⟩

/-- The bytes `sd_write` has sent when it returns, if the status query let it go on, continue
after the status query with the CMD24 frame. -/
theorem sd_write_tx (ty n : Nat) (buffer : Nat → Nat) (w : Wire)
    (hc : (sd_write_status wire w).1 = false) :
    ∃ rest, (sd_write wire ty n buffer w).2.tx
      = (sd_write_status wire w).2.tx ++ sd_cmd_frame WRITE_SINGLE_BLOCK
          ((sd_block_addr ty n >>> 24) % 256) ((sd_block_addr ty n >>> 16) % 256)
          ((sd_block_addr ty n >>> 8) % 256) (sd_block_addr ty n % 256) ++ rest := by
  obtain ⟨l, hl⟩ := sd_write_after ty n buffer w hc
  obtain ⟨k, _, _, hk⟩ := sd_cmd_wire_frame WRITE_SINGLE_BLOCK
    ((sd_block_addr ty n >>> 24) % 256) ((sd_block_addr ty n >>> 16) % 256)
    ((sd_block_addr ty n >>> 8) % 256) (sd_block_addr ty n % 256) (sd_write_status wire w).2
  rw [hl, sd_write_command_wire, hk]
  exact ⟨List.replicate k 0xFF ++ l, by simp only [Wire.tx_after, List.append_assoc]⟩

/-- C7: for every block index `n` (an `unsigned long`), the four argument bytes that
`sd_read` and `sd_write` (projects) send with CMD17 (0x51) and CMD24 (0x58) are the big-endian
encoding of `n` itself when `sdcard_type` is `SDCARD_SDHC` and of `(n * 512) mod 2^32` for
every other card type. `sd_read` sends the frame right after the two bytes of `sd_select`;
`sd_write` sends it right after its status query, when that lets it go on. -/
theorem sd_read_write_address (ty n : Nat) (buffer : Nat → Nat) (w : Wire) (hn : n < 2 ^ 32) :
    ∃ b3 b2 b1 b0, b3 < 256 ∧ b2 < 256 ∧ b1 < 256 ∧ b0 < 256 ∧
      b3 * 2 ^ 24 + b2 * 2 ^ 16 + b1 * 2 ^ 8 + b0
        = (if ty = SDCARD_SDHC then n else (n * 512) % 2 ^ 32) ∧
      (∃ rest, (sd_read wire ty n buffer w).2.2.tx
        = w.tx ++ [0xFF, 0xFF] ++ [0x51, b3, b2, b1, b0, sd_cmd_crc 17 b3 b2 b1 b0] ++ rest) ∧
      ((sd_write_status wire w).1 = false →
        ∃ rest, (sd_write wire ty n buffer w).2.tx
          = (sd_write_status wire w).2.tx ++ [0x58, b3, b2, b1, b0, sd_cmd_crc 24 b3 b2 b1 b0]
              ++ rest) := by
  have h3 : (sd_block_addr ty n >>> 24) % 256 < 256 := Nat.mod_lt _ (by decide)
  have h2 : (sd_block_addr ty n >>> 16) % 256 < 256 := Nat.mod_lt _ (by decide)
  have h1 : (sd_block_addr ty n >>> 8) % 256 < 256 := Nat.mod_lt _ (by decide)
  have h0 : sd_block_addr ty n % 256 < 256 := Nat.mod_lt _ (by decide)
  refine ⟨_, _, _, _, h3, h2, h1, h0, ?_, ?_, ?_⟩
  · rw [big_endian_bytes _ (sd_block_addr_lt ty n hn), sd_block_addr_eq]
  · have := sd_read_tx ty n buffer w
    rw [sd_cmd_frame_bytes _ _ _ _ _ (by decide) h3 h2 h1 h0] at this
    exact this
  · intro hc
    have := sd_write_tx ty n buffer w hc
    rw [sd_cmd_frame_bytes _ _ _ _ _ (by decide) h3 h2 h1 h0] at this
    exact this

set_option maxRecDepth 100000 in
/-- Witness of C7 at block 5: `sd_read(5)` sends `51 00 00 00 05` and its CRC byte for a
high-capacity card and `51 00 00 0A 00` (2560) for a standard-capacity card. -/
theorem sd_read_write_address_witness :
    (5 : Nat) < 2 ^ 32 ∧
    (∃ rest, (sd_read wire SDCARD_SDHC 5 (fun _ => 0) (Wire.replay [])).2.2.tx
      = [0xFF, 0xFF] ++ [0x51, 0x00, 0x00, 0x00, 0x05, sd_cmd_crc 17 0 0 0 5] ++ rest) ∧
    (∃ rest, (sd_read wire SDCARD_SDSC 5 (fun _ => 0) (Wire.replay [])).2.2.tx
      = [0xFF, 0xFF] ++ [0x51, 0x00, 0x00, 0x0A, 0x00, sd_cmd_crc 17 0 0 0x0A 0] ++ rest) := by
  refine ⟨by decide, ?_, ?_⟩
  · obtain ⟨b3, b2, b1, b0, h3, h2, h1, h0, hsum, hr, _⟩ :=
      sd_read_write_address SDCARD_SDHC 5 (fun _ => 0) (Wire.replay []) (by decide)
    have : b3 = 0 ∧ b2 = 0 ∧ b1 = 0 ∧ b0 = 5 := by
      simp only [if_true] at hsum
      omega
    obtain ⟨rfl, rfl, rfl, rfl⟩ := this
    exact hr
  · obtain ⟨b3, b2, b1, b0, h3, h2, h1, h0, hsum, hr, _⟩ :=
      sd_read_write_address SDCARD_SDSC 5 (fun _ => 0) (Wire.replay []) (by decide)
    have : b3 = 0 ∧ b2 = 0 ∧ b1 = 10 ∧ b0 = 0 := by
      rw [if_neg (by decide)] at hsum
      norm_num at hsum
      omega
    obtain ⟨rfl, rfl, rfl, rfl⟩ := this
    exact hr

end Projects
/-! ## The lib `sd_write` -/

namespace Lib

theorem sd_cmd_lib_wire (cmd arg0 arg1 arg2 arg3 : Nat) (w : Wire) :
    sd_cmd wire cmd arg0 arg1 arg2 arg3 w
      = w.after [cmd % 256, arg0 % 256, arg1 % 256, arg2 % 256, arg3 % 256,
          sd_common_crc cmd arg0 arg1 arg2 arg3 % 256] [] := by
  simp [sd_cmd, wire_transfer, Wire.after_after]

/-- `sd_r1_response` returns at once when the first byte has bit 7 clear. -/
theorem sd_r1_response_first (w : Wire) (h : w.miso w.pos < 128) :
    sd_r1_response wire w = (w.miso w.pos, w.after [0xFF] []) := by
  rw [sd_r1_response, sd_r1_response_loop]
  have h0 : w.miso w.pos &&& 0x80 = 0 := (miso_bit7 w _).2 h
  simp [wire_transfer, h0]

/-- While the card holds the line at 0x00 the busy loop of the lib `sd_write` never ends:
`timeout` stays where it is. -/
theorem sd_write_busy_stuck (fuel : Nat) : ∀ (t : Nat) (w : Wire), t < 65000 →
    (∀ i, w.miso (w.pos + i) = 0) → sd_write_busy wire fuel t w = none := by
  induction fuel with
  | zero => intro t w _ _; rfl
  | succ fuel ih =>
    intro t w ht h
    have h0 : w.miso w.pos = 0 := by simpa using h 0
    simp only [sd_write_busy, ht, if_true, wire_transfer, h0, ne_eq, not_true_eq_false, if_false]
    apply ih t _ ht
    intro i
    have := h (1 + i)
    simpa [Wire.pos_after, Wire.miso_after, Nat.add_assoc] using this

theorem sd_write_data_lib_wire (buffer : Nat → Nat) (n : Nat) : ∀ (i : Nat) (w : Wire),
    sd_write_data wire n i buffer w
      = w.after ((List.range n).map (fun k => buffer (i + k) % 256)) [] := by
  induction n with
  | zero => intro i w; simp [sd_write_data, Wire.after_nil]
  | succ n ih =>
    intro i w
    simp only [sd_write_data, wire_transfer, ih, Wire.after_after, List.append_nil]
    congr 1
    rw [List.range_succ_eq_map, List.map_cons, List.map_map]
    simp only [Nat.add_zero, List.singleton_append, List.cons.injEq, true_and]
    apply List.map_congr_left
    intro k _
    simp only [Function.comp, Nat.succ_eq_add_one]
    congr 2
    omega

set_option maxRecDepth 10000 in
/-- The lib `sd_write` on a bus where CMD24 is answered 0x00 at once, the data block is
accepted and the card then stays busy for ever. -/
theorem sd_write_stuck (fuel n : Nat) (buffer : Nat → Nat) (w : Wire)
    (hr1 : w.miso (w.pos + 6) = 0) (hresp : w.miso (w.pos + 522) &&& 0x1F = 0x05)
    (hbusy : ∀ i, w.miso (w.pos + 523 + i) = 0) :
    sd_write wire fuel n buffer w = none := by
  have h1 : sd_r1_response wire (sd_cmd wire 0x58 ((n >>> 24) % 256) ((n >>> 16) % 256)
      ((n >>> 8) % 256) (n % 256) w)
      = (0, (sd_cmd wire 0x58 ((n >>> 24) % 256) ((n >>> 16) % 256)
          ((n >>> 8) % 256) (n % 256) w).after [0xFF] []) := by
    have e : (sd_cmd wire 0x58 ((n >>> 24) % 256) ((n >>> 16) % 256)
        ((n >>> 8) % 256) (n % 256) w).miso (sd_cmd wire 0x58 ((n >>> 24) % 256)
          ((n >>> 16) % 256) ((n >>> 8) % 256) (n % 256) w).pos = 0 := by
      rw [sd_cmd_lib_wire, Wire.miso_after, Wire.pos_after]
      exact hr1
    rw [sd_r1_response_first _ (by rw [e]; decide), e]
  simp only [sd_write, h1, ne_eq, not_true_eq_false, if_false]
  rw [sd_cmd_lib_wire]
  simp only [wire_transfer, sd_write_data_lib_wire, Wire.after_after, Wire.pos_after, Wire.miso_after,
    DATA_START_TOKEN, DATA_ACCEPT_TOKEN, SD_BLOCK_SIZE, List.length_append, List.length_map,
    List.length_range, List.length_cons, List.length_nil, Nat.reduceAdd, hresp,
    not_true_eq_false, if_false]
  rw [sd_write_busy_stuck fuel 0 _ (by decide)]
  intro i
  rw [Wire.miso_after, Wire.pos_after]
  simp only [List.length_append, List.length_map, List.length_range, List.length_cons,
    List.length_nil, Nat.reduceAdd]
  exact hbusy i

/-- C12, evaluated at the failing input: the card answers CMD24 with 0x00, accepts the data
block with the data response 0x05 and then returns the busy value 0x00 on every poll. However
many iterations of the busy loop are followed, the lib `sd_write` has not returned: the
increment `timeout++` stands after `break` and is never executed, so `timeout` never reaches
65000 and `SD_ERROR_WRITE_TIMEOUT` is never returned. -/
theorem sd_write_lib_never_returns :
    ∀ fuel : Nat, sd_write wire fuel 0 (fun _ => 0) busy_card = none := by
  intro fuel
  apply sd_write_stuck
  · decide
  · decide
  · intro i
    have h1 : ¬ (523 + i < 6) := by omega
    have h2 : ¬ (523 + i = 522) := by omega
    simp [busy_card, Wire.miso, Wire.pos, h1, h2]

end Lib
/-! ## Chip-select discipline -/

theorem sd_deselect_last (w : Wire) : (sd_deselect wire w).cs.getLast? = some false := by
  simp [sd_deselect_wire, Wire.cs_after]

theorem after_last (w : Wire) (l : List Nat) : (w.after l [false]).cs.getLast? = some false := by
  simp [Wire.cs_after]

namespace Projects

open sd_init_state_t

theorem sd_init_go_idle_last (n : Nat) : ∀ w : Wire,
    0 < n ∨ w.cs.getLast? = some false →
    (sd_init_go_idle wire n w).2.cs.getLast? = some false := by
  induction n with
  | zero =>
    intro w h
    rcases h with h | h
    · omega
    · exact h
  | succ n ih =>
    intro w _
    simp only [sd_init_go_idle, sd_go_idle_state]
    split
    · exact sd_deselect_last _
    · exact ih _ (Or.inr (sd_deselect_last _))

theorem sd_send_if_cond_last (r7 : Nat → Nat) (w : Wire) :
    (sd_send_if_cond wire r7 w).2.2.cs.getLast? = some false := by
  simp only [sd_send_if_cond]
  split <;> exact sd_deselect_last _

theorem sd_init_if_cond_last (n : Nat) : ∀ (r7 : Nat → Nat) (w : Wire),
    0 < n ∨ w.cs.getLast? = some false →
    (sd_init_if_cond wire n r7 w).2.cs.getLast? = some false := by
  induction n with
  | zero =>
    intro r7 w h
    rcases h with h | h
    · omega
    · exact h
  | succ n ih =>
    intro r7 w _
    simp only [sd_init_if_cond]
    split
    · split <;> exact sd_send_if_cond_last _ _
    · split
      · exact sd_send_if_cond_last _ _
      · exact ih _ _ (Or.inr (sd_send_if_cond_last _ _))

theorem sd_read_ocr_last (ocr : Nat → Nat) (w : Wire) :
    (sd_read_ocr wire ocr w).2.2.cs.getLast? = some false := by
  simp only [sd_read_ocr]
  split <;> exact sd_deselect_last _

/-- Whenever a pass through the `switch` of `sd_init` returns, the last chip-select action
was `spi_cs_high`. -/
theorem sd_init_case_ret_last (v : sd_init_vars Wire) (code : Nat) (v1 : sd_init_vars Wire)
    (h : sd_init_case wire v = .ret code v1) : v1.bus.cs.getLast? = some false := by
  rcases v with ⟨st, c, t, w⟩
  cases st <;> simp only [sd_init_case] at h <;> (repeat' split at h) <;>
    first
    | cases h
      first
      | exact sd_deselect_last _
      | exact sd_init_go_idle_last GO_IDLE_STATE_RETRY w (Or.inl (by decide))
      | exact sd_init_if_cond_last SEND_IF_COND_RETRY _ w (Or.inl (by decide))
      | exact sd_read_ocr_last _ _
    | exact absurd h (by simp)

theorem sd_init_loop_last (v : sd_init_vars Wire) :
    (sd_init_loop wire v).2.bus.cs.getLast? = some false := by
  induction v using sd_init_loop.induct wire with
  | case1 v code v1 h =>
    rw [sd_init_loop]
    split
    · rename_i code2 v2 h2
      rw [h] at h2
      cases h2
      exact sd_init_case_ret_last v code v1 h
    · rename_i v2 h2
      rw [h] at h2
      cases h2
  | case2 v v1 h ih =>
    rw [sd_init_loop]
    split
    · rename_i code2 v2 h2
      rw [h] at h2
      cases h2
    · rename_i v2 h2
      rw [h] at h2
      cases h2
      exact ih

end Projects

namespace Projects

theorem sd_write_status_last (w : Wire) (h : (sd_write_status wire w).1 = true) :
    (sd_write_status wire w).2.cs.getLast? = some false := by
  rw [sd_write_status_wire] at h ⊢
  split at h
  · split at h
    · exact absurd h (by simp)
    · rename_i h1 h2
      rw [if_pos h1, if_neg h2]
      exact after_last _ _
  · exact absurd h (by simp)

/-- C13: for every received stream and every return path of `sd_init`, `sd_read` and
`sd_write` (projects), whatever their arguments, the initial card type and the value the
uninitialised `acmd41_retry` holds, the last chip-select action recorded when the function
returns is `spi_cs_high`. -/
theorem chip_select_deasserted_on_return (acmd41_retry : Int) (ty n : Nat)
    (buffer : Nat → Nat) (w : Wire) :
    (sd_init wire acmd41_retry ty w).2.2.cs.getLast? = some false ∧
    (sd_read wire ty n buffer w).2.2.cs.getLast? = some false ∧
    (sd_write wire ty n buffer w).2.cs.getLast? = some false := by
  refine ⟨sd_init_loop_last _, ?_, ?_⟩
  · obtain ⟨l, hl⟩ := sd_read_after ty n buffer w
    rw [hl]
    exact after_last _ _
  · by_cases hc : (sd_write_status wire w).1 = true
    · rw [sd_write_aborted ty n buffer w hc]
      exact sd_write_status_last w hc
    · obtain ⟨l, hl⟩ := sd_write_after ty n buffer w (by simpa using hc)
      rw [hl]
      exact after_last _ _

end Projects
/-! ## The adapter `diskio.c` -/

/-- Among the next `n` results either there is a first one that is `SD_SUCCESS`, or none is. -/
theorem first_success (f : Nat → Nat) (n : Nat) :
    (∃ k, k < n ∧ (∀ i < k, f i ≠ 0) ∧ f k = 0) ∨ (∀ i < n, f i ≠ 0) := by
  induction n with
  | zero => right; intro i hi; omega
  | succ n ih =>
    rcases ih with ⟨k, hk, hpre, hv⟩ | hall
    · left; exact ⟨k, by omega, hpre, hv⟩
    · by_cases h : f n = 0
      · left; exact ⟨n, by omega, hall, h⟩
      · right
        intro i hi
        by_cases hin : i = n
        · subst hin; exact h
        · exact hall i (by omega)

namespace Diskio

theorem rig_cs_low (r : Rig) :
    rig_spi.spi_cs_low r = { r with log := r.log ++ [Event.cs_low] } := rfl

theorem rig_cs_high (r : Rig) :
    rig_spi.spi_cs_high r = { r with log := r.log ++ [Event.cs_high] } := rfl

theorem rig_set_divisor (d : Nat) (r : Rig) :
    rig_spi.spi_set_divisor d r = { r with log := r.log ++ [Event.set_divisor d] } := rfl

theorem rig_set_mode (a b : Nat) (r : Rig) :
    rig_spi.spi_set_mode a b r = { r with log := r.log ++ [Event.set_mode a b] } := rfl

theorem rig_sd_init (r : Rig) :
    rig_sd.sd_init r
      = (r.result r.calls, { r with calls := r.calls + 1, log := r.log ++ [Event.sd_init] }) :=
  rfl

theorem rig_sd_read (block_num : Nat) (buffer : Nat → Nat) (r : Rig) :
    rig_sd.sd_read block_num buffer r
      = (r.result r.calls,
         if r.result r.calls = SD_SUCCESS then
           (fun k => if k < 512 then r.block block_num k else buffer k)
         else buffer,
         { r with calls := r.calls + 1, log := r.log ++ [Event.sd_read block_num] }) := rfl

theorem rig_sd_write (block_num : Nat) (buffer : Nat → Nat) (r : Rig) :
    rig_sd.sd_write block_num buffer r
      = (r.result r.calls,
         { r with calls := r.calls + 1,
                  log := r.log ++ [Event.sd_write block_num ((List.range 512).map buffer)] }) :=
  rfl

theorem disk_initialize_loop_failed (n : Nat) : ∀ r : Rig,
    (∀ i < n, r.result (r.calls + i) ≠ 0) →
    disk_initialize_loop rig_spi rig_sd n r
      = (false, { r with calls := r.calls + n, log := r.log ++ failed_attempts n }) := by
  induction n with
  | zero => intro r _; simp [disk_initialize_loop, failed_attempts]
  | succ n ih =>
    intro r h
    have h0 : r.result r.calls ≠ 0 := by simpa using h 0 (Nat.succ_pos _)
    simp only [disk_initialize_loop, spi_init, rig_cs_low, rig_cs_high, rig_set_divisor,
      rig_set_mode, rig_sd_init, SD_SUCCESS, h0, if_false]
    rw [ih]
    · simp [failed_attempts, attempt, Nat.add_assoc, Nat.add_comm 1 n]
    · intro i hi
      have := h (i + 1) (by omega)
      simpa [Nat.add_assoc, Nat.add_comm 1 i] using this

theorem disk_initialize_loop_ok (k : Nat) : ∀ (n : Nat) (r : Rig), k < n →
    (∀ i < k, r.result (r.calls + i) ≠ 0) → r.result (r.calls + k) = 0 →
    disk_initialize_loop rig_spi rig_sd n r
      = (true, { r with calls := r.calls + k + 1,
                        log := r.log ++ failed_attempts k ++ attempt
                          ++ [Event.set_divisor 0] }) := by
  induction k with
  | zero =>
    intro n r hn _ h0
    obtain ⟨n, rfl⟩ : ∃ m, n = m + 1 := ⟨n - 1, by omega⟩
    have h0' : r.result r.calls = 0 := by simpa using h0
    simp [disk_initialize_loop, spi_init, rig_cs_low, rig_cs_high, rig_set_divisor,
      rig_set_mode, rig_sd_init, SD_SUCCESS, h0', failed_attempts, attempt]
  | succ k ih =>
    intro n r hn hpre hk
    obtain ⟨n, rfl⟩ : ∃ m, n = m + 1 := ⟨n - 1, by omega⟩
    have h0 : r.result r.calls ≠ 0 := by simpa using hpre 0 (Nat.succ_pos _)
    simp only [disk_initialize_loop, spi_init, rig_cs_low, rig_cs_high, rig_set_divisor,
      rig_set_mode, rig_sd_init, SD_SUCCESS, h0, if_false]
    rw [ih n _ (by omega)]
    · simp [failed_attempts, attempt, Nat.add_assoc, Nat.add_comm 1 k]
    · intro i hi
      have := hpre (i + 1) (by omega)
      simpa [Nat.add_assoc, Nat.add_comm 1 i] using this
    · simpa [Nat.add_assoc, Nat.add_comm 1 k] using hk

/-- C19: on the test double, `disk_initialize(0)` calls `sd_init` at most 100 times: it stops
at the first call that returns `SD_SUCCESS` and returns 0 with the three flags set, and it
returns `STA_NOINIT` after exactly 100 failed calls, the flags unchanged. The log shows
`spi_cs_low` before each call and `spi_cs_high` after each failed one. For a drive number other
than 0 it returns `STA_NOINIT` after `spi_cs_high` alone, without calling `sd_init`. -/
theorem disk_initialize_attempts (pdrv : Nat) (st : Session) (r : Rig) :
    (pdrv ≠ 0 →
      disk_initialize rig_spi rig_sd pdrv st r
        = (STA_NOINIT, st, { r with log := r.log ++ [Event.cs_high] })) ∧
    (pdrv = 0 → ∀ k, k < 100 → (∀ i < k, r.result (r.calls + i) ≠ SD_SUCCESS) →
      r.result (r.calls + k) = SD_SUCCESS →
      disk_initialize rig_spi rig_sd pdrv st r
        = (0, { initialized := true, protected_ := false, nodisk := false },
           { r with calls := r.calls + k + 1,
                    log := r.log ++ [Event.cs_high] ++ failed_attempts k ++
                      [Event.set_divisor 100, Event.set_mode 0 0, Event.cs_high, Event.cs_low,
                        Event.sd_init, Event.set_divisor 0] })) ∧
    (pdrv = 0 → (∀ i < 100, r.result (r.calls + i) ≠ SD_SUCCESS) →
      disk_initialize rig_spi rig_sd pdrv st r
        = (STA_NOINIT, st,
           { r with calls := r.calls + 100,
                    log := r.log ++ [Event.cs_high] ++ failed_attempts 100 })) := by
  refine ⟨fun h => ?_, fun h k hk hpre hv => ?_, fun h hall => ?_⟩
  · simp [ disk_initialize, DEV_SDCARD, h, rig_cs_high]
  · subst h
    simp only [ disk_initialize, DEV_SDCARD, ne_eq, not_true_eq_false, if_false]
    rw [disk_initialize_loop_ok k 100 (rig_spi.spi_cs_high r) hk hpre hv]
    simp [rig_cs_high, attempt]
  · subst h
    simp only [ disk_initialize, DEV_SDCARD, ne_eq, not_true_eq_false, if_false]
    rw [disk_initialize_loop_failed 100 (rig_spi.spi_cs_high r) hall]
    simp [rig_cs_high]

end Diskio
namespace Diskio

open DRESULT

/-- Witness of C19: the first two calls of `sd_init` fail and the third succeeds. -/
theorem disk_initialize_attempts_witness :
    ( disk_initialize rig_spi rig_sd 0 Session.initial
      { result := fun k => if k = 2 then 0 else 1, block := fun _ _ => 0, calls := 0,
        log := [] }).1 = 0 ∧
    ( disk_initialize rig_spi rig_sd 0 Session.initial
      { result := fun k => if k = 2 then 0 else 1, block := fun _ _ => 0, calls := 0,
        log := [] }).2.2.calls = 3 := by
  have h := (disk_initialize_attempts 0 Session.initial
    { result := fun k => if k = 2 then 0 else 1, block := fun _ _ => 0, calls := 0,
      log := [] }).2.1 rfl 2 (by decide) (by decide) (by decide)
  rw [h]
  exact ⟨rfl, rfl⟩

/-- C18 as amended: whatever the hardware, the SD library and the prior adapter state,
`disk_initialize` either returns 0 with `initialized = true`, `nodisk = false` and
`protected = false`, or returns `STA_NOINIT` with the three flags as they were before the
call; so when `initialized` was false before the call, the returned status is 0 exactly when
`initialized` is true afterwards. -/
theorem disk_initialize_session {δ : Type} (B : Spi δ) (D : SdDriver δ) (pdrv : Nat)
    (st : Session) (s : δ) :
    ((( disk_initialize B D pdrv st s).1 = 0 ∧
        ( disk_initialize B D pdrv st s).2.1
          = { initialized := true, protected_ := false, nodisk := false }) ∨
      (( disk_initialize B D pdrv st s).1 = STA_NOINIT ∧
        ( disk_initialize B D pdrv st s).2.1 = st)) ∧
    (st.initialized = false →
      (( disk_initialize B D pdrv st s).1 = 0 ↔
        ( disk_initialize B D pdrv st s).2.1.initialized = true)) := by
  unfold disk_initialize
  have c : STA_NOINIT ≠ 0 := by decide
  by_cases hp : pdrv ≠ DEV_SDCARD
  · rw [if_pos hp]
    refine ⟨Or.inr ⟨rfl, rfl⟩, fun hs => ⟨fun h => absurd h c, fun h => ?_⟩⟩
    have h2 : st.initialized = true := h
    rw [hs] at h2
    exact absurd h2 (by decide)
  · rw [if_neg hp]
    by_cases hl : (disk_initialize_loop B D 100 (B.spi_cs_high s)).1 = true
    · rw [if_pos hl]
      exact ⟨Or.inl ⟨rfl, rfl⟩, fun _ => ⟨fun _ => rfl, fun _ => rfl⟩⟩
    · rw [if_neg hl]
      refine ⟨Or.inr ⟨rfl, rfl⟩, fun hs => ⟨fun h => absurd h c, fun h => ?_⟩⟩
      have h2 : st.initialized = true := h
      rw [hs] at h2
      exact absurd h2 (by decide)

/-- C18, the counterexample: from an already-initialized session, when all 100 calls of
`sd_init` fail, `disk_initialize(0)` returns `STA_NOINIT` and `initialized` is still true. -/
theorem disk_initialize_keeps_initialized :
    ( disk_initialize rig_spi rig_sd 0
      { initialized := true, protected_ := false, nodisk := false }
      { result := fun _ => 1, block := fun _ _ => 0, calls := 0, log := [] }).1 = STA_NOINIT ∧
    ( disk_initialize rig_spi rig_sd 0
      { initialized := true, protected_ := false, nodisk := false }
      { result := fun _ => 1, block := fun _ _ => 0, calls := 0, log := [] }).2.1.initialized
        = true ∧
    ( disk_initialize rig_spi rig_sd 0
      { initialized := true, protected_ := false, nodisk := false }
      { result := fun _ => 1, block := fun _ _ => 0, calls := 0, log := [] }).2.2.calls
        = 100 := by
  have h := disk_initialize_loop_failed 100
    (rig_spi.spi_cs_high { result := fun _ => 1, block := fun _ _ => 0, calls := 0, log := [] })
    (by intro i _; exact Nat.one_ne_zero)
  simp only [ disk_initialize, DEV_SDCARD, ne_eq, not_true_eq_false, if_false, h]
  exact ⟨rfl, rfl, rfl⟩

end Diskio
namespace Diskio

open DRESULT

theorem rig_sd_write_data (block_num off : Nat) (buff : Nat → Nat) (r : Rig) :
    rig_sd.sd_write block_num (at_offset buff (off * 512)) r
      = (r.result r.calls,
         { r with calls := r.calls + 1,
                  log := r.log ++ [Event.sd_write block_num (sector_data buff off)] }) := rfl

theorem store_at_same (buff : Nat → Nat) (off : Nat) :
    store_at buff off (at_offset buff off) = buff := by
  funext k
  simp only [store_at, at_offset]
  split
  · congr 1; omega
  · rfl

/-- The events of `n` successive `sd_write` calls from index `i` on: block `sector + j` with
the 512 bytes at offset `j * 512` of the buffer. -/
theorem disk_write_loop_ok (sector : Nat) (buff : Nat → Nat) (n : Nat) : ∀ (i : Nat) (r : Rig),
    (∀ j < n, r.result (r.calls + j) = 0) →
    disk_write_loop rig_sd n i sector buff r
      = (RES_OK, { r with
          calls := r.calls + n,
          log := r.log ++ (List.range n).map (fun j =>
            Event.sd_write ((sector + (i + j)) % 2 ^ 32)
              (sector_data buff (i + j))) }) := by
  induction n with
  | zero => intro i r _; simp [disk_write_loop]
  | succ n ih =>
    intro i r h
    have h0 : r.result r.calls = 0 := by simpa using h 0 (Nat.succ_pos _)
    simp only [disk_write_loop, rig_sd_write_data, SD_SUCCESS, h0, ne_eq, not_true_eq_false,
      if_false]
    rw [ih]
    · simp only [Prod.mk.injEq, true_and, Rig.mk.injEq, List.append_assoc, List.append_cancel_left_eq]
      refine ⟨by omega, ?_⟩
      rw [List.range_succ_eq_map n, List.map_cons, List.map_map]
      simp only [Nat.add_zero, List.singleton_append, List.cons.injEq, true_and]
      apply List.map_congr_left
      intro j _
      simp only [Function.comp, Nat.succ_eq_add_one, Nat.add_assoc, Nat.add_comm 1 j]
    · intro j hj
      have := h (j + 1) (by omega)
      simpa [Nat.add_assoc, Nat.add_comm 1 j] using this

theorem disk_write_loop_fail (sector : Nat) (buff : Nat → Nat) (k : Nat) :
    ∀ (n i : Nat) (r : Rig), k < n →
    (∀ j < k, r.result (r.calls + j) = 0) → r.result (r.calls + k) ≠ 0 →
    disk_write_loop rig_sd n i sector buff r
      = (RES_ERROR, { r with
          calls := r.calls + k + 1,
          log := r.log ++ (List.range (k + 1)).map (fun j =>
            Event.sd_write ((sector + (i + j)) % 2 ^ 32)
              (sector_data buff (i + j))) }) := by
  induction k with
  | zero =>
    intro n i r hn _ hv
    obtain ⟨n, rfl⟩ : ∃ m, n = m + 1 := ⟨n - 1, by omega⟩
    have h0 : r.result r.calls ≠ 0 := by simpa using hv
    simp [disk_write_loop, rig_sd_write_data, SD_SUCCESS, h0, List.range_succ]
  | succ k ih =>
    intro n i r hn hpre hv
    obtain ⟨n, rfl⟩ : ∃ m, n = m + 1 := ⟨n - 1, by omega⟩
    have h0 : r.result r.calls = 0 := by simpa using hpre 0 (Nat.succ_pos _)
    simp only [disk_write_loop, rig_sd_write_data, SD_SUCCESS, h0, ne_eq, not_true_eq_false,
      if_false]
    rw [ih n _ _ (by omega)]
    · simp only [Prod.mk.injEq, true_and, Rig.mk.injEq, List.append_assoc, List.append_cancel_left_eq]
      refine ⟨by omega, ?_⟩
      rw [List.range_succ_eq_map (k + 1), List.map_cons, List.map_map]
      simp only [Nat.add_zero, List.singleton_append, List.cons.injEq, true_and]
      apply List.map_congr_left
      intro j _
      simp only [Function.comp, Nat.succ_eq_add_one, Nat.add_assoc, Nat.add_comm 1 j]
    · intro j hj
      have := hpre (j + 1) (by omega)
      simpa [Nat.add_assoc, Nat.add_comm 1 j] using this
    · simpa [Nat.add_assoc, Nat.add_comm 1 k] using hv

end Diskio
namespace Diskio

open DRESULT

theorem filled_zero (block : Nat → Nat → Nat) (sector : Nat) (buff : Nat → Nat) (i : Nat) :
    filled block sector buff i 0 = buff := by
  funext k
  have h : ¬ (i * 512 ≤ k ∧ k < (i + 0) * 512) := by omega
  simp only [filled, h, if_false]

theorem filled_step (block : Nat → Nat → Nat) (sector : Nat) (buff : Nat → Nat) (i n : Nat) :
    filled block sector
      (store_at buff (i * 512)
        (fun k => if k < 512 then block ((sector + i) % 2 ^ 32) k
          else at_offset buff (i * 512) k)) (i + 1) n
      = filled block sector buff i (n + 1) := by
  funext k
  simp only [filled, store_at, at_offset]
  by_cases h1 : (i + 1) * 512 ≤ k ∧ k < (i + 1 + n) * 512
  · have h2 : i * 512 ≤ k ∧ k < (i + (n + 1)) * 512 := by omega
    rw [if_pos h1, if_pos h2]
  · rw [if_neg h1]
    by_cases h3 : i * 512 ≤ k
    · rw [if_pos h3]
      by_cases h4 : k - i * 512 < 512
      · have h2 : i * 512 ≤ k ∧ k < (i + (n + 1)) * 512 := by omega
        have h5 : k / 512 = i := by omega
        have h6 : k - i * 512 = k % 512 := by omega
        rw [if_pos h4, if_pos h2, h5, h6]
      · have h2 : ¬ (i * 512 ≤ k ∧ k < (i + (n + 1)) * 512) := by omega
        have h5 : i * 512 + (k - i * 512) = k := by omega
        rw [if_neg h4, if_neg h2, h5]
    · have h2 : ¬ (i * 512 ≤ k ∧ k < (i + (n + 1)) * 512) := by omega
      rw [if_neg h3, if_neg h2]

theorem disk_read_loop_ok (sector : Nat) (n : Nat) : ∀ (i : Nat) (buff : Nat → Nat) (r : Rig),
    (∀ j < n, r.result (r.calls + j) = 0) →
    disk_read_loop rig_sd n i sector buff r
      = (RES_OK, filled r.block sector buff i n,
         { r with
           calls := r.calls + n,
           log := r.log ++ (List.range n).map (fun j =>
             Event.sd_read ((sector + (i + j)) % 2 ^ 32)) }) := by
  induction n with
  | zero => intro i buff r _; simp [disk_read_loop, filled_zero]
  | succ n ih =>
    intro i buff r h
    have h0 : r.result r.calls = 0 := by simpa using h 0 (Nat.succ_pos _)
    simp only [disk_read_loop, rig_sd_read, SD_SUCCESS, h0, ne_eq, not_true_eq_false, if_false,
      if_true]
    rw [ih]
    · simp only [filled_step, Prod.mk.injEq, true_and, Rig.mk.injEq, List.append_assoc,
        List.append_cancel_left_eq]
      refine ⟨by omega, ?_⟩
      rw [List.range_succ_eq_map n, List.map_cons, List.map_map]
      simp only [Nat.add_zero, List.singleton_append, List.cons.injEq, true_and]
      apply List.map_congr_left
      intro j _
      simp only [Function.comp, Nat.succ_eq_add_one, Nat.add_assoc, Nat.add_comm 1 j]
    · intro j hj
      have := h (j + 1) (by omega)
      simpa [Nat.add_assoc, Nat.add_comm 1 j] using this

theorem disk_read_loop_fail (sector : Nat) (k : Nat) :
    ∀ (n i : Nat) (buff : Nat → Nat) (r : Rig), k < n →
    (∀ j < k, r.result (r.calls + j) = 0) → r.result (r.calls + k) ≠ 0 →
    disk_read_loop rig_sd n i sector buff r
      = (RES_ERROR, filled r.block sector buff i k,
         { r with
           calls := r.calls + k + 1,
           log := r.log ++ (List.range (k + 1)).map (fun j =>
             Event.sd_read ((sector + (i + j)) % 2 ^ 32)) }) := by
  induction k with
  | zero =>
    intro n i buff r hn _ hv
    obtain ⟨n, rfl⟩ : ∃ m, n = m + 1 := ⟨n - 1, by omega⟩
    have h0 : r.result r.calls ≠ 0 := by simpa using hv
    simp [disk_read_loop, rig_sd_read, SD_SUCCESS, h0, List.range_succ, store_at_same,
      filled_zero]
  | succ k ih =>
    intro n i buff r hn hpre hv
    obtain ⟨n, rfl⟩ : ∃ m, n = m + 1 := ⟨n - 1, by omega⟩
    have h0 : r.result r.calls = 0 := by simpa using hpre 0 (Nat.succ_pos _)
    simp only [disk_read_loop, rig_sd_read, SD_SUCCESS, h0, ne_eq, not_true_eq_false, if_false,
      if_true]
    rw [ih n _ _ _ (by omega)]
    · simp only [filled_step, Prod.mk.injEq, true_and, Rig.mk.injEq, List.append_assoc,
        List.append_cancel_left_eq]
      refine ⟨by omega, ?_⟩
      rw [List.range_succ_eq_map (k + 1), List.map_cons, List.map_map]
      simp only [Nat.add_zero, List.singleton_append, List.cons.injEq, true_and]
      apply List.map_congr_left
      intro j _
      simp only [Function.comp, Nat.succ_eq_add_one, Nat.add_assoc, Nat.add_comm 1 j]
    · intro j hj
      have := hpre (j + 1) (by omega)
      simpa [Nat.add_assoc, Nat.add_comm 1 j] using this
    · simpa [Nat.add_assoc, Nat.add_comm 1 k] using hv

end Diskio
namespace Diskio

open DRESULT

theorem filled_at (block : Nat → Nat → Nat) (sector : Nat) (buff : Nat → Nat) (n i m : Nat)
    (hi : i < n) (hm : m < 512) :
    filled block sector buff 0 n (i * 512 + m) = block ((sector + i) % 2 ^ 32) m := by
  have h1 : 0 * 512 ≤ i * 512 + m ∧ i * 512 + m < (0 + n) * 512 := by
    constructor
    · omega
    · have : (i + 1) * 512 ≤ n * 512 := Nat.mul_le_mul_right 512 hi
      omega
  have h2 : (i * 512 + m) / 512 = i := by omega
  have h3 : (i * 512 + m) % 512 = m := by omega
  simp only [filled, h1, and_self, if_true, h2, h3]

/-- C20: `disk_read` and `disk_write` return `RES_PARERR` for a drive other than 0,
`RES_NOTRDY` when the session is not initialized and `RES_PARERR` when `count` is 0, all
without a call to the SD library. Otherwise, on the test double, they call `sd_read` /
`sd_write` for the blocks `sector`, `sector + 1`, ... in order (as `unsigned long`), block `j`
going with the 512 bytes at offset `j * 512` of the buffer; they stop at the first call that
fails and return `RES_ERROR` without a later call; and they return `RES_OK` iff all `count`
calls succeed. -/
theorem disk_read_write_blocks (pdrv sector count : Nat) (buff : Nat → Nat) (st : Session)
    (r : Rig) :
    (pdrv ≠ 0 →
      disk_read rig_sd pdrv buff sector count st r = (RES_PARERR, buff, r) ∧
      disk_write rig_sd pdrv buff sector count st r = (RES_PARERR, r)) ∧
    (pdrv = 0 → st.initialized = false →
      disk_read rig_sd pdrv buff sector count st r = (RES_NOTRDY, buff, r) ∧
      disk_write rig_sd pdrv buff sector count st r = (RES_NOTRDY, r)) ∧
    (pdrv = 0 → st.initialized = true → count = 0 →
      disk_read rig_sd pdrv buff sector count st r = (RES_PARERR, buff, r) ∧
      disk_write rig_sd pdrv buff sector count st r = (RES_PARERR, r)) ∧
    (pdrv = 0 → st.initialized = true → count ≠ 0 →
      (∀ k, k < count → (∀ j < k, r.result (r.calls + j) = SD_SUCCESS) →
        r.result (r.calls + k) ≠ SD_SUCCESS →
        disk_read rig_sd pdrv buff sector count st r
          = (RES_ERROR, filled r.block sector buff 0 k,
             { r with calls := r.calls + k + 1,
                      log := r.log ++ (List.range (k + 1)).map (fun j =>
                        Event.sd_read ((sector + j) % 2 ^ 32)) }) ∧
        disk_write rig_sd pdrv buff sector count st r
          = (RES_ERROR,
             { r with calls := r.calls + k + 1,
                      log := r.log ++ (List.range (k + 1)).map (fun j =>
                        Event.sd_write ((sector + j) % 2 ^ 32) (sector_data buff j)) })) ∧
      ((∀ j < count, r.result (r.calls + j) = SD_SUCCESS) →
        disk_read rig_sd pdrv buff sector count st r
          = (RES_OK, filled r.block sector buff 0 count,
             { r with calls := r.calls + count,
                      log := r.log ++ (List.range count).map (fun j =>
                        Event.sd_read ((sector + j) % 2 ^ 32)) }) ∧
        disk_write rig_sd pdrv buff sector count st r
          = (RES_OK,
             { r with calls := r.calls + count,
                      log := r.log ++ (List.range count).map (fun j =>
                        Event.sd_write ((sector + j) % 2 ^ 32) (sector_data buff j)) })) ∧
      ((disk_read rig_sd pdrv buff sector count st r).1 = RES_OK ↔
        ∀ j < count, r.result (r.calls + j) = SD_SUCCESS) ∧
      ((disk_write rig_sd pdrv buff sector count st r).1 = RES_OK ↔
        ∀ j < count, r.result (r.calls + j) = SD_SUCCESS)) ∧
    (∀ n i m, i < n → m < 512 →
      filled r.block sector buff 0 n (i * 512 + m) = r.block ((sector + i) % 2 ^ 32) m) := by
  refine ⟨fun h => ?_, fun h hs => ?_, fun h hs hc => ?_, fun h hs hc => ?_,
    fun n i m hi hm => filled_at _ _ _ n i m hi hm⟩
  · simp [disk_read, disk_write, DEV_SDCARD, h]
  · subst h; simp [disk_read, disk_write, DEV_SDCARD, hs]
  · subst h; simp [disk_read, disk_write, DEV_SDCARD, hs, hc]
  · subst h
    have hr : disk_read rig_sd 0 buff sector count st r
        = disk_read_loop rig_sd count 0 sector buff r := by
      simp [disk_read, DEV_SDCARD, hs, hc]
    have hw : disk_write rig_sd 0 buff sector count st r
        = disk_write_loop rig_sd count 0 sector buff r := by
      simp [disk_write, DEV_SDCARD, hs, hc]
    rw [hr, hw]
    have hfail : ∀ k, k < count → (∀ j < k, r.result (r.calls + j) = SD_SUCCESS) →
        r.result (r.calls + k) ≠ SD_SUCCESS →
        disk_read_loop rig_sd count 0 sector buff r
          = (RES_ERROR, filled r.block sector buff 0 k,
             { r with calls := r.calls + k + 1,
                      log := r.log ++ (List.range (k + 1)).map (fun j =>
                        Event.sd_read ((sector + j) % 2 ^ 32)) }) ∧
        disk_write_loop rig_sd count 0 sector buff r
          = (RES_ERROR,
             { r with calls := r.calls + k + 1,
                      log := r.log ++ (List.range (k + 1)).map (fun j =>
                        Event.sd_write ((sector + j) % 2 ^ 32) (sector_data buff j)) }) := by
      intro k hk hpre hv
      rw [disk_read_loop_fail sector k count 0 buff r hk hpre hv,
        disk_write_loop_fail sector buff k count 0 r hk hpre hv]
      simp only [Nat.zero_add, and_self]
    have hok : (∀ j < count, r.result (r.calls + j) = SD_SUCCESS) →
        disk_read_loop rig_sd count 0 sector buff r
          = (RES_OK, filled r.block sector buff 0 count,
             { r with calls := r.calls + count,
                      log := r.log ++ (List.range count).map (fun j =>
                        Event.sd_read ((sector + j) % 2 ^ 32)) }) ∧
        disk_write_loop rig_sd count 0 sector buff r
          = (RES_OK,
             { r with calls := r.calls + count,
                      log := r.log ++ (List.range count).map (fun j =>
                        Event.sd_write ((sector + j) % 2 ^ 32) (sector_data buff j)) }) := by
      intro hall
      rw [disk_read_loop_ok sector count 0 buff r hall,
        disk_write_loop_ok sector buff count 0 r hall]
      simp only [Nat.zero_add, and_self]
    have ce : RES_ERROR ≠ RES_OK := by decide
    refine ⟨hfail, hok, ?_, ?_⟩
    · rcases first_nonzero (fun j => r.result (r.calls + j)) count with ⟨k, hk, hpre, hv⟩ | hall
      · rw [(hfail k hk hpre hv).1]
        exact ⟨fun h => absurd h ce, fun h => absurd (h k hk) hv⟩
      · rw [(hok hall).1]
        exact ⟨fun _ => hall, fun _ => rfl⟩
    · rcases first_nonzero (fun j => r.result (r.calls + j)) count with ⟨k, hk, hpre, hv⟩ | hall
      · rw [(hfail k hk hpre hv).2]
        exact ⟨fun h => absurd h ce, fun h => absurd (h k hk) hv⟩
      · rw [(hok hall).2]
        exact ⟨fun _ => hall, fun _ => rfl⟩

end Diskio
namespace Diskio

open DRESULT

theorem at_offset_zero (buff : Nat → Nat) : at_offset buff (0 * 512) = buff := by
  funext k
  simp [at_offset]

theorem store_at_zero (buff region : Nat → Nat) : store_at buff (0 * 512) region = region := by
  funext k
  simp [store_at]

/-- C17: on an initialized adapter over the projects driver, when CMD17 is answered 0x00 and
the start token does not arrive within the 5000 polls (the line stays at 0xFF), `sd_read`
returns `ER_READ_TIMEOUT` and `disk_read` returns `RES_ERROR`; the buffer and `sdcard_type` are
as before, and `disk_read` has no access to the flags of the session. So `disk_status(0)` still
returns 0 and a later `disk_read` with a non-zero count still goes on to its block
transfers. -/
theorem disk_read_timeout_keeps_session (acmd41_retry : Int) (st : Session)
    (d : Projects.Driver Wire) (buff : Nat → Nat) (sector count : Nat)
    (hi : st.initialized = true) (hn : st.nodisk = false) (hp : st.protected_ = false)
    (hc : count ≠ 0)
    (hr1 : (Projects.sd_read_command wire d.sdcard_type (sector % 2 ^ 32) d.bus).1 = 0)
    (hidle : ∀ i < 5000,
      (Projects.sd_read_command wire d.sdcard_type (sector % 2 ^ 32) d.bus).2.miso
        ((Projects.sd_read_command wire d.sdcard_type (sector % 2 ^ 32) d.bus).2.pos + i)
        = 0xFF) :
    (Projects.sd_read wire d.sdcard_type (sector % 2 ^ 32) buff d.bus).1 = ER_READ_TIMEOUT ∧
    (disk_read (projects_driver wire acmd41_retry) 0 buff sector count st d).1 = RES_ERROR ∧
    (disk_read (projects_driver wire acmd41_retry) 0 buff sector count st d).2.1 = buff ∧
    (disk_read (projects_driver wire acmd41_retry) 0 buff sector count st d).2.2.sdcard_type
      = d.sdcard_type ∧
    disk_status 0 st = 0 ∧
    (∀ (buff2 : Nat → Nat) (sector2 count2 : Nat), count2 ≠ 0 →
      disk_read (projects_driver wire acmd41_retry) 0 buff2 sector2 count2 st
          (disk_read (projects_driver wire acmd41_retry) 0 buff sector count st d).2.2
        = disk_read_loop (projects_driver wire acmd41_retry) count2 0 sector2 buff2
          (disk_read (projects_driver wire acmd41_retry) 0 buff sector count st d).2.2) := by
  have hread : Projects.sd_read wire d.sdcard_type (sector % 2 ^ 32) buff d.bus
      = (ER_READ_TIMEOUT, buff,
         (Projects.sd_read_command wire d.sdcard_type (sector % 2 ^ 32) d.bus).2.after
           (List.replicate 5000 0xFF ++ [0xFF, 0xFF]) [false]) := by
    rw [Projects.sd_read_unfold, if_neg (not_not.2 hr1),
      Projects.sd_read_token_timeout buff 5000 _ hidle]
  obtain ⟨count, rfl⟩ : ∃ m, count = m + 1 := ⟨count - 1, by omega⟩
  have hdisk : disk_read (projects_driver wire acmd41_retry) 0 buff sector (count + 1) st d
      = (RES_ERROR, buff,
         { d with bus := (Projects.sd_read_command wire d.sdcard_type (sector % 2 ^ 32)
             d.bus).2.after (List.replicate 5000 0xFF ++ [0xFF, 0xFF]) [false] }) := by
    simp only [disk_read, DEV_SDCARD, ne_eq, not_true_eq_false, if_false, hi, Nat.add_one_ne_zero,
      disk_read_loop, projects_driver, Nat.add_zero, at_offset_zero, store_at_zero, hread,
      SD_SUCCESS, ER_READ_TIMEOUT, Nat.reduceEqDiff, not_false_eq_true, if_true]
  refine ⟨by rw [hread], by rw [hdisk], by rw [hdisk], by rw [hdisk], ?_, ?_⟩
  · simp [disk_status, DEV_SDCARD, hn, hp]
  · intro buff2 sector2 count2 hc2
    simp only [disk_read, DEV_SDCARD, ne_eq, not_true_eq_false, if_false, hi, hc2]

end Diskio

theorem replay_idle (l : List Nat) (k : Nat) (h : l.length ≤ k) :
    (Wire.replay l).miso k = 0xFF := by
  simp [Wire.replay, Wire.miso, List.getD_eq_getElem?_getD, List.getElem?_eq_none h]

namespace Diskio

open DRESULT

/-- Witness of C17: the card answers CMD17 with 0x00 in the first response slot and then
leaves the line idle. -/
theorem disk_read_timeout_keeps_session_witness :
    (Projects.sd_read_command wire SDCARD_SDHC (0 % 2 ^ 32)
      (Wire.replay (List.replicate 8 0xFF ++ [0x00]))).1 = 0 ∧
    (disk_read (projects_driver wire 0) 0 (fun _ => 0) 0 1
      { initialized := true, protected_ := false, nodisk := false }
      { sdcard_type := SDCARD_SDHC, bus := Wire.replay (List.replicate 8 0xFF ++ [0x00]) }).1
      = RES_ERROR ∧
    disk_status 0 { initialized := true, protected_ := false, nodisk := false } = 0 := by
  have hcmd := Projects.sd_read_command_hit SDCARD_SDHC (0 % 2 ^ 32)
    (Wire.replay (List.replicate 8 0xFF ++ [0x00])) 0 (by decide) (by decide) (by decide)
  have hr1 : (Projects.sd_read_command wire SDCARD_SDHC (0 % 2 ^ 32)
      (Wire.replay (List.replicate 8 0xFF ++ [0x00]))).1 = 0 := by
    rw [hcmd]; decide
  have hidle : ∀ i < 5000,
      (Projects.sd_read_command wire SDCARD_SDHC (0 % 2 ^ 32)
        (Wire.replay (List.replicate 8 0xFF ++ [0x00]))).2.miso
        ((Projects.sd_read_command wire SDCARD_SDHC (0 % 2 ^ 32)
          (Wire.replay (List.replicate 8 0xFF ++ [0x00]))).2.pos + i) = 0xFF := by
    intro i _
    rw [hcmd]
    simp only [Wire.miso_after, Wire.pos_after]
    apply replay_idle
    simp only [Wire.replay, Wire.pos, List.length_append, List.length_replicate,
      List.length_cons, List.length_nil, Projects.sd_cmd_frame_length]
    omega
  have h := disk_read_timeout_keeps_session 0
    { initialized := true, protected_ := false, nodisk := false }
    { sdcard_type := SDCARD_SDHC, bus := Wire.replay (List.replicate 8 0xFF ++ [0x00]) }
    (fun _ => 0) 0 1 rfl rfl rfl (by decide) hr1 hidle
  exact ⟨hr1, h.2.1, h.2.2.2.2.1⟩

/-- Witness of C20: three blocks are asked for and the second call fails. -/
theorem disk_read_write_blocks_witness :
    (disk_read rig_sd 0 (fun _ => 0) 7 3
      { initialized := true, protected_ := false, nodisk := false }
      { result := fun k => if k = 1 then 1 else 0, block := fun n k => n + k, calls := 0,
        log := [] }).1 = RES_ERROR ∧
    (disk_read rig_sd 0 (fun _ => 0) 7 3
      { initialized := true, protected_ := false, nodisk := false }
      { result := fun k => if k = 1 then 1 else 0, block := fun n k => n + k, calls := 0,
        log := [] }).2.2.log = [Event.sd_read 7, Event.sd_read 8] := by
  have h := ((disk_read_write_blocks 0 7 3 (fun _ => 0)
    { initialized := true, protected_ := false, nodisk := false }
    { result := fun k => if k = 1 then 1 else 0, block := fun n k => n + k, calls := 0,
      log := [] }).2.2.2.1 rfl rfl (by decide)).1 1 (by decide) (by decide) (by decide)
  rw [h.1]
  exact ⟨rfl, by decide⟩

end Diskio
/-! ## `sd_init` (projects) on the recording bus -/

namespace Projects

open sd_init_state_t

theorem sd_exchange_length (cmd arg0 arg1 arg2 arg3 extra : Nat) :
    (sd_exchange cmd arg0 arg1 arg2 arg3 extra).length = 11 + extra := by
  simp only [sd_exchange, List.length_append, sd_cmd_frame_length, List.length_replicate,
    List.length_cons, List.length_nil]
  omega

theorem sd_clock_wire (n : Nat) : ∀ w : Wire,
    sd_clock wire n w = w.after (List.replicate n 0xFF) [] := by
  induction n with
  | zero => intro w; simp [sd_clock, Wire.after_nil]
  | succ n ih =>
    intro w
    simp only [sd_clock, wire_transfer, ih, Wire.after_after]
    simp [List.replicate_succ]

theorem sd_read_bytes_wire (n : Nat) : ∀ (i : Nat) (data : Nat → Nat) (w : Wire),
    sd_read_bytes wire n i data w
      = (fun k => if i ≤ k ∧ k < i + n then w.miso (w.pos + (k - i)) else data k,
         w.after (List.replicate n 0xFF) []) := by
  induction n with
  | zero =>
    intro i data w
    refine Prod.ext (funext fun k => ?_) ?_
    · have h : ¬ (i ≤ k ∧ k < i + 0) := by omega
      simp only [sd_read_bytes, h, if_false]
    · simp [sd_read_bytes, Wire.after_nil]
  | succ n ih =>
    intro i data w
    simp only [sd_read_bytes, wire_transfer, ih]
    refine Prod.ext ?_ ?_
    · funext k
      simp only [Wire.pos_after, Wire.miso_after, List.length_singleton]
      by_cases h1 : k = i
      · subst h1
        simp
      · simp only [Function.update_noteq h1]
        by_cases h2 : i + 1 ≤ k ∧ k < i + 1 + n
        · have h3 : i ≤ k ∧ k < i + (n + 1) := by omega
          have h4 : w.pos + 1 + (k - (i + 1)) = w.pos + (k - i) := by omega
          simp only [h2, h3, and_self, if_true, h4]
        · have h3 : ¬ (i ≤ k ∧ k < i + (n + 1)) := by omega
          simp only [h2, h3, if_false]
    · simp [Wire.after_after, List.replicate_succ]

/-- A command sent after `sd_select` and answered in the first response slot. -/
theorem sd_cmd_selected (cmd arg0 arg1 arg2 arg3 : Nat) (w : Wire)
    (h : w.miso (w.pos + 8) < 128) :
    sd_cmd wire cmd arg0 arg1 arg2 arg3 (sd_select wire w)
      = (w.miso (w.pos + 8),
         w.after ([0xFF, 0xFF] ++ sd_cmd_frame cmd arg0 arg1 arg2 arg3 ++ [0xFF]) [true]) := by
  have e : (w.after [0xFF, 0xFF] [true]).pos + 6 + 0 = w.pos + 8 := by
    simp only [Wire.pos_after, List.length_cons, List.length_nil]
  rw [sd_select_wire, sd_cmd_hit cmd arg0 arg1 arg2 arg3 _ 0 (by decide)
    (by intro i hi; omega) (by rw [Wire.miso_after, e]; exact h)]
  rw [Wire.miso_after, e, Wire.after_after]
  simp only [List.append_assoc, List.replicate, List.nil_append, List.append_nil]

/-- The end of a helper of `sd_init` that only sends a command, answered in the first
response slot. -/
theorem sd_plain_first (cmd arg0 arg1 arg2 arg3 : Nat) (w : Wire) :
    sd_deselect wire
        (w.after ([0xFF, 0xFF] ++ sd_cmd_frame cmd arg0 arg1 arg2 arg3 ++ [0xFF]) [true])
      = w.after (sd_exchange cmd arg0 arg1 arg2 arg3 0) [true, false] := by
  rw [sd_deselect_wire, Wire.after_after]
  simp only [sd_exchange, List.append_assoc, List.replicate, List.singleton_append,
    List.cons_append, List.nil_append]

theorem sd_go_idle_state_first (w : Wire) (h : w.miso (w.pos + 8) < 128) :
    sd_go_idle_state wire w
      = (w.miso (w.pos + 8), w.after (sd_exchange GO_IDLE_STATE 0 0 0 0 0) [true, false]) := by
  simp only [sd_go_idle_state, sd_cmd_selected _ _ _ _ _ w h, sd_plain_first]

theorem sd_send_app_first (w : Wire) (h : w.miso (w.pos + 8) < 128) :
    sd_send_app wire w
      = (w.miso (w.pos + 8), w.after (sd_exchange APP_CMD 0 0 0 0 0) [true, false]) := by
  simp only [sd_send_app, sd_cmd_selected _ _ _ _ _ w h, sd_plain_first]

theorem sd_send_op_cond_first (ty : Nat) (w : Wire) (h : w.miso (w.pos + 8) < 128) :
    sd_send_op_cond wire ty w
      = (w.miso (w.pos + 8),
         w.after (sd_exchange SD_SEND_OP_COND (if ty ≠ SDCARD_V1 then 0x40 else 0x00) 0 0 0 0)
           [true, false]) := by
  simp only [sd_send_op_cond, sd_cmd_selected _ _ _ _ _ w h, sd_plain_first]

theorem sd_set_blocklen_first (w : Wire) (h : w.miso (w.pos + 8) < 128) :
    sd_set_blocklen wire w
      = (w.miso (w.pos + 8), w.after (sd_exchange SET_BLOCKLEN 0 0 0x02 0 0) [true, false]) := by
  simp only [sd_set_blocklen, sd_cmd_selected _ _ _ _ _ w h, sd_plain_first]

/-- A helper of `sd_init` that reads four bytes after the wanted R1. -/
theorem sd_data_first (cmd arg0 arg1 arg2 arg3 : Nat) (data : Nat → Nat) (w : Wire) :
    sd_deselect wire (sd_read_bytes wire 4 0 data
        (w.after ([0xFF, 0xFF] ++ sd_cmd_frame cmd arg0 arg1 arg2 arg3 ++ [0xFF]) [true])).2
      = w.after (sd_exchange cmd arg0 arg1 arg2 arg3 4) [true, false] ∧
    (sd_read_bytes wire 4 0 data
        (w.after ([0xFF, 0xFF] ++ sd_cmd_frame cmd arg0 arg1 arg2 arg3 ++ [0xFF]) [true])).1
      = fun k => if k < 4 then w.miso (w.pos + 9 + k) else data k := by
  rw [sd_read_bytes_wire]
  constructor
  · rw [sd_deselect_wire, Wire.after_after, Wire.after_after]
    simp only [sd_exchange, List.append_assoc, List.replicate, List.singleton_append,
      List.cons_append, List.nil_append]
  · funext k
    simp only [Wire.miso_after, Wire.pos_after, List.length_append, sd_cmd_frame_length,
      List.length_cons, List.length_nil, Nat.zero_le, true_and, Nat.zero_add, Nat.sub_zero]

theorem sd_send_if_cond_accepted (r7 : Nat → Nat) (w : Wire) (h : w.miso (w.pos + 8) = 0x01) :
    sd_send_if_cond wire r7 w
      = (0x01, (fun k => if k < 4 then w.miso (w.pos + 9 + k) else r7 k),
         w.after (sd_exchange SEND_IF_COND 0 0 0x01 0xAA 4) [true, false]) := by
  have hlt : w.miso (w.pos + 8) < 128 := by rw [h]; decide
  have hd := sd_data_first SEND_IF_COND 0 0 0x01 0xAA r7 w
  simp only [sd_send_if_cond, sd_cmd_selected _ _ _ _ _ w hlt, h, R1_IDLE_STATE, if_true, hd.1,
    hd.2]

theorem sd_send_if_cond_other (r7 : Nat → Nat) (w : Wire) (hlt : w.miso (w.pos + 8) < 128)
    (h : w.miso (w.pos + 8) ≠ 0x01) :
    sd_send_if_cond wire r7 w
      = (w.miso (w.pos + 8), r7,
         w.after (sd_exchange SEND_IF_COND 0 0 0x01 0xAA 0) [true, false]) := by
  have hp := sd_plain_first SEND_IF_COND 0 0 0x01 0xAA w
  have hs := sd_cmd_selected SEND_IF_COND 0 0 0x01 0xAA w hlt
  simp only [sd_send_if_cond, R1_IDLE_STATE]
  rw [if_neg (by rw [hs]; exact h), hs, hp]

theorem sd_read_ocr_ready (ocr : Nat → Nat) (w : Wire) (h : w.miso (w.pos + 8) = 0x00) :
    sd_read_ocr wire ocr w
      = (0x00, (fun k => if k < 4 then w.miso (w.pos + 9 + k) else ocr k),
         w.after (sd_exchange READ_OCR 0 0 0 0 4) [true, false]) := by
  have hlt : w.miso (w.pos + 8) < 128 := by rw [h]; decide
  have hd := sd_data_first READ_OCR 0 0 0 0 ocr w
  simp only [sd_read_ocr, sd_cmd_selected _ _ _ _ _ w hlt, h, R1_READY, if_true, hd.1, hd.2]

end Projects
namespace Projects

open sd_init_state_t

theorem sd_init_loop_next {σ : Type} (B : Spi σ) (v v1 : sd_init_vars σ)
    (h : sd_init_case B v = .next v1) : sd_init_loop B v = sd_init_loop B v1 := by
  rw [sd_init_loop]
  split
  · rename_i code2 v2 h2
    rw [h] at h2
    cases h2
  · rename_i v2 h2
    rw [h] at h2
    cases h2
    rfl

theorem sd_init_loop_ret {σ : Type} (B : Spi σ) (v v1 : sd_init_vars σ) (code : Nat)
    (h : sd_init_case B v = .ret code v1) : sd_init_loop B v = (code, v1) := by
  rw [sd_init_loop]
  split
  · rename_i code2 v2 h2
    rw [h] at h2
    cases h2
    rfl
  · rename_i v2 h2
    rw [h] at h2
    cases h2

theorem sd_power_up_wire (w : Wire) :
    sd_power_up wire w = w.after (List.replicate 14 0xFF) [false, false, false] := by
  simp only [sd_power_up, spi_init, spi_set_frequency_khz, wire_set_divisor, wire_set_mode,
    wire_cs_high, sd_deselect_wire, wire_delay, sd_clock_wire, Wire.after_after, DUMMY_CLOCKS]
  rfl

theorem case_power_up (c : Int) (t : Nat) (w : Wire) :
    sd_init_case wire { state := ST_POWER_UP, acmd41_retry := c, sdcard_type := t, bus := w }
      = .next { state := ST_GO_IDLE_STATE, acmd41_retry := c, sdcard_type := t,
                bus := w.after (List.replicate 14 0xFF) [false, false, false] } := by
  simp only [sd_init_case, sd_power_up_wire, wire_delay]

theorem case_go_idle_first (c : Int) (t : Nat) (w : Wire) (h : w.miso (w.pos + 8) = 0x01) :
    sd_init_case wire
        { state := ST_GO_IDLE_STATE, acmd41_retry := c, sdcard_type := t, bus := w }
      = .next { state := ST_SEND_IF_COND, acmd41_retry := c, sdcard_type := t,
                bus := w.after (sd_exchange GO_IDLE_STATE 0 0 0 0 0) [true, false] } := by
  have hlt : w.miso (w.pos + 8) < 128 := by rw [h]; decide
  simp only [sd_init_case, GO_IDLE_STATE_RETRY, sd_init_go_idle, sd_go_idle_state_first w hlt,
    h, R1_IDLE_STATE, if_true]

theorem case_if_cond_v2 (c : Int) (t : Nat) (w : Wire) (h : w.miso (w.pos + 8) = 0x01)
    (hv : w.miso (w.pos + 11) &&& 0x01 ≠ 0) (hp : w.miso (w.pos + 12) = 0xAA) :
    sd_init_case wire
        { state := ST_SEND_IF_COND, acmd41_retry := c, sdcard_type := t, bus := w }
      = .next { state := ST_APP_CMD, acmd41_retry := c, sdcard_type := SDCARD_V2,
                bus := w.after (sd_exchange SEND_IF_COND 0 0 0x01 0xAA 4) [true, false] } := by
  simp only [sd_init_case, SEND_IF_COND_RETRY, sd_init_if_cond, sd_send_if_cond_accepted _ w h,
    R1_IDLE_STATE, if_true, Nat.reduceLT, hp, ne_eq, not_true_eq_false, false_or, hv, if_false]

theorem case_if_cond_v1 (c : Int) (t : Nat) (w : Wire) (h : w.miso (w.pos + 8) = 0x05) :
    sd_init_case wire
        { state := ST_SEND_IF_COND, acmd41_retry := c, sdcard_type := t, bus := w }
      = .next { state := ST_APP_CMD, acmd41_retry := c, sdcard_type := SDCARD_V1,
                bus := w.after (sd_exchange SEND_IF_COND 0 0 0x01 0xAA 0) [true, false] } := by
  have hlt : w.miso (w.pos + 8) < 128 := by rw [h]; decide
  have hne : w.miso (w.pos + 8) ≠ 0x01 := by rw [h]; decide
  simp only [sd_init_case, SEND_IF_COND_RETRY, sd_init_if_cond,
    sd_send_if_cond_other _ w hlt hne, h, R1_IDLE_STATE, Nat.reduceEqDiff, if_false, if_true]

theorem case_app_cmd_ok (c : Int) (t : Nat) (w : Wire) (h : w.miso (w.pos + 8) ≤ 0x01) :
    sd_init_case wire { state := ST_APP_CMD, acmd41_retry := c, sdcard_type := t, bus := w }
      = .next { state := ST_SEND_OP_COND, acmd41_retry := c, sdcard_type := t,
                bus := w.after (sd_exchange APP_CMD 0 0 0 0 0) [true, false] } := by
  have hlt : w.miso (w.pos + 8) < 128 := by omega
  simp only [sd_init_case, sd_send_app_first w hlt, R1_IDLE_STATE, h, if_true]

theorem case_op_cond_ready (c : Int) (t : Nat) (w : Wire) (h : w.miso (w.pos + 8) = 0x00) :
    sd_init_case wire
        { state := ST_SEND_OP_COND, acmd41_retry := c, sdcard_type := t, bus := w }
      = .next { state := ST_READ_OCR, acmd41_retry := c, sdcard_type := t,
                bus := w.after (sd_exchange SD_SEND_OP_COND
                  (if t ≠ SDCARD_V1 then 0x40 else 0x00) 0 0 0 0) [true, false] } := by
  have hlt : w.miso (w.pos + 8) < 128 := by rw [h]; decide
  simp only [sd_init_case, sd_send_op_cond_first t w hlt, R1_READY, h, if_true]

theorem case_op_cond_retry (c : Int) (t : Nat) (w : Wire) (hlt : w.miso (w.pos + 8) < 128)
    (h : w.miso (w.pos + 8) ≠ 0x00) (hc : c < 1000) :
    sd_init_case wire
        { state := ST_SEND_OP_COND, acmd41_retry := c, sdcard_type := t, bus := w }
      = .next { state := ST_APP_CMD, acmd41_retry := c + 1, sdcard_type := t,
                bus := w.after (sd_exchange SD_SEND_OP_COND
                  (if t ≠ SDCARD_V1 then 0x40 else 0x00) 0 0 0 0) [true, false] } := by
  simp only [sd_init_case, sd_send_op_cond_first t w hlt, R1_READY, h, if_false,
    SEND_OP_COND_RETRY, hc, if_true]

theorem case_op_cond_exhausted (c : Int) (t : Nat) (w : Wire) (hlt : w.miso (w.pos + 8) < 128)
    (h : w.miso (w.pos + 8) ≠ 0x00) (hc : ¬ c < 1000) :
    sd_init_case wire
        { state := ST_SEND_OP_COND, acmd41_retry := c, sdcard_type := t, bus := w }
      = .ret ER_SEND_OP_COND
          { state := ST_SEND_OP_COND, acmd41_retry := c + 1, sdcard_type := t,
            bus := w.after (sd_exchange SD_SEND_OP_COND
              (if t ≠ SDCARD_V1 then 0x40 else 0x00) 0 0 0 0) [true, false] } := by
  simp only [sd_init_case, sd_send_op_cond_first t w hlt, R1_READY, h, if_false,
    SEND_OP_COND_RETRY, hc]

theorem case_read_ocr_ready (c : Int) (t : Nat) (w : Wire) (h : w.miso (w.pos + 8) = 0x00) :
    sd_init_case wire { state := ST_READ_OCR, acmd41_retry := c, sdcard_type := t, bus := w }
      = .next { state := ST_SET_BLOCKLEN, acmd41_retry := c,
                sdcard_type := (if t ≠ SDCARD_V1 then
                    (if w.miso (w.pos + 9) &&& 0x40 ≠ 0 then SDCARD_SDHC else SDCARD_SDSC)
                  else t),
                bus := w.after (sd_exchange READ_OCR 0 0 0 0 4) [true, false] } := by
  simp only [sd_init_case, sd_read_ocr_ready _ w h, R1_READY, if_true, Nat.lt_irrefl,
    Nat.zero_lt_succ, Nat.add_zero]

theorem case_set_blocklen_ready (c : Int) (t : Nat) (w : Wire)
    (h : w.miso (w.pos + 8) = 0x00) :
    sd_init_case wire
        { state := ST_SET_BLOCKLEN, acmd41_retry := c, sdcard_type := t, bus := w }
      = .next { state := ST_READY, acmd41_retry := c, sdcard_type := t,
                bus := w.after (sd_exchange SET_BLOCKLEN 0 0 0x02 0 0) [true, false] } := by
  have hlt : w.miso (w.pos + 8) < 128 := by rw [h]; decide
  simp only [sd_init_case, sd_set_blocklen_first w hlt, R1_READY, h, if_true]

theorem case_ready (c : Int) (t : Nat) (w : Wire) :
    sd_init_case wire { state := ST_READY, acmd41_retry := c, sdcard_type := t, bus := w }
      = .ret ER_SUCCESS { state := ST_READY, acmd41_retry := c, sdcard_type := t,
                          bus := w.after [0xFF, 0xFF] [false] } := by
  simp only [sd_init_case, spi_set_frequency_khz, wire_set_divisor, sd_deselect_wire]

end Projects
namespace Projects

open sd_init_state_t

/-- The bus `w` after the transfers of `sd_init` up to the first CMD55, for a card that
answers CMD0 and CMD8 in the first response slot. -/
theorem after_pos (w : Wire) (l : List Nat) (c : List Bool) (n k : Nat) (hl : l.length = n) :
    (w.after l c).miso ((w.after l c).pos + k) = w.miso (w.pos + (n + k)) := by
  rw [Wire.miso_after, Wire.pos_after, hl, Nat.add_assoc]

/-- The scenario of a v2 high-capacity card that answers every command in the first response
slot: CMD0 and CMD8 accepted, two rounds of CMD55 and ACMD41 answered "still initializing",
ACMD41 ready in the third round, CMD58 with the capacity bit set, CMD16 accepted. `sd_init`
returns `ER_SUCCESS` with `sdcard_type = SDCARD_SDHC` when the uninitialised counter
`acmd41_retry` starts at 998 or below, and `ER_SEND_OP_COND` when it starts at 999 or
above. -/
theorem sd_init_v2_card (c0 : Int) (t0 : Nat) (w : Wire)
    (h0 : w.miso (w.pos + 22) = 0x01)
    (h8 : w.miso (w.pos + 33) = 0x01) (h8v : w.miso (w.pos + 36) &&& 0x01 ≠ 0)
    (h8p : w.miso (w.pos + 37) = 0xAA)
    (h55a : w.miso (w.pos + 48) ≤ 0x01) (h41a : w.miso (w.pos + 59) = 0x01)
    (h55b : w.miso (w.pos + 70) ≤ 0x01) (h41b : w.miso (w.pos + 81) = 0x01)
    (h55c : w.miso (w.pos + 92) ≤ 0x01) (h41c : w.miso (w.pos + 103) = 0x00)
    (h58 : w.miso (w.pos + 114) = 0x00) (hocr : w.miso (w.pos + 115) &&& 0x40 ≠ 0)
    (h16 : w.miso (w.pos + 129) = 0x00) :
    (c0 ≤ 998 →
      (sd_init wire c0 t0 w).1 = ER_SUCCESS ∧ (sd_init wire c0 t0 w).2.1 = SDCARD_SDHC) ∧
    (999 ≤ c0 → (sd_init wire c0 t0 w).1 = ER_SEND_OP_COND) := by
  unfold sd_init
  rw [sd_init_loop_next _ _ _ (case_power_up c0 t0 w)]
  rw [sd_init_loop_next _ _ _ (case_go_idle_first c0 t0 _
    (by rw [after_pos w _ _ 14 8 (by simp)]; exact h0))]
  simp only [Wire.after_after]
  rw [sd_init_loop_next _ _ _ (case_if_cond_v2 c0 t0 _
    (by rw [after_pos w _ _ 25 8 (by simp [sd_exchange_length])]; exact h8)
    (by rw [after_pos w _ _ 25 11 (by simp [sd_exchange_length])]; exact h8v)
    (by rw [after_pos w _ _ 25 12 (by simp [sd_exchange_length])]; exact h8p))]
  simp only [Wire.after_after]
  rw [sd_init_loop_next _ _ _ (case_app_cmd_ok c0 _ _
    (by rw [after_pos w _ _ 40 8 (by simp [sd_exchange_length])]; exact h55a))]
  simp only [Wire.after_after]
  have n41a : w.miso (w.pos + 59) ≠ 0 := by rw [h41a]; decide
  have n41b : w.miso (w.pos + 81) ≠ 0 := by rw [h41b]; decide
  have l41a : w.miso (w.pos + 59) < 128 := by rw [h41a]; decide
  have l41b : w.miso (w.pos + 81) < 128 := by rw [h41b]; decide
  constructor
  · intro hc
    rw [sd_init_loop_next _ _ _ (case_op_cond_retry c0 _ _
      (by rw [after_pos w _ _ 51 8 (by simp [sd_exchange_length])]; exact l41a)
      (by rw [after_pos w _ _ 51 8 (by simp [sd_exchange_length])]; exact n41a)
      (by omega))]
    simp only [Wire.after_after]
    rw [sd_init_loop_next _ _ _ (case_app_cmd_ok _ _ _
      (by rw [after_pos w _ _ 62 8 (by simp [sd_exchange_length])]; exact h55b))]
    simp only [Wire.after_after]
    rw [sd_init_loop_next _ _ _ (case_op_cond_retry _ _ _
      (by rw [after_pos w _ _ 73 8 (by simp [sd_exchange_length])]; exact l41b)
      (by rw [after_pos w _ _ 73 8 (by simp [sd_exchange_length])]; exact n41b)
      (by omega))]
    simp only [Wire.after_after]
    rw [sd_init_loop_next _ _ _ (case_app_cmd_ok _ _ _
      (by rw [after_pos w _ _ 84 8 (by simp [sd_exchange_length])]; exact h55c))]
    simp only [Wire.after_after]
    rw [sd_init_loop_next _ _ _ (case_op_cond_ready _ _ _
      (by rw [after_pos w _ _ 95 8 (by simp [sd_exchange_length])]; exact h41c))]
    simp only [Wire.after_after]
    rw [sd_init_loop_next _ _ _ (case_read_ocr_ready _ _ _
      (by rw [after_pos w _ _ 106 8 (by simp [sd_exchange_length])]; exact h58))]
    simp only [Wire.after_after]
    rw [sd_init_loop_next _ _ _ (case_set_blocklen_ready _ _ _
      (by rw [after_pos w _ _ 121 8 (by simp [sd_exchange_length])]; exact h16))]
    rw [sd_init_loop_ret _ _ _ _ (case_ready _ _ _)]
    refine ⟨rfl, ?_⟩
    show (if SDCARD_V2 ≠ SDCARD_V1 then
        (if Wire.miso _ _ &&& 0x40 ≠ 0 then SDCARD_SDHC else SDCARD_SDSC) else SDCARD_V2) = _
    rw [if_pos (by decide), after_pos w _ _ 106 9 (by simp [sd_exchange_length]), if_pos hocr]
  · intro hc
    by_cases hk : c0 < 1000
    · rw [sd_init_loop_next _ _ _ (case_op_cond_retry c0 _ _
        (by rw [after_pos w _ _ 51 8 (by simp [sd_exchange_length])]; exact l41a)
        (by rw [after_pos w _ _ 51 8 (by simp [sd_exchange_length])]; exact n41a)
        hk)]
      simp only [Wire.after_after]
      rw [sd_init_loop_next _ _ _ (case_app_cmd_ok _ _ _
        (by rw [after_pos w _ _ 62 8 (by simp [sd_exchange_length])]; exact h55b))]
      simp only [Wire.after_after]
      rw [sd_init_loop_ret _ _ _ _ (case_op_cond_exhausted _ _ _
        (by rw [after_pos w _ _ 73 8 (by simp [sd_exchange_length])]; exact l41b)
        (by rw [after_pos w _ _ 73 8 (by simp [sd_exchange_length])]; exact n41b)
        (by omega))]
    · rw [sd_init_loop_ret _ _ _ _ (case_op_cond_exhausted c0 _ _
        (by rw [after_pos w _ _ 51 8 (by simp [sd_exchange_length])]; exact l41a)
        (by rw [after_pos w _ _ 51 8 (by simp [sd_exchange_length])]; exact n41a)
        hk)]

/-- The scenario of a legacy card that answers every command in the first response slot:
CMD0 accepted, CMD8 answered with the illegal-command response 0x05, CMD55 accepted, ACMD41
ready, CMD58 and CMD16 accepted. `sd_init` returns `ER_SUCCESS` with
`sdcard_type = SDCARD_V1`, whatever `acmd41_retry` holds. -/
theorem sd_init_v1_card (c0 : Int) (t0 : Nat) (w : Wire)
    (h0 : w.miso (w.pos + 22) = 0x01) (h8 : w.miso (w.pos + 33) = 0x05)
    (h55 : w.miso (w.pos + 44) ≤ 0x01) (h41 : w.miso (w.pos + 55) = 0x00)
    (h58 : w.miso (w.pos + 66) = 0x00) (h16 : w.miso (w.pos + 81) = 0x00) :
    (sd_init wire c0 t0 w).1 = ER_SUCCESS ∧ (sd_init wire c0 t0 w).2.1 = SDCARD_V1 := by
  unfold sd_init
  rw [sd_init_loop_next _ _ _ (case_power_up c0 t0 w)]
  rw [sd_init_loop_next _ _ _ (case_go_idle_first c0 t0 _
    (by rw [after_pos w _ _ 14 8 (by simp)]; exact h0))]
  simp only [Wire.after_after]
  rw [sd_init_loop_next _ _ _ (case_if_cond_v1 c0 t0 _
    (by rw [after_pos w _ _ 25 8 (by simp [sd_exchange_length])]; exact h8))]
  simp only [Wire.after_after]
  rw [sd_init_loop_next _ _ _ (case_app_cmd_ok c0 _ _
    (by rw [after_pos w _ _ 36 8 (by simp [sd_exchange_length])]; exact h55))]
  simp only [Wire.after_after]
  rw [sd_init_loop_next _ _ _ (case_op_cond_ready _ _ _
    (by rw [after_pos w _ _ 47 8 (by simp [sd_exchange_length])]; exact h41))]
  simp only [Wire.after_after]
  rw [sd_init_loop_next _ _ _ (case_read_ocr_ready _ _ _
    (by rw [after_pos w _ _ 58 8 (by simp [sd_exchange_length])]; exact h58))]
  simp only [Wire.after_after]
  rw [sd_init_loop_next _ _ _ (case_set_blocklen_ready _ _ _
    (by rw [after_pos w _ _ 73 8 (by simp [sd_exchange_length])]; exact h16))]
  rw [sd_init_loop_ret _ _ _ _ (case_ready _ _ _)]
  refine ⟨rfl, ?_⟩
  rfl

/-- Every status `sd_init_case` returns is one of the seven the code names. -/
theorem sd_init_case_ret_code {σ : Type} (B : Spi σ) (v : sd_init_vars σ) (code : Nat)
    (v1 : sd_init_vars σ) (h : sd_init_case B v = .ret code v1) :
    code ∈ [ER_GO_IDLE_STATE, ER_SEND_IF_COND, ER_READ_OCR, ER_APP_CMD, ER_SEND_OP_COND,
      ER_SET_BLOCKLEN, ER_SUCCESS] := by
  rcases v with ⟨st, c, t, w⟩
  cases st <;> simp only [sd_init_case] at h <;> (repeat' split at h) <;>
    first
    | cases h
      simp
    | exact absurd h (by simp)

theorem sd_init_loop_code {σ : Type} (B : Spi σ) (v : sd_init_vars σ) :
    (sd_init_loop B v).1 ∈ [ER_GO_IDLE_STATE, ER_SEND_IF_COND, ER_READ_OCR, ER_APP_CMD,
      ER_SEND_OP_COND, ER_SET_BLOCKLEN, ER_SUCCESS] := by
  induction v using sd_init_loop.induct B with
  | case1 v code v1 h =>
    rw [sd_init_loop_ret B v v1 code h]
    exact sd_init_case_ret_code B v code v1 h
  | case2 v v1 h ih =>
    rw [sd_init_loop_next B v v1 h]
    exact ih

end Projects
namespace Projects

open sd_init_state_t

/-- The bus at the end of `sd_init` for a legacy card that answers in the first response
slot: after the power-up come CMD0, CMD8 (no data bytes are read after R1 = 0x05), CMD55,
ACMD41 with argument 0x00, CMD58 with its four OCR bytes, CMD16 and the final `sd_deselect`. -/
theorem sd_init_v1_card_bus (c0 : Int) (t0 : Nat) (w : Wire)
    (h0 : w.miso (w.pos + 22) = 0x01) (h8 : w.miso (w.pos + 33) = 0x05)
    (h55 : w.miso (w.pos + 44) ≤ 0x01) (h41 : w.miso (w.pos + 55) = 0x00)
    (h58 : w.miso (w.pos + 66) = 0x00) (h16 : w.miso (w.pos + 81) = 0x00) :
    (sd_init wire c0 t0 w).2.2 =
      w.after (List.replicate 14 0xFF ++ sd_exchange GO_IDLE_STATE 0 0 0 0 0
          ++ sd_exchange SEND_IF_COND 0 0 0x01 0xAA 0 ++ sd_exchange APP_CMD 0 0 0 0 0
          ++ sd_exchange SD_SEND_OP_COND 0x00 0 0 0 0 ++ sd_exchange READ_OCR 0 0 0 0 4
          ++ sd_exchange SET_BLOCKLEN 0 0 0x02 0 0 ++ [0xFF, 0xFF])
        [false, false, false, true, false, true, false, true, false, true, false, true, false,
          true, false, false] := by
  unfold sd_init
  rw [sd_init_loop_next _ _ _ (case_power_up c0 t0 w)]
  rw [sd_init_loop_next _ _ _ (case_go_idle_first c0 t0 _
    (by rw [after_pos w _ _ 14 8 (by simp)]; exact h0))]
  simp only [Wire.after_after]
  rw [sd_init_loop_next _ _ _ (case_if_cond_v1 c0 t0 _
    (by rw [after_pos w _ _ 25 8 (by simp [sd_exchange_length])]; exact h8))]
  simp only [Wire.after_after]
  rw [sd_init_loop_next _ _ _ (case_app_cmd_ok c0 _ _
    (by rw [after_pos w _ _ 36 8 (by simp [sd_exchange_length])]; exact h55))]
  simp only [Wire.after_after]
  rw [sd_init_loop_next _ _ _ (case_op_cond_ready _ _ _
    (by rw [after_pos w _ _ 47 8 (by simp [sd_exchange_length])]; exact h41))]
  simp only [Wire.after_after]
  rw [sd_init_loop_next _ _ _ (case_read_ocr_ready _ _ _
    (by rw [after_pos w _ _ 58 8 (by simp [sd_exchange_length])]; exact h58))]
  simp only [Wire.after_after]
  rw [sd_init_loop_next _ _ _ (case_set_blocklen_ready _ _ _
    (by rw [after_pos w _ _ 73 8 (by simp [sd_exchange_length])]; exact h16))]
  rw [sd_init_loop_ret _ _ _ _ (case_ready _ _ _)]
  simp only [Wire.after_after]
  rfl

set_option maxRecDepth 100000 in
/-- C15: the scenario of a v2 high-capacity card (`init_script`: CMD0 and CMD8 accepted on the
first attempt with the echo `01 AA`, ACMD41 ready on the third poll, CMD58 with OCR bit 0x40
set, CMD16 accepted) comes out as `ER_SUCCESS` with `sdcard_type = SDCARD_SDHC` when the
uninitialised `acmd41_retry` happens to hold 0, but as `ER_SEND_OP_COND` on the same card when
it happens to hold 1000. -/
theorem sd_init_scenario_depends_on_stale_counter :
    (sd_init wire 0 0 (Wire.replay init_script)).1 = ER_SUCCESS ∧
    (sd_init wire 0 0 (Wire.replay init_script)).2.1 = SDCARD_SDHC ∧
    (sd_init wire 1000 0 (Wire.replay init_script)).1 = ER_SEND_OP_COND ∧
    ER_SEND_OP_COND ≠ ER_SUCCESS := by
  have h := fun c0 => sd_init_v2_card c0 0 (Wire.replay init_script)
    (by decide) (by decide) (by decide) (by decide) (by decide) (by decide) (by decide)
    (by decide) (by decide) (by decide) (by decide) (by decide) (by decide)
  exact ⟨((h 0).1 (by decide)).1, ((h 0).1 (by decide)).2, (h 1000).2 (by decide), by decide⟩

set_option maxRecDepth 100000 in
/-- C16 (counterexample): on the legacy card of `legacy_script`, which answers CMD8 with the
illegal-command response 0x05, `sd_init` does not return `ER_V1_CARD`: it goes on to CMD55
and ACMD41 and returns `ER_SUCCESS` with `sdcard_type = SDCARD_V1`. -/
theorem sd_init_legacy_card_succeeds :
    (Wire.replay legacy_script).miso 33 = 0x05 ∧
    (sd_init wire 0 0 (Wire.replay legacy_script)).1 = ER_SUCCESS ∧
    (sd_init wire 0 0 (Wire.replay legacy_script)).1 ≠ ER_V1_CARD ∧
    (sd_init wire 0 0 (Wire.replay legacy_script)).2.1 = SDCARD_V1 := by
  have h := sd_init_v1_card 0 0 (Wire.replay legacy_script)
    (by decide) (by decide) (by decide) (by decide) (by decide) (by decide)
  refine ⟨by decide, h.1, ?_, h.2⟩
  rw [h.1]
  decide

/-- C16 (amended): when the card answers CMD0 with 0x01 and CMD8 with the illegal-command
response 0x05 (each in the first response slot), `sd_init` records `sdcard_type = SDCARD_V1`
and goes on to CMD55 and ACMD41 (sent with argument 0x00); if the card accepts CMD55, answers
ACMD41 ready and accepts CMD58 and CMD16, `sd_init` returns `ER_SUCCESS` with
`sdcard_type = SDCARD_V1`, having sent exactly these commands. On no bus and for no starting
values does `sd_init` return `ER_V1_CARD`: its status is always one of `ER_GO_IDLE_STATE`,
`ER_SEND_IF_COND`, `ER_READ_OCR`, `ER_APP_CMD`, `ER_SEND_OP_COND`, `ER_SET_BLOCKLEN` and
`ER_SUCCESS`. -/
theorem sd_init_accepts_legacy_card (c0 : Int) (t0 : Nat) (w : Wire)
    (h0 : w.miso (w.pos + 22) = 0x01) (h8 : w.miso (w.pos + 33) = 0x05)
    (h55 : w.miso (w.pos + 44) ≤ 0x01) (h41 : w.miso (w.pos + 55) = 0x00)
    (h58 : w.miso (w.pos + 66) = 0x00) (h16 : w.miso (w.pos + 81) = 0x00) :
    (sd_init wire c0 t0 w).1 = ER_SUCCESS ∧
    (sd_init wire c0 t0 w).2.1 = SDCARD_V1 ∧
    (sd_init wire c0 t0 w).2.2 =
      w.after (List.replicate 14 0xFF ++ sd_exchange GO_IDLE_STATE 0 0 0 0 0
          ++ sd_exchange SEND_IF_COND 0 0 0x01 0xAA 0 ++ sd_exchange APP_CMD 0 0 0 0 0
          ++ sd_exchange SD_SEND_OP_COND 0x00 0 0 0 0 ++ sd_exchange READ_OCR 0 0 0 0 4
          ++ sd_exchange SET_BLOCKLEN 0 0 0x02 0 0 ++ [0xFF, 0xFF])
        [false, false, false, true, false, true, false, true, false, true, false, true, false,
          true, false, false] ∧
    (∀ (σ : Type) (B : Spi σ) (a : Int) (t : Nat) (s : σ),
      (sd_init B a t s).1 ∈ [ER_GO_IDLE_STATE, ER_SEND_IF_COND, ER_READ_OCR, ER_APP_CMD,
        ER_SEND_OP_COND, ER_SET_BLOCKLEN, ER_SUCCESS] ∧ (sd_init B a t s).1 ≠ ER_V1_CARD) := by
  refine ⟨(sd_init_v1_card c0 t0 w h0 h8 h55 h41 h58 h16).1,
    (sd_init_v1_card c0 t0 w h0 h8 h55 h41 h58 h16).2,
    sd_init_v1_card_bus c0 t0 w h0 h8 h55 h41 h58 h16, ?_⟩
  intro σ B a t s
  have hm := sd_init_loop_code B
    { state := ST_POWER_UP, acmd41_retry := a, sdcard_type := t, bus := s }
  refine ⟨hm, ?_⟩
  intro he
  have hm2 : ER_V1_CARD ∈ [ER_GO_IDLE_STATE, ER_SEND_IF_COND, ER_READ_OCR, ER_APP_CMD,
      ER_SEND_OP_COND, ER_SET_BLOCKLEN, ER_SUCCESS] := he ▸ hm
  revert hm2
  decide

set_option maxRecDepth 100000 in
theorem sd_init_accepts_legacy_card_witness :
    (sd_init wire 7 3 (Wire.replay legacy_script)).1 = ER_SUCCESS ∧
    (sd_init wire 7 3 (Wire.replay legacy_script)).2.1 = SDCARD_V1 :=
  have h := sd_init_accepts_legacy_card 7 3 (Wire.replay legacy_script)
    (by decide) (by decide) (by decide) (by decide) (by decide) (by decide)
  ⟨h.1, h.2.1⟩

end Projects
/-! ## The simulated card -/

theorem card_transfer (t : Timing) (b : Nat) (p : Phase) (m : Nat → Nat → Nat) :
    (card t).spi_transfer b ⟨p, true, m⟩ = Card.step t (b % 256) ⟨p, true, m⟩ := rfl

theorem card_transfer_off (t : Timing) (b : Nat) (p : Phase) (m : Nat → Nat → Nat) :
    (card t).spi_transfer b ⟨p, false, m⟩ = (0xFF, ⟨p, false, m⟩) := rfl

theorem card_cs_low (t : Timing) (c : Card) :
    (card t).spi_cs_low c = ⟨.idle, true, c.mem⟩ := rfl

theorem card_cs_high (t : Timing) (c : Card) :
    (card t).spi_cs_high c = ⟨c.phase, false, c.mem⟩ := rfl

theorem card_idle_filler (t : Timing) (m : Nat → Nat → Nat) :
    (card t).spi_transfer 0xFF ⟨.idle, true, m⟩ = (0xFF, ⟨.idle, true, m⟩) := rfl

/-- After `sd_select` the card is selected and listens for a command. -/
theorem card_sd_select (t : Timing) (c : Card) :
    sd_select (card t) c = ⟨.idle, true, (sd_select (card t) c).mem⟩ := by
  simp only [sd_select, card_cs_low, card_idle_filler]

/-- After `sd_deselect` on an idle card nothing but the chip select has changed. -/
theorem card_sd_deselect (t : Timing) (m : Nat → Nat → Nat) :
    sd_deselect (card t) ⟨.idle, true, m⟩ = ⟨.idle, false, m⟩ := by
  simp only [sd_deselect, card_idle_filler, card_cs_high, card_transfer_off]

namespace Projects

/-- The argument an idle card has collected after the frame of `sd_cmd`. -/
theorem card_frame (t : Timing) (cmd a0 a1 a2 a3 : Nat) (hc : cmd < 64)
    (m : Nat → Nat → Nat) :
    sd_cmd (card t) cmd a0 a1 a2 a3 ⟨.idle, true, m⟩ =
      sd_cmd_poll (card t) 8
        ⟨.respond cmd ((((0 * 256 + a0 % 256) * 256 + a1 % 256) * 256 + a2 % 256) * 256
          + a3 % 256) t.r1, true, m⟩ := by
  have h1 : ∀ c < 64, ((c ||| 0x40) % 256) &&& 0xC0 = 0x40 ∧ ((c ||| 0x40) % 256) &&& 0x3F = c := by
    decide
  obtain ⟨e1, e2⟩ := h1 cmd hc
  simp [sd_cmd, card_transfer, Card.step, e1, e2]

/-- The response loop of `sd_cmd` on a card that answers after `d` idle bytes. -/
theorem card_poll (t : Timing) (cmd arg : Nat) (m : Nat → Nat → Nat) (d : Nat) :
    ∀ a, 0 < a → a + d < 256 →
      sd_cmd_poll (card t) a ⟨.respond cmd arg d, true, m⟩ =
        (card t).spi_transfer 0xFF ⟨.respond cmd arg 0, true, m⟩ := by
  induction d with
  | zero =>
    intro a ha _
    rw [sd_cmd_poll]
    have h : ((card t).spi_transfer 0xFF ⟨.respond cmd arg 0, true, m⟩).1 &&& 0x80 = 0 := by
      simp only [card_transfer, Card.step]
      split_ifs <;> first | rfl | (show 4 &&& 128 = 0; decide) | simp
    simp only [ha, if_true, h]
  | succ d ih =>
    intro a ha hlt
    rw [sd_cmd_poll]
    have hmod : (a + 1) % 256 = a + 1 := Nat.mod_eq_of_lt (by omega)
    simp only [ha, if_true, card_transfer, Card.step, hmod]
    rw [if_neg (by decide)]
    exact ih (a + 1) (Nat.succ_pos _) (by omega)

end Projects
namespace Projects

/-- The payload loop of `sd_write` on a card that is receiving a block: the bytes are stored
in order. -/
theorem card_write_data (t : Timing) (addr : Nat) (data : Nat → Nat) (n : Nat) :
    ∀ (i k : Nat) (m : Nat → Nat → Nat), k + n ≤ 512 →
      sd_write_data (card t) n i data ⟨.write_data addr k, true, m⟩ =
        ⟨.write_data addr (k + n), true,
          fun a j => if a = addr ∧ k ≤ j ∧ j < k + n then data (i + (j - k)) % 256 else m a j⟩ := by
  induction n with
  | zero =>
    intro i k m _
    simp only [sd_write_data, Nat.add_zero]
    congr 1
    funext a j
    rw [if_neg (by omega)]
  | succ n ih =>
    intro i k m h
    simp only [sd_write_data, card_transfer, Card.step]
    rw [if_pos (by omega), ih (i + 1) (k + 1) _ (by omega)]
    have e : k + 1 + n = k + (n + 1) := by omega
    rw [e]
    congr 1
    funext a j
    simp only [Card.store]
    by_cases h1 : a = addr ∧ k + 1 ≤ j ∧ j < k + (n + 1)
    · rw [if_pos h1, if_pos ⟨h1.1, by omega, h1.2.2⟩]
      congr 2
      omega
    · rw [if_neg h1]
      by_cases h2 : a = addr ∧ j = k
      · rw [if_pos h2, if_pos ⟨h2.1, by omega, by omega⟩, h2.2]
        congr 2
        omega
      · rw [if_neg h2, if_neg]
        intro h3
        rcases h3 with ⟨h3, h4, h5⟩
        by_cases h6 : j = k
        · exact h2 ⟨h3, h6⟩
        · exact h1 ⟨h3, by omega, h5⟩

/-- The payload loop of `sd_read` on a card that is sending a block: the bytes of the block
arrive in order. -/
theorem card_read_data (t : Timing) (addr : Nat) (m : Nat → Nat → Nat) (n : Nat) :
    ∀ (i k : Nat) (buffer : Nat → Nat), k + n ≤ 512 →
      sd_read_data (card t) n i buffer ⟨.read_data addr k, true, m⟩ =
        (fun x => if i ≤ x ∧ x < i + n then m addr (k + (x - i)) % 256 else buffer x,
          ⟨.read_data addr (k + n), true, m⟩) := by
  induction n with
  | zero =>
    intro i k buffer _
    simp only [sd_read_data, Nat.add_zero]
    congr 1
    funext x
    rw [if_neg (by omega)]
  | succ n ih =>
    intro i k buffer h
    simp only [sd_read_data, card_transfer, Card.step]
    rw [if_pos (by omega), if_pos (by omega), ih (i + 1) (k + 1) _ (by omega)]
    have e : k + 1 + n = k + (n + 1) := by omega
    rw [e]
    congr 1
    funext x
    by_cases h1 : i + 1 ≤ x ∧ x < i + 1 + n
    · rw [if_pos h1, if_pos ⟨by omega, by omega⟩]
      congr 2
      omega
    · rw [if_neg h1]
      by_cases h2 : x = i
      · subst h2
        rw [Function.update_same, if_pos ⟨le_refl _, by omega⟩]
        congr 2
        omega
      · rw [Function.update_noteq h2, if_neg]
        intro h3
        exact h1 ⟨by omega, by omega⟩

theorem card_token_now (t : Timing) (addr : Nat) (m : Nat → Nat → Nat) :
    (card t).spi_transfer 0xFF ⟨.read_token addr 0, true, m⟩ =
      (DATA_START_TOKEN, ⟨.read_data addr 0, true, m⟩) := rfl

theorem card_token_wait (t : Timing) (addr d : Nat) (m : Nat → Nat → Nat) :
    (card t).spi_transfer 0xFF ⟨.read_token addr (d + 1), true, m⟩ =
      (0xFF, ⟨.read_token addr d, true, m⟩) := rfl

theorem card_read_crc (t : Timing) (addr : Nat) (m : Nat → Nat → Nat) :
    (card t).spi_transfer 0xFF ⟨.read_data addr 512, true, m⟩ =
      (0xFF, ⟨.read_data addr 513, true, m⟩) ∧
    (card t).spi_transfer 0xFF ⟨.read_data addr 513, true, m⟩ = (0xFF, ⟨.idle, true, m⟩) :=
  ⟨rfl, rfl⟩

/-- The token loop of `sd_read` on a card that sends the start token after `d` idle bytes:
the block is read, the two CRC bytes are skipped, and the card is deselected. -/
theorem card_read_token (t : Timing) (addr : Nat) (m : Nat → Nat → Nat) (d : Nat) :
    ∀ (a : Nat) (buffer : Nat → Nat), d < a →
      sd_read_token (card t) a buffer ⟨.read_token addr d, true, m⟩ =
        (ER_SUCCESS, fun x => if 0 ≤ x ∧ x < 0 + SD_BLOCK_SIZE then m addr (0 + (x - 0)) % 256
          else buffer x, ⟨.idle, false, m⟩) := by
  induction d with
  | zero =>
    intro a buffer ha
    obtain ⟨a, rfl⟩ : ∃ b, a = b + 1 := ⟨a - 1, by omega⟩
    rw [sd_read_token, card_token_now, if_pos rfl]
    show (ER_SUCCESS, (sd_read_data (card t) SD_BLOCK_SIZE 0 buffer _).1,
      sd_deselect (card t) ((card t).spi_transfer 0xFF ((card t).spi_transfer 0xFF
        (sd_read_data (card t) SD_BLOCK_SIZE 0 buffer _).2).2).2) = _
    rw [card_read_data t addr m SD_BLOCK_SIZE 0 0 buffer (by decide)]
    show (ER_SUCCESS, _, sd_deselect (card t) ((card t).spi_transfer 0xFF
      ((card t).spi_transfer 0xFF ⟨.read_data addr 512, true, m⟩).2).2) = _
    rw [(card_read_crc t addr m).1, (card_read_crc t addr m).2, card_sd_deselect]
  | succ d ih =>
    intro a buffer ha
    obtain ⟨a, rfl⟩ : ∃ b, a = b + 1 := ⟨a - 1, by omega⟩
    rw [sd_read_token, card_token_wait,
      if_neg (show ¬ (0xFF : Nat) = DATA_START_TOKEN by decide),
      if_neg (show ¬ (0xFF : Nat) ≠ 0xFF by decide)]
    exact ih a buffer (by omega)

/-- The busy loop of `sd_write` on a card that stays busy for `d` bytes. -/
theorem card_busy (t : Timing) (m : Nat → Nat → Nat) (d : Nat) :
    ∀ (timeout : Nat), timeout + d < 65000 →
      sd_write_busy (card t) timeout ⟨if d = 0 then .idle else .busy d, true, m⟩ =
        (timeout + d, ⟨.idle, true, m⟩) := by
  induction d with
  | zero =>
    intro timeout h
    rw [sd_write_busy]
    simp [show timeout < 65000 by omega, card_idle_filler]
  | succ d ih =>
    intro timeout h
    rw [sd_write_busy]
    simp only [show timeout < 65000 by omega, if_true, if_neg (Nat.succ_ne_zero d),
      card_transfer, Card.step, ne_eq, not_true_eq_false, if_false]
    have e : (if d + 1 ≤ 1 then Phase.idle else Phase.busy (d + 1 - 1)) =
        (if d = 0 then Phase.idle else Phase.busy d) := by
      by_cases hd : d = 0
      · subst hd; rfl
      · rw [if_neg (by omega), if_neg hd]; rfl
    rw [e, ih (timeout + 1) (by omega)]
    congr 1
    omega

end Projects
namespace Projects

/-- The card assembles the four argument bytes of `sd_read` and `sd_write` to the address the
driver computed. -/
theorem card_arg (a : Nat) (h : a < 2 ^ 32) :
    (((0 * 256 + (a >>> 24) % 256 % 256) * 256 + (a >>> 16) % 256 % 256) * 256
      + (a >>> 8) % 256 % 256) * 256 + a % 256 % 256 = a := by
  simp only [Nat.shiftRight_eq_div_pow]
  omega

/-- `sd_cmd` on an idle, selected card whose R1 latency is within the 248 polls of the
response loop: the value returned is the R1 byte of the card. -/
theorem card_sd_cmd (t : Timing) (cmd a0 a1 a2 a3 : Nat) (hc : cmd < 64) (hr : t.r1 < 248)
    (m : Nat → Nat → Nat) :
    sd_cmd (card t) cmd a0 a1 a2 a3 ⟨.idle, true, m⟩ =
      (card t).spi_transfer 0xFF
        ⟨.respond cmd ((((0 * 256 + a0 % 256) * 256 + a1 % 256) * 256 + a2 % 256) * 256
          + a3 % 256) 0, true, m⟩ := by
  rw [card_frame t cmd a0 a1 a2 a3 hc m, card_poll t cmd _ m t.r1 8 (by decide) (by omega)]

theorem card_select_off (t : Timing) (p : Phase) (m : Nat → Nat → Nat) :
    sd_select (card t) ⟨p, false, m⟩ = ⟨.idle, true, m⟩ := rfl

theorem card_r1 (t : Timing) (arg : Nat) (m : Nat → Nat → Nat) :
    (card t).spi_transfer 0xFF ⟨.respond SEND_STATUS arg 0, true, m⟩ =
      (0x00, ⟨.status, true, m⟩) ∧
    (card t).spi_transfer 0xFF ⟨.respond READ_SINGLE_BLOCK arg 0, true, m⟩ =
      (0x00, ⟨.read_token arg t.token, true, m⟩) ∧
    (card t).spi_transfer 0xFF ⟨.respond WRITE_SINGLE_BLOCK arg 0, true, m⟩ =
      (0x00, ⟨.write_wait arg, true, m⟩) ∧
    (card t).spi_transfer 0xFF ⟨.status, true, m⟩ = (0x00, ⟨.idle, true, m⟩) :=
  ⟨rfl, rfl, rfl, rfl⟩

theorem card_write_steps (t : Timing) (addr : Nat) (m : Nat → Nat → Nat) :
    (card t).spi_transfer DATA_START_TOKEN ⟨.write_wait addr, true, m⟩ =
      (0xFF, ⟨.write_data addr 0, true, m⟩) ∧
    (card t).spi_transfer 0xFF ⟨.write_data addr 512, true, m⟩ =
      (0xFF, ⟨.write_data addr 513, true, m⟩) ∧
    (card t).spi_transfer 0xFF ⟨.write_data addr 513, true, m⟩ =
      (0xFF, ⟨.write_resp, true, m⟩) ∧
    (card t).spi_transfer 0xFF ⟨.write_resp, true, m⟩ =
      (0xE5, ⟨if t.busy = 0 then .idle else .busy t.busy, true, m⟩) :=
  ⟨rfl, rfl, rfl, rfl⟩

/-- `sd_read` on the simulated card, from a selected idle state onwards: the block at the
address the driver computed is returned. -/
theorem card_sd_read (t : Timing) (ty n : Nat) (buffer : Nat → Nat) (p : Phase)
    (m : Nat → Nat → Nat) (hn : n < 2 ^ 32) (hr : t.r1 < 248) (hk : t.token < 5000) :
    sd_read (card t) ty n buffer ⟨p, false, m⟩ =
      (ER_SUCCESS, fun x => if 0 ≤ x ∧ x < 0 + SD_BLOCK_SIZE
          then m (sd_block_addr ty n) (0 + (x - 0)) % 256 else buffer x,
        ⟨.idle, false, m⟩) := by
  have hc : sd_read_command (card t) ty n ⟨p, false, m⟩ =
      (0x00, ⟨.read_token (sd_block_addr ty n) t.token, true, m⟩) := by
    unfold sd_read_command
    rw [card_select_off]
    show sd_cmd (card t) READ_SINGLE_BLOCK _ _ _ _ _ = _
    rw [card_sd_cmd t _ _ _ _ _ (by decide) hr, card_arg _ (sd_block_addr_lt ty n hn),
      (card_r1 t _ m).2.1]
  unfold sd_read
  rw [hc]
  show (if (0 : Nat) ≠ 0 then _ else _) = _
  rw [if_neg (by decide)]
  exact card_read_token t _ m t.token 5000 buffer hk

/-- The successful path of `sd_write` on any hardware, step by step: the status query lets it
go on, CMD24 is answered 0x00, the data block is sent, the data response carries the accept
code, and the busy loop ends before its limit. -/
theorem sd_write_steps {σ : Type} (B : Spi σ) (ty n : Nat) (data : Nat → Nat)
    (s s1 s2 s3 s4 s5 : σ) (r1 k : Nat)
    (hs : sd_write_status B s = (false, s1))
    (hc : sd_write_command B ty n s1 = (0x00, s2))
    (hd : sd_write_data B SD_BLOCK_SIZE 0 data (B.spi_transfer DATA_START_TOKEN s2).2 = s3)
    (hr : B.spi_transfer 0xFF (B.spi_transfer 0xFF (B.spi_transfer 0xFF s3).2).2 = (r1, s4))
    (ha : r1 &&& 0x1F = DATA_ACCEPT_TOKEN)
    (hb : sd_write_busy B 0 s4 = (k, s5)) (hk : k < 65000) :
    sd_write B ty n data s = (ER_SUCCESS, sd_deselect B s5) := by
  subst hd
  unfold sd_write
  simp only [hs, Bool.false_eq_true, if_false, hc, ne_eq, not_true_eq_false, hr, ha, hb,
    ge_iff_le, Nat.not_le.2 hk]

/-- `sd_write` on the simulated card, whatever state the card is in: the block is stored at
the address the driver computed, over the memory `sd_select` leaves. -/
theorem card_sd_write (t : Timing) (ty n : Nat) (data : Nat → Nat) (c : Card)
    (hn : n < 2 ^ 32) (hr : t.r1 < 248) (hb : t.busy < 65000) :
    sd_write (card t) ty n data c =
      (ER_SUCCESS, ⟨.idle, false, fun a j =>
        if a = sd_block_addr ty n ∧ 0 ≤ j ∧ j < 0 + SD_BLOCK_SIZE then data (0 + (j - 0)) % 256
        else (sd_select (card t) c).mem a j⟩) := by
  have hs : sd_write_status (card t) c = (false, ⟨.idle, true, (sd_select (card t) c).mem⟩) := by
    unfold sd_write_status
    rw [card_sd_select t c]
    show (if (sd_cmd (card t) SEND_STATUS 0 0 0 0 _).1 = 0 then _ else _) = _
    rw [card_sd_cmd t _ _ _ _ _ (by decide) hr, (card_r1 t _ _).1]
    show (if (0 : Nat) = 0 then _ else _) = _
    rw [if_pos rfl]
    show (if ((card t).spi_transfer 0xFF ⟨.status, true, _⟩).1 = 0 then _ else _) = _
    rw [(card_r1 t 0 _).2.2.2]
    rfl
  have hc : sd_write_command (card t) ty n ⟨.idle, true, (sd_select (card t) c).mem⟩ =
      (0x00, ⟨.write_wait (sd_block_addr ty n), true, (sd_select (card t) c).mem⟩) := by
    unfold sd_write_command
    show sd_cmd (card t) WRITE_SINGLE_BLOCK _ _ _ _ _ = _
    rw [card_sd_cmd t _ _ _ _ _ (by decide) hr, card_arg _ (sd_block_addr_lt ty n hn),
      (card_r1 t _ _).2.2.1]
  generalize (sd_select (card t) c).mem = M at hs hc ⊢
  have hd : sd_write_data (card t) SD_BLOCK_SIZE 0 data
      ((card t).spi_transfer DATA_START_TOKEN ⟨.write_wait (sd_block_addr ty n), true, M⟩).2 =
      ⟨.write_data (sd_block_addr ty n) (0 + SD_BLOCK_SIZE), true, fun a j =>
        if a = sd_block_addr ty n ∧ 0 ≤ j ∧ j < 0 + SD_BLOCK_SIZE then data (0 + (j - 0)) % 256
        else M a j⟩ := by
    rw [(card_write_steps t _ M).1]
    exact card_write_data t _ data SD_BLOCK_SIZE 0 0 M (by decide)
  rw [sd_write_steps (card t) ty n data c _ _ _ _ _ 0xE5 (0 + t.busy) hs hc hd rfl (by decide)
    (card_busy t _ t.busy 0 (by omega)) (by omega), card_sd_deselect]
  rfl

end Projects
namespace Projects

/-- C14: round trip on the simulated card, which stores the 512 bytes that follow the 0xFE
token of an accepted CMD24 at the addressed block and replays them after 0xFE on a CMD17 of
the same address. For every card type, every 32-bit block number, every buffer, every state
of the card and all latencies within the limits of the driver's loops, `sd_write` returns
`ER_SUCCESS`, the card then holds the buffer (as `uint8_t` values) at the address the driver
computed, `sd_read` of the same block returns `ER_SUCCESS`, the 512 bytes read are the bytes
written, and the rest of the read buffer is untouched. -/
theorem sd_write_sd_read_round_trip (t : Timing) (ty n : Nat) (data buffer : Nat → Nat)
    (c : Card) (hn : n < 2 ^ 32) (hr : t.r1 < 248) (hk : t.token < 5000)
    (hb : t.busy < 65000) :
    (sd_write (card t) ty n data c).1 = ER_SUCCESS ∧
    (∀ i, i < SD_BLOCK_SIZE →
      (sd_write (card t) ty n data c).2.mem (sd_block_addr ty n) i = data i % 256) ∧
    (sd_read (card t) ty n buffer (sd_write (card t) ty n data c).2).1 = ER_SUCCESS ∧
    (∀ i, i < SD_BLOCK_SIZE →
      (sd_read (card t) ty n buffer (sd_write (card t) ty n data c).2).2.1 i = data i % 256) ∧
    (∀ i, SD_BLOCK_SIZE ≤ i →
      (sd_read (card t) ty n buffer (sd_write (card t) ty n data c).2).2.1 i = buffer i) := by
  rw [card_sd_write t ty n data c hn hr hb]
  have hrd := card_sd_read t ty n buffer .idle (fun a j =>
    if a = sd_block_addr ty n ∧ 0 ≤ j ∧ j < 0 + SD_BLOCK_SIZE then data (0 + (j - 0)) % 256
    else (sd_select (card t) c).mem a j) hn hr hk
  refine ⟨rfl, ?_, ?_, ?_, ?_⟩
  · intro i hi
    show (if sd_block_addr ty n = sd_block_addr ty n ∧ 0 ≤ i ∧ i < 0 + SD_BLOCK_SIZE
      then data (0 + (i - 0)) % 256 else _) = _
    rw [if_pos ⟨rfl, Nat.zero_le _, by omega⟩]
    simp
  · rw [hrd]
  · intro i hi
    rw [hrd]
    show (if 0 ≤ i ∧ i < 0 + SD_BLOCK_SIZE then
      (if sd_block_addr ty n = sd_block_addr ty n ∧ 0 ≤ 0 + (i - 0) ∧
          0 + (i - 0) < 0 + SD_BLOCK_SIZE
        then data (0 + (0 + (i - 0) - 0)) % 256 else _) % 256 else _) = _
    rw [if_pos ⟨Nat.zero_le _, by omega⟩, if_pos ⟨rfl, Nat.zero_le _, by omega⟩]
    simp
  · intro i hi
    rw [hrd]
    show (if 0 ≤ i ∧ i < 0 + SD_BLOCK_SIZE then _ else buffer i) = _
    rw [if_neg (by omega)]

theorem sd_write_sd_read_round_trip_witness :
    (sd_write (card ⟨3, 10, 100⟩) SDCARD_SDHC 1000 (fun i => i % 251)
      ⟨.idle, false, fun _ _ => 0⟩).1 = ER_SUCCESS ∧
    (sd_read (card ⟨3, 10, 100⟩) SDCARD_SDHC 1000 (fun _ => 0)
      (sd_write (card ⟨3, 10, 100⟩) SDCARD_SDHC 1000 (fun i => i % 251)
        ⟨.idle, false, fun _ _ => 0⟩).2).1 = ER_SUCCESS ∧
    (∀ i, i < SD_BLOCK_SIZE →
      (sd_read (card ⟨3, 10, 100⟩) SDCARD_SDHC 1000 (fun _ => 0)
        (sd_write (card ⟨3, 10, 100⟩) SDCARD_SDHC 1000 (fun i => i % 251)
          ⟨.idle, false, fun _ _ => 0⟩).2).2.1 i = (fun i => i % 251) i % 256) :=
  have h := sd_write_sd_read_round_trip ⟨3, 10, 100⟩ SDCARD_SDHC 1000 (fun i => i % 251)
    (fun _ => 0) ⟨.idle, false, fun _ _ => 0⟩ (by decide) (by decide) (by decide) (by decide)
  ⟨h.1, h.2.2.1, h.2.2.2.1⟩

end Projects
namespace Projects

set_option maxRecDepth 100000 in
/-- C30: the CRC byte that `sd_cmd` (projects) computes with `sd_crc7_byte` and puts sixth on
the bus is 0x95 for CMD0 with argument 0, 0x87 for CMD8 with argument 0x000001AA, 0x65 for
CMD55 with argument 0 and 0x77 for ACMD41 with argument 0x40000000; these are the values the
lib `sd_common_crc` returns from its table for the same frames, whose first bytes are 0x40,
0x48, 0x77 and 0x69. -/
theorem sd_cmd_crc_agrees_with_table :
    (sd_cmd_frame GO_IDLE_STATE 0x00 0x00 0x00 0x00).getD 5 0 = 0x95 ∧
    (sd_cmd_frame SEND_IF_COND 0x00 0x00 0x01 0xAA).getD 5 0 = 0x87 ∧
    (sd_cmd_frame APP_CMD 0x00 0x00 0x00 0x00).getD 5 0 = 0x65 ∧
    (sd_cmd_frame SD_SEND_OP_COND 0x40 0x00 0x00 0x00).getD 5 0 = 0x77 ∧
    sd_cmd_crc GO_IDLE_STATE 0x00 0x00 0x00 0x00
      = Lib.sd_common_crc ((GO_IDLE_STATE ||| 0x40) % 256) 0x00 0x00 0x00 0x00 ∧
    sd_cmd_crc SEND_IF_COND 0x00 0x00 0x01 0xAA
      = Lib.sd_common_crc ((SEND_IF_COND ||| 0x40) % 256) 0x00 0x00 0x01 0xAA ∧
    sd_cmd_crc APP_CMD 0x00 0x00 0x00 0x00
      = Lib.sd_common_crc ((APP_CMD ||| 0x40) % 256) 0x00 0x00 0x00 0x00 ∧
    sd_cmd_crc SD_SEND_OP_COND 0x40 0x00 0x00 0x00
      = Lib.sd_common_crc ((SD_SEND_OP_COND ||| 0x40) % 256) 0x40 0x00 0x00 0x00 ∧
    (GO_IDLE_STATE ||| 0x40) % 256 = 0x40 ∧ (SEND_IF_COND ||| 0x40) % 256 = 0x48 ∧
    (APP_CMD ||| 0x40) % 256 = 0x77 ∧ (SD_SEND_OP_COND ||| 0x40) % 256 = 0x69 := by
  decide

end Projects
namespace Projects

open sd_init_state_t

theorem case_set_blocklen_refused (c : Int) (t : Nat) (w : Wire)
    (hlt : w.miso (w.pos + 8) < 128) (h : w.miso (w.pos + 8) ≠ 0x00) :
    sd_init_case wire
        { state := ST_SET_BLOCKLEN, acmd41_retry := c, sdcard_type := t, bus := w }
      = .ret ER_SET_BLOCKLEN
          { state := ST_SET_BLOCKLEN, acmd41_retry := c, sdcard_type := t,
            bus := w.after (sd_exchange SET_BLOCKLEN 0 0 0x02 0 0) [true, false] } := by
  simp only [sd_init_case, sd_set_blocklen_first w hlt, R1_READY, h, if_false]

/-- The run of `sd_init` up to the CMD16 step for a v2 card that answers every command in the
first response slot and is ready at the first ACMD41. -/
theorem sd_init_v2_ready_start (c0 : Int) (t0 : Nat) (w : Wire)
    (h0 : w.miso (w.pos + 22) = 0x01)
    (h8 : w.miso (w.pos + 33) = 0x01) (h8v : w.miso (w.pos + 36) &&& 0x01 ≠ 0)
    (h8p : w.miso (w.pos + 37) = 0xAA)
    (h55 : w.miso (w.pos + 48) ≤ 0x01) (h41 : w.miso (w.pos + 59) = 0x00)
    (h58 : w.miso (w.pos + 70) = 0x00) :
    sd_init_loop wire
        { state := ST_POWER_UP, acmd41_retry := c0, sdcard_type := t0, bus := w }
      = sd_init_loop wire
        { state := ST_SET_BLOCKLEN, acmd41_retry := c0,
          sdcard_type := (if w.miso (w.pos + 71) &&& 0x40 ≠ 0 then SDCARD_SDHC else SDCARD_SDSC),
          bus := w.after (List.replicate 14 0xFF ++ sd_exchange GO_IDLE_STATE 0 0 0 0 0
              ++ sd_exchange SEND_IF_COND 0 0 0x01 0xAA 4 ++ sd_exchange APP_CMD 0 0 0 0 0
              ++ sd_exchange SD_SEND_OP_COND 0x40 0 0 0 0 ++ sd_exchange READ_OCR 0 0 0 0 4)
            [false, false, false, true, false, true, false, true, false, true, false, true,
              false] } := by
  rw [sd_init_loop_next _ _ _ (case_power_up c0 t0 w)]
  rw [sd_init_loop_next _ _ _ (case_go_idle_first c0 t0 _
    (by rw [after_pos w _ _ 14 8 (by simp)]; exact h0))]
  simp only [Wire.after_after]
  rw [sd_init_loop_next _ _ _ (case_if_cond_v2 c0 t0 _
    (by rw [after_pos w _ _ 25 8 (by simp [sd_exchange_length])]; exact h8)
    (by rw [after_pos w _ _ 25 11 (by simp [sd_exchange_length])]; exact h8v)
    (by rw [after_pos w _ _ 25 12 (by simp [sd_exchange_length])]; exact h8p))]
  simp only [Wire.after_after]
  rw [sd_init_loop_next _ _ _ (case_app_cmd_ok c0 _ _
    (by rw [after_pos w _ _ 40 8 (by simp [sd_exchange_length])]; exact h55))]
  simp only [Wire.after_after]
  rw [sd_init_loop_next _ _ _ (case_op_cond_ready _ _ _
    (by rw [after_pos w _ _ 51 8 (by simp [sd_exchange_length])]; exact h41))]
  simp only [Wire.after_after]
  rw [sd_init_loop_next _ _ _ (case_read_ocr_ready _ _ _
    (by rw [after_pos w _ _ 62 8 (by simp [sd_exchange_length])]; exact h58))]
  simp only [Wire.after_after]
  rw [after_pos w _ _ 62 9 (by simp [sd_exchange_length])]
  rw [if_pos (show SDCARD_V2 ≠ SDCARD_V1 by decide)]
  rfl

end Projects
namespace Projects

open sd_init_state_t

/-- For a v2 card that answers every command in the first response slot and is ready at the
first ACMD41, `sd_init` classifies the card from the OCR and then sends CMD16 with argument
0x00000200, whatever the classification: it returns `ER_SUCCESS` when CMD16 is answered 0x00
and `ER_SET_BLOCKLEN` when it is answered with another R1. -/
theorem sd_init_v2_ready_card (c0 : Int) (t0 : Nat) (w : Wire)
    (h0 : w.miso (w.pos + 22) = 0x01)
    (h8 : w.miso (w.pos + 33) = 0x01) (h8v : w.miso (w.pos + 36) &&& 0x01 ≠ 0)
    (h8p : w.miso (w.pos + 37) = 0xAA)
    (h55 : w.miso (w.pos + 48) ≤ 0x01) (h41 : w.miso (w.pos + 59) = 0x00)
    (h58 : w.miso (w.pos + 70) = 0x00) :
    (w.miso (w.pos + 85) = 0x00 →
      sd_init wire c0 t0 w
        = (ER_SUCCESS,
           (if w.miso (w.pos + 71) &&& 0x40 ≠ 0 then SDCARD_SDHC else SDCARD_SDSC),
           w.after (List.replicate 14 0xFF ++ sd_exchange GO_IDLE_STATE 0 0 0 0 0
              ++ sd_exchange SEND_IF_COND 0 0 0x01 0xAA 4 ++ sd_exchange APP_CMD 0 0 0 0 0
              ++ sd_exchange SD_SEND_OP_COND 0x40 0 0 0 0 ++ sd_exchange READ_OCR 0 0 0 0 4
              ++ sd_exchange SET_BLOCKLEN 0 0 0x02 0 0 ++ [0xFF, 0xFF])
            [false, false, false, true, false, true, false, true, false, true, false, true,
              false, true, false, false])) ∧
    (w.miso (w.pos + 85) < 128 → w.miso (w.pos + 85) ≠ 0x00 →
      sd_init wire c0 t0 w
        = (ER_SET_BLOCKLEN,
           (if w.miso (w.pos + 71) &&& 0x40 ≠ 0 then SDCARD_SDHC else SDCARD_SDSC),
           w.after (List.replicate 14 0xFF ++ sd_exchange GO_IDLE_STATE 0 0 0 0 0
              ++ sd_exchange SEND_IF_COND 0 0 0x01 0xAA 4 ++ sd_exchange APP_CMD 0 0 0 0 0
              ++ sd_exchange SD_SEND_OP_COND 0x40 0 0 0 0 ++ sd_exchange READ_OCR 0 0 0 0 4
              ++ sd_exchange SET_BLOCKLEN 0 0 0x02 0 0)
            [false, false, false, true, false, true, false, true, false, true, false, true,
              false, true, false])) := by
  unfold sd_init
  rw [sd_init_v2_ready_start c0 t0 w h0 h8 h8v h8p h55 h41 h58]
  constructor
  · intro h16
    rw [sd_init_loop_next _ _ _ (case_set_blocklen_ready _ _ _
      (by rw [after_pos w _ _ 77 8 (by simp [sd_exchange_length])]; exact h16))]
    rw [sd_init_loop_ret _ _ _ _ (case_ready _ _ _)]
    simp only [Wire.after_after]
    rfl
  · intro hlt h16
    rw [sd_init_loop_ret _ _ _ _ (case_set_blocklen_refused _ _ _
      (by rw [after_pos w _ _ 77 8 (by simp [sd_exchange_length])]; exact hlt)
      (by rw [after_pos w _ _ 77 8 (by simp [sd_exchange_length])]; exact h16))]
    simp only [Wire.after_after]
    rfl

set_option maxRecDepth 100000 in
/-- C21, evaluated at the failing input: `sd_init` returns `ER_SET_BLOCKLEN` (0x43) on the
card of `blocklen_script`, which refuses CMD16, and `sd_error_string` has no case for that
code: it returns `NULL`. Every other code that `sd_init`, `sd_read` or `sd_write` returns has
a string. -/
theorem sd_error_string_misses_set_blocklen :
    (sd_init wire 0 0 (Wire.replay blocklen_script)).1 = ER_SET_BLOCKLEN ∧
    sd_error_string ER_SET_BLOCKLEN = none ∧
    (∀ code ∈ [ER_SUCCESS, ER_GO_IDLE_STATE, ER_SEND_IF_COND, ER_APP_CMD, ER_READ_OCR,
        ER_SEND_OP_COND, ER_READ_SINGLE_BLOCK, ER_READ_TOKEN, ER_READ_TIMEOUT, ER_CMD13,
        ER_WRITE_SINGLE_BLOCK, ER_WRITE_REJECT, ER_WRITE_TIMEOUT],
      (sd_error_string code).isSome = true) := by
  refine ⟨?_, by decide, by decide⟩
  rw [(sd_init_v2_ready_card 0 0 (Wire.replay blocklen_script) (by decide) (by decide)
    (by decide) (by decide) (by decide) (by decide) (by decide)).2 (by decide) (by decide)]

set_option maxRecDepth 100000 in
/-- C26 (counterexample): the card of `blocklen_script` is classified `SDCARD_SDHC` from its
OCR; `sd_init` then sends CMD16 all the same, and because the card answers it with 0x04 the
initialization fails with `ER_SET_BLOCKLEN`. -/
theorem sd_init_sdhc_fails_on_cmd16 :
    (Wire.replay blocklen_script).miso 71 &&& 0x40 ≠ 0 ∧
    (sd_init wire 0 0 (Wire.replay blocklen_script)).2.1 = SDCARD_SDHC ∧
    (sd_init wire 0 0 (Wire.replay blocklen_script)).1 = ER_SET_BLOCKLEN ∧
    ER_SET_BLOCKLEN ≠ ER_SUCCESS := by
  have h := (sd_init_v2_ready_card 0 0 (Wire.replay blocklen_script) (by decide) (by decide)
    (by decide) (by decide) (by decide) (by decide) (by decide)).2 (by decide) (by decide)
  rw [h]
  exact ⟨by decide, by decide, rfl, by decide⟩

/-- C26 (amended): `sd_init` sends SET_BLOCKLEN (CMD16 with argument 0x00000200) after CMD58
for every card, whatever its classification. On every hardware the `ST_READ_OCR` step goes on
to `ST_SET_BLOCKLEN` without looking at the card type, and the `ST_SET_BLOCKLEN` step calls
`sd_set_blocklen` and returns `ER_SET_BLOCKLEN` unless it is answered `R1_READY`. For a v2
card that answers in the first response slot and is ready at the first ACMD41, classified
`SDCARD_SDHC` or `SDCARD_SDSC` from bit 0x40 of the first OCR byte, the CMD16 frame follows
the CMD58 exchange on the bus; `sd_init` returns `ER_SUCCESS` when CMD16 is answered 0x00 and
`ER_SET_BLOCKLEN` when it is answered with another R1. -/
theorem sd_init_sets_blocklen_for_every_card (c0 : Int) (t0 : Nat) (w : Wire)
    (h0 : w.miso (w.pos + 22) = 0x01)
    (h8 : w.miso (w.pos + 33) = 0x01) (h8v : w.miso (w.pos + 36) &&& 0x01 ≠ 0)
    (h8p : w.miso (w.pos + 37) = 0xAA)
    (h55 : w.miso (w.pos + 48) ≤ 0x01) (h41 : w.miso (w.pos + 59) = 0x00)
    (h58 : w.miso (w.pos + 70) = 0x00) :
    (w.miso (w.pos + 85) = 0x00 →
      sd_init wire c0 t0 w
        = (ER_SUCCESS,
           (if w.miso (w.pos + 71) &&& 0x40 ≠ 0 then SDCARD_SDHC else SDCARD_SDSC),
           w.after (List.replicate 14 0xFF ++ sd_exchange GO_IDLE_STATE 0 0 0 0 0
              ++ sd_exchange SEND_IF_COND 0 0 0x01 0xAA 4 ++ sd_exchange APP_CMD 0 0 0 0 0
              ++ sd_exchange SD_SEND_OP_COND 0x40 0 0 0 0 ++ sd_exchange READ_OCR 0 0 0 0 4
              ++ sd_exchange SET_BLOCKLEN 0 0 0x02 0 0 ++ [0xFF, 0xFF])
            [false, false, false, true, false, true, false, true, false, true, false, true,
              false, true, false, false])) ∧
    (w.miso (w.pos + 85) < 128 → w.miso (w.pos + 85) ≠ 0x00 →
      sd_init wire c0 t0 w
        = (ER_SET_BLOCKLEN,
           (if w.miso (w.pos + 71) &&& 0x40 ≠ 0 then SDCARD_SDHC else SDCARD_SDSC),
           w.after (List.replicate 14 0xFF ++ sd_exchange GO_IDLE_STATE 0 0 0 0 0
              ++ sd_exchange SEND_IF_COND 0 0 0x01 0xAA 4 ++ sd_exchange APP_CMD 0 0 0 0 0
              ++ sd_exchange SD_SEND_OP_COND 0x40 0 0 0 0 ++ sd_exchange READ_OCR 0 0 0 0 4
              ++ sd_exchange SET_BLOCKLEN 0 0 0x02 0 0)
            [false, false, false, true, false, true, false, true, false, true, false, true,
              false, true, false])) ∧
    (∀ (σ : Type) (B : Spi σ) (c : Int) (t : Nat) (s : σ),
      (∀ v1,
        sd_init_case B { state := ST_READ_OCR, acmd41_retry := c, sdcard_type := t, bus := s }
          = .next v1 → v1.state = ST_SET_BLOCKLEN) ∧
      sd_init_case B { state := ST_SET_BLOCKLEN, acmd41_retry := c, sdcard_type := t, bus := s }
        = (if (sd_set_blocklen B s).1 = R1_READY then
            .next { state := ST_READY, acmd41_retry := c, sdcard_type := t,
                    bus := (sd_set_blocklen B s).2 }
          else .ret ER_SET_BLOCKLEN
            { state := ST_SET_BLOCKLEN, acmd41_retry := c, sdcard_type := t,
              bus := (sd_set_blocklen B s).2 })) := by
  refine ⟨(sd_init_v2_ready_card c0 t0 w h0 h8 h8v h8p h55 h41 h58).1,
    (sd_init_v2_ready_card c0 t0 w h0 h8 h8v h8p h55 h41 h58).2, ?_⟩
  intro σ B c t s
  constructor
  · intro v1 h
    simp only [sd_init_case] at h
    split at h
    · cases h
      rfl
    · exact absurd h (by simp)
  · simp only [sd_init_case]

set_option maxRecDepth 100000 in
theorem sd_init_sets_blocklen_for_every_card_witness :
    (sd_init wire 5 1 (Wire.replay blocklen_script)).1 = ER_SET_BLOCKLEN ∧
    (sd_init wire 5 1 (Wire.replay blocklen_script)).2.1 = SDCARD_SDHC := by
  have h := (sd_init_sets_blocklen_for_every_card 5 1 (Wire.replay blocklen_script) (by decide)
    (by decide) (by decide) (by decide) (by decide) (by decide) (by decide)).2.1 (by decide)
    (by decide)
  rw [h]
  exact ⟨rfl, by decide⟩

end Projects
namespace Projects

open sd_init_state_t

/-- The retry loop of CMD0 when no attempt is answered with `R1_IDLE_STATE`: all `n` attempts
are made. -/
theorem sd_init_go_idle_exhausted {σ : Type} (B : Spi σ) (n : Nat) : ∀ (s : σ),
    (∀ i < n, (sd_go_idle_state B ((fun x => (sd_go_idle_state B x).2)^[i] s)).1
      ≠ R1_IDLE_STATE) →
    sd_init_go_idle B n s = (false, (fun x => (sd_go_idle_state B x).2)^[n] s) := by
  induction n with
  | zero => intro s _; rfl
  | succ n ih =>
    intro s h
    have h0 : (sd_go_idle_state B s).1 ≠ R1_IDLE_STATE := h 0 (Nat.succ_pos _)
    simp only [sd_init_go_idle, h0, if_false]
    rw [ih]
    · rw [Function.iterate_succ_apply]
    · intro i hi
      have := h (i + 1) (by omega)
      rwa [Function.iterate_succ_apply] at this

/-- The retry loop of CMD0 when attempt number `k` (from 0) is the first that is answered with
`R1_IDLE_STATE`: the loop is left after `k + 1` attempts. -/
theorem sd_init_go_idle_found {σ : Type} (B : Spi σ) (k : Nat) : ∀ (n : Nat) (s : σ), k < n →
    (∀ i < k, (sd_go_idle_state B ((fun x => (sd_go_idle_state B x).2)^[i] s)).1
      ≠ R1_IDLE_STATE) →
    (sd_go_idle_state B ((fun x => (sd_go_idle_state B x).2)^[k] s)).1 = R1_IDLE_STATE →
    sd_init_go_idle B n s = (true, (fun x => (sd_go_idle_state B x).2)^[k + 1] s) := by
  induction k with
  | zero =>
    intro n s hn _ hk
    obtain ⟨n, rfl⟩ : ∃ m, n = m + 1 := ⟨n - 1, by omega⟩
    have h0 : (sd_go_idle_state B s).1 = R1_IDLE_STATE := hk
    simp only [sd_init_go_idle, h0, if_true]
    rfl
  | succ k ih =>
    intro n s hn h hk
    obtain ⟨n, rfl⟩ : ∃ m, n = m + 1 := ⟨n - 1, by omega⟩
    have h0 : (sd_go_idle_state B s).1 ≠ R1_IDLE_STATE := h 0 (Nat.succ_pos _)
    simp only [sd_init_go_idle, h0, if_false]
    rw [ih n _ (by omega)]
    · rw [Function.iterate_succ_apply (fun x => (sd_go_idle_state B x).2) (k + 1)]
    · intro i hi
      have := h (i + 1) (by omega)
      rwa [Function.iterate_succ_apply] at this
    · rwa [Function.iterate_succ_apply] at hk

/-- One call of `sd_go_idle_state` on the recording bus: `sd_select`, one CMD0 frame, between
1 and 248 filler bytes for the response, `sd_deselect`. -/
theorem sd_go_idle_state_wire (w : Wire) :
    ∃ k, 1 ≤ k ∧ k ≤ 248 ∧
      (sd_go_idle_state wire w).2
        = w.after ([0xFF, 0xFF] ++ sd_cmd_frame GO_IDLE_STATE 0 0 0 0
            ++ List.replicate k 0xFF ++ [0xFF, 0xFF]) [true, false] := by
  simp only [sd_go_idle_state, sd_select_wire, sd_deselect_wire]
  rcases sd_cmd_cases GO_IDLE_STATE 0 0 0 0 (w.after [0xFF, 0xFF] [true]) with
    ⟨j, hj, _, _, h⟩ | ⟨_, h⟩
  · refine ⟨j + 1, by omega, by omega, ?_⟩
    rw [h]
    simp only [Wire.after_after, List.append_assoc]
    rfl
  · refine ⟨248, by decide, le_refl _, ?_⟩
    rw [h]
    simp only [Wire.after_after, List.append_assoc]
    rfl

/-- One call of `sd_go_idle_state` on the recording bus when the card drives no byte below
0x80 in any of the 248 response slots: the call returns 0xFF after all 248 fillers. -/
theorem sd_go_idle_state_unanswered (w : Wire)
    (h : ∀ i < 248, 128 ≤ w.miso (w.pos + 8 + i)) :
    sd_go_idle_state wire w
      = (0xFF, w.after ([0xFF, 0xFF] ++ sd_cmd_frame GO_IDLE_STATE 0 0 0 0
          ++ List.replicate 248 0xFF ++ [0xFF, 0xFF]) [true, false]) := by
  have hm : ∀ i < 248, 128 ≤ (w.after [0xFF, 0xFF] [true]).miso
      ((w.after [0xFF, 0xFF] [true]).pos + 6 + i) := by
    intro i hi
    rw [Wire.miso_after, Wire.pos_after]
    exact h i hi
  simp only [sd_go_idle_state, sd_select_wire, sd_deselect_wire,
    sd_cmd_miss GO_IDLE_STATE 0 0 0 0 _ hm, Wire.after_after, List.append_assoc]
  rfl

/-- One call of `sd_send_if_cond` on the recording bus when the card drives no byte below
0x80 in any of the 248 response slots. -/
theorem sd_send_if_cond_unanswered (r7 : Nat → Nat) (w : Wire)
    (h : ∀ i < 248, 128 ≤ w.miso (w.pos + 8 + i)) :
    sd_send_if_cond wire r7 w
      = (0xFF, r7, w.after ([0xFF, 0xFF] ++ sd_cmd_frame SEND_IF_COND 0 0 0x01 0xAA
          ++ List.replicate 248 0xFF ++ [0xFF, 0xFF]) [true, false]) := by
  have hm : ∀ i < 248, 128 ≤ (w.after [0xFF, 0xFF] [true]).miso
      ((w.after [0xFF, 0xFF] [true]).pos + 6 + i) := by
    intro i hi
    rw [Wire.miso_after, Wire.pos_after]
    exact h i hi
  simp only [sd_send_if_cond, sd_select_wire, sd_deselect_wire,
    sd_cmd_miss SEND_IF_COND 0 0 0x01 0xAA _ hm, Wire.after_after, List.append_assoc,
    R1_IDLE_STATE]
  rfl

theorem unanswered_length (cmd arg0 arg1 arg2 arg3 : Nat) :
    ([0xFF, 0xFF] ++ sd_cmd_frame cmd arg0 arg1 arg2 arg3
      ++ List.replicate 248 0xFF ++ [0xFF, 0xFF]).length = 258 := by
  simp only [List.length_append, sd_cmd_frame_length, List.length_replicate, List.length_cons,
    List.length_nil]

/-- The retry loop of CMD0 on the recording bus while the card is silent: `m` attempts of 258
transfers each are made and the loop goes on with what is left of its budget. -/
theorem sd_init_go_idle_silent (m : Nat) : ∀ (n : Nat) (w : Wire),
    (∀ i < 258 * m, 128 ≤ w.miso (w.pos + i)) →
    sd_init_go_idle wire (m + n) w
      = sd_init_go_idle wire n
          (w.after (List.replicate m ([0xFF, 0xFF] ++ sd_cmd_frame GO_IDLE_STATE 0 0 0 0
              ++ List.replicate 248 0xFF ++ [0xFF, 0xFF])).flatten
            (List.replicate m [true, false]).flatten) := by
  induction m with
  | zero =>
    intro n w _
    rw [Nat.zero_add]
    simp only [List.replicate, List.flatten, Wire.after_nil]
  | succ m ih =>
    intro n w h
    have e : m + 1 + n = (m + n) + 1 := by omega
    rw [e]
    have hu := sd_go_idle_state_unanswered w (fun i hi => by
      have := h (8 + i) (by omega)
      rwa [← Nat.add_assoc] at this)
    rw [sd_init_go_idle, hu]
    dsimp only
    rw [if_neg (show ¬ (0xFF : Nat) = R1_IDLE_STATE by decide)]
    rw [ih n _ (fun i hi => by
      rw [Wire.miso_after, Wire.pos_after, unanswered_length, Nat.add_assoc]
      exact h (258 + i) (by omega))]
    rw [Wire.after_after]
    rfl

/-- The retry loop of CMD8 on the recording bus while the card is silent. -/
theorem sd_init_if_cond_silent (m : Nat) : ∀ (n : Nat) (r7 : Nat → Nat) (w : Wire),
    (∀ i < 258 * m, 128 ≤ w.miso (w.pos + i)) →
    sd_init_if_cond wire (m + n) r7 w
      = sd_init_if_cond wire n r7
          (w.after (List.replicate m ([0xFF, 0xFF] ++ sd_cmd_frame SEND_IF_COND 0 0 0x01 0xAA
              ++ List.replicate 248 0xFF ++ [0xFF, 0xFF])).flatten
            (List.replicate m [true, false]).flatten) := by
  induction m with
  | zero =>
    intro n r7 w _
    rw [Nat.zero_add]
    simp only [List.replicate, List.flatten, Wire.after_nil]
  | succ m ih =>
    intro n r7 w h
    have e : m + 1 + n = (m + n) + 1 := by omega
    rw [e]
    have hu := sd_send_if_cond_unanswered r7 w (fun i hi => by
      have := h (8 + i) (by omega)
      rwa [← Nat.add_assoc] at this)
    rw [sd_init_if_cond, hu]
    dsimp only
    rw [if_neg (show ¬ (0xFF : Nat) = R1_IDLE_STATE by decide),
      if_neg (show ¬ (0xFF : Nat) = 0x05 by decide)]
    rw [ih n _ _ (fun i hi => by
      rw [Wire.miso_after, Wire.pos_after, unanswered_length, Nat.add_assoc]
      exact h (258 + i) (by omega))]
    rw [Wire.after_after]
    rfl

/-- What the retry loop of CMD0 sends on the recording bus, whatever the card answers: at
most `n` attempts, each one CMD0 frame with 1 to 248 fillers between `sd_select` and
`sd_deselect`; all `n` of them when the loop ends without an answer, at least one when it is
left by `break`. -/
theorem sd_init_go_idle_wire (n : Nat) : ∀ w : Wire, ∃ ks : List Nat,
    ks.length ≤ n ∧ (∀ k ∈ ks, 1 ≤ k ∧ k ≤ 248) ∧
    (sd_init_go_idle wire n w).2
      = w.after (ks.map (fun k => [0xFF, 0xFF] ++ sd_cmd_frame GO_IDLE_STATE 0 0 0 0
            ++ List.replicate k 0xFF ++ [0xFF, 0xFF])).flatten
          (ks.map (fun _ => [true, false])).flatten ∧
    ((sd_init_go_idle wire n w).1 = false → ks.length = n) ∧
    ((sd_init_go_idle wire n w).1 = true → 1 ≤ ks.length) := by
  induction n with
  | zero =>
    intro w
    refine ⟨[], le_refl _, fun k hk => absurd hk (List.not_mem_nil k), ?_, fun _ => rfl, ?_⟩
    · simp only [sd_init_go_idle, List.map_nil, List.flatten, Wire.after_nil]
    · intro h
      simp only [sd_init_go_idle] at h
      exact absurd h (by decide)
  | succ n ih =>
    intro w
    obtain ⟨k, hk1, hk2, hk⟩ := sd_go_idle_state_wire w
    by_cases h1 : (sd_go_idle_state wire w).1 = R1_IDLE_STATE
    · refine ⟨[k], by simp, ?_, ?_, ?_, fun _ => by simp⟩
      · intro j hj
        rw [List.mem_singleton] at hj
        subst hj
        exact ⟨hk1, hk2⟩
      · simp only [sd_init_go_idle, h1, if_true, hk, List.map_cons, List.map_nil, List.flatten,
          List.append_nil]
      · intro h
        simp only [sd_init_go_idle, h1, if_true] at h
        exact absurd h (by decide)
    · obtain ⟨ks, h2, h3, h4, h5, h6⟩ := ih (sd_go_idle_state wire w).2
      refine ⟨k :: ks, by simp only [List.length_cons]; omega, ?_, ?_, ?_, fun _ => by simp⟩
      · intro j hj
        rcases List.mem_cons.1 hj with hj | hj
        · subst hj
          exact ⟨hk1, hk2⟩
        · exact h3 j hj
      · simp only [sd_init_go_idle, h1, if_false]
        rw [h4, hk, Wire.after_after]
        simp only [List.map_cons, List.flatten]
      · intro h
        simp only [sd_init_go_idle, h1, if_false] at h
        simp only [List.length_cons, h5 h]

theorem flatten_replicate_length (m : Nat) (l : List Nat) (n : Nat) (h : l.length = n) :
    (List.replicate m l).flatten.length = n * m := by
  induction m with
  | zero => rfl
  | succ m ih =>
    show (l ++ (List.replicate m l).flatten).length = n * (m + 1)
    rw [List.length_append, ih, h, Nat.mul_succ, Nat.add_comm]

/-- The CMD0 step on the recording bus when the card is silent for ten attempts of 258
transfers each. -/
theorem case_go_idle_silent (c : Int) (t : Nat) (w : Wire)
    (h : ∀ i < 2580, 128 ≤ w.miso (w.pos + i)) :
    sd_init_case wire
        { state := ST_GO_IDLE_STATE, acmd41_retry := c, sdcard_type := t, bus := w }
      = .ret ER_GO_IDLE_STATE
          { state := ST_GO_IDLE_STATE, acmd41_retry := c, sdcard_type := t,
            bus := w.after (List.replicate 10 ([0xFF, 0xFF] ++ sd_cmd_frame GO_IDLE_STATE 0 0 0 0
                ++ List.replicate 248 0xFF ++ [0xFF, 0xFF])).flatten
              (List.replicate 10 [true, false]).flatten } := by
  have e : sd_init_go_idle wire GO_IDLE_STATE_RETRY w
      = (false, w.after (List.replicate 10 ([0xFF, 0xFF] ++ sd_cmd_frame GO_IDLE_STATE 0 0 0 0
                ++ List.replicate 248 0xFF ++ [0xFF, 0xFF])).flatten
              (List.replicate 10 [true, false]).flatten) :=
    sd_init_go_idle_silent 10 0 w h
  simp only [sd_init_case, e, Bool.false_eq_true, if_false]

/-- The CMD0 step on the recording bus when the card is silent for nine attempts and answers
the tenth with 0x01 in the first response slot. -/
theorem case_go_idle_tenth (c : Int) (t : Nat) (w : Wire)
    (h : ∀ i < 2322, 128 ≤ w.miso (w.pos + i)) (ha : w.miso (w.pos + 2330) = 0x01) :
    sd_init_case wire
        { state := ST_GO_IDLE_STATE, acmd41_retry := c, sdcard_type := t, bus := w }
      = .next
          { state := ST_SEND_IF_COND, acmd41_retry := c, sdcard_type := t,
            bus := w.after ((List.replicate 9 ([0xFF, 0xFF] ++ sd_cmd_frame GO_IDLE_STATE 0 0 0 0
                ++ List.replicate 248 0xFF ++ [0xFF, 0xFF])).flatten
                ++ sd_exchange GO_IDLE_STATE 0 0 0 0 0)
              ((List.replicate 9 [true, false]).flatten ++ [true, false]) } := by
  have e1 : sd_init_go_idle wire GO_IDLE_STATE_RETRY w
      = sd_init_go_idle wire 1
          (w.after (List.replicate 9 ([0xFF, 0xFF] ++ sd_cmd_frame GO_IDLE_STATE 0 0 0 0
                ++ List.replicate 248 0xFF ++ [0xFF, 0xFF])).flatten
              (List.replicate 9 [true, false]).flatten) :=
    sd_init_go_idle_silent 9 1 w h
  have hp : (w.after (List.replicate 9 ([0xFF, 0xFF] ++ sd_cmd_frame GO_IDLE_STATE 0 0 0 0
        ++ List.replicate 248 0xFF ++ [0xFF, 0xFF])).flatten
        (List.replicate 9 [true, false]).flatten).miso
      ((w.after (List.replicate 9 ([0xFF, 0xFF] ++ sd_cmd_frame GO_IDLE_STATE 0 0 0 0
        ++ List.replicate 248 0xFF ++ [0xFF, 0xFF])).flatten
        (List.replicate 9 [true, false]).flatten).pos + 8) = 0x01 := by
    rw [after_pos w _ _ 2322 8 (flatten_replicate_length 9 _ 258 (unanswered_length _ _ _ _ _))]
    exact ha
  have e2 := sd_go_idle_state_first _ (show _ < 128 by rw [hp]; decide)
  rw [hp] at e2
  have e3 : sd_init_go_idle wire 1
      (w.after (List.replicate 9 ([0xFF, 0xFF] ++ sd_cmd_frame GO_IDLE_STATE 0 0 0 0
            ++ List.replicate 248 0xFF ++ [0xFF, 0xFF])).flatten
          (List.replicate 9 [true, false]).flatten)
      = (true, w.after ((List.replicate 9 ([0xFF, 0xFF] ++ sd_cmd_frame GO_IDLE_STATE 0 0 0 0
                ++ List.replicate 248 0xFF ++ [0xFF, 0xFF])).flatten
                ++ sd_exchange GO_IDLE_STATE 0 0 0 0 0)
              ((List.replicate 9 [true, false]).flatten ++ [true, false])) := by
    rw [sd_init_go_idle, e2]
    dsimp only
    rw [if_pos (show (0x01 : Nat) = R1_IDLE_STATE from rfl), Wire.after_after]
  simp only [sd_init_case, e1.trans e3, if_true]

/-- The CMD8 step on the recording bus when the card is silent for ten attempts of 258
transfers each. -/
theorem case_if_cond_silent (c : Int) (t : Nat) (w : Wire)
    (h : ∀ i < 2580, 128 ≤ w.miso (w.pos + i)) :
    sd_init_case wire
        { state := ST_SEND_IF_COND, acmd41_retry := c, sdcard_type := t, bus := w }
      = .ret ER_SEND_IF_COND
          { state := ST_SEND_IF_COND, acmd41_retry := c, sdcard_type := t,
            bus := w.after (List.replicate 10 ([0xFF, 0xFF]
                ++ sd_cmd_frame SEND_IF_COND 0 0 0x01 0xAA
                ++ List.replicate 248 0xFF ++ [0xFF, 0xFF])).flatten
              (List.replicate 10 [true, false]).flatten } := by
  have e : sd_init_if_cond wire SEND_IF_COND_RETRY (fun _ => 0) w
      = (none, w.after (List.replicate 10 ([0xFF, 0xFF]
                ++ sd_cmd_frame SEND_IF_COND 0 0 0x01 0xAA
                ++ List.replicate 248 0xFF ++ [0xFF, 0xFF])).flatten
              (List.replicate 10 [true, false]).flatten) :=
    sd_init_if_cond_silent 10 0 _ w h
  simp only [sd_init_case, e]

theorem tenth_attempt_card_silent (q : Nat) (h : q ≠ 2344) :
    128 ≤ tenth_attempt_card.miso (tenth_attempt_card.pos + q) := by
  have e : tenth_attempt_card.rx (0 + q) = 0xFF := by
    show (if 0 + q = 2344 then 0x01 else 0xFF) = 0xFF
    rw [if_neg (by omega)]
  show 128 ≤ tenth_attempt_card.rx (0 + q) % 256
  rw [e]
  decide

/-- C24: `sd_init` (projects) makes at most 10 attempts of CMD0. On every hardware and for
every starting value of the variables, with `P` the hardware state after the power-up step
and attempts counted from 0: when attempt `k < 10` of `sd_go_idle_state` is the first that
returns `R1_IDLE_STATE`, `sd_init` makes exactly `k + 1` attempts and goes on with the
interface-condition step from the state they leave; when none of 10 attempts returns
`R1_IDLE_STATE`, `sd_init` returns `ER_GO_IDLE_STATE` in the state that exactly 10 attempts
leave, so that nothing is sent after them. On the recording bus each attempt is one CMD0
frame with 1 to 248 fillers between `sd_select` and `sd_deselect`, and whatever the card
answers the bytes sent up to the end of the go-idle step are the 14 of the power-up followed
by at most 10 such attempts: exactly 10 when `sd_init` returns `ER_GO_IDLE_STATE` there, at
least one when it goes on with CMD8. On a silent card (`Wire.replay []`) the whole traffic of
`sd_init` is the power-up and exactly 10 CMD0 attempts of 248 fillers. On
`tenth_attempt_card`, which answers only the tenth CMD0, the traffic is the power-up, nine
unanswered CMD0 attempts, the answered tenth, and then the 10 unanswered CMD8 attempts that
end the run with `ER_SEND_IF_COND`. -/
theorem sd_init_go_idle_retries {σ : Type} (B : Spi σ) (c0 : Int) (t0 : Nat) (s : σ) :
    (∀ k, k < 10 →
      (∀ i < k, (sd_go_idle_state B ((fun x => (sd_go_idle_state B x).2)^[i]
        (B.timer_delay_ms POWER_UP_DELAY (sd_power_up B s)))).1 ≠ R1_IDLE_STATE) →
      (sd_go_idle_state B ((fun x => (sd_go_idle_state B x).2)^[k]
        (B.timer_delay_ms POWER_UP_DELAY (sd_power_up B s)))).1 = R1_IDLE_STATE →
      sd_init_loop B { state := ST_POWER_UP, acmd41_retry := c0, sdcard_type := t0, bus := s }
        = sd_init_loop B
          { state := ST_SEND_IF_COND, acmd41_retry := c0, sdcard_type := t0,
            bus := (fun x => (sd_go_idle_state B x).2)^[k + 1]
              (B.timer_delay_ms POWER_UP_DELAY (sd_power_up B s)) }) ∧
    ((∀ i < 10, (sd_go_idle_state B ((fun x => (sd_go_idle_state B x).2)^[i]
        (B.timer_delay_ms POWER_UP_DELAY (sd_power_up B s)))).1 ≠ R1_IDLE_STATE) →
      sd_init B c0 t0 s
        = (ER_GO_IDLE_STATE, t0, (fun x => (sd_go_idle_state B x).2)^[10]
            (B.timer_delay_ms POWER_UP_DELAY (sd_power_up B s)))) ∧
    (∀ w : Wire, ∃ k, 1 ≤ k ∧ k ≤ 248 ∧
      (sd_go_idle_state wire w).2
        = w.after ([0xFF, 0xFF] ++ sd_cmd_frame GO_IDLE_STATE 0 0 0 0
            ++ List.replicate k 0xFF ++ [0xFF, 0xFF]) [true, false]) ∧
    (∀ w : Wire, ∃ ks : List Nat, ks.length ≤ 10 ∧ (∀ k ∈ ks, 1 ≤ k ∧ k ≤ 248) ∧
      ((ks.length = 10 ∧
        sd_init wire c0 t0 w
          = (ER_GO_IDLE_STATE, t0,
             w.after (List.replicate 14 0xFF
                 ++ (ks.map (fun k => [0xFF, 0xFF] ++ sd_cmd_frame GO_IDLE_STATE 0 0 0 0
                     ++ List.replicate k 0xFF ++ [0xFF, 0xFF])).flatten)
               ([false, false, false] ++ (ks.map (fun _ => [true, false])).flatten))) ∨
       (1 ≤ ks.length ∧
        sd_init_loop wire
            { state := ST_POWER_UP, acmd41_retry := c0, sdcard_type := t0, bus := w }
          = sd_init_loop wire
            { state := ST_SEND_IF_COND, acmd41_retry := c0, sdcard_type := t0,
              bus := w.after (List.replicate 14 0xFF
                  ++ (ks.map (fun k => [0xFF, 0xFF] ++ sd_cmd_frame GO_IDLE_STATE 0 0 0 0
                      ++ List.replicate k 0xFF ++ [0xFF, 0xFF])).flatten)
                ([false, false, false] ++ (ks.map (fun _ => [true, false])).flatten) }))) ∧
    sd_init wire c0 t0 (Wire.replay [])
      = (ER_GO_IDLE_STATE, t0,
         (Wire.replay []).after
           (List.replicate 14 0xFF
             ++ (List.replicate 10 ([0xFF, 0xFF] ++ sd_cmd_frame GO_IDLE_STATE 0 0 0 0
                 ++ List.replicate 248 0xFF ++ [0xFF, 0xFF])).flatten)
           ([false, false, false] ++ (List.replicate 10 [true, false]).flatten)) ∧
    sd_init wire c0 t0 tenth_attempt_card
      = (ER_SEND_IF_COND, t0,
         tenth_attempt_card.after
           (List.replicate 14 0xFF
             ++ ((List.replicate 9 ([0xFF, 0xFF] ++ sd_cmd_frame GO_IDLE_STATE 0 0 0 0
                 ++ List.replicate 248 0xFF ++ [0xFF, 0xFF])).flatten
               ++ sd_exchange GO_IDLE_STATE 0 0 0 0 0)
             ++ (List.replicate 10 ([0xFF, 0xFF] ++ sd_cmd_frame SEND_IF_COND 0 0 0x01 0xAA
                 ++ List.replicate 248 0xFF ++ [0xFF, 0xFF])).flatten)
           ([false, false, false]
             ++ ((List.replicate 9 [true, false]).flatten ++ [true, false])
             ++ (List.replicate 10 [true, false]).flatten)) := by
  have hp : sd_init_case B
      { state := ST_POWER_UP, acmd41_retry := c0, sdcard_type := t0, bus := s }
      = .next { state := ST_GO_IDLE_STATE, acmd41_retry := c0, sdcard_type := t0,
                bus := B.timer_delay_ms POWER_UP_DELAY (sd_power_up B s) } := by
    simp only [sd_init_case]
  refine ⟨fun k hk hpre hhit => ?_, fun hall => ?_, sd_go_idle_state_wire, fun w => ?_, ?_, ?_⟩
  · rw [sd_init_loop_next B _ _ hp]
    apply sd_init_loop_next
    simp only [sd_init_case, GO_IDLE_STATE_RETRY, sd_init_go_idle_found B k 10 _ hk hpre hhit,
      if_true]
  · unfold sd_init
    rw [sd_init_loop_next B _ _ hp, sd_init_loop_ret B _
      { state := ST_GO_IDLE_STATE, acmd41_retry := c0, sdcard_type := t0,
        bus := (fun x => (sd_go_idle_state B x).2)^[10]
          (B.timer_delay_ms POWER_UP_DELAY (sd_power_up B s)) } ER_GO_IDLE_STATE]
    simp only [sd_init_case, GO_IDLE_STATE_RETRY, sd_init_go_idle_exhausted B 10 _ hall]
    rfl
  · obtain ⟨ks, h1, h2, h3, h4, h5⟩ :=
      sd_init_go_idle_wire 10 (w.after (List.replicate 14 0xFF) [false, false, false])
    refine ⟨ks, h1, h2, ?_⟩
    rw [Wire.after_after] at h3
    cases hb : (sd_init_go_idle wire 10
      (w.after (List.replicate 14 0xFF) [false, false, false])).1
    · left
      refine ⟨h4 hb, ?_⟩
      unfold sd_init
      rw [sd_init_loop_next _ _ _ (case_power_up c0 t0 w)]
      rw [sd_init_loop_ret wire _
        { state := ST_GO_IDLE_STATE, acmd41_retry := c0, sdcard_type := t0,
          bus := w.after (List.replicate 14 0xFF
              ++ (ks.map (fun k => [0xFF, 0xFF] ++ sd_cmd_frame GO_IDLE_STATE 0 0 0 0
                  ++ List.replicate k 0xFF ++ [0xFF, 0xFF])).flatten)
            ([false, false, false] ++ (ks.map (fun _ => [true, false])).flatten) }
        ER_GO_IDLE_STATE]
      simp only [sd_init_case, GO_IDLE_STATE_RETRY, hb, Bool.false_eq_true, if_false, h3]
    · right
      refine ⟨h5 hb, ?_⟩
      rw [sd_init_loop_next _ _ _ (case_power_up c0 t0 w)]
      apply sd_init_loop_next
      simp only [sd_init_case, GO_IDLE_STATE_RETRY, hb, if_true, h3]
  · unfold sd_init
    rw [sd_init_loop_next _ _ _ (case_power_up c0 t0 _)]
    rw [sd_init_loop_ret _ _ _ _ (case_go_idle_silent c0 t0 _ (fun i _ => by
      rw [Wire.miso_after, replay_idle [] _ (Nat.zero_le _)]
      decide))]
    simp only [Wire.after_after]
  · unfold sd_init
    rw [sd_init_loop_next _ _ _ (case_power_up c0 t0 _)]
    rw [sd_init_loop_next _ _ _ (case_go_idle_tenth c0 t0 _
      (fun i hi => by
        rw [after_pos tenth_attempt_card _ _ 14 i (by simp)]
        exact tenth_attempt_card_silent _ (by omega))
      (by rw [after_pos tenth_attempt_card _ _ 14 2330 (by simp)]; rfl))]
    simp only [Wire.after_after]
    rw [sd_init_loop_ret _ _ _ _ (case_if_cond_silent c0 t0 _ (fun i hi => by
      rw [after_pos tenth_attempt_card _ _ 2347 i (by
        rw [List.length_append, List.length_append, List.length_replicate,
          flatten_replicate_length 9 _ 258 (unanswered_length _ _ _ _ _), sd_exchange_length])]
      exact tenth_attempt_card_silent _ (by omega)))]
    simp only [Wire.after_after]

end Projects
namespace Projects

open sd_init_state_t

end Projects
namespace Diskio

open DRESULT

/-- What every call of the adapter preserves: `protected` is false, `nodisk` is the negation
of `initialized`; and `initialized`, once true, stays true. -/
theorem exec_invariant {δ : Type} (B : Spi δ) (D : SdDriver δ) (c : Call) (x : Session × δ)
    (hp : x.1.protected_ = false) (hn : x.1.nodisk = !x.1.initialized) :
    (exec B D c x).1.protected_ = false ∧
    (exec B D c x).1.nodisk = !(exec B D c x).1.initialized ∧
    (x.1.initialized = true → (exec B D c x).1.initialized = true) := by
  cases c with
  | status pdrv => exact ⟨hp, hn, id⟩
  | init pdrv =>
    simp only [exec, disk_initialize]
    split
    · exact ⟨hp, hn, id⟩
    · split
      · exact ⟨rfl, rfl, fun _ => rfl⟩
      · exact ⟨hp, hn, id⟩
  | read pdrv buff sector count => exact ⟨hp, hn, id⟩
  | write pdrv buff sector count => exact ⟨hp, hn, id⟩
  | ioctl pdrv cmd buff => exact ⟨hp, hn, id⟩

theorem run_invariant {δ : Type} (B : Spi δ) (D : SdDriver δ) (calls : List Call) :
    ∀ (x : Session × δ), x.1.protected_ = false → x.1.nodisk = !x.1.initialized →
    (run B D calls x).1.protected_ = false ∧
    (run B D calls x).1.nodisk = !(run B D calls x).1.initialized ∧
    (x.1.initialized = true → (run B D calls x).1.initialized = true) := by
  induction calls with
  | nil => intro x hp hn; exact ⟨hp, hn, id⟩
  | cons c cs ih =>
    intro x hp hn
    obtain ⟨h1, h2, h3⟩ := exec_invariant B D c x hp hn
    obtain ⟨k1, k2, k3⟩ := ih (exec B D c x) h1 h2
    exact ⟨k1, k2, fun h => k3 (h3 h)⟩

/-- C29: in every adapter state reached from the initial one by any sequence of calls of
`disk_status`, `disk_initialize`, `disk_read`, `disk_write` and `disk_ioctl`, on any hardware
and any SD library, `protected` is false and `nodisk` is the negation of `initialized`. So
`disk_status(0)` is never `STA_PROTECT`: it is `STA_NODISK` while `initialized` is false and 0
once it is true. `initialized` becomes true exactly in a `disk_initialize` that returns 0,
any other call leaves the three variables as they are, and whatever calls follow,
`initialized` stays true. -/
theorem adapter_invariant {δ : Type} (B : Spi δ) (D : SdDriver δ) (calls : List Call)
    (s : δ) :
    (run B D calls (Session.initial, s)).1.protected_ = false ∧
    (run B D calls (Session.initial, s)).1.nodisk
      = !(run B D calls (Session.initial, s)).1.initialized ∧
    disk_status 0 (run B D calls (Session.initial, s)).1 ≠ STA_PROTECT ∧
    disk_status 0 (run B D calls (Session.initial, s)).1
      = (if (run B D calls (Session.initial, s)).1.initialized then 0 else STA_NODISK) ∧
    disk_status 0 Session.initial = STA_NODISK ∧
    (∀ c : Call,
      (exec B D c (run B D calls (Session.initial, s))).1
        = (run B D calls (Session.initial, s)).1 ∨
      (∃ pdrv, c = Call.init pdrv ∧
        ( disk_initialize B D pdrv (run B D calls (Session.initial, s)).1
          (run B D calls (Session.initial, s)).2).1 = 0 ∧
        (exec B D c (run B D calls (Session.initial, s))).1.initialized = true)) ∧
    (∀ more : List Call, (run B D calls (Session.initial, s)).1.initialized = true →
      (run B D more (run B D calls (Session.initial, s))).1.initialized = true) := by
  obtain ⟨h1, h2, _⟩ := run_invariant B D calls (Session.initial, s) rfl rfl
  generalize run B D calls (Session.initial, s) = x at h1 h2 ⊢
  refine ⟨h1, h2, ?_, ?_, rfl, ?_, ?_⟩
  · simp only [disk_status, DEV_SDCARD, ne_eq, not_true_eq_false, if_false, h1, h2]
    cases x.1.initialized <;> decide
  · simp only [disk_status, DEV_SDCARD, ne_eq, not_true_eq_false, if_false, h1, h2]
    cases x.1.initialized <;> rfl
  · intro c
    cases c with
    | status pdrv => exact Or.inl rfl
    | init pdrv =>
      by_cases hd : pdrv ≠ DEV_SDCARD
      · left
        simp only [exec, disk_initialize, if_pos hd]
      · by_cases hl : (disk_initialize_loop B D 100 (B.spi_cs_high x.2)).1 = true
        · right
          refine ⟨pdrv, rfl, ?_, ?_⟩
          · simp only [ disk_initialize, if_neg hd, hl, if_true]
          · simp only [exec, disk_initialize, if_neg hd, hl, if_true]
        · left
          simp only [exec, disk_initialize, if_neg hd, hl, Bool.false_eq_true, if_false]
    | read pdrv buff sector count => exact Or.inl rfl
    | write pdrv buff sector count => exact Or.inl rfl
    | ioctl pdrv cmd buff => exact Or.inl rfl
  · intro more hi
    exact (run_invariant B D more x h1 h2).2.2 hi

end Diskio
namespace Lib

/-- The response loop of the lib only adds transfers to the bus. -/
theorem sd_r1_response_loop_sends (a : Nat) (w : Wire) :
    ∃ l, (sd_r1_response_loop wire a w).2 = w.after l [] := by
  induction a, w using sd_r1_response_loop.induct wire with
  | case1 a s ha p hp =>
    rw [sd_r1_response_loop]
    have hp2 : (wire.spi_transfer 0xFF s).1 &&& 0x80 = 0 := hp
    simp only [ha, if_true, hp2]
    exact ⟨[0xFF % 256], by rw [wire_transfer]⟩
  | case2 a s ha p hp ih =>
    rw [sd_r1_response_loop]
    have hp2 : ¬ (wire.spi_transfer 0xFF s).1 &&& 0x80 = 0 := hp
    simp only [ha, if_true, hp2, if_false]
    obtain ⟨l, hl⟩ := ih
    refine ⟨[0xFF % 256] ++ l, ?_⟩
    have e : p.2 = s.after [0xFF % 256] [] := by
      show (wire.spi_transfer 0xFF s).2 = _
      rw [wire_transfer]
    rw [show (wire.spi_transfer 0xFF s).2 = p.2 from rfl, hl, e, Wire.after_after]
    rfl
  | case3 a s ha =>
    rw [sd_r1_response_loop]
    simp only [ha, if_false]
    exact ⟨[], (Wire.after_nil s).symm⟩

theorem sd_data_bytes_sends (n : Nat) : ∀ (i : Nat) (buf : Nat → Nat) (w : Wire),
    ∃ l, (sd_data_bytes wire n i buf w).2 = w.after l [] := by
  induction n with
  | zero => intro i buf w; exact ⟨[], (Wire.after_nil w).symm⟩
  | succ n ih =>
    intro i buf w
    simp only [sd_data_bytes, wire_transfer]
    obtain ⟨l, hl⟩ := ih (i + 1) (Function.update buf i (w.miso w.pos)) (w.after [0xFF % 256] [])
    exact ⟨[0xFF % 256] ++ l, by rw [hl, Wire.after_after]; rfl⟩

theorem sd_read_wait_sends (a : Nat) (w : Wire) :
    ∃ l, (sd_read_wait wire a w).2.2 = w.after l [] := by
  induction a, w using sd_read_wait.induct wire with
  | case1 a s ha p hp =>
    rw [sd_read_wait]
    have hp2 : (wire.spi_transfer 0xFF s).1 = DATA_START_TOKEN := hp
    simp only [ha, if_true, hp2]
    exact ⟨[0xFF % 256], by rw [wire_transfer]⟩
  | case2 a s ha p hp hq =>
    rw [sd_read_wait]
    have hp2 : ¬ (wire.spi_transfer 0xFF s).1 = DATA_START_TOKEN := hp
    have hq2 : (wire.spi_transfer 0xFF s).1 ≠ 0xFF := hq
    simp only [ha, if_true, hp2, if_false, hq2, ne_eq, not_false_eq_true]
    exact ⟨[0xFF % 256], by rw [wire_transfer]⟩
  | case3 a s ha p hp hq ih =>
    rw [sd_read_wait]
    have hp2 : ¬ (wire.spi_transfer 0xFF s).1 = DATA_START_TOKEN := hp
    have hq2 : ¬ (wire.spi_transfer 0xFF s).1 ≠ 0xFF := hq
    simp only [ha, if_true, hp2, if_false, hq2]
    obtain ⟨l, hl⟩ := ih
    refine ⟨[0xFF % 256] ++ l, ?_⟩
    have e : p.2 = s.after [0xFF % 256] [] := by
      show (wire.spi_transfer 0xFF s).2 = _
      rw [wire_transfer]
    rw [show (wire.spi_transfer 0xFF s).2 = p.2 from rfl, hl, e, Wire.after_after]
    rfl
  | case4 a s ha =>
    rw [sd_read_wait]
    simp only [ha, if_false]
    exact ⟨[], (Wire.after_nil s).symm⟩

end Lib
namespace Lib

theorem sd_write_busy_sends (fuel : Nat) : ∀ (t : Nat) (w : Wire) (r : Nat × Wire),
    sd_write_busy wire fuel t w = some r → ∃ l, r.2 = w.after l [] := by
  induction fuel with
  | zero => intro t w r h; exact absurd h (by simp [sd_write_busy])
  | succ fuel ih =>
    intro t w r h
    simp only [sd_write_busy, wire_transfer] at h
    split at h
    · split at h
      · cases h
        exact ⟨[0xFF % 256], rfl⟩
      · obtain ⟨l, hl⟩ := ih t _ r h
        exact ⟨[0xFF % 256] ++ l, by rw [hl, Wire.after_after]; rfl⟩
    · cases h
      exact ⟨[], (Wire.after_nil w).symm⟩

/-- The first byte that `sd_cmd0` sends is 0x40. -/
theorem sd_cmd0_first (w : Wire) : ∃ rest, (sd_cmd0 wire w).2 = w.after (0x40 :: rest) [] := by
  obtain ⟨l, hl⟩ := sd_r1_response_loop_sends 0 (sd_cmd wire 0x40 0x00 0x00 0x00 0x00 w)
  refine ⟨[0x00 % 256, 0x00 % 256, 0x00 % 256, 0x00 % 256,
    sd_common_crc 0x40 0x00 0x00 0x00 0x00 % 256] ++ l, ?_⟩
  rw [sd_cmd0, sd_cmd_response, sd_r1_response, hl, sd_cmd_lib_wire, Wire.after_after]
  rfl

/-- The first byte that `sd_cmd8` sends is 0x48. -/
theorem sd_cmd8_first (r7 : Nat → Nat) (w : Wire) :
    ∃ rest, (sd_cmd8 wire r7 w).2.2 = w.after (0x48 :: rest) [] := by
  obtain ⟨l, hl⟩ := sd_r1_response_loop_sends 0 (sd_cmd wire 0x48 0x00 0x00 0x01 0xAA w)
  obtain ⟨m, hm⟩ := sd_data_bytes_sends 4 0 r7
    (sd_r1_response wire (sd_cmd wire 0x48 0x00 0x00 0x01 0xAA w)).2
  simp only [sd_cmd8, sd_r1_data]
  split
  · refine ⟨[0x00 % 256, 0x00 % 256, 0x01 % 256, 0xAA % 256,
      sd_common_crc 0x48 0x00 0x00 0x01 0xAA % 256] ++ l, ?_⟩
    show (sd_r1_response wire _).2 = _
    rw [sd_r1_response, hl, sd_cmd_lib_wire, Wire.after_after]
    rfl
  · refine ⟨([0x00 % 256, 0x00 % 256, 0x01 % 256, 0xAA % 256,
      sd_common_crc 0x48 0x00 0x00 0x01 0xAA % 256] ++ l) ++ m, ?_⟩
    show (sd_data_bytes wire 4 0 r7 _).2 = _
    rw [hm, sd_r1_response, hl, sd_cmd_lib_wire, Wire.after_after, Wire.after_after]
    rfl

/-- The first byte that `sd_cmd13` sends is 13 = 0x0D. -/
theorem sd_cmd13_first (status : Nat) (w : Wire) :
    ∃ rest, (sd_cmd13 wire status w).2.2 = w.after (0x0D :: rest) [] := by
  obtain ⟨m, hm⟩ := sd_data_bytes_sends 4 0 (fun _ => 0)
    (wire.spi_transfer 0xFF (sd_cmd wire CMD13 0x00 0x00 0x00 0x00 w)).2
  simp only [sd_cmd13]
  split
  · refine ⟨[0x00 % 256, 0x00 % 256, 0x00 % 256, 0x00 % 256,
      sd_common_crc CMD13 0x00 0x00 0x00 0x00 % 256] ++ [0xFF % 256], ?_⟩
    show (wire.spi_transfer 0xFF _).2 = _
    rw [wire_transfer, sd_cmd_lib_wire, Wire.after_after]
    rfl
  · refine ⟨([0x00 % 256, 0x00 % 256, 0x00 % 256, 0x00 % 256,
      sd_common_crc CMD13 0x00 0x00 0x00 0x00 % 256] ++ [0xFF % 256]) ++ m, ?_⟩
    show (sd_data_bytes wire 4 0 (fun _ => 0) _).2 = _
    rw [hm, wire_transfer, sd_cmd_lib_wire, Wire.after_after, Wire.after_after]
    rfl

end Lib
namespace Lib

/-- The first byte that the lib `sd_read` sends is 0x51. -/
theorem sd_read_first (n : Nat) (buffer : Nat → Nat) (w : Wire) :
    ∃ rest, (sd_read wire n buffer w).2.2 = w.after (0x51 :: rest) [] := by
  have hS := sd_cmd_lib_wire 0x51 ((n >>> 24) % 256) ((n >>> 16) % 256) ((n >>> 8) % 256)
    (n % 256) w
  obtain ⟨l, hl⟩ := sd_r1_response_loop_sends 0 (sd_cmd wire 0x51 ((n >>> 24) % 256)
    ((n >>> 16) % 256) ((n >>> 8) % 256) (n % 256) w)
  have hR : ∃ r, (sd_r1_response wire (sd_cmd wire 0x51 ((n >>> 24) % 256)
      ((n >>> 16) % 256) ((n >>> 8) % 256) (n % 256) w)).2 = w.after (0x51 :: r) [] := by
    refine ⟨[(n >>> 24) % 256 % 256, (n >>> 16) % 256 % 256, (n >>> 8) % 256 % 256,
      n % 256 % 256, sd_common_crc 0x51 ((n >>> 24) % 256) ((n >>> 16) % 256)
        ((n >>> 8) % 256) (n % 256) % 256] ++ l, ?_⟩
    rw [sd_r1_response, hl, hS, Wire.after_after]
    rfl
  obtain ⟨r, hr⟩ := hR
  simp only [sd_read]
  split
  · exact ⟨r, hr⟩
  · obtain ⟨l2, hl2⟩ := sd_read_wait_sends 0 (sd_r1_response wire (sd_cmd wire 0x51
      ((n >>> 24) % 256) ((n >>> 16) % 256) ((n >>> 8) % 256) (n % 256) w)).2
    rw [hr] at hl2
    split
    · rename_i e a s heq
      refine ⟨r ++ l2, ?_⟩
      rw [hr] at heq
      have hs : s = (w.after (0x51 :: r) []).after l2 [] := by
        have h2 := hl2
        rw [heq] at h2
        exact h2
      show s = _
      rw [hs, Wire.after_after]
      rfl
    · rename_i a s heq
      rw [hr] at heq
      have hs : s = (w.after (0x51 :: r) []).after l2 [] := by
        have h2 := hl2
        rw [heq] at h2
        exact h2
      split
      · refine ⟨r ++ l2, ?_⟩
        rw [hs, Wire.after_after]
        rfl
      · obtain ⟨l3, hl3⟩ := sd_data_bytes_sends SD_BLOCK_SIZE 0 buffer s
        refine ⟨r ++ l2 ++ l3 ++ [0xFF % 256, 0xFF % 256], ?_⟩
        show (wire.spi_transfer 0xFF (wire.spi_transfer 0xFF
          (sd_data_bytes wire SD_BLOCK_SIZE 0 buffer s).2).2).2 = _
        rw [wire_transfer, wire_transfer, hl3, hs]
        simp only [Wire.after_after, List.append_assoc, List.cons_append, List.nil_append]

/-- The first byte that the lib `sd_write` sends is 0x58. -/
theorem sd_write_first (fuel n : Nat) (buffer : Nat → Nat) (w : Wire) (r : Nat × Wire)
    (h : sd_write wire fuel n buffer w = some r) :
    ∃ rest, r.2 = w.after (0x58 :: rest) [] := by
  have hS := sd_cmd_lib_wire 0x58 ((n >>> 24) % 256) ((n >>> 16) % 256) ((n >>> 8) % 256)
    (n % 256) w
  obtain ⟨l, hl⟩ := sd_r1_response_loop_sends 0 (sd_cmd wire 0x58 ((n >>> 24) % 256)
    ((n >>> 16) % 256) ((n >>> 8) % 256) (n % 256) w)
  have hR : ∃ q, (sd_r1_response wire (sd_cmd wire 0x58 ((n >>> 24) % 256)
      ((n >>> 16) % 256) ((n >>> 8) % 256) (n % 256) w)).2 = w.after (0x58 :: q) [] := by
    refine ⟨[(n >>> 24) % 256 % 256, (n >>> 16) % 256 % 256, (n >>> 8) % 256 % 256,
      n % 256 % 256, sd_common_crc 0x58 ((n >>> 24) % 256) ((n >>> 16) % 256)
        ((n >>> 8) % 256) (n % 256) % 256] ++ l, ?_⟩
    rw [sd_r1_response, hl, hS, Wire.after_after]
    rfl
  obtain ⟨q, hq⟩ := hR
  simp only [sd_write] at h
  split at h
  · cases h
    exact ⟨q, hq⟩
  · simp only [wire_transfer, sd_write_data_lib_wire, hq, Wire.after_after] at h
    split at h
    · cases h
      exact ⟨_, rfl⟩
    · split at h
      · exact absurd h (by simp)
      · rename_i t ht
        obtain ⟨l4, hl4⟩ := sd_write_busy_sends fuel 0 _ t ht
        split at h
        · cases h
          exact ⟨_, by rw [hl4, Wire.after_after]; rfl⟩
        · cases h
          exact ⟨_, by rw [hl4, Wire.after_after]; rfl⟩

end Lib
namespace Lib

set_option maxRecDepth 100000 in
/-- C23, evaluated at the failing input: on every bus the frame that `sd_cmd13` puts on the
bus starts with the byte 13 = 0x0D, whose top two bits are 00 and not 01 (on an idle bus the
bytes sent are `0D 00 00 00 00`, the CRC byte and one filler); `sd_cmd` sends its first
argument as it is, and `sd_cmd0`, `sd_cmd8`, `sd_read` and `sd_write` pass it the encoded
bytes 0x40, 0x48, 0x51 and 0x58, whose top two bits are 01 and whose low six bits are the
command indices 0, 8, 17 and 24. -/
theorem sd_cmd13_frame_lacks_start_bits (status : Nat) (w : Wire) :
    (∃ rest, (sd_cmd13 wire status w).2.2 = w.after (0x0D :: rest) []) ∧
    (0x0D &&& 0xC0 ≠ 0x40 ∧ 0x0D &&& 0x3F = CMD13) ∧
    (sd_cmd13 wire 0 (Wire.replay [])).2.2.tx.take 5 = [0x0D, 0x00, 0x00, 0x00, 0x00] ∧
    (∃ rest, (sd_cmd0 wire w).2 = w.after (0x40 :: rest) []) ∧
    (∀ r7 : Nat → Nat, ∃ rest, (sd_cmd8 wire r7 w).2.2 = w.after (0x48 :: rest) []) ∧
    (∀ (n : Nat) (buffer : Nat → Nat),
      ∃ rest, (sd_read wire n buffer w).2.2 = w.after (0x51 :: rest) []) ∧
    (∀ (fuel n : Nat) (buffer : Nat → Nat) (r : Nat × Wire),
      sd_write wire fuel n buffer w = some r → ∃ rest, r.2 = w.after (0x58 :: rest) []) ∧
    (0x40 &&& 0xC0 = 0x40 ∧ 0x40 &&& 0x3F = 0) ∧ (0x48 &&& 0xC0 = 0x40 ∧ 0x48 &&& 0x3F = 8) ∧
    (0x51 &&& 0xC0 = 0x40 ∧ 0x51 &&& 0x3F = 17) ∧ (0x58 &&& 0xC0 = 0x40 ∧ 0x58 &&& 0x3F = 24) := by
  refine ⟨sd_cmd13_first status w, by decide, by decide, sd_cmd0_first w,
    fun r7 => sd_cmd8_first r7 w, fun n buffer => sd_read_first n buffer w,
    fun fuel n buffer r h => sd_write_first fuel n buffer w r h, by decide, by decide,
    by decide, by decide⟩

end Lib
namespace Projects

/-- The status query of `sd_write` when CMD13 gets no response in any of the 248 polled
slots: `sd_cmd` returns 0xFF and `sd_write` goes on, still selected. -/
theorem sd_write_status_unanswered (w : Wire)
    (hall : ∀ i < 248, 128 ≤ w.miso (w.pos + 8 + i)) :
    (sd_cmd wire SEND_STATUS 0 0 0 0 (sd_select wire w)).1 = 0xFF ∧
    sd_write_status wire w
      = (false, w.after ([0xFF, 0xFF] ++ sd_cmd_frame SEND_STATUS 0 0 0 0
          ++ List.replicate 248 0xFF) [true]) := by
  have e1 : ∀ i, (w.after [0xFF, 0xFF] [true]).pos + 6 + i = w.pos + 8 + i := by
    intro i; simp only [Wire.pos_after, List.length_cons, List.length_nil]
  have hs := sd_cmd_miss SEND_STATUS 0 0 0 0 (w.after [0xFF, 0xFF] [true])
    (by intro i hi; rw [Wire.miso_after, e1]; exact hall i hi)
  constructor
  · rw [sd_select_wire, hs]
  · rw [sd_write_status_wire, hs]
    dsimp only
    rw [if_neg (by decide), Wire.after_after]
    rfl

theorem unanswered_status_idle (k : Nat) (h : k < 262) :
    (Wire.replay unanswered_status_script).miso k = 0xFF := by
  have e : (Wire.replay unanswered_status_script).rx k = 0xFF := by
    show unanswered_status_script.getD k 0xFF = 0xFF
    rw [unanswered_status_script, List.append_assoc, List.append_assoc,
      List.getD_eq_getElem?_getD, List.getElem?_append_left (by rw [List.length_replicate]; exact h),
      List.getElem?_replicate, if_pos h]
    rfl
  rw [Wire.miso, e]

end Projects
namespace Projects

set_option maxRecDepth 100000 in
/-- The run of `sd_write` on the card of `unanswered_status_script`. -/
theorem sd_write_unanswered_status_run (ty n : Nat) (buffer : Nat → Nat) :
    (sd_cmd wire SEND_STATUS 0 0 0 0
      (sd_select wire (Wire.replay unanswered_status_script))).1 = 0xFF ∧
    sd_write wire ty n buffer (Wire.replay unanswered_status_script)
      = (ER_SUCCESS,
         (Wire.replay unanswered_status_script).after
           ([0xFF, 0xFF] ++ sd_cmd_frame SEND_STATUS 0 0 0 0 ++ List.replicate 248 0xFF
             ++ (sd_cmd_frame WRITE_SINGLE_BLOCK ((sd_block_addr ty n >>> 24) % 256)
               ((sd_block_addr ty n >>> 16) % 256) ((sd_block_addr ty n >>> 8) % 256)
               (sd_block_addr ty n % 256) ++ [0xFF])
             ++ (sd_write_block buffer ++ [0xFF] ++ [0xFF] ++ [0xFF, 0xFF]))
           [true, false]) := by
  have hs := sd_write_status_unanswered (Wire.replay unanswered_status_script)
    (fun i hi => by
      show 128 ≤ (Wire.replay unanswered_status_script).miso (0 + 8 + i)
      rw [unanswered_status_idle _ (show 0 + 8 + i < 262 by omega)]
      decide)
  have h262 : (Wire.replay unanswered_status_script).miso 262 = 0x00 := by decide
  have h778 : (Wire.replay unanswered_status_script).miso 778 = 0x05 := by decide
  have h779 : (Wire.replay unanswered_status_script).miso 779 = 0xFF :=
    replay_idle _ _ (by decide)
  have hc : (sd_write_status wire (Wire.replay unanswered_status_script)).1 = false := by
    rw [hs.2]
  have hcmd := sd_write_command_hit ty n
    ((Wire.replay unanswered_status_script).after ([0xFF, 0xFF]
      ++ sd_cmd_frame SEND_STATUS 0 0 0 0 ++ List.replicate 248 0xFF) [true]) 0 (by decide)
    (by intro i hi; omega)
    (by
      rw [Wire.miso_after, Wire.pos_after]
      show (Wire.replay unanswered_status_script).miso 262 < 128
      rw [h262]; decide)
  have hm : ((Wire.replay unanswered_status_script).after ([0xFF, 0xFF]
      ++ sd_cmd_frame SEND_STATUS 0 0 0 0 ++ List.replicate 248 0xFF) [true]).miso
      (((Wire.replay unanswered_status_script).after ([0xFF, 0xFF]
      ++ sd_cmd_frame SEND_STATUS 0 0 0 0 ++ List.replicate 248 0xFF) [true]).pos + 6 + 0)
      = 0 := by
    rw [Wire.miso_after, Wire.pos_after]
    exact h262
  rw [hm] at hcmd
  have hp : (sd_write_command wire ty n
      (sd_write_status wire (Wire.replay unanswered_status_script)).2).1 = 0 := by
    rw [hs.2, hcmd]
  refine ⟨hs.1, ?_⟩
  have hpos : ∀ k, (((Wire.replay unanswered_status_script).after ([0xFF, 0xFF]
      ++ sd_cmd_frame SEND_STATUS 0 0 0 0 ++ List.replicate 248 0xFF) [true]).after
      (sd_cmd_frame WRITE_SINGLE_BLOCK ((sd_block_addr ty n >>> 24) % 256)
        ((sd_block_addr ty n >>> 16) % 256) ((sd_block_addr ty n >>> 8) % 256)
        (sd_block_addr ty n % 256) ++ List.replicate (0 + 1) 0xFF) []).miso
      ((((Wire.replay unanswered_status_script).after ([0xFF, 0xFF]
      ++ sd_cmd_frame SEND_STATUS 0 0 0 0 ++ List.replicate 248 0xFF) [true]).after
      (sd_cmd_frame WRITE_SINGLE_BLOCK ((sd_block_addr ty n >>> 24) % 256)
        ((sd_block_addr ty n >>> 16) % 256) ((sd_block_addr ty n >>> 8) % 256)
        (sd_block_addr ty n % 256) ++ List.replicate (0 + 1) 0xFF) []).pos + k)
      = (Wire.replay unanswered_status_script).miso (263 + k) := by
    intro k
    rw [Wire.miso_after, Wire.miso_after, Wire.pos_after, Wire.pos_after]
    simp only [List.length_append, sd_cmd_frame_length, List.length_replicate,
      List.length_cons, List.length_nil]
    rfl
  rcases sd_write_accepted_cases ty n buffer (Wire.replay unanswered_status_script) hc hp with
    ⟨hr, _⟩ | ⟨_, k, _, hpre, _, he⟩ | ⟨_, hall, _⟩
  · rw [hs.2, hcmd, hpos 515, h778] at hr
    exact absurd hr (by decide)
  · have hk : k = 0 := by
      by_contra hne
      have h0 := hpre 0 (Nat.pos_of_ne_zero hne)
      rw [hs.2, hcmd, Nat.add_zero, hpos 516, h779] at h0
      exact absurd h0 (by decide)
    subst hk
    rw [he, hs.2, hcmd, Wire.after_after]
    rfl
  · have h0 := hall 0 (by decide)
    rw [hs.2, hcmd, Nat.add_zero, hpos 516, h779] at h0
    exact absurd h0 (by decide)

end Projects
namespace Projects

open sd_init_state_t

/-- C22 (counterexample): on the card of `unanswered_status_script` the status query CMD13 of
`sd_write` gets no response (`sd_cmd` returns 0xFF); `sd_write` goes on all the same, sends
the CMD24 frame and the data block, and returns `ER_SUCCESS`. -/
theorem sd_write_goes_on_after_unanswered_status :
    (sd_cmd wire SEND_STATUS 0 0 0 0
      (sd_select wire (Wire.replay unanswered_status_script))).1 = 0xFF ∧
    (sd_write wire SDCARD_SDHC 7 (fun _ => 0xA5) (Wire.replay unanswered_status_script)).1
      = ER_SUCCESS ∧
    (sd_write wire SDCARD_SDHC 7 (fun _ => 0xA5) (Wire.replay unanswered_status_script)).2.tx
      = [0xFF, 0xFF] ++ sd_cmd_frame SEND_STATUS 0 0 0 0 ++ List.replicate 248 0xFF
          ++ (sd_cmd_frame WRITE_SINGLE_BLOCK 0 0 0 7 ++ [0xFF])
          ++ (sd_write_block (fun _ => 0xA5) ++ [0xFF] ++ [0xFF] ++ [0xFF, 0xFF]) := by
  have h := sd_write_unanswered_status_run SDCARD_SDHC 7 (fun _ => 0xA5)
  refine ⟨h.1, ?_, ?_⟩
  · rw [h.2]
  · rw [h.2]
    rfl

/-- C22 (amended): on every hardware, when `sd_cmd` returns the no-response sentinel 0xFF,
`sd_read` returns `ER_READ_SINGLE_BLOCK` for CMD17 and `sd_write` returns
`ER_WRITE_SINGLE_BLOCK` for CMD24 without sending the data block; in `sd_init` a CMD0 or
CMD8 attempt that returns 0xFF is followed by the next attempt of the retry loop, CMD58 gives
`ER_READ_OCR`, CMD16 gives `ER_SET_BLOCKLEN`, and CMD55 and ACMD41 lead back to CMD55 with
`acmd41_retry` incremented or to `ER_APP_CMD` and `ER_SEND_OP_COND`. The status query CMD13
of `sd_write` is the exception: only an answered query (R1 = 0x00) is looked at, and when
`sd_cmd` returns anything else, 0xFF included, `sd_write` goes on with CMD24 from the state
the query leaves. -/
theorem sd_cmd_sentinel_handling {σ : Type} (B : Spi σ) (c : Int) (t n : Nat)
    (buffer : Nat → Nat) (s : σ) :
    ((sd_cmd B READ_SINGLE_BLOCK ((sd_block_addr t n >>> 24) % 256)
        ((sd_block_addr t n >>> 16) % 256) ((sd_block_addr t n >>> 8) % 256)
        (sd_block_addr t n % 256) (sd_select B s)).1 = 0xFF →
      sd_read B t n buffer s
        = (ER_READ_SINGLE_BLOCK, buffer, sd_deselect B (sd_read_command B t n s).2)) ∧
    ((sd_write_status B s).1 = false →
      (sd_cmd B WRITE_SINGLE_BLOCK ((sd_block_addr t n >>> 24) % 256)
        ((sd_block_addr t n >>> 16) % 256) ((sd_block_addr t n >>> 8) % 256)
        (sd_block_addr t n % 256) (sd_write_status B s).2).1 = 0xFF →
      sd_write B t n buffer s
        = (ER_WRITE_SINGLE_BLOCK,
           sd_deselect B (sd_write_command B t n (sd_write_status B s).2).2)) ∧
    (∀ k, (sd_cmd B GO_IDLE_STATE 0 0 0 0 (sd_select B s)).1 = 0xFF →
      sd_init_go_idle B (k + 1) s = sd_init_go_idle B k (sd_go_idle_state B s).2) ∧
    (∀ k r7, (sd_cmd B SEND_IF_COND 0x00 0x00 0x01 0xAA (sd_select B s)).1 = 0xFF →
      sd_init_if_cond B (k + 1) r7 s
        = sd_init_if_cond B k (sd_send_if_cond B r7 s).2.1 (sd_send_if_cond B r7 s).2.2) ∧
    ((sd_cmd B READ_OCR 0 0 0 0 (sd_select B s)).1 = 0xFF →
      sd_init_case B { state := ST_READ_OCR, acmd41_retry := c, sdcard_type := t, bus := s }
        = .ret ER_READ_OCR
            { state := ST_READ_OCR, acmd41_retry := c, sdcard_type := t,
              bus := (sd_read_ocr B (fun _ => 0) s).2.2 }) ∧
    ((sd_cmd B SET_BLOCKLEN 0x00 0x00 0x02 0x00 (sd_select B s)).1 = 0xFF →
      sd_init_case B { state := ST_SET_BLOCKLEN, acmd41_retry := c, sdcard_type := t, bus := s }
        = .ret ER_SET_BLOCKLEN
            { state := ST_SET_BLOCKLEN, acmd41_retry := c, sdcard_type := t,
              bus := (sd_set_blocklen B s).2 }) ∧
    ((sd_cmd B APP_CMD 0 0 0 0 (sd_select B s)).1 = 0xFF →
      sd_init_case B { state := ST_APP_CMD, acmd41_retry := c, sdcard_type := t, bus := s }
        = (if c < SEND_OP_COND_RETRY then
            .next { state := ST_APP_CMD, acmd41_retry := c + 1, sdcard_type := t,
                    bus := (sd_send_app B s).2 }
          else
            .ret ER_APP_CMD
              { state := ST_APP_CMD, acmd41_retry := c + 1, sdcard_type := t,
                bus := (sd_send_app B s).2 })) ∧
    ((sd_cmd B SD_SEND_OP_COND (if t ≠ SDCARD_V1 then 0x40 else 0x00) 0 0 0
        (sd_select B s)).1 = 0xFF →
      sd_init_case B { state := ST_SEND_OP_COND, acmd41_retry := c, sdcard_type := t, bus := s }
        = (if c < SEND_OP_COND_RETRY then
            .next { state := ST_APP_CMD, acmd41_retry := c + 1, sdcard_type := t,
                    bus := (sd_send_op_cond B t s).2 }
          else
            .ret ER_SEND_OP_COND
              { state := ST_SEND_OP_COND, acmd41_retry := c + 1, sdcard_type := t,
                bus := (sd_send_op_cond B t s).2 })) ∧
    ((sd_cmd B SEND_STATUS 0 0 0 0 (sd_select B s)).1 ≠ 0x00 →
      sd_write_status B s = (false, (sd_cmd B SEND_STATUS 0 0 0 0 (sd_select B s)).2) ∧
      ((sd_write_command B t n (sd_cmd B SEND_STATUS 0 0 0 0 (sd_select B s)).2).1 ≠ 0x00 →
        sd_write B t n buffer s
          = (ER_WRITE_SINGLE_BLOCK,
             sd_deselect B
               (sd_write_command B t n (sd_cmd B SEND_STATUS 0 0 0 0 (sd_select B s)).2).2))) ∧
    (∀ w : Wire, (sd_cmd wire SEND_STATUS 0 0 0 0 (sd_select wire w)).1 ≠ 0x00 →
      ∃ rest, (sd_write wire t n buffer w).2.tx
        = (sd_cmd wire SEND_STATUS 0 0 0 0 (sd_select wire w)).2.tx
          ++ sd_cmd_frame WRITE_SINGLE_BLOCK ((sd_block_addr t n >>> 24) % 256)
            ((sd_block_addr t n >>> 16) % 256) ((sd_block_addr t n >>> 8) % 256)
            (sd_block_addr t n % 256) ++ rest) := by
  have hst : ∀ {τ : Type} (C : Spi τ) (x : τ),
      (sd_cmd C SEND_STATUS 0 0 0 0 (sd_select C x)).1 ≠ 0x00 →
      sd_write_status C x = (false, (sd_cmd C SEND_STATUS 0 0 0 0 (sd_select C x)).2) := by
    intro τ C x h
    simp only [sd_write_status, h, if_false]
  refine ⟨fun h => ?_, fun hc h => ?_, fun k h => ?_, fun k r7 h => ?_, fun h => ?_,
    fun h => ?_, fun h => ?_, fun h => ?_, fun h => ⟨hst B s h, fun hp => ?_⟩, fun w h => ?_⟩
  · have h2 : (sd_read_command B t n s).1 = 0xFF := h
    simp only [sd_read, h2]
    rfl
  · have h2 : (sd_write_command B t n (sd_write_status B s).2).1 = 0xFF := h
    simp only [sd_write, hc, h2]
    rfl
  · have h2 : (sd_go_idle_state B s).1 = 0xFF := h
    simp only [sd_init_go_idle, h2, R1_IDLE_STATE]
    rfl
  · have h2 : (sd_send_if_cond B r7 s).1 = 0xFF := by
      simp only [sd_send_if_cond, h, R1_IDLE_STATE]
      rfl
    simp only [sd_init_if_cond, h2, R1_IDLE_STATE]
    rfl
  · have h2 : (sd_read_ocr B (fun _ => 0) s).1 = 0xFF := by
      simp only [sd_read_ocr, h, R1_READY]
      rfl
    simp only [sd_init_case, h2, R1_READY]
    rfl
  · have h2 : (sd_set_blocklen B s).1 = 0xFF := h
    simp only [sd_init_case, h2, R1_READY]
    rfl
  · have h2 : (sd_send_app B s).1 = 0xFF := h
    simp only [sd_init_case, h2, R1_IDLE_STATE]
    rfl
  · have h2 : (sd_send_op_cond B t s).1 = 0xFF := h
    simp only [sd_init_case, h2, R1_READY]
    rfl
  · simp only [sd_write, hst B s h, Bool.false_eq_true, if_false, hp, ne_eq, not_false_eq_true,
      if_true]
  · have hc : (sd_write_status wire w).1 = false := by rw [hst wire w h]
    obtain ⟨rest, hr⟩ := sd_write_tx t n buffer w hc
    exact ⟨rest, by rw [hr, hst wire w h]⟩

end Projects
namespace Projects

open sd_init_state_t

/-- Every pass through the `switch` that goes round the loop again lowers `sd_init_bound`. -/
theorem sd_init_bound_decreases {σ : Type} (B : Spi σ) (v v1 : sd_init_vars σ)
    (h : sd_init_case B v = .next v1) : sd_init_bound v1 < sd_init_bound v := by
  unfold sd_init_case at h
  unfold sd_init_bound
  rcases v with ⟨st, c, t, s⟩
  cases st <;> simp only [] at h <;> (try split at h) <;> (try split at h) <;>
    (try split at h) <;> simp only [sd_init_step.next.injEq, reduceCtorEq] at h <;>
    subst h <;> simp only [SEND_OP_COND_RETRY] at * <;> omega

/-- The loop of `sd_init` returns within `sd_init_bound v + 1` passes through the `switch`. -/
theorem sd_init_run_enough {σ : Type} (B : Spi σ) (fuel : Nat) :
    ∀ v : sd_init_vars σ, sd_init_bound v < fuel →
      sd_init_run B fuel v = some (sd_init_loop B v) := by
  induction fuel with
  | zero => intro v h; omega
  | succ fuel ih =>
    intro v h
    rw [sd_init_run]
    cases hc : sd_init_case B v with
    | ret code v1 =>
      simp only []
      rw [sd_init_loop_ret B v v1 code hc]
    | next v1 =>
      simp only []
      rw [sd_init_loop_next B v v1 hc]
      exact ih v1 (by have := sd_init_bound_decreases B v v1 hc; omega)

/-- A pass that goes round again leaves `acmd41_retry` as it is, or increments it by one from a
value below the limit. -/
theorem sd_init_case_next_counter {σ : Type} (B : Spi σ) (v v1 : sd_init_vars σ)
    (h : sd_init_case B v = .next v1) :
    v1.acmd41_retry = v.acmd41_retry ∨
      (v1.acmd41_retry = v.acmd41_retry + 1 ∧ v.acmd41_retry < SEND_OP_COND_RETRY) := by
  rcases v with ⟨st, c, t, w⟩
  cases st <;> simp only [sd_init_case] at h <;> (repeat' split at h) <;>
    first
    | (cases h; exact Or.inl rfl)
    | (cases h; exact Or.inr ⟨rfl, by assumption⟩)
    | exact absurd h (by simp)

/-- A pass that returns `ER_APP_CMD` or `ER_SEND_OP_COND` found `acmd41_retry` at or above the
limit and incremented it; a pass that returns another status left it as it is. -/
theorem sd_init_case_ret_counter {σ : Type} (B : Spi σ) (v v1 : sd_init_vars σ) (code : Nat)
    (h : sd_init_case B v = .ret code v1) :
    ((code = ER_APP_CMD ∨ code = ER_SEND_OP_COND) ∧ v1.acmd41_retry = v.acmd41_retry + 1 ∧
        ¬ v.acmd41_retry < SEND_OP_COND_RETRY) ∨
      (¬ (code = ER_APP_CMD ∨ code = ER_SEND_OP_COND) ∧ v1.acmd41_retry = v.acmd41_retry) := by
  rcases v with ⟨st, c, t, w⟩
  cases st <;> simp only [sd_init_case] at h <;> (repeat' split at h) <;>
    first
    | (cases h; exact Or.inr ⟨by decide, rfl⟩)
    | (cases h; exact Or.inl ⟨Or.inl rfl, rfl, by assumption⟩)
    | (cases h; exact Or.inl ⟨Or.inr rfl, rfl, by assumption⟩)
    | exact absurd h (by simp)

/-- The counter over a whole run: it never decreases; when the run ends with `ER_APP_CMD` or
`ER_SEND_OP_COND` it ends one above the larger of its starting value and the limit, and when
the run ends otherwise it has not passed that larger value. -/
theorem sd_init_loop_counter {σ : Type} (B : Spi σ) (v : sd_init_vars σ) :
    v.acmd41_retry ≤ (sd_init_loop B v).2.acmd41_retry ∧
    (((sd_init_loop B v).1 = ER_APP_CMD ∨ (sd_init_loop B v).1 = ER_SEND_OP_COND) →
      (sd_init_loop B v).2.acmd41_retry = max v.acmd41_retry SEND_OP_COND_RETRY + 1) ∧
    (¬ ((sd_init_loop B v).1 = ER_APP_CMD ∨ (sd_init_loop B v).1 = ER_SEND_OP_COND) →
      (sd_init_loop B v).2.acmd41_retry ≤ max v.acmd41_retry SEND_OP_COND_RETRY) := by
  induction v using sd_init_loop.induct B with
  | case1 v code v1 h =>
    rw [sd_init_loop_ret B v v1 code h]
    rcases sd_init_case_ret_counter B v v1 code h with ⟨hc, he, hn⟩ | ⟨hc, he⟩
    · refine ⟨by show v.acmd41_retry ≤ v1.acmd41_retry; omega, fun _ => ?_,
        fun hx => absurd hc hx⟩
      show v1.acmd41_retry = _
      rw [he, max_eq_left (by simp only [SEND_OP_COND_RETRY] at hn ⊢; omega)]
    · refine ⟨by show v.acmd41_retry ≤ v1.acmd41_retry; omega, fun hx => absurd hx hc,
        fun _ => ?_⟩
      show v1.acmd41_retry ≤ _
      rw [he]
      exact le_max_left _ _
  | case2 v v1 h ih =>
    rw [sd_init_loop_next B v v1 h]
    obtain ⟨i1, i2, i3⟩ := ih
    have hm : v.acmd41_retry ≤ v1.acmd41_retry ∧
        max v1.acmd41_retry SEND_OP_COND_RETRY = max v.acmd41_retry SEND_OP_COND_RETRY := by
      rcases sd_init_case_next_counter B v v1 h with he | ⟨he, hl⟩
      · rw [he]; exact ⟨le_refl _, rfl⟩
      · rw [he]
        refine ⟨by omega, ?_⟩
        rw [max_eq_right (by simp only [SEND_OP_COND_RETRY] at hl ⊢; omega),
          max_eq_right (by simp only [SEND_OP_COND_RETRY] at hl ⊢; omega)]
    exact ⟨le_trans hm.1 i1, fun hx => by rw [i2 hx, hm.2], fun hx => by
      have := i3 hx
      rw [hm.2] at this
      exact this⟩

end Projects
namespace Projects

open sd_init_state_t

/-- After transfer 39 the card of `stuck_card` answers 0x01 in the ninth transfer of every
group of 11. -/
theorem stuck_card_answer (q : Nat) (h40 : 40 ≤ q) (h : (q - 40) % 11 = 8) :
    stuck_card.miso (stuck_card.pos + q) = 0x01 := by
  have e : stuck_card.rx (0 + q) = 0x01 := by
    show (if 0 + q < 40 then init_script.getD (0 + q) 0xFF
      else if (0 + q - 40) % 11 = 8 then 0x01 else 0xFF) = 0x01
    rw [if_neg (by omega), if_pos (by rw [Nat.zero_add]; exact h)]
  show stuck_card.rx (0 + q) % 256 = 0x01
  rw [e]

set_option maxRecDepth 100000 in
/-- The run of `sd_init` on `stuck_card` up to the first CMD55. -/
theorem stuck_card_start (c0 : Int) (t0 : Nat) :
    sd_init_loop wire
        { state := ST_POWER_UP, acmd41_retry := c0, sdcard_type := t0, bus := stuck_card }
      = sd_init_loop wire
        { state := ST_APP_CMD, acmd41_retry := c0, sdcard_type := SDCARD_V2,
          bus := stuck_card.after (List.replicate 14 0xFF ++ sd_exchange GO_IDLE_STATE 0 0 0 0 0
              ++ sd_exchange SEND_IF_COND 0 0 0x01 0xAA 4)
            [false, false, false, true, false, true, false] } := by
  rw [sd_init_loop_next _ _ _ (case_power_up c0 t0 stuck_card)]
  rw [sd_init_loop_next _ _ _ (case_go_idle_first c0 t0 _
    (by rw [after_pos stuck_card _ _ 14 8 (by simp)]; decide))]
  simp only [Wire.after_after]
  rw [sd_init_loop_next _ _ _ (case_if_cond_v2 c0 t0 _
    (by rw [after_pos stuck_card _ _ 25 8 (by simp [sd_exchange_length])]; decide)
    (by rw [after_pos stuck_card _ _ 25 11 (by simp [sd_exchange_length])]; decide)
    (by rw [after_pos stuck_card _ _ 25 12 (by simp [sd_exchange_length])]; decide))]
  simp only [Wire.after_after]
  rfl

/-- The rounds of CMD55 and ACMD41 on `stuck_card`: from a counter `c` with `c + m = 1000`,
`m` not-ready answers are tolerated and the next one ends the run. -/
theorem stuck_card_rounds (m : Nat) : ∀ (c : Int) (L : List Nat) (cs : List Bool) (j : Nat),
    L.length = 40 + 22 * j → c + m = 1000 →
    sd_init_loop wire
        { state := ST_APP_CMD, acmd41_retry := c, sdcard_type := SDCARD_V2,
          bus := stuck_card.after L cs }
      = (ER_SEND_OP_COND,
         { state := ST_SEND_OP_COND, acmd41_retry := 1001, sdcard_type := SDCARD_V2,
           bus := stuck_card.after
             (L ++ (List.replicate (m + 1) (sd_exchange APP_CMD 0 0 0 0 0
               ++ sd_exchange SD_SEND_OP_COND 0x40 0 0 0 0)).flatten)
             (cs ++ (List.replicate (m + 1) [true, false, true, false]).flatten) }) := by
  induction m with
  | zero =>
    intro c L cs j hL hc
    have hc2 : c = 1000 := by omega
    subst hc2
    have h55 : (stuck_card.after L cs).miso ((stuck_card.after L cs).pos + 8) = 0x01 := by
      rw [after_pos stuck_card L cs (40 + 22 * j) 8 hL]
      exact stuck_card_answer _ (by omega) (by omega)
    rw [sd_init_loop_next _ _ _ (case_app_cmd_ok 1000 SDCARD_V2 _ (le_of_eq h55))]
    have h41 : ((stuck_card.after L cs).after (sd_exchange APP_CMD 0 0 0 0 0)
        [true, false]).miso (((stuck_card.after L cs).after (sd_exchange APP_CMD 0 0 0 0 0)
        [true, false]).pos + 8) = 0x01 := by
      rw [Wire.after_after, after_pos stuck_card _ _ (40 + 22 * j + 11) 8
        (by rw [List.length_append, hL, sd_exchange_length])]
      exact stuck_card_answer _ (by omega) (by omega)
    rw [sd_init_loop_ret _ _ _ _ (case_op_cond_exhausted 1000 SDCARD_V2 _
      (by rw [h41]; decide) (by rw [h41]; decide) (by decide))]
    simp only [Wire.after_after, List.replicate, List.flatten, List.append_nil, List.append_assoc]
    rfl
  | succ m ih =>
    intro c L cs j hL hc
    have h55 : (stuck_card.after L cs).miso ((stuck_card.after L cs).pos + 8) = 0x01 := by
      rw [after_pos stuck_card L cs (40 + 22 * j) 8 hL]
      exact stuck_card_answer _ (by omega) (by omega)
    rw [sd_init_loop_next _ _ _ (case_app_cmd_ok c SDCARD_V2 _ (le_of_eq h55))]
    have h41 : ((stuck_card.after L cs).after (sd_exchange APP_CMD 0 0 0 0 0)
        [true, false]).miso (((stuck_card.after L cs).after (sd_exchange APP_CMD 0 0 0 0 0)
        [true, false]).pos + 8) = 0x01 := by
      rw [Wire.after_after, after_pos stuck_card _ _ (40 + 22 * j + 11) 8
        (by rw [List.length_append, hL, sd_exchange_length])]
      exact stuck_card_answer _ (by omega) (by omega)
    rw [sd_init_loop_next _ _ _ (case_op_cond_retry c SDCARD_V2 _
      (by rw [h41]; decide) (by rw [h41]; decide) (by omega))]
    simp only [Wire.after_after]
    rw [ih (c + 1) _ _ (j + 1)
      (by simp only [List.length_append, hL, sd_exchange_length]; omega) (by omega)]
    simp only [List.replicate_succ, List.flatten, List.append_assoc]
    rfl

end Projects
namespace Projects

open sd_init_state_t

/-- A pass that goes round again increments `acmd41_retry` exactly when CMD55 was answered
with an R1 above `R1_IDLE_STATE` or ACMD41 with an R1 other than `R1_READY`. -/
theorem sd_init_case_next_failure {σ : Type} (B : Spi σ) (v v1 : sd_init_vars σ)
    (h : sd_init_case B v = .next v1) :
    v1.acmd41_retry = v.acmd41_retry +
      (if (v.state = ST_APP_CMD ∧ ¬ (sd_send_app B v.bus).1 ≤ R1_IDLE_STATE) ∨
          (v.state = ST_SEND_OP_COND ∧ (sd_send_op_cond B v.sdcard_type v.bus).1 ≠ R1_READY)
        then 1 else 0) := by
  rcases v with ⟨st, c, t, w⟩
  cases st <;> simp only [sd_init_case] at h <;> (repeat' split at h) <;>
    first
    | (cases h
       simp only [reduceCtorEq, false_and, or_false, false_or, true_and, if_false, add_zero]
       done)
    | (cases h
       rename_i h1
       simp only [reduceCtorEq, false_and, or_false, false_or, true_and, h1, not_true_eq_false,
         ne_eq, if_false, add_zero]
       done)
    | (cases h
       rename_i h1 h2
       simp only [reduceCtorEq, false_and, or_false, false_or, true_and, h1, not_false_eq_true,
         ne_eq, if_true])
    | exact absurd h (by simp)

end Projects
namespace Projects

open sd_init_state_t

/-- C28: in `sd_init` (projects) a CMD55 answered with an R1 above `R1_IDLE_STATE` and an
ACMD41 answered with an R1 other than `R1_READY` test and increment the same variable
`acmd41_retry`, whose starting value `c0` is whatever the uninitialised local holds: such a
failure is tolerated (the loop goes back to CMD55) while the counter is below 1000 and makes
`sd_init` return `ER_APP_CMD` or `ER_SEND_OP_COND` otherwise, and no other pass changes the
counter. So for `c0 ≤ 1000` a run that ends with one of these two codes ends with the counter
at 1001, after `1000 - c0` tolerated failures and the one that ended it, and a run that ends
otherwise has seen at most `1000 - c0` failures. On the card of `stuck_card`, which always
answers CMD55 and ACMD41 with 0x01, `sd_init` started with `c0 = 0` returns `ER_SEND_OP_COND`
after exactly 1001 rounds of CMD55 and ACMD41. For every `c0` and every hardware the loop
returns within `2 * (1001 - c0) + 8` passes through its `switch`. -/
theorem sd_init_shared_retry_counter {σ : Type} (B : Spi σ) (c0 : Int) (t0 : Nat) (s : σ) :
    (∀ (c : Int) (t : Nat) (x : σ), ¬ (sd_send_app B x).1 ≤ R1_IDLE_STATE →
      sd_init_case B { state := ST_APP_CMD, acmd41_retry := c, sdcard_type := t, bus := x }
        = (if c < SEND_OP_COND_RETRY then
            .next { state := ST_APP_CMD, acmd41_retry := c + 1, sdcard_type := t,
                    bus := (sd_send_app B x).2 }
          else
            .ret ER_APP_CMD
              { state := ST_APP_CMD, acmd41_retry := c + 1, sdcard_type := t,
                bus := (sd_send_app B x).2 })) ∧
    (∀ (c : Int) (t : Nat) (x : σ), (sd_send_op_cond B t x).1 ≠ R1_READY →
      sd_init_case B { state := ST_SEND_OP_COND, acmd41_retry := c, sdcard_type := t, bus := x }
        = (if c < SEND_OP_COND_RETRY then
            .next { state := ST_APP_CMD, acmd41_retry := c + 1, sdcard_type := t,
                    bus := (sd_send_op_cond B t x).2 }
          else
            .ret ER_SEND_OP_COND
              { state := ST_SEND_OP_COND, acmd41_retry := c + 1, sdcard_type := t,
                bus := (sd_send_op_cond B t x).2 })) ∧
    (∀ v v1 : sd_init_vars σ, sd_init_case B v = .next v1 →
      v1.acmd41_retry = v.acmd41_retry +
        (if (v.state = ST_APP_CMD ∧ ¬ (sd_send_app B v.bus).1 ≤ R1_IDLE_STATE) ∨
            (v.state = ST_SEND_OP_COND ∧
              (sd_send_op_cond B v.sdcard_type v.bus).1 ≠ R1_READY)
          then 1 else 0)) ∧
    (c0 ≤ 1000 →
      c0 ≤ (sd_init_loop B
        { state := ST_POWER_UP, acmd41_retry := c0, sdcard_type := t0, bus := s }
          ).2.acmd41_retry ∧
      (((sd_init B c0 t0 s).1 = ER_APP_CMD ∨ (sd_init B c0 t0 s).1 = ER_SEND_OP_COND) →
        (sd_init_loop B
          { state := ST_POWER_UP, acmd41_retry := c0, sdcard_type := t0, bus := s }
            ).2.acmd41_retry = 1001) ∧
      (¬ ((sd_init B c0 t0 s).1 = ER_APP_CMD ∨ (sd_init B c0 t0 s).1 = ER_SEND_OP_COND) →
        (sd_init_loop B
          { state := ST_POWER_UP, acmd41_retry := c0, sdcard_type := t0, bus := s }
            ).2.acmd41_retry ≤ 1000)) ∧
    sd_init wire 0 t0 stuck_card
      = (ER_SEND_OP_COND, SDCARD_V2,
         stuck_card.after
           (List.replicate 14 0xFF ++ sd_exchange GO_IDLE_STATE 0 0 0 0 0
             ++ sd_exchange SEND_IF_COND 0 0 0x01 0xAA 4
             ++ (List.replicate 1001 (sd_exchange APP_CMD 0 0 0 0 0
               ++ sd_exchange SD_SEND_OP_COND 0x40 0 0 0 0)).flatten)
           ([false, false, false, true, false, true, false]
             ++ (List.replicate 1001 [true, false, true, false]).flatten)) ∧
    sd_init_run B (2 * (1001 - c0).toNat + 8)
        { state := ST_POWER_UP, acmd41_retry := c0, sdcard_type := t0, bus := s }
      = some (sd_init_loop B
        { state := ST_POWER_UP, acmd41_retry := c0, sdcard_type := t0, bus := s }) := by
  refine ⟨fun c t x h => ?_, fun c t x h => ?_, sd_init_case_next_failure B, fun hc => ?_, ?_,
    ?_⟩
  · simp only [sd_init_case, h, if_false]
  · simp only [sd_init_case, h, if_false]
  · have h := sd_init_loop_counter B
      { state := ST_POWER_UP, acmd41_retry := c0, sdcard_type := t0, bus := s }
    have hm : max c0 SEND_OP_COND_RETRY = 1000 := max_eq_right hc
    simp only [hm] at h
    exact ⟨h.1, h.2.1, h.2.2⟩
  · unfold sd_init
    rw [stuck_card_start 0 t0, stuck_card_rounds 1000 0 _ _ 0
      (by simp [sd_exchange_length]) (by decide)]
  · exact sd_init_run_enough B _ _ (by show 2 * (1001 - c0).toNat + 7 < _; omega)

end Projects
namespace Projects

open sd_init_state_t

/-- From `ST_SET_BLOCKLEN` on, a run that ends with `ER_SUCCESS` leaves `sdcard_type` as it
is. -/
theorem sd_init_loop_late {σ : Type} (B : Spi σ) (v : sd_init_vars σ)
    (hs : v.state = ST_SET_BLOCKLEN ∨ v.state = ST_READY)
    (h : (sd_init_loop B v).1 = ER_SUCCESS) :
    (sd_init_loop B v).2.sdcard_type = v.sdcard_type := by
  have hready : ∀ (c : Int) (t : Nat) (x : σ),
      (sd_init_loop B
        { state := ST_READY, acmd41_retry := c, sdcard_type := t, bus := x }).2.sdcard_type
          = t := by
    intro c t x
    rw [sd_init_loop_ret B _
      { state := ST_READY, acmd41_retry := c, sdcard_type := t,
        bus := sd_deselect B (spi_set_frequency_khz B SD_FAST_SPEED x) } ER_SUCCESS
      (by simp only [sd_init_case])]
  rcases v with ⟨st, c, t, x⟩
  rcases hs with hs | hs
  · cases hs
    by_cases hr : (sd_set_blocklen B x).1 = R1_READY
    · have hn : sd_init_case B
          { state := ST_SET_BLOCKLEN, acmd41_retry := c, sdcard_type := t, bus := x }
          = .next { state := ST_READY, acmd41_retry := c, sdcard_type := t,
                    bus := (sd_set_blocklen B x).2 } := by
        simp only [sd_init_case, hr, if_true]
      rw [sd_init_loop_next B _ _ hn]
      exact hready c t _
    · have hn : sd_init_case B
          { state := ST_SET_BLOCKLEN, acmd41_retry := c, sdcard_type := t, bus := x }
          = .ret ER_SET_BLOCKLEN
              { state := ST_SET_BLOCKLEN, acmd41_retry := c, sdcard_type := t,
                bus := (sd_set_blocklen B x).2 } := by
        simp only [sd_init_case, hr, if_false]
      rw [sd_init_loop_ret B _ _ _ hn] at h
      exact absurd h (show ER_SET_BLOCKLEN ≠ ER_SUCCESS by decide)
  · cases hs
    exact hready c t x

end Projects
namespace Projects

open sd_init_state_t

/-- Only the `ST_READY` step returns `ER_SUCCESS`. -/
theorem sd_init_case_success {σ : Type} (B : Spi σ) (v v1 : sd_init_vars σ)
    (h : sd_init_case B v = .ret ER_SUCCESS v1) : v.state = ST_READY := by
  rcases v with ⟨st, c, t, w⟩
  cases st <;> simp only [sd_init_case] at h <;> (repeat' split at h) <;>
    first
    | rfl
    | (injection h with h1 h2
       exact absurd h1 (by decide))
    | exact absurd h (by simp)

/-- The steps from CMD55 to CMD58: they keep `sdcard_type`, except that an answered CMD58
classifies the card and goes on to `ST_SET_BLOCKLEN`. -/
theorem sd_init_case_next_mid {σ : Type} (B : Spi σ) (v v1 : sd_init_vars σ)
    (hs : v.state = ST_APP_CMD ∨ v.state = ST_SEND_OP_COND ∨ v.state = ST_READ_OCR)
    (h : sd_init_case B v = .next v1) :
    (v.state = ST_READ_OCR ∧ v1.state = ST_SET_BLOCKLEN ∧
      (sd_read_ocr B (fun _ => 0) v.bus).1 = R1_READY ∧
      v1.sdcard_type = (if v.sdcard_type ≠ SDCARD_V1 then
          (if (sd_read_ocr B (fun _ => 0) v.bus).2.1 0 &&& 0x40 ≠ 0 then SDCARD_SDHC
            else SDCARD_SDSC)
        else v.sdcard_type)) ∨
    ((v1.state = ST_APP_CMD ∨ v1.state = ST_SEND_OP_COND ∨ v1.state = ST_READ_OCR) ∧
      v1.sdcard_type = v.sdcard_type) := by
  rcases v with ⟨st, c, t, w⟩
  rcases hs with hs | hs | hs <;> cases hs
  · right
    simp only [sd_init_case] at h
    split at h
    · cases h; exact ⟨Or.inr (Or.inl rfl), rfl⟩
    · split at h
      · cases h; exact ⟨Or.inl rfl, rfl⟩
      · exact absurd h (by simp)
  · right
    simp only [sd_init_case] at h
    split at h
    · cases h; exact ⟨Or.inr (Or.inr rfl), rfl⟩
    · split at h
      · cases h; exact ⟨Or.inl rfl, rfl⟩
      · exact absurd h (by simp)
  · left
    by_cases hr : (sd_read_ocr B (fun _ => 0) w).1 = R1_READY
    · simp only [sd_init_case, hr, if_true] at h
      cases h
      exact ⟨rfl, rfl, hr, rfl⟩
    · simp only [sd_init_case, hr, if_false] at h
      exact absurd h (by simp)

/-- From the CMD55 step on, a run that ends with `ER_SUCCESS` came through an answered CMD58
with the `sdcard_type` it started from, and ends with the classification made there. -/
theorem sd_init_loop_mid {σ : Type} (B : Spi σ) (v : sd_init_vars σ) :
    (v.state = ST_APP_CMD ∨ v.state = ST_SEND_OP_COND ∨ v.state = ST_READ_OCR) →
    (sd_init_loop B v).1 = ER_SUCCESS →
    ∃ u, sd_init_reaches B v u ∧ u.state = ST_READ_OCR ∧ u.sdcard_type = v.sdcard_type ∧
      (sd_read_ocr B (fun _ => 0) u.bus).1 = R1_READY ∧
      (sd_init_loop B v).2.sdcard_type = (if v.sdcard_type ≠ SDCARD_V1 then
          (if (sd_read_ocr B (fun _ => 0) u.bus).2.1 0 &&& 0x40 ≠ 0 then SDCARD_SDHC
            else SDCARD_SDSC)
        else v.sdcard_type) := by
  induction v using sd_init_loop.induct B with
  | case1 v code v1 h =>
    intro hs hok
    rw [sd_init_loop_ret B v v1 code h] at hok
    have hc : code = ER_SUCCESS := hok
    subst hc
    have hr := sd_init_case_success B v v1 h
    rcases hs with hs | hs | hs <;> rw [hs] at hr <;> exact absurd hr (by decide)
  | case2 v v1 h ih =>
    intro hs hok
    rw [sd_init_loop_next B v v1 h] at hok ⊢
    rcases sd_init_case_next_mid B v v1 hs h with ⟨h1, h2, h3, h4⟩ | ⟨h1, h2⟩
    · refine ⟨v, sd_init_reaches.here v, h1, rfl, h3, ?_⟩
      rw [sd_init_loop_late B v1 (Or.inl h2) hok, h4]
    · obtain ⟨u, r1, r2, r3, r4, r5⟩ := ih h1 hok
      refine ⟨u, sd_init_reaches.pass v v1 u h r1, r2, by rw [r3, h2], r4, ?_⟩
      rw [r5, h2]

end Projects
namespace Projects

open sd_init_state_t

/-- The steps up to CMD8: the only way on to CMD55 is a classification by the CMD8 retry
loop. -/
theorem sd_init_case_next_early {σ : Type} (B : Spi σ) (v v1 : sd_init_vars σ)
    (hs : v.state = ST_POWER_UP ∨ v.state = ST_GO_IDLE_STATE ∨ v.state = ST_SEND_IF_COND)
    (h : sd_init_case B v = .next v1) :
    (v.state = ST_SEND_IF_COND ∧ v1.state = ST_APP_CMD ∧
      (sd_init_if_cond B SEND_IF_COND_RETRY (fun _ => 0) v.bus).1 = some v1.sdcard_type) ∨
    (v1.state = ST_POWER_UP ∨ v1.state = ST_GO_IDLE_STATE ∨ v1.state = ST_SEND_IF_COND) := by
  rcases v with ⟨st, c, t, w⟩
  rcases hs with hs | hs | hs <;> cases hs
  · right
    simp only [sd_init_case] at h
    cases h
    exact Or.inr (Or.inl rfl)
  · right
    simp only [sd_init_case] at h
    split at h
    · cases h; exact Or.inr (Or.inr rfl)
    · exact absurd h (by simp)
  · left
    simp only [sd_init_case] at h
    split at h
    · rename_i t1 heq
      cases h
      exact ⟨rfl, rfl, heq⟩
    · exact absurd h (by simp)

/-- A run from the start that ends with `ER_SUCCESS` came through a CMD8 retry loop that
classified the card and through an answered CMD58 with that classification, and ends with the
card type that the CMD58 step derived from it. -/
theorem sd_init_loop_early {σ : Type} (B : Spi σ) (v : sd_init_vars σ) :
    (v.state = ST_POWER_UP ∨ v.state = ST_GO_IDLE_STATE ∨ v.state = ST_SEND_IF_COND) →
    (sd_init_loop B v).1 = ER_SUCCESS →
    ∃ v8 u, sd_init_reaches B v v8 ∧ v8.state = ST_SEND_IF_COND ∧
      (sd_init_if_cond B SEND_IF_COND_RETRY (fun _ => 0) v8.bus).1 = some u.sdcard_type ∧
      sd_init_reaches B v8 u ∧ u.state = ST_READ_OCR ∧
      (sd_read_ocr B (fun _ => 0) u.bus).1 = R1_READY ∧
      (sd_init_loop B v).2.sdcard_type = (if u.sdcard_type ≠ SDCARD_V1 then
          (if (sd_read_ocr B (fun _ => 0) u.bus).2.1 0 &&& 0x40 ≠ 0 then SDCARD_SDHC
            else SDCARD_SDSC)
        else u.sdcard_type) := by
  induction v using sd_init_loop.induct B with
  | case1 v code v1 h =>
    intro hs hok
    rw [sd_init_loop_ret B v v1 code h] at hok
    have hc : code = ER_SUCCESS := hok
    subst hc
    have hr := sd_init_case_success B v v1 h
    rcases hs with hs | hs | hs <;> rw [hs] at hr <;> exact absurd hr (by decide)
  | case2 v v1 h ih =>
    intro hs hok
    rw [sd_init_loop_next B v v1 h] at hok ⊢
    rcases sd_init_case_next_early B v v1 hs h with ⟨h1, h2, h3⟩ | h1
    · obtain ⟨u, r1, r2, r3, r4, r5⟩ := sd_init_loop_mid B v1 (Or.inl h2) hok
      refine ⟨v, u, sd_init_reaches.here v, h1, by rw [r3]; exact h3,
        sd_init_reaches.pass v v1 u h r1, r2, r4, ?_⟩
      rw [r5, r3]
    · obtain ⟨v8, u, r1, r2, r3, r4, r5, r6, r7⟩ := ih h1 hok
      exact ⟨v8, u, sd_init_reaches.pass v v1 v8 h r1, r2, r3, r4, r5, r6, r7⟩

end Projects
namespace Projects

open sd_init_state_t

/-- The entries below the index at which `sd_read_bytes` starts are left as they were. -/
theorem sd_read_bytes_below {σ : Type} (B : Spi σ) (n : Nat) :
    ∀ (i : Nat) (data : Nat → Nat) (s : σ) (m : Nat), m < i →
    (sd_read_bytes B n i data s).1 m = data m := by
  induction n with
  | zero => intro i data s m _; rfl
  | succ n ih =>
    intro i data s m hm
    rw [sd_read_bytes]
    rw [ih (i + 1) _ _ m (by omega), Function.update_noteq (by omega)]

/-- Entry `i + j` of the array that `sd_read_bytes` fills from index `i` is the byte returned
by transfer number `j` (from 0) of its loop. -/
theorem sd_read_bytes_get {σ : Type} (B : Spi σ) (n : Nat) :
    ∀ (i : Nat) (data : Nat → Nat) (s : σ) (j : Nat), j < n →
    (sd_read_bytes B n i data s).1 (i + j)
      = (B.spi_transfer 0xFF ((fun x => (B.spi_transfer 0xFF x).2)^[j] s)).1 := by
  induction n with
  | zero => intro i data s j hj; omega
  | succ n ih =>
    intro i data s j hj
    rw [sd_read_bytes]
    cases j with
    | zero =>
      show (sd_read_bytes B n (i + 1) _ _).1 i = _
      rw [sd_read_bytes_below B n (i + 1) _ _ i (by omega), Function.update_same]
      rfl
    | succ j =>
      have e : i + (j + 1) = i + 1 + j := by omega
      rw [e, ih (i + 1) _ _ j (by omega), Function.iterate_succ_apply]

/-- The value `sd_read_ocr` returns is the R1 that `sd_cmd` returned for CMD58. -/
theorem sd_read_ocr_r1 {σ : Type} (B : Spi σ) (ocr : Nat → Nat) (x : σ) :
    (sd_read_ocr B ocr x).1 = (sd_cmd B READ_OCR 0x00 0x00 0x00 0x00 (sd_select B x)).1 := by
  simp only [sd_read_ocr]
  split <;> rfl

/-- After a CMD58 answered `R1_READY`, `ocr_data[0]` is the byte returned by the first
transfer that follows the R1. -/
theorem sd_read_ocr_first {σ : Type} (B : Spi σ) (ocr : Nat → Nat) (x : σ)
    (h : (sd_cmd B READ_OCR 0x00 0x00 0x00 0x00 (sd_select B x)).1 = R1_READY) :
    (sd_read_ocr B ocr x).2.1 0
      = (B.spi_transfer 0xFF (sd_cmd B READ_OCR 0x00 0x00 0x00 0x00 (sd_select B x)).2).1 := by
  simp only [sd_read_ocr, h, if_true]
  exact sd_read_bytes_get B 4 0 ocr _ 0 (by decide)

/-- A CMD58 that is not answered `R1_READY` reads no OCR byte. -/
theorem sd_read_ocr_refused {σ : Type} (B : Spi σ) (ocr : Nat → Nat) (x : σ)
    (h : (sd_cmd B READ_OCR 0x00 0x00 0x00 0x00 (sd_select B x)).1 ≠ R1_READY) :
    (sd_read_ocr B ocr x).2.2
      = sd_deselect B (sd_cmd B READ_OCR 0x00 0x00 0x00 0x00 (sd_select B x)).2 := by
  simp only [sd_read_ocr, h, if_false]

/-- The value `sd_send_if_cond` returns is the R1 that `sd_cmd` returned for CMD8. -/
theorem sd_send_if_cond_r1 {σ : Type} (B : Spi σ) (r7 : Nat → Nat) (x : σ) :
    (sd_send_if_cond B r7 x).1
      = (sd_cmd B SEND_IF_COND 0x00 0x00 0x01 0xAA (sd_select B x)).1 := by
  simp only [sd_send_if_cond]
  split <;> rfl

/-- A CMD8 that is not answered `R1_IDLE_STATE` reads no echo and leaves `r7_data` alone. -/
theorem sd_send_if_cond_refused {σ : Type} (B : Spi σ) (r7 : Nat → Nat) (x : σ)
    (h : (sd_cmd B SEND_IF_COND 0x00 0x00 0x01 0xAA (sd_select B x)).1 ≠ R1_IDLE_STATE) :
    (sd_send_if_cond B r7 x).2
      = (r7, sd_deselect B (sd_cmd B SEND_IF_COND 0x00 0x00 0x01 0xAA (sd_select B x)).2) := by
  simp only [sd_send_if_cond, h, if_false]

/-- After a CMD8 answered `R1_IDLE_STATE`, `r7_data[j]` is the byte returned by transfer
number `j` (from 0) after the R1. -/
theorem sd_send_if_cond_echo {σ : Type} (B : Spi σ) (r7 : Nat → Nat) (x : σ) (j : Nat)
    (hj : j < 4)
    (h : (sd_cmd B SEND_IF_COND 0x00 0x00 0x01 0xAA (sd_select B x)).1 = R1_IDLE_STATE) :
    (sd_send_if_cond B r7 x).2.1 j
      = (B.spi_transfer 0xFF ((fun z => (B.spi_transfer 0xFF z).2)^[j]
          (sd_cmd B SEND_IF_COND 0x00 0x00 0x01 0xAA (sd_select B x)).2)).1 := by
  simp only [sd_send_if_cond, h, if_true]
  have e := sd_read_bytes_get B 4 0 r7
    (sd_cmd B SEND_IF_COND 0x00 0x00 0x01 0xAA (sd_select B x)).2 j hj
  rw [Nat.zero_add] at e
  exact e

/-- The classification that the CMD8 retry loop makes, in terms of the traffic: some attempt
`k` within the budget is the first that is answered 0x01 or 0x05; the card is `SDCARD_V2`
when it is answered `R1_IDLE_STATE` and the third and fourth bytes received after the R1
have bit 0 set and the value 0xAA, and `SDCARD_V1` when it is answered 0x05. Every earlier
attempt is one unanswered CMD8 between `sd_select` and `sd_deselect`. -/
theorem sd_init_if_cond_attempt {σ : Type} (B : Spi σ) (n : Nat) :
    ∀ (r7 : Nat → Nat) (x : σ) (t : Nat), (sd_init_if_cond B n r7 x).1 = some t →
    ∃ k, k < n ∧
      (∀ i < k,
        (sd_cmd B SEND_IF_COND 0x00 0x00 0x01 0xAA (sd_select B
          ((fun z => sd_deselect B
            (sd_cmd B SEND_IF_COND 0x00 0x00 0x01 0xAA (sd_select B z)).2)^[i] x))).1
          ≠ R1_IDLE_STATE ∧
        (sd_cmd B SEND_IF_COND 0x00 0x00 0x01 0xAA (sd_select B
          ((fun z => sd_deselect B
            (sd_cmd B SEND_IF_COND 0x00 0x00 0x01 0xAA (sd_select B z)).2)^[i] x))).1
          ≠ 0x05) ∧
      ((t = SDCARD_V2 ∧
        (sd_cmd B SEND_IF_COND 0x00 0x00 0x01 0xAA (sd_select B
          ((fun z => sd_deselect B
            (sd_cmd B SEND_IF_COND 0x00 0x00 0x01 0xAA (sd_select B z)).2)^[k] x))).1
          = R1_IDLE_STATE ∧
        (B.spi_transfer 0xFF ((fun z => (B.spi_transfer 0xFF z).2)^[3]
          (sd_cmd B SEND_IF_COND 0x00 0x00 0x01 0xAA (sd_select B
            ((fun z => sd_deselect B
              (sd_cmd B SEND_IF_COND 0x00 0x00 0x01 0xAA (sd_select B z)).2)^[k] x))).2)).1
          = 0xAA ∧
        (B.spi_transfer 0xFF ((fun z => (B.spi_transfer 0xFF z).2)^[2]
          (sd_cmd B SEND_IF_COND 0x00 0x00 0x01 0xAA (sd_select B
            ((fun z => sd_deselect B
              (sd_cmd B SEND_IF_COND 0x00 0x00 0x01 0xAA (sd_select B z)).2)^[k] x))).2)).1
          &&& 0x01 ≠ 0) ∨
       (t = SDCARD_V1 ∧
        (sd_cmd B SEND_IF_COND 0x00 0x00 0x01 0xAA (sd_select B
          ((fun z => sd_deselect B
            (sd_cmd B SEND_IF_COND 0x00 0x00 0x01 0xAA (sd_select B z)).2)^[k] x))).1
          = 0x05)) := by
  induction n with
  | zero => intro r7 x t h; exact absurd h (by simp [sd_init_if_cond])
  | succ n ih =>
    intro r7 x t h
    rw [sd_init_if_cond] at h
    by_cases h1 : (sd_cmd B SEND_IF_COND 0x00 0x00 0x01 0xAA (sd_select B x)).1 = R1_IDLE_STATE
    · have h1s : (sd_send_if_cond B r7 x).1 = R1_IDLE_STATE := by
        rw [sd_send_if_cond_r1]; exact h1
      rw [if_pos h1s, sd_send_if_cond_echo B r7 x 3 (by decide) h1,
        sd_send_if_cond_echo B r7 x 2 (by decide) h1] at h
      split at h
      · exact absurd h (by simp)
      · rename_i h2
        injection h with h3
        refine ⟨0, Nat.succ_pos _, fun i hi => absurd hi (Nat.not_lt_zero i),
          Or.inl ⟨h3.symm, h1, ?_, ?_⟩⟩
        · by_contra hne
          exact h2 (Or.inl hne)
        · intro he
          exact h2 (Or.inr he)
    · have h1s : ¬ (sd_send_if_cond B r7 x).1 = R1_IDLE_STATE := by
        rw [sd_send_if_cond_r1]; exact h1
      rw [if_neg h1s] at h
      by_cases h5 : (sd_cmd B SEND_IF_COND 0x00 0x00 0x01 0xAA (sd_select B x)).1 = 0x05
      · have h5s : (sd_send_if_cond B r7 x).1 = 0x05 := by
          rw [sd_send_if_cond_r1]; exact h5
        rw [if_pos h5s] at h
        injection h with h3
        exact ⟨0, Nat.succ_pos _, fun i hi => absurd hi (Nat.not_lt_zero i),
          Or.inr ⟨h3.symm, h5⟩⟩
      · have h5s : ¬ (sd_send_if_cond B r7 x).1 = 0x05 := by
          rw [sd_send_if_cond_r1]; exact h5
        rw [if_neg h5s, sd_send_if_cond_refused B r7 x h1] at h
        obtain ⟨k, hk, hpre, hcl⟩ := ih _ _ t h
        refine ⟨k + 1, Nat.succ_lt_succ hk, ?_, ?_⟩
        · intro i hi
          cases i with
          | zero => exact ⟨h1, h5⟩
          | succ i =>
            rw [Function.iterate_succ_apply]
            exact hpre i (by omega)
        · rw [Function.iterate_succ_apply]
          exact hcl

/-- A pass that goes round again leaves `ST_READ_OCR` for `ST_SET_BLOCKLEN` and
`ST_SET_BLOCKLEN` for `ST_READY`, and `ST_READY` never goes round again. -/
theorem sd_init_case_next_late {σ : Type} (B : Spi σ) (v v1 : sd_init_vars σ)
    (h : sd_init_case B v = .next v1)
    (hs : v.state = ST_READ_OCR ∨ v.state = ST_SET_BLOCKLEN ∨ v.state = ST_READY) :
    v1.state = ST_SET_BLOCKLEN ∨ v1.state = ST_READY := by
  rcases v with ⟨st, c, t, w⟩
  rcases hs with hs | hs | hs <;> cases hs <;> simp only [sd_init_case] at h
  · split at h
    · cases h; exact Or.inl rfl
    · exact absurd h (by simp)
  · split at h
    · cases h; exact Or.inr rfl
    · exact absurd h (by simp)
  · exact absurd h (by simp)

/-- A pass that goes round again from `ST_SEND_IF_COND` or a later state ends in a state
after `ST_SEND_IF_COND`. -/
theorem sd_init_case_next_after_if_cond {σ : Type} (B : Spi σ) (v v1 : sd_init_vars σ)
    (h : sd_init_case B v = .next v1)
    (hs : v.state = ST_SEND_IF_COND ∨ (v.state = ST_APP_CMD ∨ v.state = ST_SEND_OP_COND ∨
      v.state = ST_READ_OCR ∨ v.state = ST_SET_BLOCKLEN ∨ v.state = ST_READY)) :
    v1.state = ST_APP_CMD ∨ v1.state = ST_SEND_OP_COND ∨
      v1.state = ST_READ_OCR ∨ v1.state = ST_SET_BLOCKLEN ∨ v1.state = ST_READY := by
  rcases hs with hs | hs | hs | hs | hs | hs
  · rcases sd_init_case_next_early B v v1 (Or.inr (Or.inr hs)) h with ⟨_, h2, _⟩ | h2
    · exact Or.inl h2
    · rcases v with ⟨st, c, t, w⟩
      cases hs
      simp only [sd_init_case] at h
      split at h
      · cases h; exact Or.inl rfl
      · exact absurd h (by simp)
  · rcases sd_init_case_next_mid B v v1 (Or.inl hs) h with ⟨h1, _⟩ | ⟨h1, _⟩
    · rw [hs] at h1; exact absurd h1 (by decide)
    · rcases h1 with h1 | h1 | h1
      · exact Or.inl h1
      · exact Or.inr (Or.inl h1)
      · exact Or.inr (Or.inr (Or.inl h1))
  · rcases sd_init_case_next_mid B v v1 (Or.inr (Or.inl hs)) h with ⟨h1, _⟩ | ⟨h1, _⟩
    · rw [hs] at h1; exact absurd h1 (by decide)
    · rcases h1 with h1 | h1 | h1
      · exact Or.inl h1
      · exact Or.inr (Or.inl h1)
      · exact Or.inr (Or.inr (Or.inl h1))
  · rcases sd_init_case_next_late B v v1 h (Or.inl hs) with h1 | h1
    · exact Or.inr (Or.inr (Or.inr (Or.inl h1)))
    · exact Or.inr (Or.inr (Or.inr (Or.inr h1)))
  · rcases sd_init_case_next_late B v v1 h (Or.inr (Or.inl hs)) with h1 | h1
    · exact Or.inr (Or.inr (Or.inr (Or.inl h1)))
    · exact Or.inr (Or.inr (Or.inr (Or.inr h1)))
  · rcases sd_init_case_next_late B v v1 h (Or.inr (Or.inr hs)) with h1 | h1
    · exact Or.inr (Or.inr (Or.inr (Or.inl h1)))
    · exact Or.inr (Or.inr (Or.inr (Or.inr h1)))

/-- The loop comes to the top of its `switch` in a given state at most once, when every pass
from that state on leads to states `Q` that exclude it. -/
theorem sd_init_reaches_unique {σ : Type} (B : Spi σ) (st : sd_init_state_t)
    (Q : sd_init_state_t → Prop) (hst : ¬ Q st)
    (hstep : ∀ v v1 : sd_init_vars σ, sd_init_case B v = .next v1 →
      (v.state = st ∨ Q v.state) → Q v1.state) :
    ∀ v u u2 : sd_init_vars σ, sd_init_reaches B v u → sd_init_reaches B v u2 →
      u.state = st → u2.state = st → u = u2 := by
  have hQ : ∀ v u : sd_init_vars σ, sd_init_reaches B v u → Q v.state → Q u.state := by
    intro v u h
    induction h with
    | here v => exact id
    | pass v v1 u hc _ ih => intro hq; exact ih (hstep v v1 hc (Or.inr hq))
  intro v u u2 h
  induction h with
  | here v =>
    intro h2 hs hs2
    cases h2 with
    | here => rfl
    | pass _ v1 _ hc hr =>
      have hq := hQ v1 u2 hr (hstep v v1 hc (Or.inl hs))
      rw [hs2] at hq
      exact absurd hq hst
  | pass v v1 u hc hr ih =>
    intro h2 hs hs2
    cases h2 with
    | here =>
      have hq := hQ v1 u hr (hstep _ v1 hc (Or.inl hs2))
      rw [hs] at hq
      exact absurd hq hst
    | pass _ v2 _ hc2 hr2 =>
      have e : v1 = v2 := by
        rw [hc] at hc2
        injection hc2
      subst e
      exact ih hr2 hs hs2

theorem sd_init_reaches_trans {σ : Type} (B : Spi σ) (v u x : sd_init_vars σ)
    (h1 : sd_init_reaches B v u) (h2 : sd_init_reaches B u x) : sd_init_reaches B v x := by
  induction h1 with
  | here v => exact h2
  | pass v v1 u hc _ ih => exact sd_init_reaches.pass v v1 x hc (ih h2)

/-- The run of the loop from a state it comes through is the rest of the run. -/
theorem sd_init_reaches_loop {σ : Type} (B : Spi σ) (v u : sd_init_vars σ)
    (h : sd_init_reaches B v u) : sd_init_loop B v = sd_init_loop B u := by
  induction h with
  | here v => rfl
  | pass v v1 u hc _ ih => rw [sd_init_loop_next B v v1 hc, ih]

/-- On the recording bus, the first byte received after a CMD58 that is answered in the first
response slot is the one of the slot that follows the R1. -/
theorem sd_read_ocr_byte_wire (w : Wire) (h : w.miso (w.pos + 8) < 128) :
    (wire.spi_transfer 0xFF (sd_cmd wire READ_OCR 0x00 0x00 0x00 0x00 (sd_select wire w)).2).1
      = w.miso (w.pos + 9) := by
  rw [sd_cmd_selected _ _ _ _ _ w h, wire_transfer]
  show (w.after _ _).miso (w.after _ _).pos = _
  rw [Wire.miso_after, Wire.pos_after]
  rfl

/-- The run of `sd_init` up to the CMD58 step for a v2 card that answers every command in the
first response slot: CMD0 and CMD8 accepted, two rounds of CMD55 and ACMD41 answered "still
initializing", ACMD41 ready in the third round. The loop comes to `ST_READ_OCR` after 106
transfers with `sdcard_type = SDCARD_V2`. -/
theorem sd_init_v2_read_ocr (c0 : Int) (t0 : Nat) (w : Wire)
    (h0 : w.miso (w.pos + 22) = 0x01)
    (h8 : w.miso (w.pos + 33) = 0x01) (h8v : w.miso (w.pos + 36) &&& 0x01 ≠ 0)
    (h8p : w.miso (w.pos + 37) = 0xAA)
    (h55a : w.miso (w.pos + 48) ≤ 0x01) (h41a : w.miso (w.pos + 59) = 0x01)
    (h55b : w.miso (w.pos + 70) ≤ 0x01) (h41b : w.miso (w.pos + 81) = 0x01)
    (h55c : w.miso (w.pos + 92) ≤ 0x01) (h41c : w.miso (w.pos + 103) = 0x00)
    (hc : c0 ≤ 998) :
    ∃ (L : List Nat) (cs : List Bool), L.length = 106 ∧
      sd_init_reaches wire
        { state := ST_POWER_UP, acmd41_retry := c0, sdcard_type := t0, bus := w }
        { state := ST_READ_OCR, acmd41_retry := c0 + 1 + 1, sdcard_type := SDCARD_V2,
          bus := w.after L cs } := by
  have n41a : w.miso (w.pos + 59) ≠ 0 := by rw [h41a]; decide
  have n41b : w.miso (w.pos + 81) ≠ 0 := by rw [h41b]; decide
  have l41a : w.miso (w.pos + 59) < 128 := by rw [h41a]; decide
  have l41b : w.miso (w.pos + 81) < 128 := by rw [h41b]; decide
  refine ⟨?L, ?cs, ?hl, ?hr⟩
  case hr =>
    refine sd_init_reaches.pass _ _ _ (case_power_up c0 t0 w) ?_
    refine sd_init_reaches.pass _ _ _ (case_go_idle_first c0 t0 _
      (by rw [after_pos w _ _ 14 8 (by simp)]; exact h0)) ?_
    rw [Wire.after_after]
    refine sd_init_reaches.pass _ _ _ (case_if_cond_v2 c0 t0 _
      (by rw [after_pos w _ _ 25 8 (by simp [sd_exchange_length])]; exact h8)
      (by rw [after_pos w _ _ 25 11 (by simp [sd_exchange_length])]; exact h8v)
      (by rw [after_pos w _ _ 25 12 (by simp [sd_exchange_length])]; exact h8p)) ?_
    rw [Wire.after_after]
    refine sd_init_reaches.pass _ _ _ (case_app_cmd_ok c0 _ _
      (by rw [after_pos w _ _ 40 8 (by simp [sd_exchange_length])]; exact h55a)) ?_
    rw [Wire.after_after]
    refine sd_init_reaches.pass _ _ _ (case_op_cond_retry c0 _ _
      (by rw [after_pos w _ _ 51 8 (by simp [sd_exchange_length])]; exact l41a)
      (by rw [after_pos w _ _ 51 8 (by simp [sd_exchange_length])]; exact n41a)
      (by omega)) ?_
    rw [Wire.after_after]
    refine sd_init_reaches.pass _ _ _ (case_app_cmd_ok _ _ _
      (by rw [after_pos w _ _ 62 8 (by simp [sd_exchange_length])]; exact h55b)) ?_
    rw [Wire.after_after]
    refine sd_init_reaches.pass _ _ _ (case_op_cond_retry _ _ _
      (by rw [after_pos w _ _ 73 8 (by simp [sd_exchange_length])]; exact l41b)
      (by rw [after_pos w _ _ 73 8 (by simp [sd_exchange_length])]; exact n41b)
      (by omega)) ?_
    rw [Wire.after_after]
    refine sd_init_reaches.pass _ _ _ (case_app_cmd_ok _ _ _
      (by rw [after_pos w _ _ 84 8 (by simp [sd_exchange_length])]; exact h55c)) ?_
    rw [Wire.after_after]
    refine sd_init_reaches.pass _ _ _ (case_op_cond_ready _ _ _
      (by rw [after_pos w _ _ 95 8 (by simp [sd_exchange_length])]; exact h41c)) ?_
    rw [Wire.after_after]
    exact sd_init_reaches.here _
  case hl => simp [sd_exchange_length]

/-- The run of `sd_init` up to the CMD58 step for a legacy card that answers every command in
the first response slot: CMD0 accepted, CMD8 answered 0x05, CMD55 accepted, ACMD41 ready. The
loop comes to `ST_READ_OCR` after 58 transfers with `sdcard_type = SDCARD_V1`. -/
theorem sd_init_v1_read_ocr (c0 : Int) (t0 : Nat) (w : Wire)
    (h0 : w.miso (w.pos + 22) = 0x01) (h8 : w.miso (w.pos + 33) = 0x05)
    (h55 : w.miso (w.pos + 44) ≤ 0x01) (h41 : w.miso (w.pos + 55) = 0x00) :
    ∃ (L : List Nat) (cs : List Bool), L.length = 58 ∧
      sd_init_reaches wire
        { state := ST_POWER_UP, acmd41_retry := c0, sdcard_type := t0, bus := w }
        { state := ST_READ_OCR, acmd41_retry := c0, sdcard_type := SDCARD_V1,
          bus := w.after L cs } := by
  refine ⟨?L, ?cs, ?hl, ?hr⟩
  case hr =>
    refine sd_init_reaches.pass _ _ _ (case_power_up c0 t0 w) ?_
    refine sd_init_reaches.pass _ _ _ (case_go_idle_first c0 t0 _
      (by rw [after_pos w _ _ 14 8 (by simp)]; exact h0)) ?_
    rw [Wire.after_after]
    refine sd_init_reaches.pass _ _ _ (case_if_cond_v1 c0 t0 _
      (by rw [after_pos w _ _ 25 8 (by simp [sd_exchange_length])]; exact h8)) ?_
    rw [Wire.after_after]
    refine sd_init_reaches.pass _ _ _ (case_app_cmd_ok c0 _ _
      (by rw [after_pos w _ _ 36 8 (by simp [sd_exchange_length])]; exact h55)) ?_
    rw [Wire.after_after]
    refine sd_init_reaches.pass _ _ _ (case_op_cond_ready _ _ _
      (by rw [after_pos w _ _ 47 8 (by simp [sd_exchange_length])]; exact h41)) ?_
    rw [Wire.after_after]
    exact sd_init_reaches.here _
  case hl => simp [sd_exchange_length]

/-- From the CMD58 step on, a card that answers CMD58 and CMD16 with `R1_READY` in the first
response slot lets `sd_init` return `ER_SUCCESS`. -/
theorem sd_init_read_ocr_success (c : Int) (t : Nat) (w : Wire)
    (h58 : w.miso (w.pos + 8) = 0x00) (h16 : w.miso (w.pos + 23) = 0x00) :
    (sd_init_loop wire
      { state := ST_READ_OCR, acmd41_retry := c, sdcard_type := t, bus := w }).1
      = ER_SUCCESS := by
  rw [sd_init_loop_next _ _ _ (case_read_ocr_ready c t w h58)]
  rw [sd_init_loop_next _ _ _ (case_set_blocklen_ready _ _ _
    (by rw [after_pos w _ _ 15 8 (by simp [sd_exchange_length])]; exact h16))]
  rw [sd_init_loop_ret _ _ _ _ (case_ready _ _ _)]

/-- C27: on every hardware and for every starting value of the variables, when `sd_init`
returns `ER_SUCCESS` the loop came to `ST_SEND_IF_COND` exactly once, with the variables
`v8`, and to `ST_READ_OCR` exactly once, with the variables `u`. Some CMD8 attempt `k < 10`,
sent from the hardware state `y` that `k` unanswered attempts leave, was the first to be
answered 0x01 or 0x05, and the CMD58 sent from `u.bus` was answered `R1_READY`. When CMD8 was
accepted (R1 = `R1_IDLE_STATE`, fourth byte received after it 0xAA, bit 0 of the third set)
the final `sdcard_type` is `SDCARD_SDHC` if bit 0x40 of the first byte received after the R1
of CMD58 is set and `SDCARD_SDSC` if it is clear; when CMD8 was answered with the
illegal-command response 0x05 it is `SDCARD_V1`, whatever the OCR. It is never `SDCARD_V2`.
A CMD58 that is not answered `R1_READY` makes `sd_init` return `ER_READ_OCR` without reading
an OCR byte and without changing `sdcard_type`. -/
theorem sd_init_classification {σ : Type} (B : Spi σ) (c0 : Int) (t0 : Nat) (s : σ)
    (h : (sd_init B c0 t0 s).1 = ER_SUCCESS) :
    (∃ (v8 u : sd_init_vars σ) (k : Nat) (y : σ),
      sd_init_reaches B
        { state := ST_POWER_UP, acmd41_retry := c0, sdcard_type := t0, bus := s } v8 ∧
      v8.state = ST_SEND_IF_COND ∧
      (∀ v, sd_init_reaches B
          { state := ST_POWER_UP, acmd41_retry := c0, sdcard_type := t0, bus := s } v →
        v.state = ST_SEND_IF_COND → v = v8) ∧
      sd_init_reaches B v8 u ∧
      sd_init_reaches B
        { state := ST_POWER_UP, acmd41_retry := c0, sdcard_type := t0, bus := s } u ∧
      u.state = ST_READ_OCR ∧
      (∀ v, sd_init_reaches B
          { state := ST_POWER_UP, acmd41_retry := c0, sdcard_type := t0, bus := s } v →
        v.state = ST_READ_OCR → v = u) ∧
      k < 10 ∧
      y = (fun z => sd_deselect B
            (sd_cmd B SEND_IF_COND 0x00 0x00 0x01 0xAA (sd_select B z)).2)^[k] v8.bus ∧
      (∀ i < k,
        (sd_cmd B SEND_IF_COND 0x00 0x00 0x01 0xAA (sd_select B
          ((fun z => sd_deselect B
            (sd_cmd B SEND_IF_COND 0x00 0x00 0x01 0xAA (sd_select B z)).2)^[i] v8.bus))).1
          ≠ R1_IDLE_STATE ∧
        (sd_cmd B SEND_IF_COND 0x00 0x00 0x01 0xAA (sd_select B
          ((fun z => sd_deselect B
            (sd_cmd B SEND_IF_COND 0x00 0x00 0x01 0xAA (sd_select B z)).2)^[i] v8.bus))).1
          ≠ 0x05) ∧
      (sd_cmd B READ_OCR 0x00 0x00 0x00 0x00 (sd_select B u.bus)).1 = R1_READY ∧
      ((u.sdcard_type = SDCARD_V2 ∧
        (sd_cmd B SEND_IF_COND 0x00 0x00 0x01 0xAA (sd_select B y)).1 = R1_IDLE_STATE ∧
        (B.spi_transfer 0xFF ((fun z => (B.spi_transfer 0xFF z).2)^[3]
          (sd_cmd B SEND_IF_COND 0x00 0x00 0x01 0xAA (sd_select B y)).2)).1 = 0xAA ∧
        (B.spi_transfer 0xFF ((fun z => (B.spi_transfer 0xFF z).2)^[2]
          (sd_cmd B SEND_IF_COND 0x00 0x00 0x01 0xAA (sd_select B y)).2)).1 &&& 0x01 ≠ 0 ∧
        (sd_init B c0 t0 s).2.1
          = (if (B.spi_transfer 0xFF
                (sd_cmd B READ_OCR 0x00 0x00 0x00 0x00 (sd_select B u.bus)).2).1 &&& 0x40 ≠ 0
              then SDCARD_SDHC else SDCARD_SDSC)) ∨
       (u.sdcard_type = SDCARD_V1 ∧
        (sd_cmd B SEND_IF_COND 0x00 0x00 0x01 0xAA (sd_select B y)).1 = 0x05 ∧
        (sd_init B c0 t0 s).2.1 = SDCARD_V1))) ∧
    (sd_init B c0 t0 s).2.1 ≠ SDCARD_V2 ∧
    (∀ (c : Int) (t : Nat) (x : σ),
      (sd_cmd B READ_OCR 0x00 0x00 0x00 0x00 (sd_select B x)).1 ≠ R1_READY →
      sd_init_loop B { state := ST_READ_OCR, acmd41_retry := c, sdcard_type := t, bus := x }
        = (ER_READ_OCR,
           { state := ST_READ_OCR, acmd41_retry := c, sdcard_type := t,
             bus := sd_deselect B
               (sd_cmd B READ_OCR 0x00 0x00 0x00 0x00 (sd_select B x)).2 })) := by
  obtain ⟨v8, u, r1, r2, r3, r4, r5, r6, r7⟩ := sd_init_loop_early B
    { state := ST_POWER_UP, acmd41_retry := c0, sdcard_type := t0, bus := s } (Or.inl rfl) h
  obtain ⟨k, hk, hpre, hcl⟩ := sd_init_if_cond_attempt B _ _ _ _ r3
  have hu := sd_init_reaches_trans B _ _ _ r1 r4
  have hr : (sd_cmd B READ_OCR 0x00 0x00 0x00 0x00 (sd_select B u.bus)).1 = R1_READY := by
    rw [← sd_read_ocr_r1 B (fun _ => 0)]
    exact r6
  have hfin : (sd_init B c0 t0 s).2.1 = (if u.sdcard_type ≠ SDCARD_V1 then
      (if (B.spi_transfer 0xFF
            (sd_cmd B READ_OCR 0x00 0x00 0x00 0x00 (sd_select B u.bus)).2).1 &&& 0x40 ≠ 0
        then SDCARD_SDHC else SDCARD_SDSC)
      else u.sdcard_type) := by
    rw [← sd_read_ocr_first B (fun _ => 0) u.bus hr]
    exact r7
  have u8 : ∀ v, sd_init_reaches B
      { state := ST_POWER_UP, acmd41_retry := c0, sdcard_type := t0, bus := s } v →
      v.state = ST_SEND_IF_COND → v = v8 := fun v hv hs =>
    sd_init_reaches_unique B ST_SEND_IF_COND
      (fun x => x = ST_APP_CMD ∨ x = ST_SEND_OP_COND ∨ x = ST_READ_OCR ∨
        x = ST_SET_BLOCKLEN ∨ x = ST_READY)
      (by decide) (fun a b hc hs => sd_init_case_next_after_if_cond B a b hc hs)
      _ v v8 hv r1 hs r2
  have uocr : ∀ v, sd_init_reaches B
      { state := ST_POWER_UP, acmd41_retry := c0, sdcard_type := t0, bus := s } v →
      v.state = ST_READ_OCR → v = u := fun v hv hs =>
    sd_init_reaches_unique B ST_READ_OCR
      (fun x => x = ST_SET_BLOCKLEN ∨ x = ST_READY)
      (by decide) (fun a b hc hs => sd_init_case_next_late B a b hc hs)
      _ v u hv hu hs r5
  have hcases : (u.sdcard_type = SDCARD_V2 ∧
        (sd_cmd B SEND_IF_COND 0x00 0x00 0x01 0xAA (sd_select B
          ((fun z => sd_deselect B
            (sd_cmd B SEND_IF_COND 0x00 0x00 0x01 0xAA (sd_select B z)).2)^[k] v8.bus))).1
          = R1_IDLE_STATE ∧
        (B.spi_transfer 0xFF ((fun z => (B.spi_transfer 0xFF z).2)^[3]
          (sd_cmd B SEND_IF_COND 0x00 0x00 0x01 0xAA (sd_select B
            ((fun z => sd_deselect B
              (sd_cmd B SEND_IF_COND 0x00 0x00 0x01 0xAA (sd_select B z)).2)^[k]
                v8.bus))).2)).1 = 0xAA ∧
        (B.spi_transfer 0xFF ((fun z => (B.spi_transfer 0xFF z).2)^[2]
          (sd_cmd B SEND_IF_COND 0x00 0x00 0x01 0xAA (sd_select B
            ((fun z => sd_deselect B
              (sd_cmd B SEND_IF_COND 0x00 0x00 0x01 0xAA (sd_select B z)).2)^[k]
                v8.bus))).2)).1 &&& 0x01 ≠ 0 ∧
        (sd_init B c0 t0 s).2.1
          = (if (B.spi_transfer 0xFF
                (sd_cmd B READ_OCR 0x00 0x00 0x00 0x00 (sd_select B u.bus)).2).1 &&& 0x40 ≠ 0
              then SDCARD_SDHC else SDCARD_SDSC)) ∨
       (u.sdcard_type = SDCARD_V1 ∧
        (sd_cmd B SEND_IF_COND 0x00 0x00 0x01 0xAA (sd_select B
          ((fun z => sd_deselect B
            (sd_cmd B SEND_IF_COND 0x00 0x00 0x01 0xAA (sd_select B z)).2)^[k] v8.bus))).1
          = 0x05 ∧
        (sd_init B c0 t0 s).2.1 = SDCARD_V1) := by
    rcases hcl with ⟨e, e1, e2, e3⟩ | ⟨e, e1⟩
    · left
      refine ⟨e, e1, e2, e3, ?_⟩
      rw [hfin, e, if_pos (by decide)]
    · right
      refine ⟨e, e1, ?_⟩
      rw [hfin, e, if_neg (by decide)]
  refine ⟨⟨v8, u, k, _, r1, r2, u8, r4, hu, r5, uocr, hk, rfl, hpre, hr, hcases⟩, ?_, ?_⟩
  · rcases hcases with ⟨_, _, _, _, e⟩ | ⟨_, _, e⟩
    · rw [e]
      split <;> decide
    · rw [e]
      decide
  · intro c t x hr2
    apply sd_init_loop_ret
    have hr3 : ¬ (sd_read_ocr B (fun _ => 0) x).1 = R1_READY := by
      rw [sd_read_ocr_r1]
      exact hr2
    simp only [sd_init_case, hr3, if_false, sd_read_ocr_refused B _ x hr2]

set_option maxRecDepth 100000 in
/-- Witness of C27, from the theorem itself: on the card of `init_script`, whose first OCR
byte (transfer 115) is 0xC0, `sd_init` returns `ER_SUCCESS` and the card is `SDCARD_SDHC`; on
the card of `sdsc_script`, which differs only in that byte, 0x80, the card is `SDCARD_SDSC`;
on the legacy card of `legacy_script`, which answers CMD8 with 0x05 and whose first OCR byte
(transfer 67) is 0x80, the card stays `SDCARD_V1`. -/
theorem sd_init_classification_witness :
    ((sd_init wire 0 0 (Wire.replay init_script)).1 = ER_SUCCESS ∧
      (Wire.replay init_script).miso 115 &&& 0x40 ≠ 0 ∧
      (sd_init wire 0 0 (Wire.replay init_script)).2.1 = SDCARD_SDHC) ∧
    ((sd_init wire 0 0 (Wire.replay sdsc_script)).1 = ER_SUCCESS ∧
      (Wire.replay sdsc_script).miso 115 &&& 0x40 = 0 ∧
      (sd_init wire 0 0 (Wire.replay sdsc_script)).2.1 = SDCARD_SDSC) ∧
    ((sd_init wire 0 0 (Wire.replay legacy_script)).1 = ER_SUCCESS ∧
      (Wire.replay legacy_script).miso 33 = 0x05 ∧
      (sd_init wire 0 0 (Wire.replay legacy_script)).2.1 = SDCARD_V1) := by
  refine ⟨?_, ?_, ?_⟩
  · obtain ⟨L, cs, hL, hreach⟩ := sd_init_v2_read_ocr 0 0 (Wire.replay init_script)
      (by decide) (by decide) (by decide) (by decide) (by decide) (by decide) (by decide)
      (by decide) (by decide) (by decide) (by decide)
    have h58 : ((Wire.replay init_script).after L cs).miso
        (((Wire.replay init_script).after L cs).pos + 8) = 0x00 := by
      rw [after_pos _ L cs 106 8 hL]; decide
    have hs : (sd_init wire 0 0 (Wire.replay init_script)).1 = ER_SUCCESS := by
      show (sd_init_loop wire _).1 = _
      rw [sd_init_reaches_loop wire _ _ hreach]
      exact sd_init_read_ocr_success _ _ _ h58
        (by rw [after_pos _ L cs 106 23 hL]; decide)
    obtain ⟨⟨v8, u, k, y, _, _, _, _, _, _, huniq, _, _, _, _, hcase⟩, _, _⟩ :=
      sd_init_classification wire 0 0 (Wire.replay init_script) hs
    have hu := huniq _ hreach rfl
    subst hu
    refine ⟨hs, by decide, ?_⟩
    rcases hcase with ⟨_, _, _, _, hfin⟩ | ⟨hv1, _, _⟩
    · rw [hfin, sd_read_ocr_byte_wire _ (by rw [h58]; decide), after_pos _ L cs 106 9 hL]
      decide
    · exact absurd hv1 (show ¬ SDCARD_V2 = SDCARD_V1 by decide)
  · obtain ⟨L, cs, hL, hreach⟩ := sd_init_v2_read_ocr 0 0 (Wire.replay sdsc_script)
      (by decide) (by decide) (by decide) (by decide) (by decide) (by decide) (by decide)
      (by decide) (by decide) (by decide) (by decide)
    have h58 : ((Wire.replay sdsc_script).after L cs).miso
        (((Wire.replay sdsc_script).after L cs).pos + 8) = 0x00 := by
      rw [after_pos _ L cs 106 8 hL]; decide
    have hs : (sd_init wire 0 0 (Wire.replay sdsc_script)).1 = ER_SUCCESS := by
      show (sd_init_loop wire _).1 = _
      rw [sd_init_reaches_loop wire _ _ hreach]
      exact sd_init_read_ocr_success _ _ _ h58
        (by rw [after_pos _ L cs 106 23 hL]; decide)
    obtain ⟨⟨v8, u, k, y, _, _, _, _, _, _, huniq, _, _, _, _, hcase⟩, _, _⟩ :=
      sd_init_classification wire 0 0 (Wire.replay sdsc_script) hs
    have hu := huniq _ hreach rfl
    subst hu
    refine ⟨hs, by decide, ?_⟩
    rcases hcase with ⟨_, _, _, _, hfin⟩ | ⟨hv1, _, _⟩
    · rw [hfin, sd_read_ocr_byte_wire _ (by rw [h58]; decide), after_pos _ L cs 106 9 hL]
      decide
    · exact absurd hv1 (show ¬ SDCARD_V2 = SDCARD_V1 by decide)
  · obtain ⟨L, cs, hL, hreach⟩ := sd_init_v1_read_ocr 0 0 (Wire.replay legacy_script)
      (by decide) (by decide) (by decide) (by decide)
    have h58 : ((Wire.replay legacy_script).after L cs).miso
        (((Wire.replay legacy_script).after L cs).pos + 8) = 0x00 := by
      rw [after_pos _ L cs 58 8 hL]; decide
    have hs : (sd_init wire 0 0 (Wire.replay legacy_script)).1 = ER_SUCCESS := by
      show (sd_init_loop wire _).1 = _
      rw [sd_init_reaches_loop wire _ _ hreach]
      exact sd_init_read_ocr_success _ _ _ h58
        (by rw [after_pos _ L cs 58 23 hL]; decide)
    obtain ⟨⟨v8, u, k, y, _, _, _, _, _, _, huniq, _, _, _, _, hcase⟩, _, _⟩ :=
      sd_init_classification wire 0 0 (Wire.replay legacy_script) hs
    have hu := huniq _ hreach rfl
    subst hu
    refine ⟨hs, by decide, ?_⟩
    rcases hcase with ⟨hv2, _⟩ | ⟨_, _, hfin⟩
    · exact absurd hv2 (show ¬ SDCARD_V1 = SDCARD_V2 by decide)
    · exact hfin

end Projects
